import Mathlib

/-!
# FlowSieve: Helmholtz projection, verification development

A shallow embedding of the operator assembly and of the per-slice set-up of
`src/Preprocess/Apply_Helmholtz_Projection.cpp`, together with `src/Functions/Index.cpp`.

Conventions of the embedding.

* `double` is an arbitrary linearly ordered field `α` (exact arithmetic); concrete
  evaluations are carried out over `ℚ`.  Rounding and non-finite values are outside the
  model, except under the cast `(int)` of the particles entry point, whose integer result
  jumps with its argument: there the machine subtraction and division are parameters.
* `int` and `size_t` are unbounded integers (`Int`) where the values stay in range; the C++
  remainder `%` is `Int.tmod`.  Where the range decides the result the 32-bit arithmetic is
  explicit: `Index_int32` is `Index` with every operation reduced to 32 bits, equal to
  `Index` when the number of elements fits in `int`, and `trunc_int` is the cast `(int)` with
  its range.
* `std::vector<T>` is `List T`; `v.at(i)` is `vec_at v i`, which fails (`none`) exactly when
  `std::vector::at` throws; an assignment through `v.at(i)` is `vec_set`.
* A `for (i = 0; i < n; i++)` loop over a mutable state is `forLoop`.
* The sparse matrix under construction is the list of the `alglib::sparseadd` calls made so
  far (row, column, value), in program order; the element of the matrix at a position is
  the sum of the values added there.
* Functions that are declared outside the translated files (`cos`, `get_diff_vector`, the
  least-squares solver, the velocity operators) and the constants of `constants.hpp` are
  parameters.
-/

namespace FlowSieve

/-! ## Basic vocabulary -/

set_option linter.unusedVariables false in
/-- The function `Index` of `src/Functions/Index.cpp`, as the value of its expression in
unbounded integers.  `Index_int32` is the same function in the 32-bit arithmetic of the code;
the two agree on in-range tuples when `Ntime * Ndepth * Nlat * Nlon` fits in `int`. -/
def Index (Itime Idepth Ilat Ilon Ntime Ndepth Nlat Nlon : Int) : Int :=
  Itime * (Ndepth * Nlat * Nlon) + Idepth * (Nlat * Nlon) + Ilat * Nlon + Ilon

/-- The call `v.at(i)`: the element at position `i`, failing when `i` is out of range. -/
def vec_at {β : Type} (v : List β) (i : Int) : Option β :=
  if 0 ≤ i then v[i.toNat]? else none

/-- The assignment `v.at(i) = x`, failing when `i` is out of range. -/
def vec_set {β : Type} (v : List β) (i : Int) (x : β) : Option (List β) :=
  if 0 ≤ i ∧ i.toNat < v.length then some (v.set i.toNat x) else none

/-- The statement `dst.at(i) = src.at(j)`. -/
def assign_from {β : Type} (dst : List β) (i : Int) (src : List β) (j : Int) :
    Option (List β) := do
  vec_set dst i (← vec_at src j)

/-- The loop `for (i = 0; i < n; i++) body(i)` acting on a state, stopping at the first
failure. -/
def forLoop {σ : Type} : Nat → (Int → σ → Option σ) → σ → Option σ
  | 0, _, s => some s
  | k + 1, body, s => (forLoop k body s).bind (body (k : Int))

/-- One call `alglib::sparseadd(M, row, col, val)`. -/
structure Entry (α : Type) where
  row : Int
  col : Int
  val : α
deriving DecidableEq, Repr

/-- The constants of `constants.hpp` and of `math.h` that the projection reads. -/
structure Constants (α : Type) where
  R_earth : α
  M_PI : α
  PERIODIC_X : Bool
  PERIODIC_Y : Bool
  DiffOrd : Int

/-- The signature of `get_diff_vector` (declared in `differentiation_tools.hpp`): from the
incoming lower bound, the axis, its name, the four indices, the four sizes, the mask, the
derivative order and the accuracy order, the stencil weights `diff_vec` and the lower bound
`LB` after the call.  A call that fails to build a stencil returns the incoming `LB`. -/
abbrev GetDiffVector (α : Type) : Type :=
  Int → List α → String → Int → Int → Int → Int → Int → Int → Int → Int → List Bool →
    Int → Int → List α × Int

/-- The fields of `dataset` read by the projection. -/
structure dataset (α : Type) where
  latitude : List α
  longitude : List α
  areas : List α
  mask : List Bool
  myCounts : List Int

/-- The loop `for (IDIFF = LB; IDIFF < LB + Ndiff; IDIFF++)` over a stencil, where the body
receives `IDIFF` and the weight `diff_vec.at(IDIFF - LB)` and returns its `sparseadd` calls. -/
def stencil_for {α : Type} : Int → List α → (Int → α → List (Entry α)) → List (Entry α)
  | _, [], _ => []
  | IDIFF, d :: ds, body => body IDIFF d ++ stencil_for (IDIFF + 1) ds body

/-- The periodic reduction of a stencil index, `( IDIFF % N + N ) % N` when the axis is
periodic and `IDIFF` itself otherwise. -/
def wrap_index (periodic : Bool) (IDIFF N : Int) : Int :=
  if periodic then ((IDIFF.tmod N) + N).tmod N else IDIFF

/-- The test `std::fabs( std::fabs( lat * 180.0 / M_PI ) - 90 ) < 0.01`. -/
def is_pole {α : Type} [LinearOrderedField α] (K : Constants α) (lat : α) : Bool :=
  decide (|(|lat * 180 / K.M_PI|) - 90| < 1 / 100)

/-! ## The operator assembly `sparse_vel_from_PsiPhi_vortdiv` -/

/-- The arguments of `sparse_vel_from_PsiPhi_vortdiv` other than the matrix, and `tan_lat`:
the value held by the local variable `tan_lat`, which the function declares and reads but
never assigns. -/
structure Args (α : Type) where
  source_data : dataset α
  Itime : Int
  Idepth : Int
  mask : List Bool
  weight_err : Bool
  Tikhov_Laplace : α
  deriv_scale_factor : α
  tan_lat : α

/-- The four sizes read from `myCounts`. -/
structure Sizes where
  Ntime : Int
  Ndepth : Int
  Nlat : Int
  Nlon : Int
deriving DecidableEq, Repr

section Assembly

variable {α : Type} [LinearOrderedField α]
variable (K : Constants α) (cos : α → α) (get_diff_vector : GetDiffVector α)

/-- The request for a longitude stencil of derivative order `ord` at `(Ilat, Ilon)`, with
`LB` preset to `- 2 * Nlon`. -/
def lon_stencil (A : Args α) (S : Sizes) (Ilat Ilon ord : Int) : List α × Int :=
  get_diff_vector (-2 * S.Nlon) A.source_data.longitude "lon" A.Itime A.Idepth Ilat Ilon
    S.Ntime S.Ndepth S.Nlat S.Nlon A.mask ord K.DiffOrd

/-- The request for a latitude stencil of derivative order `ord` at `(Ilat, Ilon)`, with
`LB` preset to `- 2 * Nlat`. -/
def lat_stencil (A : Args α) (S : Sizes) (Ilat Ilon ord : Int) : List α × Int :=
  get_diff_vector (-2 * S.Nlat) A.source_data.latitude "lat" A.Itime A.Idepth Ilat Ilon
    S.Ntime S.Ndepth S.Nlat S.Nlon A.mask ord K.DiffOrd

/-- Velocity rows, "LON first derivative part" (source lines 77-104). -/
def vel_lon_part (A : Args α) (S : Sizes) (Ilat Ilon : Int) (weight_val cos_lat_inv : α) :
    List (Entry α) :=
  let Npts : Int := S.Nlat * S.Nlon
  let R_inv : α := 1 / K.R_earth
  let index_sub := Index 0 0 Ilat Ilon 1 1 S.Nlat S.Nlon
  let r := lon_stencil K get_diff_vector A S Ilat Ilon 1
  if r.2 ≠ -2 * S.Nlon then
    stencil_for r.2 r.1 (fun IDIFF d =>
      let Idiff := wrap_index K.PERIODIC_X IDIFF S.Nlon
      let diff_index := Index 0 0 Ilat Idiff 1 1 S.Nlat S.Nlon
      let tmp_val := d * cos_lat_inv * R_inv * weight_val
      [⟨1 * Npts + index_sub, 0 * Npts + diff_index, tmp_val⟩,
       ⟨0 * Npts + index_sub, 1 * Npts + diff_index, tmp_val⟩])
  else []

/-- Velocity rows, "LAT first derivative part" (source lines 111-138). -/
def vel_lat_part (A : Args α) (S : Sizes) (Ilat Ilon : Int) (weight_val : α) :
    List (Entry α) :=
  let Npts : Int := S.Nlat * S.Nlon
  let R_inv : α := 1 / K.R_earth
  let index_sub := Index 0 0 Ilat Ilon 1 1 S.Nlat S.Nlon
  let r := lat_stencil K get_diff_vector A S Ilat Ilon 1
  if r.2 ≠ -2 * S.Nlat then
    stencil_for r.2 r.1 (fun IDIFF d =>
      let Idiff := wrap_index K.PERIODIC_Y IDIFF S.Nlat
      let diff_index := Index 0 0 Idiff Ilon 1 1 S.Nlat S.Nlon
      let tmp_val := d * R_inv * weight_val
      [⟨0 * Npts + index_sub, 0 * Npts + diff_index, -tmp_val⟩,
       ⟨1 * Npts + index_sub, 1 * Npts + diff_index, tmp_val⟩])
  else []

/-- Laplace rows at the first latitude row when `Tikhov_Laplace == 0`: the zonal
first-derivative stencil (source lines 174-202). -/
def zonal_part (A : Args α) (S : Sizes) (Ilat Ilon : Int) (weight_val cos_lat_inv : α) :
    List (Entry α) :=
  let Npts : Int := S.Nlat * S.Nlon
  let R_inv : α := 1 / K.R_earth
  let index_sub := Index 0 0 Ilat Ilon 1 1 S.Nlat S.Nlon
  let r := lon_stencil K get_diff_vector A S Ilat Ilon 1
  if r.2 ≠ -2 * S.Nlon then
    stencil_for r.2 r.1 (fun IDIFF d =>
      let Idiff := wrap_index K.PERIODIC_X IDIFF S.Nlon
      let diff_index := Index 0 0 Ilat Idiff 1 1 S.Nlat S.Nlon
      let tmp_val := d * cos_lat_inv * R_inv * weight_val
      [⟨2 * Npts + index_sub, 1 * Npts + diff_index, tmp_val⟩,
       ⟨3 * Npts + index_sub, 0 * Npts + diff_index, tmp_val⟩])
  else []

/-- Laplace rows, "LON second derivative part" (source lines 211-238). -/
def lap_lon2_part (A : Args α) (S : Sizes) (Ilat Ilon : Int) (weight_val cos2_lat_inv : α) :
    List (Entry α) :=
  let Npts : Int := S.Nlat * S.Nlon
  let R_inv : α := 1 / K.R_earth
  let R2_inv : α := R_inv ^ 2
  let index_sub := Index 0 0 Ilat Ilon 1 1 S.Nlat S.Nlon
  let r := lon_stencil K get_diff_vector A S Ilat Ilon 2
  if r.2 ≠ -2 * S.Nlon then
    stencil_for r.2 r.1 (fun IDIFF d =>
      let Idiff := wrap_index K.PERIODIC_X IDIFF S.Nlon
      let diff_index := Index 0 0 Ilat Idiff 1 1 S.Nlat S.Nlon
      let tmp_val := d * cos2_lat_inv * R2_inv *
        (weight_val * A.Tikhov_Laplace / A.deriv_scale_factor)
      [⟨2 * Npts + index_sub, 0 * Npts + diff_index, tmp_val⟩,
       ⟨3 * Npts + index_sub, 1 * Npts + diff_index, tmp_val⟩])
  else []

/-- Laplace rows, "LAT second derivative part" (source lines 245-272). -/
def lap_lat2_part (A : Args α) (S : Sizes) (Ilat Ilon : Int) (weight_val : α) :
    List (Entry α) :=
  let Npts : Int := S.Nlat * S.Nlon
  let R_inv : α := 1 / K.R_earth
  let R2_inv : α := R_inv ^ 2
  let index_sub := Index 0 0 Ilat Ilon 1 1 S.Nlat S.Nlon
  let r := lat_stencil K get_diff_vector A S Ilat Ilon 2
  if r.2 ≠ -2 * S.Nlat then
    stencil_for r.2 r.1 (fun IDIFF d =>
      let Idiff := wrap_index K.PERIODIC_Y IDIFF S.Nlat
      let diff_index := Index 0 0 Idiff Ilon 1 1 S.Nlat S.Nlon
      let tmp_val := d * R2_inv * (weight_val * A.Tikhov_Laplace / A.deriv_scale_factor)
      [⟨2 * Npts + index_sub, 0 * Npts + diff_index, tmp_val⟩,
       ⟨3 * Npts + index_sub, 1 * Npts + diff_index, tmp_val⟩])
  else []

/-- Laplace rows, "LAT first derivative part" (source lines 279-306); the factor `tan_lat`
is the unassigned local variable. -/
def lap_lat1_part (A : Args α) (S : Sizes) (Ilat Ilon : Int) (weight_val : α) :
    List (Entry α) :=
  let Npts : Int := S.Nlat * S.Nlon
  let R_inv : α := 1 / K.R_earth
  let R2_inv : α := R_inv ^ 2
  let index_sub := Index 0 0 Ilat Ilon 1 1 S.Nlat S.Nlon
  let r := lat_stencil K get_diff_vector A S Ilat Ilon 1
  if r.2 ≠ -2 * S.Nlat then
    stencil_for r.2 r.1 (fun IDIFF d =>
      let Idiff := wrap_index K.PERIODIC_Y IDIFF S.Nlat
      let diff_index := Index 0 0 Idiff Ilon 1 1 S.Nlat S.Nlon
      let tmp_val := -d * A.tan_lat * R2_inv *
        (weight_val * A.Tikhov_Laplace / A.deriv_scale_factor)
      [⟨2 * Npts + index_sub, 0 * Npts + diff_index, tmp_val⟩,
       ⟨3 * Npts + index_sub, 1 * Npts + diff_index, tmp_val⟩])
  else []

/-- The `sparseadd` calls of one iteration of the first loop nest (source lines 59-139),
given the latitude of the row and the weight of the point. -/
def vel_point (A : Args α) (S : Sizes) (Ilat Ilon : Int) (lat weight_val : α) :
    List (Entry α) :=
  let cos_lat_inv : α := 1 / cos lat
  if !(is_pole K lat) then
    vel_lon_part K get_diff_vector A S Ilat Ilon weight_val cos_lat_inv ++
      vel_lat_part K get_diff_vector A S Ilat Ilon weight_val
  else []

/-- The `sparseadd` calls of one iteration of the second loop nest (source lines 157-307),
given the latitude of the row and the weight of the point. -/
def lap_point (A : Args α) (S : Sizes) (Ilat Ilon : Int) (lat weight_val : α) :
    List (Entry α) :=
  let cos_lat_inv : α := 1 / cos lat
  let cos2_lat_inv : α := cos_lat_inv ^ 2
  if Ilat = 0 ∧ A.Tikhov_Laplace = 0 then
    zonal_part K get_diff_vector A S Ilat Ilon weight_val cos_lat_inv
  else if !(is_pole K lat) ∧ 0 < A.Tikhov_Laplace then
    lap_lon2_part K get_diff_vector A S Ilat Ilon weight_val cos2_lat_inv ++
      (lap_lat2_part K get_diff_vector A S Ilat Ilon weight_val ++
        lap_lat1_part K get_diff_vector A S Ilat Ilon weight_val)
  else []

/-- The reads at the head of each loop iteration: `latitude.at(Ilat)` and
`weight_err ? dAreas.at(index_sub) : 1.`. -/
def point_reads (A : Args α) (S : Sizes) (Ilat Ilon : Int) : Option (α × α) := do
  let lat ← vec_at A.source_data.latitude Ilat
  let index_sub := Index 0 0 Ilat Ilon 1 1 S.Nlat S.Nlon
  let weight_val ← if A.weight_err then vec_at A.source_data.areas index_sub else some 1
  pure (lat, weight_val)

/-- The body of the first loop nest. -/
def vel_body (A : Args α) (S : Sizes) (Ilat Ilon : Int) (LHS_matr : List (Entry α)) :
    Option (List (Entry α)) := do
  let (lat, weight_val) ← point_reads A S Ilat Ilon
  pure (LHS_matr ++ vel_point K cos get_diff_vector A S Ilat Ilon lat weight_val)

/-- The body of the second loop nest. -/
def lap_body (A : Args α) (S : Sizes) (Ilat Ilon : Int) (LHS_matr : List (Entry α)) :
    Option (List (Entry α)) := do
  let (lat, weight_val) ← point_reads A S Ilat Ilon
  pure (LHS_matr ++ lap_point K cos get_diff_vector A S Ilat Ilon lat weight_val)

/-- The sizes `myCounts.at(0) .. myCounts.at(3)`. -/
def read_sizes (myCounts : List Int) : Option Sizes := do
  let Ntime ← vec_at myCounts 0
  let Ndepth ← vec_at myCounts 1
  let Nlat ← vec_at myCounts 2
  let Nlon ← vec_at myCounts 3
  pure ⟨Ntime, Ndepth, Nlat, Nlon⟩

/-- The function `sparse_vel_from_PsiPhi_vortdiv`: the matrix after the two loop nests. -/
def sparse_vel_from_PsiPhi_vortdiv (LHS_matr : List (Entry α)) (A : Args α) :
    Option (List (Entry α)) := do
  let S ← read_sizes A.source_data.myCounts
  let M ← forLoop S.Nlat.toNat (fun Ilat M =>
    forLoop S.Nlon.toNat (fun Ilon M => vel_body K cos get_diff_vector A S Ilat Ilon M) M)
    LHS_matr
  forLoop S.Nlat.toNat (fun Ilat M =>
    forLoop S.Nlon.toNat (fun Ilon M => lap_body K cos get_diff_vector A S Ilat Ilon M) M) M

end Assembly

/-! ## Reading the assembled matrix -/

/-- The `sparseadd` calls of a matrix that were made on row `r`, in program order. -/
def row_entries {α : Type} (M : List (Entry α)) (r : Int) : List (Entry α) :=
  M.filter (fun e => decide (e.row = r))

/-- The calls of one stencil loop that place a stencil on a single row: the weight at offset
`IDIFF` goes to column `col IDIFF` with value `scale d`. -/
def placed {α : Type} (row : Int) (col : Int → Int) (scale : α → α) (LB : Int)
    (diff_vec : List α) : List (Entry α) :=
  stencil_for LB diff_vec (fun IDIFF d => [⟨row, col IDIFF, scale d⟩])

/-- A call with its value multiplied by `c`. -/
def scale_entry {α : Type} [Mul α] (c : α) (e : Entry α) : Entry α :=
  ⟨e.row, e.col, e.val * c⟩

/-- The calls made for a grid point by a per-point generator, empty if the reads at the head
of the iteration fail. -/
def at_point {α : Type} (reads : Option (α × α)) (f : α → α → List (Entry α)) :
    List (Entry α) :=
  match reads with
  | some (lat, weight_val) => f lat weight_val
  | none => []

/-- The calls of a stencil loop whose body makes two calls per weight, on rows `r1` and `r2`,
guarded by the test that the stencil was built. -/
def stencil_pair {α : Type} (built : Bool) (LB : Int) (diff_vec : List α) (r1 r2 : Int)
    (c1 c2 : Int → Int) (v1 v2 : α → α) : List (Entry α) :=
  if built then
    stencil_for LB diff_vec (fun IDIFF d => [⟨r1, c1 IDIFF, v1 d⟩, ⟨r2, c2 IDIFF, v2 d⟩])
  else []

/-- The calls made over the whole grid by a per-point generator, in loop order. -/
def all_points {α : Type} (S : Sizes) (f : Int → Int → List (Entry α)) : List (Entry α) :=
  (List.range S.Nlat.toNat).flatMap (fun i =>
    (List.range S.Nlon.toNat).flatMap (fun j => f (i : Int) (j : Int)))

/-- The column of the weight at offset `IDIFF` of a longitude stencil of row `Ilat`, in the
column block `skip`: `skip * Npts + Index(0, 0, Ilat, Idiff, 1, 1, Nlat, Nlon)` with `Idiff`
the (wrapped) longitude index. -/
def lon_col {α : Type} (K : Constants α) (S : Sizes) (Ilat skip : Int) (IDIFF : Int) : Int :=
  skip * (S.Nlat * S.Nlon) + Index 0 0 Ilat (wrap_index K.PERIODIC_X IDIFF S.Nlon) 1 1 S.Nlat S.Nlon

/-- The column of the weight at offset `IDIFF` of a latitude stencil of column `Ilon`, in the
column block `skip`. -/
def lat_col {α : Type} (K : Constants α) (S : Sizes) (Ilon skip : Int) (IDIFF : Int) : Int :=
  skip * (S.Nlat * S.Nlon) + Index 0 0 (wrap_index K.PERIODIC_Y IDIFF S.Nlat) Ilon 1 1 S.Nlat S.Nlon

/-- The test `LB != sentinel` made after a stencil request. -/
def built {α : Type} (r : List α × Int) (sentinel : Int) : Bool :=
  decide (r.2 ≠ sentinel)

/-- The row of block `k` that belongs to the grid point `(Ilat, Ilon)`. -/
def point_row (S : Sizes) (k Ilat Ilon : Int) : Int :=
  k * (S.Nlat * S.Nlon) + Index 0 0 Ilat Ilon 1 1 S.Nlat S.Nlon

/-- The calls that the two loop nests of `sparse_vel_from_PsiPhi_vortdiv` append to the
matrix, in program order. -/
def added {α : Type} [LinearOrderedField α] (K : Constants α) (cos : α → α)
    (get_diff_vector : GetDiffVector α) (A : Args α) (S : Sizes) : List (Entry α) :=
  all_points S (fun i j =>
      at_point (point_reads A S i j) (vel_point K cos get_diff_vector A S i j)) ++
    all_points S (fun i j =>
      at_point (point_reads A S i j) (lap_point K cos get_diff_vector A S i j))

/-! ## The driver `Apply_Helmholtz_Projection`: cleaning and per-slice set-up -/

section Projection

variable {α : Type} [LinearOrderedField α]

/-- One iteration of the loop that fills the land areas with zero velocity (source lines
367-378); the state is the pair `(u_lon, u_lat)`. -/
def clean_body (mask : List Bool) (index : Int) (uv : List α × List α) :
    Option (List α × List α) := do
  let m ← vec_at mask index
  if !m then
    let u_lon ← vec_set uv.1 index 0
    let u_lat ← vec_set uv.2 index 0
    pure (u_lon, u_lat)
  else
    let a ← vec_at uv.1 index
    let bad ← if |a| > 30000 then some true
      else (vec_at uv.2 index).map (fun b => decide (|b| > 30000))
    if bad then
      let u_lon ← vec_set uv.1 index 0
      let u_lat ← vec_set uv.2 index 0
      pure (u_lon, u_lat)
    else pure uv

/-- The input-cleaning pass of `Apply_Helmholtz_Projection` (source lines 363-379): the loop
`for (index = 0; index < u_lon.size(); index++)`. -/
def clean_velocity (mask : List Bool) (u_lon u_lat : List α) : Option (List α × List α) :=
  forLoop u_lon.length (clean_body mask) (u_lon, u_lat)

/-- One iteration of the loop that subtracts the seed velocity (source lines 529-537); the
state is the pair `(u_lon_rem, u_lat_rem)`. -/
def subtract_seed_body (S : Sizes) (Itime Idepth : Int)
    (u_lon u_lat u_lon_tor_seed u_lat_tor_seed u_lon_pot_seed u_lat_pot_seed : List α)
    (Ilat Ilon : Int) (rem : List α × List α) : Option (List α × List α) := do
  let index_sub := Index 0 0 Ilat Ilon 1 1 S.Nlat S.Nlon
  let index := Index Itime Idepth Ilat Ilon S.Ntime S.Ndepth S.Nlat S.Nlon
  let u_lon_rem ← vec_set rem.1 index_sub
    ((← vec_at u_lon index) - (← vec_at u_lon_tor_seed index_sub)
      - (← vec_at u_lon_pot_seed index_sub))
  let u_lat_rem ← vec_set rem.2 index_sub
    ((← vec_at u_lat index) - (← vec_at u_lat_tor_seed index_sub)
      - (← vec_at u_lat_pot_seed index_sub))
  pure (u_lon_rem, u_lat_rem)

/-- The loop nest that subtracts the seed velocity from the velocity of the slice. -/
def subtract_seed (S : Sizes) (Itime Idepth : Int)
    (u_lon u_lat u_lon_tor_seed u_lat_tor_seed u_lon_pot_seed u_lat_pot_seed : List α)
    (rem : List α × List α) : Option (List α × List α) :=
  forLoop S.Nlat.toNat (fun Ilat rem =>
    forLoop S.Nlon.toNat (fun Ilon rem =>
      subtract_seed_body S Itime Idepth u_lon u_lat u_lon_tor_seed u_lat_tor_seed
        u_lon_pot_seed u_lat_pot_seed Ilat Ilon rem) rem) rem

/-- One iteration of the loop that sets up `RHS_vector`, first part (source lines 565-579):
the four entries of the grid point are assigned. -/
def rhs_assign (K : Constants α) (latitude : List α) (S : Sizes)
    (Tikhov_Laplace deriv_scale_factor : α)
    (u_lon_rem u_lat_rem vort_term div_term : List α) (Ilat Ilon : Int)
    (RHS_vector : List α) : Option (List α) := do
  let Npts : Int := S.Nlat * S.Nlon
  let index_sub := Index 0 0 Ilat Ilon 1 1 S.Nlat S.Nlon
  let pole := is_pole K (← vec_at latitude Ilat)
  let RHS_vector ← vec_set RHS_vector (0 * Npts + index_sub) (← vec_at u_lon_rem index_sub)
  let RHS_vector ← vec_set RHS_vector (1 * Npts + index_sub) (← vec_at u_lat_rem index_sub)
  if Ilat = 0 ∨ pole then do
    let RHS_vector ← vec_set RHS_vector (2 * Npts + index_sub) 0
    vec_set RHS_vector (3 * Npts + index_sub) 0
  else do
    let RHS_vector ← vec_set RHS_vector (2 * Npts + index_sub)
      ((← vec_at vort_term index_sub) * Tikhov_Laplace / deriv_scale_factor)
    vec_set RHS_vector (3 * Npts + index_sub)
      ((← vec_at div_term index_sub) * Tikhov_Laplace / deriv_scale_factor)

/-- One iteration of the loop that sets up `RHS_vector`, second part (source lines 581-586):
under `weight_err` the four entries are multiplied by `dAreas.at(index_sub)`. -/
def rhs_weight (dAreas : List α) (S : Sizes) (weight_err : Bool) (Ilat Ilon : Int)
    (RHS_vector : List α) : Option (List α) := do
  let Npts : Int := S.Nlat * S.Nlon
  let index_sub := Index 0 0 Ilat Ilon 1 1 S.Nlat S.Nlon
  if weight_err then do
    let RHS_vector ← vec_set RHS_vector (0 * Npts + index_sub)
      ((← vec_at RHS_vector (0 * Npts + index_sub)) * (← vec_at dAreas index_sub))
    let RHS_vector ← vec_set RHS_vector (1 * Npts + index_sub)
      ((← vec_at RHS_vector (1 * Npts + index_sub)) * (← vec_at dAreas index_sub))
    let RHS_vector ← vec_set RHS_vector (2 * Npts + index_sub)
      ((← vec_at RHS_vector (2 * Npts + index_sub)) * (← vec_at dAreas index_sub))
    vec_set RHS_vector (3 * Npts + index_sub)
      ((← vec_at RHS_vector (3 * Npts + index_sub)) * (← vec_at dAreas index_sub))
  else pure RHS_vector

/-- One iteration of the loop that sets up `RHS_vector` (source lines 563-588). -/
def rhs_body (K : Constants α) (latitude dAreas : List α) (S : Sizes) (weight_err : Bool)
    (Tikhov_Laplace deriv_scale_factor : α)
    (u_lon_rem u_lat_rem vort_term div_term : List α) (Ilat Ilon : Int)
    (RHS_vector : List α) : Option (List α) := do
  let RHS_vector ← rhs_assign K latitude S Tikhov_Laplace deriv_scale_factor
    u_lon_rem u_lat_rem vort_term div_term Ilat Ilon RHS_vector
  rhs_weight dAreas S weight_err Ilat Ilon RHS_vector

/-- The loop nest that sets up `RHS_vector` for a slice. -/
def build_RHS (K : Constants α) (latitude dAreas : List α) (S : Sizes) (weight_err : Bool)
    (Tikhov_Laplace deriv_scale_factor : α)
    (u_lon_rem u_lat_rem vort_term div_term : List α) (RHS_vector : List α) :
    Option (List α) :=
  forLoop S.Nlat.toNat (fun Ilat RHS_vector =>
    forLoop S.Nlon.toNat (fun Ilon RHS_vector =>
      rhs_body K latitude dAreas S weight_err Tikhov_Laplace deriv_scale_factor
        u_lon_rem u_lat_rem vort_term div_term Ilat Ilon RHS_vector) RHS_vector) RHS_vector

/-- Extraction of the solution and addition of the seed (source lines 642-648): `Psi_vector`
and `Phi_vector` are the two halves of the solver output `F`, to which the seed is added
element by element. -/
def extract_solution (Npts : Int) (F Psi_seed Phi_seed : List α) :
    Option (List α × List α) :=
  forLoop Npts.toNat (fun ii PV => do
      let Psi_vector ← vec_set PV.1 ii ((← vec_at PV.1 ii) + (← vec_at Psi_seed ii))
      let Phi_vector ← vec_set PV.2 ii ((← vec_at PV.2 ii) + (← vec_at Phi_seed ii))
      pure (Psi_vector, Phi_vector))
    (F.take Npts.toNat, (F.drop Npts.toNat).take Npts.toNat)

/-- One iteration of the loop that extracts the seed of a slice when `single_seed` is false
(source lines 499-506); the state is the pair `(Psi_seed, Phi_seed)`. -/
def extract_seed_body (S : Sizes) (Itime Idepth : Int) (seed_tor seed_pot : List α)
    (Ilat Ilon : Int) (seed : List α × List α) : Option (List α × List α) := do
  let index := Index Itime Idepth Ilat Ilon S.Ntime S.Ndepth S.Nlat S.Nlon
  let index_sub := Index 0 0 Ilat Ilon 1 1 S.Nlat S.Nlon
  let Psi_seed ← vec_set seed.1 index_sub (← vec_at seed_tor index)
  let Phi_seed ← vec_set seed.2 index_sub (← vec_at seed_pot index)
  pure (Psi_seed, Phi_seed)

/-- The loop nest that extracts the seed of a slice. -/
def extract_seed (S : Sizes) (Itime Idepth : Int) (seed_tor seed_pot : List α)
    (seed : List α × List α) : Option (List α × List α) :=
  forLoop S.Nlat.toNat (fun Ilat seed =>
    forLoop S.Nlon.toNat (fun Ilon seed =>
      extract_seed_body S Itime Idepth seed_tor seed_pot Ilat Ilon seed) seed) seed

/-- The arrays written by the loop that stores the result of a slice. -/
structure Stored (α : Type) where
  full_u_lon_tor : List α
  full_u_lat_tor : List α
  full_u_lon_pot : List α
  full_u_lat_pot : List α
  full_Psi : List α
  full_Phi : List α
  Psi_seed : List α
  Phi_seed : List α

/-- One iteration of the loop that stores the result of a slice into the full arrays and,
under `single_seed`, into the seed of the next slice (source lines 681-702). -/
def store_body (S : Sizes) (Itime Idepth : Int) (single_seed : Bool)
    (u_lon_tor u_lat_tor u_lon_pot u_lat_pot Psi_vector Phi_vector : List α)
    (Ilat Ilon : Int) (st : Stored α) : Option (Stored α) := do
  let index := Index Itime Idepth Ilat Ilon S.Ntime S.Ndepth S.Nlat S.Nlon
  let index_sub := Index 0 0 Ilat Ilon 1 1 S.Nlat S.Nlon
  let full_u_lon_tor ← assign_from st.full_u_lon_tor index u_lon_tor index_sub
  let full_u_lat_tor ← assign_from st.full_u_lat_tor index u_lat_tor index_sub
  let full_u_lon_pot ← assign_from st.full_u_lon_pot index u_lon_pot index_sub
  let full_u_lat_pot ← assign_from st.full_u_lat_pot index u_lat_pot index_sub
  let full_Psi ← assign_from st.full_Psi index Psi_vector index_sub
  let full_Phi ← assign_from st.full_Phi index Phi_vector index_sub
  if single_seed then do
    let Psi_seed ← assign_from st.Psi_seed index_sub Psi_vector index_sub
    let Phi_seed ← assign_from st.Phi_seed index_sub Phi_vector index_sub
    pure ⟨full_u_lon_tor, full_u_lat_tor, full_u_lon_pot, full_u_lat_pot, full_Psi, full_Phi,
      Psi_seed, Phi_seed⟩
  else
    pure ⟨full_u_lon_tor, full_u_lat_tor, full_u_lon_pot, full_u_lat_pot, full_Psi, full_Phi,
      st.Psi_seed, st.Phi_seed⟩

/-- The loop nest that stores the result of a slice. -/
def store_slice (S : Sizes) (Itime Idepth : Int) (single_seed : Bool)
    (u_lon_tor u_lat_tor u_lon_pot u_lat_pot Psi_vector Phi_vector : List α)
    (st : Stored α) : Option (Stored α) :=
  forLoop S.Nlat.toNat (fun Ilat st =>
    forLoop S.Nlon.toNat (fun Ilon st =>
      store_body S Itime Idepth single_seed u_lon_tor u_lat_tor u_lon_pot u_lat_pot
        Psi_vector Phi_vector Ilat Ilon st) st) st

/-- The functions that `Apply_Helmholtz_Projection` calls and that are declared outside the
translated files.  The velocity operators receive their output arrays by reference and
return them; `solve` stands for `linlsqrsolvesparse` followed by `linlsqrresults` and returns
the solution vector and the termination type. -/
structure Collaborators (α : Type) where
  toroidal_vel_from_F : List α → List α → List α → List α → List α → Int → Int → Int → Int →
    List Bool → List α × List α
  potential_vel_from_F : List α → List α → List α → List α → List α → Int → Int → Int → Int →
    List Bool → List α × List α
  toroidal_vel_div : List α → List α → List α → List α → List α → Int → Int → Int → Int →
    List Bool → List α
  toroidal_curl_u_dot_er : List α → List α → List α → List α → List α → Int → Int → Int →
    Int → Int → Int → List Bool → List α
  solve : List (Entry α) → List α → List α × Int

/-- The five counters of termination types. -/
structure Counts where
  terminate_count_abs_tol : Int
  terminate_count_rel_tol : Int
  terminate_count_max_iter : Int
  terminate_count_rounding : Int
  terminate_count_other : Int
deriving DecidableEq, Repr

/-- The chain `if (report.terminationtype == 1) { terminate_count_abs_tol++; } else if ...`
(source lines 625-630). -/
def count_termination (terminationtype : Int) (c : Counts) : Counts :=
  if terminationtype = 1 then
    { c with terminate_count_abs_tol := c.terminate_count_abs_tol + 1 }
  else if terminationtype = 4 then
    { c with terminate_count_rel_tol := c.terminate_count_rel_tol + 1 }
  else if terminationtype = 5 then
    { c with terminate_count_max_iter := c.terminate_count_max_iter + 1 }
  else if terminationtype = 7 then
    { c with terminate_count_rounding := c.terminate_count_rounding + 1 }
  else if terminationtype = 8 then
    { c with terminate_count_other := c.terminate_count_other + 1 }
  else { c with terminate_count_other := c.terminate_count_other + 1 }

/-- The arrays and counters that live across the slices of `Apply_Helmholtz_Projection`. -/
structure SliceState (α : Type) where
  u_lon_tor_seed : List α
  u_lat_tor_seed : List α
  u_lon_pot_seed : List α
  u_lat_pot_seed : List α
  u_lon_rem : List α
  u_lat_rem : List α
  div_term : List α
  vort_term : List α
  RHS_vector : List α
  out : Stored α
  counts : Counts

/-- The inputs of `Apply_Helmholtz_Projection` that are fixed during the loop over the
slices: the data set, the cleaned velocity, the seeds, the flags, and the operator built
before the loop together with `deriv_scale_factor`. -/
structure SliceInputs (α : Type) where
  source_data : dataset α
  u_lon : List α
  u_lat : List α
  seed_tor : List α
  seed_pot : List α
  single_seed : Bool
  weight_err : Bool
  use_mask : Bool
  Tikhov_Laplace : α
  deriv_scale_factor : α
  LHS_matr : List (Entry α)

/-- The mask handed to the collaborators: `use_mask ? mask : unmask`, where `unmask` is all
true and as long as `mask`. -/
def used_mask (I : SliceInputs α) : List Bool :=
  if I.use_mask then I.source_data.mask else List.replicate I.source_data.mask.length true

/-- The seed of the slice `(Itime, Idepth)`: the running seed under `single_seed`, and
otherwise the slice of `seed_tor`, `seed_pot` copied into the seed vectors (source lines
487-508). -/
def slice_seed (I : SliceInputs α) (S : Sizes) (Itime Idepth : Int) (st : SliceState α) :
    Option (List α × List α) :=
  if !I.single_seed then
    extract_seed S Itime Idepth I.seed_tor I.seed_pot (st.out.Psi_seed, st.out.Phi_seed)
  else pure (st.out.Psi_seed, st.out.Phi_seed)

/-- The body of the loop over the slices (source lines 486-712), for the slice
`(Itime, Idepth)`. -/
def Apply_slice (X : Collaborators α) (K : Constants α) (I : SliceInputs α) (S : Sizes)
    (Itime Idepth : Int) (st : SliceState α) : Option (SliceState α) := do
  let Npts : Int := S.Nlat * S.Nlon
  let latitude := I.source_data.latitude
  let longitude := I.source_data.longitude
  let seed ← slice_seed I S Itime Idepth st
  let tor_seed := X.toroidal_vel_from_F st.u_lon_tor_seed st.u_lat_tor_seed seed.1 longitude
    latitude S.Ntime S.Ndepth S.Nlat S.Nlon (used_mask I)
  let pot_seed := X.potential_vel_from_F st.u_lon_pot_seed st.u_lat_pot_seed seed.2 longitude
    latitude S.Ntime S.Ndepth S.Nlat S.Nlon (used_mask I)
  let rem ← subtract_seed S Itime Idepth I.u_lon I.u_lat tor_seed.1 tor_seed.2 pot_seed.1
    pot_seed.2 (st.u_lon_rem, st.u_lat_rem)
  let div_term := X.toroidal_vel_div st.div_term rem.1 rem.2 longitude latitude
    1 1 S.Nlat S.Nlon (used_mask I)
  let vort_term := X.toroidal_curl_u_dot_er st.vort_term rem.1 rem.2 longitude latitude
    0 0 1 1 S.Nlat S.Nlon (used_mask I)
  let RHS_vector ← build_RHS K latitude I.source_data.areas S I.weight_err I.Tikhov_Laplace
    I.deriv_scale_factor rem.1 rem.2 vort_term div_term st.RHS_vector
  let report := X.solve I.LHS_matr RHS_vector
  let sol ← extract_solution Npts report.1 seed.1 seed.2
  let tor := X.toroidal_vel_from_F (List.replicate Npts.toNat 0) (List.replicate Npts.toNat 0)
    sol.1 longitude latitude S.Ntime S.Ndepth S.Nlat S.Nlon (used_mask I)
  let pot := X.potential_vel_from_F (List.replicate Npts.toNat 0)
    (List.replicate Npts.toNat 0) sol.2 longitude latitude S.Ntime S.Ndepth S.Nlat S.Nlon
    (used_mask I)
  let out ← store_slice S Itime Idepth I.single_seed tor.1 tor.2 pot.1 pot.2 sol.1 sol.2
    { st.out with Psi_seed := seed.1, Phi_seed := seed.2 }
  pure
    { u_lon_tor_seed := tor_seed.1
      u_lat_tor_seed := tor_seed.2
      u_lon_pot_seed := pot_seed.1
      u_lat_pot_seed := pot_seed.2
      u_lon_rem := rem.1
      u_lat_rem := rem.2
      div_term := div_term
      vort_term := vort_term
      RHS_vector := RHS_vector
      out := out
      counts := count_termination report.2 st.counts }

/-- The sizes with which the driver allocates its arrays (source lines 381-404): the
slice-sized arrays have `Npts` entries, `RHS_vector` has `4 * Npts`, and the full arrays are
as long as `u_lon`. -/
def allocated (I : SliceInputs α) (S : Sizes) (st : SliceState α) : Prop :=
  (st.u_lon_tor_seed.length : Int) = S.Nlat * S.Nlon ∧
  (st.u_lat_tor_seed.length : Int) = S.Nlat * S.Nlon ∧
  (st.u_lon_pot_seed.length : Int) = S.Nlat * S.Nlon ∧
  (st.u_lat_pot_seed.length : Int) = S.Nlat * S.Nlon ∧
  (st.u_lon_rem.length : Int) = S.Nlat * S.Nlon ∧
  (st.u_lat_rem.length : Int) = S.Nlat * S.Nlon ∧
  (st.div_term.length : Int) = S.Nlat * S.Nlon ∧
  (st.vort_term.length : Int) = S.Nlat * S.Nlon ∧
  (st.RHS_vector.length : Int) = 4 * (S.Nlat * S.Nlon) ∧
  (st.out.Psi_seed.length : Int) = S.Nlat * S.Nlon ∧
  (st.out.Phi_seed.length : Int) = S.Nlat * S.Nlon ∧
  st.out.full_u_lon_tor.length = I.u_lon.length ∧
  st.out.full_u_lat_tor.length = I.u_lon.length ∧
  st.out.full_u_lon_pot.length = I.u_lon.length ∧
  st.out.full_u_lat_pot.length = I.u_lon.length ∧
  st.out.full_Psi.length = I.u_lon.length ∧
  st.out.full_Phi.length = I.u_lon.length

/-- The collaborators leave the sizes of their output arrays unchanged, and the solver
returns a vector with one entry per column of the `4 Npts x 2 Npts` operator. -/
def keeps_sizes (X : Collaborators α) (S : Sizes) : Prop :=
  (∀ a b F lon lat nt nd nlat nlon mask,
    (X.toroidal_vel_from_F a b F lon lat nt nd nlat nlon mask).1.length = a.length ∧
    (X.toroidal_vel_from_F a b F lon lat nt nd nlat nlon mask).2.length = b.length) ∧
  (∀ a b F lon lat nt nd nlat nlon mask,
    (X.potential_vel_from_F a b F lon lat nt nd nlat nlon mask).1.length = a.length ∧
    (X.potential_vel_from_F a b F lon lat nt nd nlat nlon mask).2.length = b.length) ∧
  (∀ d u v lon lat nt nd nlat nlon mask,
    (X.toroidal_vel_div d u v lon lat nt nd nlat nlon mask).length = d.length) ∧
  (∀ d u v lon lat it id nt nd nlat nlon mask,
    (X.toroidal_curl_u_dot_er d u v lon lat it id nt nd nlat nlon mask).length = d.length) ∧
  (∀ M rhs, ((X.solve M rhs).1.length : Int) = 2 * (S.Nlat * S.Nlon))

/-- The value that the set-up loop leaves in `RHS_vector` at position `k * Npts + m`, for a
block `k` and an in-slice offset `m`, as a function of the inputs of the loop. -/
def rhs_expected (K : Constants α) (latitude dAreas : List α) (S : Sizes) (weight_err : Bool)
    (Tikhov_Laplace deriv_scale_factor : α)
    (u_lon_rem u_lat_rem vort_term div_term : List α) (k m : Int) : α :=
  let Ilat : Int := m / S.Nlon
  let pole := is_pole K (latitude.getD Ilat.toNat 0)
  let base : α :=
    if k = 0 then u_lon_rem.getD m.toNat 0
    else if k = 1 then u_lat_rem.getD m.toNat 0
    else if Ilat = 0 ∨ pole then 0
    else if k = 2 then vort_term.getD m.toNat 0 * Tikhov_Laplace / deriv_scale_factor
    else div_term.getD m.toNat 0 * Tikhov_Laplace / deriv_scale_factor
  if weight_err then base * dAreas.getD m.toNat 0 else base

/-- The offset of the slice `(Itime, Idepth)` in the full arrays. -/
def slice_base (S : Sizes) (Itime Idepth : Int) : Int :=
  Index Itime Idepth 0 0 S.Ntime S.Ndepth S.Nlat S.Nlon

/-- The relation between a vector `old` and the vector `new` obtained from it after the
assignments `new.at(base + m) = val m` for `0 <= m < n`. -/
def filled {β : Type} (old new : List β) (base : Int) (val : Int → β) (n : Int) : Prop :=
  new.length = old.length ∧
  (∀ m : Int, 0 ≤ m → m < n → vec_at new (base + m) = some (val m)) ∧
  (∀ q : Int, (q < base ∨ base + n ≤ q) → vec_at new q = vec_at old q)

/-- The element of a slice-sized vector at in-slice offset `m`. -/
def sub_value {β : Type} [Zero β] (v : List β) (m : Int) : β :=
  v.getD m.toNat 0

/-- The element of a full vector at in-slice offset `m` of the slice that starts at `base`. -/
def slice_value {β : Type} [Zero β] (v : List β) (base : Int) (m : Int) : β :=
  v.getD (base + m).toNat 0

/-- The relation between the stored arrays before (`o`) and after (`st`) the first `n`
iterations of the loop that stores the result of a slice. -/
def stored_upto (S : Sizes) (Itime Idepth : Int) (single_seed : Bool)
    (u_lon_tor u_lat_tor u_lon_pot u_lat_pot Psi_vector Phi_vector : List α)
    (o st : Stored α) (n : Int) : Prop :=
  filled o.full_u_lon_tor st.full_u_lon_tor (slice_base S Itime Idepth)
    (sub_value u_lon_tor) n ∧
  filled o.full_u_lat_tor st.full_u_lat_tor (slice_base S Itime Idepth)
    (sub_value u_lat_tor) n ∧
  filled o.full_u_lon_pot st.full_u_lon_pot (slice_base S Itime Idepth)
    (sub_value u_lon_pot) n ∧
  filled o.full_u_lat_pot st.full_u_lat_pot (slice_base S Itime Idepth)
    (sub_value u_lat_pot) n ∧
  filled o.full_Psi st.full_Psi (slice_base S Itime Idepth) (sub_value Psi_vector) n ∧
  filled o.full_Phi st.full_Phi (slice_base S Itime Idepth) (sub_value Phi_vector) n ∧
  (single_seed = true →
    filled o.Psi_seed st.Psi_seed 0 (sub_value Psi_vector) n ∧
    filled o.Phi_seed st.Phi_seed 0 (sub_value Phi_vector) n) ∧
  (single_seed = false → st.Psi_seed = o.Psi_seed ∧ st.Phi_seed = o.Phi_seed)

/-- The remaining velocity at in-slice offset `m`: the velocity of the slice minus the two
seed velocities. -/
def rem_value (u tor_seed pot_seed : List α) (base : Int) (m : Int) : α :=
  u.getD (base + m).toNat 0 - tor_seed.getD m.toNat 0 - pot_seed.getD m.toNat 0

/-- The effect of the cleaning pass on one index, as a function of the mask and of the two
velocity components there. -/
def clean_point (m : Bool) (a b : α) : α × α :=
  if !m then (0, 0) else if |a| > 30000 ∨ |b| > 30000 then (0, 0) else (a, b)

end Projection

/-- The Laplacian row of the block layout, in the words of the specification: on row `row`
and in the column block `skip`, `lambda` times the stencil
`D2_lon/(R^2*cos^2(lat)) + D2_lat/R^2 - tan(lat)*D1_lat/R^2`, with
`lambda = Tikhov_Laplace/deriv_scale_factor` and `tan_of_lat` the tangent of the latitude of
the row. -/
def spec_Laplace_row {α : Type} [LinearOrderedField α] (K : Constants α) (cos : α → α)
    (get_diff_vector : GetDiffVector α) (A : Args α) (S : Sizes) (Ilat Ilon : Int)
    (lat tan_of_lat : α) (row skip : Int) : List (Entry α) :=
  let lambda : α := A.Tikhov_Laplace / A.deriv_scale_factor
  placed row (lon_col K S Ilat skip) (fun d => lambda * (d / (K.R_earth ^ 2 * cos lat ^ 2)))
      (lon_stencil K get_diff_vector A S Ilat Ilon 2).2
      (lon_stencil K get_diff_vector A S Ilat Ilon 2).1 ++
    (placed row (lat_col K S Ilon skip) (fun d => lambda * (d / K.R_earth ^ 2))
        (lat_stencil K get_diff_vector A S Ilat Ilon 2).2
        (lat_stencil K get_diff_vector A S Ilat Ilon 2).1 ++
      placed row (lat_col K S Ilon skip)
        (fun d => lambda * (-(tan_of_lat * d / K.R_earth ^ 2)))
        (lat_stencil K get_diff_vector A S Ilat Ilon 1).2
        (lat_stencil K get_diff_vector A S Ilat Ilon 1).1)

/-! ## A small concrete grid

Three latitude rows and four longitude columns over `ℚ`, with `M_PI` taken as `22/7`, unit
grid spacing in the stencils, and periodic longitude. -/

/-- Constants of the test grid. -/
def ex_K : Constants ℚ :=
  { R_earth := 2, M_PI := 22 / 7, PERIODIC_X := true, PERIODIC_Y := false, DiffOrd := 2 }

/-- A stand-in for `cos` on the test grid (the Taylor polynomial of degree four). -/
def ex_cos (x : ℚ) : ℚ := 1 - x ^ 2 / 2 + x ^ 4 / 24

/-- A stand-in for `get_diff_vector` on a uniform grid of unit spacing: centred
three-point stencils in longitude (wrapping), and in latitude centred stencils in the interior
and one-sided ones at the two ends; a latitude axis with fewer than three rows has no
stencil and `LB` is returned unchanged. -/
def ex_gdv : GetDiffVector ℚ :=
  fun LB _grid dim _Itime _Idepth Ilat Ilon _Ntime _Ndepth Nlat _Nlon _mask ord _DiffOrd =>
    if dim = "lon" then
      (if ord = 1 then [-1 / 2, 0, 1 / 2] else [1, -2, 1], Ilon - 1)
    else if Nlat < 3 then ([], LB)
    else if Ilat = 0 then
      (if ord = 1 then [-3 / 2, 2, -1 / 2] else [1, -2, 1], 0)
    else if Ilat = Nlat - 1 then
      (if ord = 1 then [1 / 2, -2, 3 / 2] else [1, -2, 1], Nlat - 3)
    else (if ord = 1 then [-1 / 2, 0, 1 / 2] else [1, -2, 1], Ilat - 1)

/-- A stand-in for `get_diff_vector` that builds latitude stencils as `ex_gdv` does and
never builds a longitude stencil: it leaves `LB` unchanged and `diff_vec` holding stale
weights. -/
def ex_gdv_nolon : GetDiffVector ℚ :=
  fun LB grid dim Itime Idepth Ilat Ilon Ntime Ndepth Nlat Nlon mask ord DiffOrd =>
    if dim = "lon" then ([7, 7, 7], LB)
    else ex_gdv LB grid dim Itime Idepth Ilat Ilon Ntime Ndepth Nlat Nlon mask ord DiffOrd

/-- The sizes of the test grid: one time, one depth, three latitudes, four longitudes. -/
def ex_S : Sizes := ⟨1, 1, 3, 4⟩

/-- The test grid with latitudes -45, 0 and 45 degrees. -/
def ex_data : dataset ℚ :=
  { latitude := [-11 / 14, 0, 11 / 14]
    longitude := [0, 11 / 7, 22 / 7, 33 / 7]
    areas := [4, 4, 4, 4, 9, 9, 9, 9, 4, 4, 4, 4]
    mask := List.replicate 12 true
    myCounts := [1, 1, 3, 4] }

/-- The test grid with latitudes -90, 0 and 90 degrees. -/
def ex_data_pole : dataset ℚ :=
  { latitude := [-11 / 7, 0, 11 / 7]
    longitude := [0, 11 / 7, 22 / 7, 33 / 7]
    areas := [4, 4, 4, 4, 9, 9, 9, 9, 4, 4, 4, 4]
    mask := List.replicate 12 true
    myCounts := [1, 1, 3, 4] }

/-- Arguments of the assembly on a test grid. -/
def ex_A (data : dataset ℚ) (weight_err : Bool) (Tikhov_Laplace tan_lat : ℚ) : Args ℚ :=
  { source_data := data, Itime := 0, Idepth := 0, mask := List.replicate 12 true,
    weight_err := weight_err, Tikhov_Laplace := Tikhov_Laplace, deriv_scale_factor := 1 / 2,
    tan_lat := tan_lat }

/-- Remaining zonal velocity on the test grid. -/
def ex_u_lon_rem : List ℚ := [1, 2, 3, 4, 5, 6, 7, 8, 9, 10, 11, 12]

/-- Remaining meridional velocity on the test grid. -/
def ex_u_lat_rem : List ℚ := [-1, -2, -3, -4, -5, -6, -7, -8, -9, -10, -11, -12]

/-- Vorticity of the remaining velocity on the test grid. -/
def ex_vort_term : List ℚ := [3, 3, 3, 3, 5, 5, 5, 5, 7, 7, 7, 7]

/-- Divergence of the remaining velocity on the test grid. -/
def ex_div_term : List ℚ := [2, 2, 2, 2, 4, 4, 4, 4, 6, 6, 6, 6]

/-- Collaborators for the small grid: size-preserving stand-ins for the velocity and
derivative operators, and a solver that returns the first `2 * 12` entries of the right-hand
side with termination type 1. -/
def ex_X : Collaborators ℚ where
  toroidal_vel_from_F := fun a b F _ _ _ _ _ _ _ =>
    ((List.range a.length).map (fun i => F.getD i 0),
     (List.range b.length).map (fun i => - F.getD i 0))
  potential_vel_from_F := fun a b F _ _ _ _ _ _ _ =>
    ((List.range a.length).map (fun i => 2 * F.getD i 0),
     (List.range b.length).map (fun i => F.getD i 0))
  toroidal_vel_div := fun d u v _ _ _ _ _ _ _ =>
    (List.range d.length).map (fun i => u.getD i 0 + v.getD i 0)
  toroidal_curl_u_dot_er := fun d u v _ _ _ _ _ _ _ _ _ =>
    (List.range d.length).map (fun i => u.getD i 0 - v.getD i 0)
  solve := fun _ rhs => ((List.range 24).map (fun i => rhs.getD i 0), 1)

/-- Inputs of one slice on the small grid, with one seed per slice. -/
def ex_I : SliceInputs ℚ where
  source_data := ex_data
  u_lon := ex_u_lon_rem
  u_lat := ex_u_lat_rem
  seed_tor := [1, 1, 1, 1, 2, 2, 2, 2, 3, 3, 3, 3]
  seed_pot := [0, 1, 0, 1, 0, 1, 0, 1, 0, 1, 0, 1]
  single_seed := false
  weight_err := false
  use_mask := false
  Tikhov_Laplace := 0
  deriv_scale_factor := 1 / 2
  LHS_matr := []

/-- The freshly allocated work arrays of the small grid. -/
def ex_st : SliceState ℚ where
  u_lon_tor_seed := List.replicate 12 0
  u_lat_tor_seed := List.replicate 12 0
  u_lon_pot_seed := List.replicate 12 0
  u_lat_pot_seed := List.replicate 12 0
  u_lon_rem := List.replicate 12 0
  u_lat_rem := List.replicate 12 0
  div_term := List.replicate 12 0
  vort_term := List.replicate 12 0
  RHS_vector := List.replicate 48 0
  out := ⟨List.replicate 12 0, List.replicate 12 0, List.replicate 12 0,
    List.replicate 12 0, List.replicate 12 0, List.replicate 12 0,
    List.replicate 12 0, List.replicate 12 0⟩
  counts := ⟨0, 0, 0, 0, 0⟩

/-! ## The loop over the slices and the seed set-up -/

/-- The result of the seed set-up of `main` in `Helmholtz_projection.cpp`. -/
structure SeedSetup (α : Type) where
  seed_count : α
  single_seed : Bool
  Psi_seed : List α
  Phi_seed : List α

section Driver
variable {α : Type} [LinearOrderedField α]

/-- The loop over the slices of `Apply_Helmholtz_Projection` (source lines 484-720): time
outermost, depth inside, one call of the slice body per pair. -/
def solve_slices (X : Collaborators α) (K : Constants α) (I : SliceInputs α) (S : Sizes)
    (st : SliceState α) : Option (SliceState α) :=
  forLoop S.Ntime.toNat (fun Itime st =>
    forLoop S.Ndepth.toNat (fun Idepth st => Apply_slice X K I S Itime Idepth st) st) st

/-- The seed set-up of `main` (`Helmholtz_projection.cpp`, lines 172-186).  The file readers
`read_attr_from_file` and `read_var_from_file` are parameters; `single_seed` is read (as the
last argument of `read_var_from_file`) before its assignment on line 186, and
`single_seed_unassigned` stands for the value it holds there. -/
def seed_setup (seed_fname tor_seed_name pot_seed_name : String)
    (Nlat Nlon Nprocs_in_time Nprocs_in_depth : Int)
    (read_attr_from_file : String → String → α)
    (read_var_from_file : String → String → Int → Int → Bool → List α)
    (single_seed_unassigned : Bool) : SeedSetup α :=
  let r : α × List α × List α :=
    if seed_fname = "zero" then
      (1, List.replicate (Nlat * Nlon).toNat 0, List.replicate (Nlat * Nlon).toNat 0)
    else
      (read_attr_from_file "seed_count" seed_fname,
       read_var_from_file tor_seed_name seed_fname Nprocs_in_time Nprocs_in_depth
         (!single_seed_unassigned),
       read_var_from_file pot_seed_name seed_fname Nprocs_in_time Nprocs_in_depth
         (!single_seed_unassigned))
  { seed_count := r.1
    single_seed := decide (r.1 = 1)
    Psi_seed := r.2.1
    Phi_seed := r.2.2 }

/-- The storage vectors and the termination counters as the driver declares them (source
lines 381-404 and 477-481): all zero. -/
def initial_state (u_lon : List α) (S : Sizes) : SliceState α :=
  let Npts : Nat := (S.Nlat * S.Nlon).toNat
  { u_lon_tor_seed := List.replicate Npts 0
    u_lat_tor_seed := List.replicate Npts 0
    u_lon_pot_seed := List.replicate Npts 0
    u_lat_pot_seed := List.replicate Npts 0
    u_lon_rem := List.replicate Npts 0
    u_lat_rem := List.replicate Npts 0
    div_term := List.replicate Npts 0
    vort_term := List.replicate Npts 0
    RHS_vector := List.replicate (4 * Npts) 0
    out :=
      { full_u_lon_tor := List.replicate u_lon.length 0
        full_u_lat_tor := List.replicate u_lon.length 0
        full_u_lon_pot := List.replicate u_lon.length 0
        full_u_lat_pot := List.replicate u_lon.length 0
        full_Psi := List.replicate u_lon.length 0
        full_Phi := List.replicate u_lon.length 0
        Psi_seed := List.replicate Npts 0
        Phi_seed := List.replicate Npts 0 }
    counts := ⟨0, 0, 0, 0, 0⟩ }

/-- One iteration of the loop that copies the starting seed (source lines 412-418). -/
def copy_seed_body (S : Sizes) (seed_tor seed_pot : List α) (Ilat Ilon : Int)
    (seed : List α × List α) : Option (List α × List α) := do
  let index := Index 0 0 Ilat Ilon 1 1 S.Nlat S.Nlon
  let Psi_seed ← vec_set seed.1 index (← vec_at seed_tor index)
  let Phi_seed ← vec_set seed.2 index (← vec_at seed_pot index)
  pure (Psi_seed, Phi_seed)

/-- The copy of the starting seed, done under `single_seed` only (source lines 408-420). -/
def copy_seed (I : SliceInputs α) (S : Sizes) (st : SliceState α) : Option (SliceState α) :=
  if I.single_seed then do
    let seed ← forLoop S.Nlat.toNat (fun Ilat seed =>
      forLoop S.Nlon.toNat (fun Ilon seed =>
        copy_seed_body S I.seed_tor I.seed_pot Ilat Ilon seed) seed)
      (st.out.Psi_seed, st.out.Phi_seed)
    pure { st with out := { st.out with Psi_seed := seed.1, Phi_seed := seed.2 } }
  else pure st

/-- The part of `Apply_Helmholtz_Projection` from the declaration of the storage vectors to
the end of the loop over the slices. -/
def projection_loop (X : Collaborators α) (K : Constants α) (I : SliceInputs α) (S : Sizes) :
    Option (SliceState α) := do
  let st ← copy_seed I S (initial_state I.u_lon S)
  solve_slices X K I S st

end Driver

/-- The small grid with two depths. -/
def ex_S2 : Sizes := ⟨1, 2, 3, 4⟩

/-- Inputs on the small grid with two depths and a single seed. -/
def ex_I2 : SliceInputs ℚ where
  source_data := ex_data
  u_lon := ex_u_lon_rem ++ ex_u_lat_rem
  u_lat := ex_u_lat_rem ++ ex_u_lon_rem
  seed_tor := [1, 1, 1, 1, 2, 2, 2, 2, 3, 3, 3, 3]
  seed_pot := [0, 1, 0, 1, 0, 1, 0, 1, 0, 1, 0, 1]
  single_seed := true
  weight_err := false
  use_mask := false
  Tikhov_Laplace := 0
  deriv_scale_factor := 1 / 2
  LHS_matr := []

/-- Inputs on the small grid with two depths and one seed per slice. -/
def ex_I3 : SliceInputs ℚ :=
  { ex_I2 with
    seed_tor := [1, 1, 1, 1, 2, 2, 2, 2, 3, 3, 3, 3, 4, 4, 4, 4, 5, 5, 5, 5, 6, 6, 6, 6]
    seed_pot := [0, 1, 0, 1, 0, 1, 0, 1, 0, 1, 0, 1, 2, 3, 2, 3, 2, 3, 2, 3, 2, 3, 2, 3]
    single_seed := false }

/-! ## The point operators `compute_vorticity_at_point` and `compute_Lambda_nonlin_model` -/

/-- The values that `compute_vorticity_at_point` leaves in its five output references. -/
structure VortOut (α : Type) where
  vort_r_tmp : α
  vort_lon_tmp : α
  vort_lat_tmp : α
  div_tmp : α
  OkuboWeiss_tmp : α

/-- The signature of `spher_derivative_at_point` (declared in `differentiation_tools.hpp`):
from the fields, the grid, the name of the dimension, the four indices, the four sizes and
the mask, the value it stores through `deriv_vals.at(k)`, the derivative of the field
`deriv_fields.at(k)`. -/
abbrev SpherDerivative (α : Type) :=
  List (List α) → List α → String → Int → Int → Int → Int → Int → Int → Int → Int →
    List Bool → Nat → α

/-- The signature of `Cart_derivatives_at_point` (declared in
`differentiation_tools.hpp`): the values it stores through `x_deriv_vals.at(k)`,
`y_deriv_vals.at(k)` and `z_deriv_vals.at(k)`. -/
abbrev CartDerivatives (α : Type) :=
  List (List α) → List α → List α → Int → Int → Int → Int → Int → Int → Int → Int →
    List Bool → (Nat → α) × (Nat → α) × (Nat → α)

section Vorticity
variable {α : Type} [LinearOrderedField α]

/-- The function `compute_vorticity_at_point` of
`src/Functions/compute_vorticity_at_point.cpp`.  In the spherical branch the locals `ulon_r`,
`ulat_r`, `ur_r` are declared and read but never assigned (the vector `r_deriv_vals` that
points to them is passed to no function); the parameters of the same names stand for the
values they hold.  The local `sin_lat` is computed and not used. -/
def compute_vorticity_at_point (K : Constants α) (CARTESIAN : Bool) (cos tan : α → α)
    (spher_derivative_at_point : SpherDerivative α)
    (Cart_derivatives_at_point : CartDerivatives α)
    (ulon_r ulat_r ur_r : α)
    (u_r u_lon u_lat : List α) (Ntime Ndepth Nlat Nlon Itime Idepth Ilat Ilon : Int)
    (longitude latitude : List α) (mask : List Bool) : Option (VortOut α) :=
  let deriv_fields : List (List α) := [u_lon, u_lat, u_r]
  if CARTESIAN then
    let d := Cart_derivatives_at_point deriv_fields latitude longitude
      Itime Idepth Ilat Ilon Ntime Ndepth Nlat Nlon mask
    let ux_x := d.1 0
    let uy_x := d.1 1
    let uz_x := d.1 2
    let ux_y := d.2.1 0
    let uy_y := d.2.1 1
    let uz_y := d.2.1 2
    let ux_z := d.2.2 0
    let uy_z := d.2.2 1
    let uz_z := d.2.2 2
    some
      { vort_lon_tmp := uz_y - uy_z
        vort_lat_tmp := ux_z - uz_x
        vort_r_tmp := uy_x - ux_y
        div_tmp := ux_x + uy_y + uz_z
        OkuboWeiss_tmp := (ux_x - uy_y) ^ 2 + 4 * ux_y * uy_x }
  else do
    let index := Index Itime Idepth Ilat Ilon Ntime Ndepth Nlat Nlon
    let lat_deriv := spher_derivative_at_point deriv_fields latitude "lat"
      Itime Idepth Ilat Ilon Ntime Ndepth Nlat Nlon mask
    let lon_deriv := spher_derivative_at_point deriv_fields longitude "lon"
      Itime Idepth Ilat Ilon Ntime Ndepth Nlat Nlon mask
    let ulon_lat := lat_deriv 0
    let ulat_lat := lat_deriv 1
    let ur_lat := lat_deriv 2
    let ulon_lon := lon_deriv 0
    let ulat_lon := lon_deriv 1
    let ur_lon := lon_deriv 2
    let lat ← vec_at latitude Ilat
    let cos_lat := cos lat
    let tan_lat := tan lat
    let u_r_loc ← vec_at u_r index
    let u_lon_loc ← vec_at u_lon index
    let u_lat_loc ← vec_at u_lat index
    let vort_r_tmp := (ulat_lon / cos_lat - ulon_lat + tan_lat * u_lon_loc) / K.R_earth
    let vort_lon_tmp := (ur_lat - u_lat_loc) / K.R_earth - ulat_r
    let vort_lat_tmp := (u_lon_loc - ur_lon / cos_lat) / K.R_earth + ulon_r
    let div_tmp := 2 * u_r_loc / K.R_earth + ur_r + ulon_lon / (K.R_earth * cos_lat)
      + ulat_lat / K.R_earth - u_lat_loc * tan_lat / K.R_earth
    let s_n := (cos_lat * ulon_lon - ulat_lat) / K.R_earth
    let s_s := (cos_lat * ulat_lon + ulon_lat) / K.R_earth
    some
      { vort_r_tmp := vort_r_tmp
        vort_lon_tmp := vort_lon_tmp
        vort_lat_tmp := vort_lat_tmp
        div_tmp := div_tmp
        OkuboWeiss_tmp := s_n ^ 2 + s_s ^ 2 - vort_r_tmp ^ 2 }

end Vorticity

/-- A polynomial stand-in for the tangent on the small grid. -/
def ex_tan (x : ℚ) : ℚ := x + x ^ 3 / 3

/-- A stand-in for `spher_derivative_at_point` on the small grid: a one-sided difference of
the field `k` in the flattened index, with stride 1 along longitude and stride `Nlon` along
latitude. -/
def ex_spher : SpherDerivative ℚ :=
  fun fields _ dim Itime Idepth Ilat Ilon Ntime Ndepth Nlat Nlon _ k =>
    let index := Index Itime Idepth Ilat Ilon Ntime Ndepth Nlat Nlon
    let stride : Int := if dim = "lon" then 1 else Nlon
    (fields.getD k []).getD index.toNat 0 - (fields.getD k []).getD (index - stride).toNat 0

/-- A stand-in for `Cart_derivatives_at_point`: all derivatives zero. -/
def ex_Cart : CartDerivatives ℚ :=
  fun _ _ _ _ _ _ _ _ _ _ _ _ => (fun _ => 0, fun _ => 0, fun _ => 0)

/-- A zero radial velocity on the small grid. -/
def ex_u_r : List ℚ := [0, 0, 0, 0, 0, 0, 0, 0, 0, 0, 0, 0]

/-- The signature of `Index1to4` (declared in `functions.hpp`): from the flat index and the
four sizes, the four indices `(Itime, Idepth, Ilat, Ilon)`. -/
abbrev Index1to4Fn := Int → Int → Int → Int → Int → Int × Int × Int × Int

section Lambda
variable {α : Type} [LinearOrderedField α]

/-- The divergence that the specification gives for a zero radial velocity, in its own words:
`(d u_lon / d lon) / (R * cos lat) + (d u_lat / d lat) / R - tan(lat) * u_lat / R`. -/
def spec_divergence (K : Constants α) (cos tan : α → α)
    (dulon_dlon dulat_dlat lat u_lat : α) : α :=
  dulon_dlon / (K.R_earth * cos lat) + dulat_dlat / K.R_earth - tan lat * u_lat / K.R_earth

/-- The value that `compute_Lambda_nonlin_model` assigns at a water index (source lines
83-118). -/
def Lambda_water (K : Constants α) (CARTESIAN : Bool) (cos : α → α)
    (spher_derivative_at_point : SpherDerivative α) (Index1to4 : Index1to4Fn)
    (coarse_u_lon coarse_u_lat coarse_rho coarse_p : List α) (Ntime Ndepth Nlat Nlon : Int)
    (longitude latitude : List α) (mask : List Bool) (scale_factor : α) (index : Int) :
    Option α := do
  let I4 := Index1to4 index Ntime Ndepth Nlat Nlon
  let Itime := I4.1
  let Idepth := I4.2.1
  let Ilat := I4.2.2.1
  let Ilon := I4.2.2.2
  let factors : α × α ←
    if CARTESIAN then some (1, 1)
    else do
      let lat ← vec_at latitude Ilat
      some (K.R_earth * cos lat, K.R_earth)
  let lon_factor := factors.1
  let lat_factor := factors.2
  let deriv_fields : List (List α) := [coarse_rho, coarse_p, coarse_u_lon, coarse_u_lat]
  let lat_deriv := spher_derivative_at_point deriv_fields latitude "lat"
    Itime Idepth Ilat Ilon Ntime Ndepth Nlat Nlon mask
  let lon_deriv := spher_derivative_at_point deriv_fields longitude "lon"
    Itime Idepth Ilat Ilon Ntime Ndepth Nlat Nlon mask
  let drho_dlat := lat_deriv 0
  let dp_dlat := lat_deriv 1
  let dulon_dlat := lat_deriv 2
  let dulat_dlat := lat_deriv 3
  let drho_dlon := lon_deriv 0
  let dp_dlon := lon_deriv 1
  let dulon_dlon := lon_deriv 2
  let dulat_dlon := lon_deriv 3
  let rho ← vec_at coarse_rho index
  some (scale_factor
    * (dp_dlon * drho_dlon * dulon_dlon / (lon_factor * lon_factor * lon_factor)
      + dp_dlon * drho_dlat * dulon_dlat / (lon_factor * lat_factor * lat_factor)
      + dp_dlat * drho_dlon * dulat_dlon / (lat_factor * lon_factor * lon_factor)
      + dp_dlat * drho_dlat * dulat_dlat / (lat_factor * lat_factor * lat_factor))
    / rho)

/-- One iteration of the loop of `compute_Lambda_nonlin_model` (source lines 80-124). -/
def Lambda_body (K : Constants α) (CARTESIAN : Bool) (fill_value : α) (cos : α → α)
    (spher_derivative_at_point : SpherDerivative α) (Index1to4 : Index1to4Fn)
    (coarse_u_lon coarse_u_lat coarse_rho coarse_p : List α) (Ntime Ndepth Nlat Nlon : Int)
    (longitude latitude : List α) (mask : List Bool) (scale_factor : α) (index : Int)
    (Lambda_nonlin : List α) : Option (List α) := do
  if (← vec_at mask index) then
    vec_set Lambda_nonlin index
      (← Lambda_water K CARTESIAN cos spher_derivative_at_point Index1to4
        coarse_u_lon coarse_u_lat coarse_rho coarse_p Ntime Ndepth Nlat Nlon
        longitude latitude mask scale_factor index)
  else
    vec_set Lambda_nonlin index fill_value

set_option linter.unusedVariables false in
/-- The function `compute_Lambda_nonlin_model` of
`src/Functions/compute_Lambda_nonlin_model.cpp`: the new contents of `Lambda_nonlin`.  The
other arrays are `const` references and are returned to the caller as they were; `coarse_u_r`
is not read. -/
def compute_Lambda_nonlin_model (K : Constants α) (CARTESIAN : Bool) (fill_value : α)
    (cos : α → α) (spher_derivative_at_point : SpherDerivative α) (Index1to4 : Index1to4Fn)
    (Lambda_nonlin coarse_u_r coarse_u_lon coarse_u_lat coarse_rho coarse_p : List α)
    (Ntime Ndepth Nlat Nlon : Int) (longitude latitude : List α) (mask : List Bool)
    (scale_factor : α) : Option (List α) :=
  forLoop Lambda_nonlin.length (fun index Lambda_nonlin =>
    Lambda_body K CARTESIAN fill_value cos spher_derivative_at_point Index1to4
      coarse_u_lon coarse_u_lat coarse_rho coarse_p Ntime Ndepth Nlat Nlon
      longitude latitude mask scale_factor index Lambda_nonlin) Lambda_nonlin

end Lambda

/-- A stand-in for `Index1to4` on the small grid. -/
def ex_Index1to4 : Index1to4Fn :=
  fun index _ Ndepth Nlat Nlon =>
    (index / (Ndepth * Nlat * Nlon), index / (Nlat * Nlon) % Ndepth, index / Nlon % Nlat,
      index % Nlon)

/-- A land-water mask of the small grid. -/
def ex_mask : List Bool :=
  [true, true, false, true, true, false, true, true, true, true, true, false]

/-- A density on the small grid. -/
def ex_rho : List ℚ := [1, 2, 1, 2, 1, 2, 1, 2, 1, 2, 1, 2]

/-- A pressure on the small grid. -/
def ex_p : List ℚ := [3, 1, 4, 1, 5, 9, 2, 6, 5, 3, 5, 8]

/-! ## The error norms of the projection -/

/-- The eight accumulators of the error norms of a slice (source line 809). -/
structure Norms (α : Type) where
  total_area : α
  error2 : α
  errorInf : α
  velInf : α
  tor_KE : α
  pot_KE : α
  proj_KE : α
  orig_KE : α

/-- The eight arrays of per-slice numbers (source lines 801-808). -/
structure Reports (α : Type) where
  tot_areas : List α
  projection_2error : List α
  projection_Inferror : List α
  velocity_2norm : List α
  velocity_Infnorm : List α
  projection_KE : List α
  toroidal_KE : List α
  potential_KE : List α

/-- The eight numbers reported for one slice. -/
structure SliceReport (α : Type) where
  total_area : α
  projection_2error : α
  projection_Inferror : α
  velocity_2norm : α
  velocity_Infnorm : α
  projection_KE : α
  toroidal_KE : α
  potential_KE : α

section ErrorNorms
variable {α : Type} [LinearOrderedField α]

/-- The eight update statements of the loop over the cells of a slice (source lines 836-860)
for the values read at the cell; `sqrt` is the square root of `math.h`, `std::fmax` is `max`,
and `pow(x, 2.)` is the square. -/
def norms_update (sqrt : α → α) (a : Norms α) (dA u v ut vt up vp : α) : Norms α :=
  { total_area := a.total_area + dA
    error2 := a.error2 + dA * ((u - ut - up) ^ 2 + (v - vt - vp) ^ 2)
    errorInf := max a.errorInf (sqrt ((u - ut - up) ^ 2 + (v - vt - vp) ^ 2))
    velInf := max a.velInf |sqrt (u ^ 2 + v ^ 2)|
    tor_KE := a.tor_KE + dA * (ut ^ 2 + vt ^ 2)
    pot_KE := a.pot_KE + dA * (up ^ 2 + vp ^ 2)
    proj_KE := a.proj_KE + dA * ((ut + up) ^ 2 + (vt + vp) ^ 2)
    orig_KE := a.orig_KE + dA * (u ^ 2 + v ^ 2) }

/-- One iteration of the loop over the cells of a slice (source lines 833-860): the reads
`dAreas.at(index_sub)`, `u_lon.at(index)`, ..., then the eight updates. -/
def norms_body (sqrt : α → α) (dAreas u_lon u_lat : List α) (F : Stored α) (S : Sizes)
    (Itime Idepth Ilat Ilon : Int) (a : Norms α) : Option (Norms α) := do
  let index_sub := Index 0 0 Ilat Ilon 1 1 S.Nlat S.Nlon
  let index := Index Itime Idepth Ilat Ilon S.Ntime S.Ndepth S.Nlat S.Nlon
  let dA ← vec_at dAreas index_sub
  let u ← vec_at u_lon index
  let v ← vec_at u_lat index
  let ut ← vec_at F.full_u_lon_tor index
  let vt ← vec_at F.full_u_lat_tor index
  let up ← vec_at F.full_u_lon_pot index
  let vp ← vec_at F.full_u_lat_pot index
  some (norms_update sqrt a dA u v ut vt up vp)

/-- The accumulators of a slice after the loop over its cells, from zero (source lines
813-863). -/
def slice_norms (sqrt : α → α) (dAreas u_lon u_lat : List α) (F : Stored α) (S : Sizes)
    (Itime Idepth : Int) : Option (Norms α) :=
  forLoop S.Nlat.toNat (fun Ilat a =>
    forLoop S.Nlon.toNat (fun Ilon a =>
      norms_body sqrt dAreas u_lon u_lat F S Itime Idepth Ilat Ilon a) a)
    ⟨0, 0, 0, 0, 0, 0, 0, 0⟩

/-- The body of the loop over the slices (source lines 813-876): the accumulators of the
slice, then the eight assignments at `int_index`. -/
def report_slice (sqrt : α → α) (dAreas u_lon u_lat : List α) (F : Stored α) (S : Sizes)
    (Itime Idepth : Int) (r : Reports α) : Option (Reports α) := do
  let a ← slice_norms sqrt dAreas u_lon u_lat F S Itime Idepth
  let int_index := Index Itime Idepth 0 0 S.Ntime S.Ndepth 1 1
  let tot_areas ← vec_set r.tot_areas int_index a.total_area
  let projection_2error ← vec_set r.projection_2error int_index (sqrt (a.error2 / a.total_area))
  let projection_Inferror ← vec_set r.projection_Inferror int_index a.errorInf
  let velocity_2norm ← vec_set r.velocity_2norm int_index (sqrt (a.orig_KE / a.total_area))
  let velocity_Infnorm ← vec_set r.velocity_Infnorm int_index a.velInf
  let projection_KE ← vec_set r.projection_KE int_index (sqrt (a.proj_KE / a.total_area))
  let toroidal_KE ← vec_set r.toroidal_KE int_index (sqrt (a.tor_KE / a.total_area))
  let potential_KE ← vec_set r.potential_KE int_index (sqrt (a.pot_KE / a.total_area))
  some
    { tot_areas := tot_areas
      projection_2error := projection_2error
      projection_Inferror := projection_Inferror
      velocity_2norm := velocity_2norm
      velocity_Infnorm := velocity_Infnorm
      projection_KE := projection_KE
      toroidal_KE := toroidal_KE
      potential_KE := potential_KE }

/-- The computation of the error norms at the end of `Apply_Helmholtz_Projection` (source
lines 801-878): eight arrays of `Ntime * Ndepth` zeros, then the loop over the slices. -/
def projection_reports (sqrt : α → α) (dAreas u_lon u_lat : List α) (F : Stored α)
    (S : Sizes) : Option (Reports α) :=
  let z : List α := List.replicate (S.Ntime * S.Ndepth).toNat 0
  forLoop S.Ntime.toNat (fun Itime r =>
    forLoop S.Ndepth.toNat (fun Idepth r =>
      report_slice sqrt dAreas u_lon u_lat F S Itime Idepth r) r)
    ⟨z, z, z, z, z, z, z, z⟩

/-- The eight numbers stored at position `q` of the eight arrays. -/
def report_at (r : Reports α) (q : Int) : Option (SliceReport α) := do
  let total_area ← vec_at r.tot_areas q
  let projection_2error ← vec_at r.projection_2error q
  let projection_Inferror ← vec_at r.projection_Inferror q
  let velocity_2norm ← vec_at r.velocity_2norm q
  let velocity_Infnorm ← vec_at r.velocity_Infnorm q
  let projection_KE ← vec_at r.projection_KE q
  let toroidal_KE ← vec_at r.toroidal_KE q
  let potential_KE ← vec_at r.potential_KE q
  some
    { total_area := total_area
      projection_2error := projection_2error
      projection_Inferror := projection_Inferror
      velocity_2norm := velocity_2norm
      velocity_Infnorm := velocity_Infnorm
      projection_KE := projection_KE
      toroidal_KE := toroidal_KE
      potential_KE := potential_KE }

/-- The sum of `f` over the cells `0 .. N - 1` of a slice. -/
def cell_sum (N : Nat) (f : Nat → α) : α := ((List.range N).map f).sum

/-- The largest value of `f` over the cells `0 .. N - 1` of a slice (0 for no cell). -/
def cell_max (N : Nat) (f : Nat → α) : α := ((List.range N).map f).foldl max 0

/-- The squared Euclidean norm of the pair `(a, b)` at the cell `m` of the slice that starts
at `base`. -/
def speed_sq (a b : List α) (base : Int) (m : Nat) : α :=
  slice_value a base m ^ 2 + slice_value b base m ^ 2

/-- The squared Euclidean norm of `u - u_tor - u_pot` at the cell `m` of the slice that
starts at `base`. -/
def residual_sq (u_lon u_lat : List α) (F : Stored α) (base : Int) (m : Nat) : α :=
  (slice_value u_lon base m - slice_value F.full_u_lon_tor base m
      - slice_value F.full_u_lon_pot base m) ^ 2
    + (slice_value u_lat base m - slice_value F.full_u_lat_tor base m
      - slice_value F.full_u_lat_pot base m) ^ 2

/-- The squared Euclidean norm of `u_tor + u_pot` at the cell `m` of the slice that starts at
`base`. -/
def projected_sq (F : Stored α) (base : Int) (m : Nat) : α :=
  (slice_value F.full_u_lon_tor base m + slice_value F.full_u_lon_pot base m) ^ 2
    + (slice_value F.full_u_lat_tor base m + slice_value F.full_u_lat_pot base m) ^ 2

/-- The area-weighted root-mean-square over the `N` cells of a slice of a quantity whose
square at the cell `m` is `f m`. -/
def area_rms (sqrt : α → α) (dAreas : List α) (N : Nat) (f : Nat → α) : α :=
  sqrt (cell_sum N (fun m => sub_value dAreas m * f m) / cell_sum N (fun m => sub_value dAreas m))

/-- The eight numbers of the slice that starts at `base`, in the words of the specification:
the total area, the area-weighted root-mean-square and the maximum of the residual, of the
velocity, and the area-weighted root-mean-square of `u_tor + u_pot`, `u_tor`, `u_pot`. -/
def spec_report (sqrt : α → α) (dAreas u_lon u_lat : List α) (F : Stored α) (N : Nat)
    (base : Int) : SliceReport α :=
  { total_area := cell_sum N (fun m => sub_value dAreas m)
    projection_2error := area_rms sqrt dAreas N (residual_sq u_lon u_lat F base)
    projection_Inferror := cell_max N (fun m => sqrt (residual_sq u_lon u_lat F base m))
    velocity_2norm := area_rms sqrt dAreas N (speed_sq u_lon u_lat base)
    velocity_Infnorm := cell_max N (fun m => sqrt (speed_sq u_lon u_lat base m))
    projection_KE := area_rms sqrt dAreas N (projected_sq F base)
    toroidal_KE := area_rms sqrt dAreas N (speed_sq F.full_u_lon_tor F.full_u_lat_tor base)
    potential_KE := area_rms sqrt dAreas N (speed_sq F.full_u_lon_pot F.full_u_lat_pot base) }

/-- The accumulators after the first `n` cells of the slice that starts at `base`. -/
def partial_norms (sqrt : α → α) (dAreas u_lon u_lat : List α) (F : Stored α) (base : Int)
    (n : Nat) : Norms α :=
  { total_area := cell_sum n (fun m => sub_value dAreas m)
    error2 := cell_sum n (fun m => sub_value dAreas m * residual_sq u_lon u_lat F base m)
    errorInf := cell_max n (fun m => sqrt (residual_sq u_lon u_lat F base m))
    velInf := cell_max n (fun m => sqrt (speed_sq u_lon u_lat base m))
    tor_KE := cell_sum n (fun m => sub_value dAreas m
      * speed_sq F.full_u_lon_tor F.full_u_lat_tor base m)
    pot_KE := cell_sum n (fun m => sub_value dAreas m
      * speed_sq F.full_u_lon_pot F.full_u_lat_pot base m)
    proj_KE := cell_sum n (fun m => sub_value dAreas m * projected_sq F base m)
    orig_KE := cell_sum n (fun m => sub_value dAreas m * speed_sq u_lon u_lat base m) }

/-- The eight arrays of per-slice numbers all have `L` entries. -/
def reports_sized (r : Reports α) (L : Int) : Prop :=
  (r.tot_areas.length : Int) = L ∧ (r.projection_2error.length : Int) = L ∧
  (r.projection_Inferror.length : Int) = L ∧ (r.velocity_2norm.length : Int) = L ∧
  (r.velocity_Infnorm.length : Int) = L ∧ (r.projection_KE.length : Int) = L ∧
  (r.toroidal_KE.length : Int) = L ∧ (r.potential_KE.length : Int) = L

end ErrorNorms

/-- A stand-in for the square root on the rationals: the integer square root of the integer
part.  It is non-negative and maps 0 to 0. -/
def ex_sqrt (x : ℚ) : ℚ := (Nat.sqrt ⌊x⌋.toNat : ℚ)

/-- Stored velocities on the small grid with two depths: the toroidal part carries the whole
velocity and the potential part is zero. -/
def ex_F : Stored ℚ where
  full_u_lon_tor := ex_u_lon_rem ++ ex_u_lat_rem
  full_u_lat_tor := ex_u_lat_rem ++ ex_u_lon_rem
  full_u_lon_pot := List.replicate 24 0
  full_u_lat_pot := List.replicate 24 0
  full_Psi := List.replicate 24 0
  full_Phi := List.replicate 24 0
  Psi_seed := List.replicate 12 0
  Phi_seed := List.replicate 12 0

/-! ## The build-time checks, the processor counts and the output names of the coarse-graining
entry point -/

/-- The compile-time flags of `constants.hpp` that the coarse-graining entry point checks
and that `filtering_helmholtz` reads when it declares and writes its outputs. -/
structure Flags where
  PERIODIC_Y : Bool
  UNIFORM_LAT_GRID : Bool
  NO_FULL_OUTPUTS : Bool
  APPLY_POSTPROCESS : Bool
  MINIMAL_OUTPUT : Bool
  DO_OKUBOWEISS_ANALYSIS : Bool
  COMP_PI_HELMHOLTZ : Bool
deriving DecidableEq, Repr

/-- The three `static_assert` of `main` in `coarse_grain.cpp` (lines 19-34): the program is
built exactly when the three conditions hold. -/
def static_checks (c : Flags) : Bool :=
  (c.UNIFORM_LAT_GRID || !c.PERIODIC_Y) &&
  (c.APPLY_POSTPROCESS || !c.NO_FULL_OUTPUTS) &&
  (c.MINIMAL_OUTPUT || !c.NO_FULL_OUTPUTS)

/-- The guard `not(constants::NO_FULL_OUTPUTS)` under which `filtering_helmholtz` creates the
output file of a scale with `initialize_output_file` (lines 523-528). -/
def file_initialised (c : Flags) : Bool := !c.NO_FULL_OUTPUTS

/-- The guard `constants::APPLY_POSTPROCESS` under which `filtering_helmholtz` calls
`Apply_Postprocess_Routines` for a scale (lines 956-975). -/
def postprocess_applied (c : Flags) : Bool := c.APPLY_POSTPROCESS

/-- The names pushed to `vars_to_write` by `filtering_helmholtz` (lines 309-385), in program
order. -/
def vars_to_write (c : Flags) : List String :=
  (if !c.NO_FULL_OUTPUTS then
    ["coarse_F_tor", "coarse_F_pot"] ++
    (if c.COMP_PI_HELMHOLTZ then ["coarse_uiuj_F_r", "coarse_uiuj_F_Phi", "coarse_uiuj_F_Psi"]
      else []) ++
    ["u_lon_tor", "u_lat_tor", "u_lon_pot", "u_lat_pot",
     "KE_tor_fine", "KE_pot_fine", "KE_tot_fine",
     "Pi_tor", "Pi_pot", "Pi_tot"] ++
    (if c.COMP_PI_HELMHOLTZ then ["Pi_Helm"] else []) ++
    ["Pi2_tor", "Pi2_pot", "Pi2_tot", "Z_tor", "Z_pot", "Z_tot"]
  else []) ++
  (if !c.MINIMAL_OUTPUT then
    ["KE_tor_fine_mod", "KE_pot_fine_mod", "KE_tot_fine_mod", "div_tor", "div_pot", "div_tot"] ++
    (if c.DO_OKUBOWEISS_ANALYSIS then ["OkuboWeiss_tor", "OkuboWeiss_pot", "OkuboWeiss_tot"]
      else []) ++
    ["KE_tor_filt", "KE_pot_filt", "KE_tot_filt",
     "Enstrophy_tor", "Enstrophy_pot", "Enstrophy_tot",
     "vort_r_tor", "vort_r_pot", "vort_r_tot"] ++
    (if c.COMP_PI_HELMHOLTZ then ["coarse_uu", "coarse_uv", "coarse_vv"] else [])
  else [])

/-- The names passed to `write_field_to_output` by `filtering_helmholtz` in one iteration of
the loop over the scales (lines 736-950), in program order. -/
def written_vars (c : Flags) : List String :=
  (if !c.NO_FULL_OUTPUTS then
    ["coarse_F_tor", "coarse_F_pot"] ++
    (if c.COMP_PI_HELMHOLTZ then ["coarse_uiuj_F_r", "coarse_uiuj_F_Phi", "coarse_uiuj_F_Psi"]
      else [])
  else []) ++
  (if !c.NO_FULL_OUTPUTS then ["u_lon_tor", "u_lat_tor", "u_lon_pot", "u_lat_pot"] else []) ++
  (if c.COMP_PI_HELMHOLTZ then
    (if !c.MINIMAL_OUTPUT then ["coarse_uu", "coarse_uv", "coarse_vv"] else [])
  else []) ++
  (if !c.MINIMAL_OUTPUT then
    ["div_tor", "div_pot", "div_tot"] ++
    (if c.DO_OKUBOWEISS_ANALYSIS then ["OkuboWeiss_tor", "OkuboWeiss_pot", "OkuboWeiss_tot"]
      else [])
  else []) ++
  (if !c.NO_FULL_OUTPUTS then
    ["Pi_tor", "Pi_pot", "Pi_tot", "Pi2_tor", "Pi2_pot", "Pi2_tot"] ++
    (if c.COMP_PI_HELMHOLTZ then ["Pi_Helm"] else []) ++
    ["Z_tor", "Z_pot", "Z_tot"]
  else []) ++
  (if !c.NO_FULL_OUTPUTS then
    ["KE_tor_filt", "KE_pot_filt", "KE_tot_filt", "KE_tor_fine", "KE_pot_fine", "KE_tot_fine"]
  else []) ++
  (if !c.MINIMAL_OUTPUT then
    ["KE_tor_fine_mod", "KE_pot_fine_mod", "KE_tot_fine_mod",
     "Enstrophy_tor", "Enstrophy_pot", "Enstrophy_tot",
     "vort_r_tor", "vort_r_pot", "vort_r_tot"]
  else [])

/-- The cleaning of the processor allotments in `main` of `coarse_grain.cpp` (lines 148-153):
the pair `(Nprocs_in_time, Nprocs_in_depth)`. -/
def adjusted_Nprocs (Ntime Ndepth wSize Nprocs_in_time_input Nprocs_in_depth_input : Int) :
    Int × Int :=
  (if Ntime = 1 then 1 else if Ndepth = 1 then wSize else Nprocs_in_time_input,
   if Ndepth = 1 then 1 else if Ntime = 1 then wSize else Nprocs_in_depth_input)

/-- The test of `assert( Nprocs_in_time * Nprocs_in_depth == wSize )` (line 163). -/
def Nprocs_assertion (wSize : Int) (Nprocs : Int × Int) : Bool :=
  decide (Nprocs.1 * Nprocs.2 = wSize)

/-! ## The row weights of the least-squares system -/

/-- The vector `W` of the specification: row `r` of the system of `4 N` rows belongs to the grid
point `r mod N`, and its entry of `W` is the cell area of that point. -/
def spec_row_weight {α : Type} [Zero α] (dAreas : List α) (S : Sizes) (r : Int) : α :=
  dAreas.getD (r % (S.Nlat * S.Nlon)).toNat 0

/-- A grid of one time, one depth, one latitude and two longitudes. -/
def ex_S1 : Sizes := ⟨1, 1, 1, 2⟩

/-! ## The 32-bit arithmetic of `Index` -/

/-- The value that a 32-bit `int` holds after an arithmetic result `x`: the representative of
`x` modulo `2^32` in `[-2^31, 2^31)` (two's complement wrap-around). -/
def int32 (x : Int) : Int := (x + 2 ^ 31) % 2 ^ 32 - 2 ^ 31

set_option linter.unusedVariables false in
/-- The function `Index` of `src/Functions/Index.cpp` in the arithmetic of the code: the
arguments and the result are 32-bit `int`, and so is every product and every sum of the
expression `Itime * (Ndepth * Nlat * Nlon) + Idepth * (Nlat * Nlon) + Ilat * (Nlon) + Ilon`.
(`Index` is the value of the same expression in unbounded integers.) -/
def Index_int32 (Itime Idepth Ilat Ilon Ntime Ndepth Nlat Nlon : Int) : Int :=
  int32 (int32 (int32 (int32 (Itime * int32 (int32 (Ndepth * Nlat) * Nlon))
      + int32 (Idepth * int32 (Nlat * Nlon))) + int32 (Ilat * Nlon)) + Ilon)

/-! ## The output times of the particles entry point -/

section Particles
variable {α : Type} [LinearOrderedField α]

/-- The cast `(int) x` of a `double` to the 32-bit `int`: truncation toward zero when the
truncated value is in `[-2^31, 2^31)`.  Outside this range the conversion is undefined in
C++, and `out_of_range` stands for the value the program then holds (the conversion
instruction of x86-64 gives `-2^31`). -/
def trunc_int [FloorRing α] (out_of_range : Int) (x : α) : Int :=
  let t : Int := if 0 ≤ x then ⌊x⌋ else ⌈x⌉
  if -2 ^ 31 ≤ t ∧ t < 2 ^ 31 then t else out_of_range

/-- The number of outputs of the particles entry point (`particles.cpp`, line 113):
`std::max( (int) ( (final_time - start_time) / out_freq ), 2 )`.  The integer part jumps with
the quotient, so the quotient under the cast is the one the machine computes: `fsub` and
`fdiv` are the subtraction and the division of two `double`, rounding included. -/
def Nouts [FloorRing α] (fsub fdiv : α → α → α) (out_of_range : Int)
    (start_time final_time out_freq : α) : Int :=
  max (trunc_int out_of_range (fdiv (fsub final_time start_time) out_freq)) 2

/-- The output times of the particles entry point (`particles.cpp`, lines 119-122): a vector
of `Nouts` entries, then the loop `target_times.at(II) = start_time
+ (double)II * (final_time - start_time) / Nouts`. -/
def target_times (Nouts : Int) (start_time final_time : α) : Option (List α) :=
  forLoop Nouts.toNat (fun II target_times =>
      vec_set target_times II
        (start_time + (II : α) * (final_time - start_time) / (Nouts : α)))
    (List.replicate Nouts.toNat 0)

end Particles

/-- The subtraction of two `double` on the rationals, exact: it agrees with the machine on
operands whose difference is a `double`, such as integers below `2^53`. -/
def ex_fsub (a b : ℚ) : ℚ := a - b

/-- The division of two `double` on the rationals, exact: it agrees with the machine on
operands whose quotient is a `double`. -/
def ex_fdiv (a b : ℚ) : ℚ := a / b

/-! ## Auxiliary lemmas: loops, lists and index arithmetic -/

theorem vec_at_natCast {β : Type} (v : List β) (i : Nat) : vec_at v (i : Int) = v[i]? := by
  simp [vec_at]

theorem vec_set_natCast {β : Type} (v : List β) (i : Nat) (x : β) (h : i < v.length) :
    vec_set v (i : Int) x = some (v.set i x) := by
  simp [vec_set, h]

theorem list_set_getElem_self {β : Type} (l : List β) (i : Nat) (h : i < l.length) :
    l.set i l[i] = l := by
  apply List.ext_getElem?
  intro n
  by_cases hn : i = n
  · subst hn
    rw [List.getElem?_set_self h, List.getElem?_eq_getElem h]
  · rw [List.getElem?_set_ne hn]

theorem vec_at_getD {β : Type} (v : List β) (p : Int) (d : β) (h0 : 0 ≤ p)
    (h1 : p < v.length) : vec_at v p = some (v.getD p.toNat d) := by
  have h2 : p.toNat < v.length := by omega
  simp [vec_at, h0, List.getD, List.getElem?_eq_getElem h2]

theorem vec_set_of_lt {β : Type} (v : List β) (p : Int) (x : β) (h0 : 0 ≤ p)
    (h1 : p < v.length) : vec_set v p x = some (v.set p.toNat x) := by
  have h2 : p.toNat < v.length := by omega
  simp [vec_set, h0, h2]

/-- Reading a vector after one assignment. -/
theorem vec_at_set {β : Type} (v : List β) (p q : Int) (x : β) (h0 : 0 ≤ p)
    (h1 : p < v.length) :
    vec_at (v.set p.toNat x) q = if q = p then some x else vec_at v q := by
  have h2 : p.toNat < v.length := by omega
  by_cases hq : q = p
  · subst hq
    simp [vec_at, h0, List.getElem?_set_self h2]
  · simp only [vec_at, hq, if_false]
    by_cases hq0 : 0 ≤ q
    · have hne : p.toNat ≠ q.toNat := by omega
      simp [hq0, List.getElem?_set_ne hne]
    · simp [hq0]

/-- Reading a vector after one assignment at a natural-number position. -/
theorem vec_at_set_nat {β : Type} (v : List β) (n : Nat) (q : Int) (x : β)
    (h : n < v.length) :
    vec_at (v.set n x) q = if q = (n : Int) then some x else vec_at v q := by
  have h2 := vec_at_set v (n : Int) q x (by omega) (by omega)
  simpa using h2

/-- Four assignments at pairwise distinct positions inside a vector: the four values read
back and everything else unchanged. -/
theorem set4_spec {β : Type} (R : List β) (a0 a1 a2 a3 : Nat) (x0 x1 x2 x3 : β)
    (l0 : a0 < R.length) (l1 : a1 < R.length) (l2 : a2 < R.length) (l3 : a3 < R.length)
    (d01 : a0 ≠ a1) (d02 : a0 ≠ a2) (d03 : a0 ≠ a3) (d12 : a1 ≠ a2) (d13 : a1 ≠ a3)
    (d23 : a2 ≠ a3) :
    vec_at ((((R.set a0 x0).set a1 x1).set a2 x2).set a3 x3) (a0 : Int) = some x0 ∧
    vec_at ((((R.set a0 x0).set a1 x1).set a2 x2).set a3 x3) (a1 : Int) = some x1 ∧
    vec_at ((((R.set a0 x0).set a1 x1).set a2 x2).set a3 x3) (a2 : Int) = some x2 ∧
    vec_at ((((R.set a0 x0).set a1 x1).set a2 x2).set a3 x3) (a3 : Int) = some x3 ∧
    (∀ q : Int, q ≠ (a0 : Int) → q ≠ (a1 : Int) → q ≠ (a2 : Int) → q ≠ (a3 : Int) →
      vec_at ((((R.set a0 x0).set a1 x1).set a2 x2).set a3 x3) q = vec_at R q) := by
  refine ⟨?_, ?_, ?_, ?_, ?_⟩
  · simp [vec_at_set_nat, l0, l1, l2, l3, d01, d02, d03]
  · simp [vec_at_set_nat, l0, l1, l2, l3, d12, d13]
  · simp [vec_at_set_nat, l0, l1, l2, l3, d23]
  · simp [vec_at_set_nat, l0, l1, l2, l3]
  · intro q q0 q1 q2 q3
    simp [vec_at_set_nat, l0, l1, l2, l3, q0, q1, q2, q3]

theorem filled_zero {β : Type} (old : List β) (base : Int) (val : Int → β) :
    filled old old base val 0 :=
  ⟨rfl, fun m h0 h1 => absurd h1 (by omega), fun _ _ => rfl⟩

/-- One more assignment, at position `base + n`. -/
theorem filled_step {β : Type} (old v : List β) (base : Int) (val : Int → β) (n : Int)
    (x : β) (h : filled old v base val n) (hn : 0 ≤ n) (hb : 0 ≤ base)
    (hlt : base + n < old.length) (hx : x = val n) :
    ∃ v2, vec_set v (base + n) x = some v2 ∧ filled old v2 base val (n + 1) := by
  obtain ⟨hl, hdone, hfr⟩ := h
  refine ⟨_, vec_set_of_lt v (base + n) x (by omega) (by omega), by simp [hl], ?_, ?_⟩
  · intro m hm0 hm1
    rw [vec_at_set v (base + n) (base + m) x (by omega) (by omega)]
    by_cases hmn : m = n
    · subst hmn; simp [hx]
    · rw [if_neg (by omega)]
      exact hdone m hm0 (by omega)
  · intro q hq
    rw [vec_at_set v (base + n) q x (by omega) (by omega), if_neg (by omega)]
    exact hfr q (by omega)

theorem Index_split (S : Sizes) (Itime Idepth Ilat Ilon : Int) :
    Index Itime Idepth Ilat Ilon S.Ntime S.Ndepth S.Nlat S.Nlon
      = Index Itime Idepth 0 0 S.Ntime S.Ndepth S.Nlat S.Nlon + (Ilat * S.Nlon + Ilon) := by
  simp only [Index]
  ring

/-- The invariant rule for `forLoop`. -/
theorem forLoop_inv {σ : Type} (P : Nat → σ → Prop) (n : Nat) (body : Int → σ → Option σ)
    (s : σ) (h0 : P 0 s)
    (hstep : ∀ (k : Nat) (t : σ), k < n → P k t → ∃ t2, body (k : Int) t = some t2 ∧ P (k + 1) t2) :
    ∃ t, forLoop n body s = some t ∧ P n t := by
  induction n with
  | zero => exact ⟨s, rfl, h0⟩
  | succ m ih =>
    obtain ⟨t, ht, hP⟩ := ih (fun k t hk hp => hstep k t (Nat.lt_succ_of_lt hk) hp)
    obtain ⟨t2, ht2, hP2⟩ := hstep m t (Nat.lt_succ_self m) hP
    exact ⟨t2, by simp [forLoop, ht, ht2], hP2⟩

theorem vec_at_of_lt {β : Type} (v : List β) (i : Int) (h0 : 0 ≤ i) (h1 : i < v.length) :
    ∃ x, vec_at v i = some x := by
  have h2 : i.toNat < v.length := by omega
  exact ⟨v[i.toNat], by simp [vec_at, h0, h2]⟩

theorem forLoop_append {β : Type} (n : Nat) (body : Int → List β → Option (List β))
    (g : Nat → List β) (h : ∀ i : Nat, i < n → ∀ M, body (i : Int) M = some (M ++ g i))
    (M : List β) : forLoop n body M = some (M ++ (List.range n).flatMap g) := by
  induction n with
  | zero => simp [forLoop]
  | succ k ih =>
    have ih2 := ih (fun i hi => h i (Nat.lt_succ_of_lt hi))
    simp [forLoop, ih2, h k (Nat.lt_succ_self k), List.range_succ, List.flatMap_append]

theorem filter_range_flatMap {β : Type} (n : Nat) (g : Nat → List β) (p : β → Bool)
    (i0 : Nat) (h0 : i0 < n) (hother : ∀ i, i < n → i ≠ i0 → (g i).filter p = []) :
    ((List.range n).flatMap g).filter p = (g i0).filter p := by
  induction n with
  | zero => omega
  | succ k ih =>
    rw [List.range_succ, List.flatMap_append, List.filter_append]
    by_cases hk : i0 = k
    · subst hk
      have hnil : ((List.range i0).flatMap g).filter p = [] := by
        rw [List.filter_eq_nil_iff]
        intro a ha
        rw [List.mem_flatMap] at ha
        obtain ⟨i, hi, hai⟩ := ha
        have hi2 : i < i0 := List.mem_range.mp hi
        have hfi := hother i (by omega) (by omega)
        rw [List.filter_eq_nil_iff] at hfi
        exact hfi a hai
      simp [hnil]
    · have h1 := ih (by omega) (fun i hi hne => hother i (by omega) hne)
      have h2 := hother k (by omega) (fun h => hk h.symm)
      simp [h1, h2]

theorem filter_range_flatMap_nil {β : Type} (n : Nat) (g : Nat → List β) (p : β → Bool)
    (hall : ∀ i, i < n → (g i).filter p = []) :
    ((List.range n).flatMap g).filter p = [] := by
  rw [List.filter_eq_nil_iff]
  intro a ha
  rw [List.mem_flatMap] at ha
  obtain ⟨i, hi, hai⟩ := ha
  have hfi := hall i (List.mem_range.mp hi)
  rw [List.filter_eq_nil_iff] at hfi
  exact hfi a hai

/-- Uniqueness of the decomposition `k * N + a` with `0 ≤ a < N`. -/
theorem lin_inj (N k k0 a b : Int) (ha0 : 0 ≤ a) (haN : a < N) (hb0 : 0 ≤ b) (hbN : b < N)
    (h : k * N + a = k0 * N + b) : k = k0 ∧ a = b := by
  have hN : N ≠ 0 := by omega
  have h1 : (a + k * N) / N = k := by
    rw [Int.add_mul_ediv_right _ _ hN, Int.ediv_eq_zero_of_lt ha0 haN]; simp
  have h2 : (b + k0 * N) / N = k0 := by
    rw [Int.add_mul_ediv_right _ _ hN, Int.ediv_eq_zero_of_lt hb0 hbN]; simp
  have h3 : a + k * N = b + k0 * N := by omega
  rw [h3] at h1
  have hk : k = k0 := h1.symm.trans h2
  subst hk
  exact ⟨rfl, by omega⟩

/-- The truncating remainder by a positive divisor lies above the negated divisor. -/
theorem tmod_gt_neg (a b : Int) (hb : 0 < b) : -b < a.tmod b := by
  obtain ⟨n, rfl⟩ := Int.eq_ofNat_of_zero_le hb.le
  cases a with
  | ofNat m =>
    have := Int.tmod_nonneg (n : Int) (Int.ofNat_nonneg m)
    simp only [Int.ofNat_eq_coe] at *
    omega
  | negSucc m =>
    have hn : 0 < n := by omega
    have h2 : (Int.negSucc m).tmod (n : Int) = -(((m + 1) % n : Nat) : Int) := rfl
    rw [h2]
    have := Nat.mod_lt (m + 1) hn
    omega

/-- The periodic reduction lands in `[0, N)`. -/
theorem wrap_index_range (IDIFF N : Int) (hN : 0 < N) :
    0 ≤ wrap_index true IDIFF N ∧ wrap_index true IDIFF N < N := by
  have h1 := tmod_gt_neg IDIFF N hN
  simp only [wrap_index, if_true]
  exact ⟨Int.tmod_nonneg N (by omega), Int.tmod_lt_of_pos _ hN⟩

/-- The periodic reduction differs from its argument by a multiple of `N`. -/
theorem wrap_index_congr (IDIFF N : Int) :
    ∃ q : Int, wrap_index true IDIFF N = IDIFF + q * N := by
  refine ⟨1 - IDIFF.tdiv N - (IDIFF.tmod N + N).tdiv N, ?_⟩
  simp only [wrap_index, if_true]
  rw [Int.tmod_def (IDIFF.tmod N + N) N, Int.tmod_def IDIFF N]
  ring

theorem Index_sub_eq (Ilat Ilon Nlat Nlon : Int) :
    Index 0 0 Ilat Ilon 1 1 Nlat Nlon = Ilat * Nlon + Ilon := by
  simp [Index]

/-- The in-slice offset of an in-range point lies in `[0, Nlat * Nlon)`. -/
theorem Index_sub_range (Ilat Ilon Nlat Nlon : Int) (h1 : 0 ≤ Ilat) (h2 : Ilat < Nlat)
    (h3 : 0 ≤ Ilon) (h4 : Ilon < Nlon) :
    0 ≤ Index 0 0 Ilat Ilon 1 1 Nlat Nlon ∧ Index 0 0 Ilat Ilon 1 1 Nlat Nlon < Nlat * Nlon := by
  rw [Index_sub_eq]
  have hN : 0 ≤ Nlon := by omega
  have ha : 0 ≤ Ilat * Nlon := Int.mul_nonneg h1 hN
  have hb : (Ilat + 1) * Nlon ≤ Nlat * Nlon := Int.mul_le_mul_of_nonneg_right (by omega) hN
  have hc : (Ilat + 1) * Nlon = Ilat * Nlon + Nlon := by ring
  constructor <;> omega

theorem mem_stencil_for {α : Type} (body : Int → α → List (Entry α)) (dv : List α) (LB : Int)
    (e : Entry α) (h : e ∈ stencil_for LB dv body) : ∃ IDIFF d, e ∈ body IDIFF d := by
  induction dv generalizing LB with
  | nil => simp [stencil_for] at h
  | cons d ds ih =>
    simp only [stencil_for, List.mem_append] at h
    rcases h with h | h
    · exact ⟨LB, d, h⟩
    · exact ih (LB + 1) h

theorem mem_stencil_pair {α : Type} (b : Bool) (LB : Int) (dv : List α) (r1 r2 : Int)
    (c1 c2 : Int → Int) (v1 v2 : α → α) (e : Entry α)
    (h : e ∈ stencil_pair b LB dv r1 r2 c1 c2 v1 v2) :
    ∃ IDIFF d, e = ⟨r1, c1 IDIFF, v1 d⟩ ∨ e = ⟨r2, c2 IDIFF, v2 d⟩ := by
  cases b
  · simp [stencil_pair] at h
  · simp only [stencil_pair, if_true] at h
    obtain ⟨IDIFF, d, hm⟩ := mem_stencil_for _ _ _ _ h
    refine ⟨IDIFF, d, ?_⟩
    simpa using hm

/-- The values placed by a stencil loop are the scaled weights, in order. -/
theorem placed_vals {α : Type} (row : Int) (col : Int → Int) (scale : α → α) (LB : Int)
    (dv : List α) : (placed row col scale LB dv).map Entry.val = dv.map scale := by
  unfold placed
  induction dv generalizing LB with
  | nil => simp [stencil_for]
  | cons d ds ih => simp [stencil_for, ih]

theorem row_entries_append {α : Type} (M1 M2 : List (Entry α)) (r : Int) :
    row_entries (M1 ++ M2) r = row_entries M1 r ++ row_entries M2 r := by
  simp [row_entries]

theorem row_entries_stencil_for {α : Type} (body : Int → α → List (Entry α)) (dv : List α)
    (LB : Int) (r : Int) :
    row_entries (stencil_for LB dv body) r
      = stencil_for LB dv (fun IDIFF d => row_entries (body IDIFF d) r) := by
  induction dv generalizing LB with
  | nil => simp [stencil_for, row_entries]
  | cons d ds ih => simp only [stencil_for, row_entries_append, ih]

/-- A stencil loop whose body makes one call on row `r1` and one on a different row `r2`:
the calls on `r1`. -/
theorem row_entries_pair_fst {α : Type} (r1 r2 : Int) (c1 c2 : Int → Int) (v1 v2 : α → α)
    (LB : Int) (dv : List α) (hne : r2 ≠ r1) :
    row_entries (stencil_for LB dv (fun IDIFF d =>
        [⟨r1, c1 IDIFF, v1 d⟩, ⟨r2, c2 IDIFF, v2 d⟩])) r1 = placed r1 c1 v1 LB dv := by
  rw [row_entries_stencil_for]
  simp [row_entries, placed, hne]

/-- A stencil loop whose body makes one call on row `r1` and one on a different row `r2`:
the calls on `r2`. -/
theorem row_entries_pair_snd {α : Type} (r1 r2 : Int) (c1 c2 : Int → Int) (v1 v2 : α → α)
    (LB : Int) (dv : List α) (hne : r1 ≠ r2) :
    row_entries (stencil_for LB dv (fun IDIFF d =>
        [⟨r1, c1 IDIFF, v1 d⟩, ⟨r2, c2 IDIFF, v2 d⟩])) r2 = placed r2 c2 v2 LB dv := by
  rw [row_entries_stencil_for]
  simp [row_entries, placed, hne]

/-- A stencil loop whose body makes calls on rows `r1` and `r2` only: no call on another
row. -/
theorem row_entries_pair_other {α : Type} (r1 r2 r : Int) (c1 c2 : Int → Int)
    (v1 v2 : α → α) (LB : Int) (dv : List α) (h1 : r1 ≠ r) (h2 : r2 ≠ r) :
    row_entries (stencil_for LB dv (fun IDIFF d =>
        [⟨r1, c1 IDIFF, v1 d⟩, ⟨r2, c2 IDIFF, v2 d⟩])) r = [] := by
  rw [row_entries_stencil_for]
  have hb : (fun (IDIFF : Int) (d : α) =>
      row_entries [(⟨r1, c1 IDIFF, v1 d⟩ : Entry α), ⟨r2, c2 IDIFF, v2 d⟩] r)
      = fun _ _ => [] := by
    funext IDIFF d
    simp [row_entries, h1, h2]
  rw [hb]
  clear hb
  induction dv generalizing LB with
  | nil => simp [stencil_for]
  | cons d ds ih => simp [stencil_for, ih]

theorem row_entries_stencil_pair_fst {α : Type} (b : Bool) (r1 r2 : Int) (c1 c2 : Int → Int)
    (v1 v2 : α → α) (LB : Int) (dv : List α) (hne : r2 ≠ r1) :
    row_entries (stencil_pair b LB dv r1 r2 c1 c2 v1 v2) r1
      = if b then placed r1 c1 v1 LB dv else [] := by
  cases b
  · simp [stencil_pair, row_entries]
  · simp only [stencil_pair, if_true]
    exact row_entries_pair_fst r1 r2 c1 c2 v1 v2 LB dv hne

theorem row_entries_stencil_pair_snd {α : Type} (b : Bool) (r1 r2 : Int) (c1 c2 : Int → Int)
    (v1 v2 : α → α) (LB : Int) (dv : List α) (hne : r1 ≠ r2) :
    row_entries (stencil_pair b LB dv r1 r2 c1 c2 v1 v2) r2
      = if b then placed r2 c2 v2 LB dv else [] := by
  cases b
  · simp [stencil_pair, row_entries]
  · simp only [stencil_pair, if_true]
    exact row_entries_pair_snd r1 r2 c1 c2 v1 v2 LB dv hne

theorem row_entries_stencil_pair_other {α : Type} (b : Bool) (r1 r2 r : Int)
    (c1 c2 : Int → Int) (v1 v2 : α → α) (LB : Int) (dv : List α) (h1 : r1 ≠ r)
    (h2 : r2 ≠ r) : row_entries (stencil_pair b LB dv r1 r2 c1 c2 v1 v2) r = [] := by
  cases b
  · simp [stencil_pair, row_entries]
  · simp only [stencil_pair, if_true]
    exact row_entries_pair_other r1 r2 r c1 c2 v1 v2 LB dv h1 h2

theorem map_scale_stencil_pair {α : Type} [Mul α] (c : α) (b : Bool) (LB : Int) (dv : List α)
    (r1 r2 : Int) (c1 c2 : Int → Int) (v1 v2 : α → α) :
    (stencil_pair b LB dv r1 r2 c1 c2 v1 v2).map (scale_entry c)
      = stencil_pair b LB dv r1 r2 c1 c2 (fun d => v1 d * c) (fun d => v2 d * c) := by
  cases b
  · simp [stencil_pair]
  · simp only [stencil_pair, if_true]
    induction dv generalizing LB with
    | nil => simp [stencil_for]
    | cons d ds ih => simp [stencil_for, ih, scale_entry]

theorem row_entries_map_scale {α : Type} [Mul α] (c : α) (M : List (Entry α)) (r : Int) :
    row_entries (M.map (scale_entry c)) r = (row_entries M r).map (scale_entry c) := by
  induction M with
  | nil => simp [row_entries]
  | cons e es ih =>
    simp only [row_entries, List.map_cons, List.filter_cons] at ih ⊢
    by_cases h : e.row = r
    · simp [scale_entry, h, ih]
    · simp [scale_entry, h, ih]

/-- Restricting the calls made over the grid to a row that only the point `(i0, j0)` can
touch leaves the calls of that point. -/
theorem row_entries_all_points {α : Type} (S : Sizes) (f : Int → Int → List (Entry α))
    (r : Int) (i0 j0 : Int) (hi0 : 0 ≤ i0) (hi1 : i0 < S.Nlat) (hj0 : 0 ≤ j0)
    (hj1 : j0 < S.Nlon)
    (hother : ∀ i j : Int, 0 ≤ i → i < S.Nlat → 0 ≤ j → j < S.Nlon → ¬(i = i0 ∧ j = j0) →
      row_entries (f i j) r = []) :
    row_entries (all_points S f) r = row_entries (f i0 j0) r := by
  unfold all_points row_entries
  have e1 : ((i0.toNat : Nat) : Int) = i0 := Int.toNat_of_nonneg hi0
  have e2 : ((j0.toNat : Nat) : Int) = j0 := Int.toNat_of_nonneg hj0
  rw [filter_range_flatMap S.Nlat.toNat _ _ i0.toNat (by omega)]
  · rw [filter_range_flatMap S.Nlon.toNat _ _ j0.toNat (by omega)]
    · rw [e1, e2]
    · intro j hj hne
      rw [e1]
      exact hother i0 j hi0 hi1 (by omega) (by omega) (by omega)
  · intro i hi hne
    apply filter_range_flatMap_nil
    intro j hj
    exact hother i j (by omega) (by omega) (by omega) (by omega) (by omega)

/-- The rows of in-range grid points are pairwise distinct, across blocks and points. -/
theorem point_row_inj (S : Sizes) (k k0 i j i0 j0 : Int) (hi0 : 0 ≤ i) (hi1 : i < S.Nlat)
    (hj0 : 0 ≤ j) (hj1 : j < S.Nlon) (hi0' : 0 ≤ i0) (hi1' : i0 < S.Nlat) (hj0' : 0 ≤ j0)
    (hj1' : j0 < S.Nlon) (h : point_row S k i j = point_row S k0 i0 j0) :
    k = k0 ∧ i = i0 ∧ j = j0 := by
  unfold point_row at h
  have r1 := Index_sub_range i j S.Nlat S.Nlon hi0 hi1 hj0 hj1
  have r2 := Index_sub_range i0 j0 S.Nlat S.Nlon hi0' hi1' hj0' hj1'
  have h1 := lin_inj (S.Nlat * S.Nlon) k k0 _ _ r1.1 r1.2 r2.1 r2.2 h
  rw [Index_sub_eq, Index_sub_eq] at h1
  have h2 := lin_inj S.Nlon i i0 j j0 hj0 hj1 hj0' hj1' h1.2
  exact ⟨h1.1, h2.1, h2.2⟩

theorem point_row_ne (S : Sizes) (k k0 i j i0 j0 : Int) (hi0 : 0 ≤ i) (hi1 : i < S.Nlat)
    (hj0 : 0 ≤ j) (hj1 : j < S.Nlon) (hi0' : 0 ≤ i0) (hi1' : i0 < S.Nlat) (hj0' : 0 ≤ j0)
    (hj1' : j0 < S.Nlon) (hne : ¬(k = k0 ∧ i = i0 ∧ j = j0)) :
    point_row S k i j ≠ point_row S k0 i0 j0 :=
  fun h => hne (point_row_inj S k k0 i j i0 j0 hi0 hi1 hj0 hj1 hi0' hi1' hj0' hj1' h)

/-! ## The six stencil loops as guarded two-row loops -/

section PartLemmas

variable {α : Type} [LinearOrderedField α]
variable (K : Constants α) (cos : α → α) (get_diff_vector : GetDiffVector α)

theorem vel_lon_part_eq (A : Args α) (S : Sizes) (Ilat Ilon : Int) (w c : α) :
    vel_lon_part K get_diff_vector A S Ilat Ilon w c
      = stencil_pair (built (lon_stencil K get_diff_vector A S Ilat Ilon 1) (-2 * S.Nlon))
          (lon_stencil K get_diff_vector A S Ilat Ilon 1).2
          (lon_stencil K get_diff_vector A S Ilat Ilon 1).1
          (point_row S 1 Ilat Ilon) (point_row S 0 Ilat Ilon)
          (lon_col K S Ilat 0) (lon_col K S Ilat 1)
          (fun d => d * c * (1 / K.R_earth) * w) (fun d => d * c * (1 / K.R_earth) * w) := by
  unfold vel_lon_part stencil_pair built point_row lon_col
  by_cases h : (lon_stencil K get_diff_vector A S Ilat Ilon 1).2 = -2 * S.Nlon <;> simp [h]

theorem vel_lat_part_eq (A : Args α) (S : Sizes) (Ilat Ilon : Int) (w : α) :
    vel_lat_part K get_diff_vector A S Ilat Ilon w
      = stencil_pair (built (lat_stencil K get_diff_vector A S Ilat Ilon 1) (-2 * S.Nlat))
          (lat_stencil K get_diff_vector A S Ilat Ilon 1).2
          (lat_stencil K get_diff_vector A S Ilat Ilon 1).1
          (point_row S 0 Ilat Ilon) (point_row S 1 Ilat Ilon)
          (lat_col K S Ilon 0) (lat_col K S Ilon 1)
          (fun d => -(d * (1 / K.R_earth) * w)) (fun d => d * (1 / K.R_earth) * w) := by
  unfold vel_lat_part stencil_pair built point_row lat_col
  by_cases h : (lat_stencil K get_diff_vector A S Ilat Ilon 1).2 = -2 * S.Nlat <;> simp [h]

theorem zonal_part_eq (A : Args α) (S : Sizes) (Ilat Ilon : Int) (w c : α) :
    zonal_part K get_diff_vector A S Ilat Ilon w c
      = stencil_pair (built (lon_stencil K get_diff_vector A S Ilat Ilon 1) (-2 * S.Nlon))
          (lon_stencil K get_diff_vector A S Ilat Ilon 1).2
          (lon_stencil K get_diff_vector A S Ilat Ilon 1).1
          (point_row S 2 Ilat Ilon) (point_row S 3 Ilat Ilon)
          (lon_col K S Ilat 1) (lon_col K S Ilat 0)
          (fun d => d * c * (1 / K.R_earth) * w) (fun d => d * c * (1 / K.R_earth) * w) := by
  unfold zonal_part stencil_pair built point_row lon_col
  by_cases h : (lon_stencil K get_diff_vector A S Ilat Ilon 1).2 = -2 * S.Nlon <;> simp [h]

theorem lap_lon2_part_eq (A : Args α) (S : Sizes) (Ilat Ilon : Int) (w c2 : α) :
    lap_lon2_part K get_diff_vector A S Ilat Ilon w c2
      = stencil_pair (built (lon_stencil K get_diff_vector A S Ilat Ilon 2) (-2 * S.Nlon))
          (lon_stencil K get_diff_vector A S Ilat Ilon 2).2
          (lon_stencil K get_diff_vector A S Ilat Ilon 2).1
          (point_row S 2 Ilat Ilon) (point_row S 3 Ilat Ilon)
          (lon_col K S Ilat 0) (lon_col K S Ilat 1)
          (fun d => d * c2 * (1 / K.R_earth) ^ 2 *
            (w * A.Tikhov_Laplace / A.deriv_scale_factor))
          (fun d => d * c2 * (1 / K.R_earth) ^ 2 *
            (w * A.Tikhov_Laplace / A.deriv_scale_factor)) := by
  unfold lap_lon2_part stencil_pair built point_row lon_col
  by_cases h : (lon_stencil K get_diff_vector A S Ilat Ilon 2).2 = -2 * S.Nlon <;> simp [h]

theorem lap_lat2_part_eq (A : Args α) (S : Sizes) (Ilat Ilon : Int) (w : α) :
    lap_lat2_part K get_diff_vector A S Ilat Ilon w
      = stencil_pair (built (lat_stencil K get_diff_vector A S Ilat Ilon 2) (-2 * S.Nlat))
          (lat_stencil K get_diff_vector A S Ilat Ilon 2).2
          (lat_stencil K get_diff_vector A S Ilat Ilon 2).1
          (point_row S 2 Ilat Ilon) (point_row S 3 Ilat Ilon)
          (lat_col K S Ilon 0) (lat_col K S Ilon 1)
          (fun d => d * (1 / K.R_earth) ^ 2 * (w * A.Tikhov_Laplace / A.deriv_scale_factor))
          (fun d => d * (1 / K.R_earth) ^ 2 *
            (w * A.Tikhov_Laplace / A.deriv_scale_factor)) := by
  unfold lap_lat2_part stencil_pair built point_row lat_col
  by_cases h : (lat_stencil K get_diff_vector A S Ilat Ilon 2).2 = -2 * S.Nlat <;> simp [h]

theorem lap_lat1_part_eq (A : Args α) (S : Sizes) (Ilat Ilon : Int) (w : α) :
    lap_lat1_part K get_diff_vector A S Ilat Ilon w
      = stencil_pair (built (lat_stencil K get_diff_vector A S Ilat Ilon 1) (-2 * S.Nlat))
          (lat_stencil K get_diff_vector A S Ilat Ilon 1).2
          (lat_stencil K get_diff_vector A S Ilat Ilon 1).1
          (point_row S 2 Ilat Ilon) (point_row S 3 Ilat Ilon)
          (lat_col K S Ilon 0) (lat_col K S Ilon 1)
          (fun d => -d * A.tan_lat * (1 / K.R_earth) ^ 2 *
            (w * A.Tikhov_Laplace / A.deriv_scale_factor))
          (fun d => -d * A.tan_lat * (1 / K.R_earth) ^ 2 *
            (w * A.Tikhov_Laplace / A.deriv_scale_factor)) := by
  unfold lap_lat1_part stencil_pair built point_row lat_col
  by_cases h : (lat_stencil K get_diff_vector A S Ilat Ilon 1).2 = -2 * S.Nlat <;> simp [h]

/-- The first loop nest, at one point, as two guarded stencil loops. -/
theorem vel_point_eq (A : Args α) (S : Sizes) (Ilat Ilon : Int) (lat w : α) :
    vel_point K cos get_diff_vector A S Ilat Ilon lat w
      = if is_pole K lat then [] else
          vel_lon_part K get_diff_vector A S Ilat Ilon w (1 / cos lat) ++
            vel_lat_part K get_diff_vector A S Ilat Ilon w := by
  unfold vel_point
  cases is_pole K lat <;> simp

/-- A call of the first loop nest made for a point lands on a row of that point only. -/
theorem vel_point_other (A : Args α) (S : Sizes) (i j i0 j0 k0 : Int) (lat w : α)
    (hi0 : 0 ≤ i) (hi1 : i < S.Nlat) (hj0 : 0 ≤ j) (hj1 : j < S.Nlon) (hi0' : 0 ≤ i0)
    (hi1' : i0 < S.Nlat) (hj0' : 0 ≤ j0) (hj1' : j0 < S.Nlon) (hne : ¬(i = i0 ∧ j = j0)) :
    row_entries (vel_point K cos get_diff_vector A S i j lat w) (point_row S k0 i0 j0) = [] := by
  have hr : ∀ k : Int, point_row S k i j ≠ point_row S k0 i0 j0 := fun k =>
    point_row_ne S k k0 i j i0 j0 hi0 hi1 hj0 hj1 hi0' hi1' hj0' hj1' (fun h => hne h.2)
  rw [vel_point_eq]
  split
  · rfl
  · rw [row_entries_append, vel_lon_part_eq, vel_lat_part_eq,
      row_entries_stencil_pair_other _ _ _ _ _ _ _ _ _ _ (hr 1) (hr 0),
      row_entries_stencil_pair_other _ _ _ _ _ _ _ _ _ _ (hr 0) (hr 1)]
    rfl

/-- A call of the second loop nest made for a point lands on a row of that point only. -/
theorem lap_point_other (A : Args α) (S : Sizes) (i j i0 j0 k0 : Int) (lat w : α)
    (hi0 : 0 ≤ i) (hi1 : i < S.Nlat) (hj0 : 0 ≤ j) (hj1 : j < S.Nlon) (hi0' : 0 ≤ i0)
    (hi1' : i0 < S.Nlat) (hj0' : 0 ≤ j0) (hj1' : j0 < S.Nlon) (hne : ¬(i = i0 ∧ j = j0)) :
    row_entries (lap_point K cos get_diff_vector A S i j lat w) (point_row S k0 i0 j0) = [] := by
  have hr : ∀ k : Int, point_row S k i j ≠ point_row S k0 i0 j0 := fun k =>
    point_row_ne S k k0 i j i0 j0 hi0 hi1 hj0 hj1 hi0' hi1' hj0' hj1' (fun h => hne h.2)
  unfold lap_point
  simp only []
  split
  · rw [zonal_part_eq, row_entries_stencil_pair_other _ _ _ _ _ _ _ _ _ _ (hr 2) (hr 3)]
  · split
    · rw [row_entries_append, row_entries_append, lap_lon2_part_eq, lap_lat2_part_eq,
        lap_lat1_part_eq,
        row_entries_stencil_pair_other _ _ _ _ _ _ _ _ _ _ (hr 2) (hr 3),
        row_entries_stencil_pair_other _ _ _ _ _ _ _ _ _ _ (hr 2) (hr 3),
        row_entries_stencil_pair_other _ _ _ _ _ _ _ _ _ _ (hr 2) (hr 3)]
      rfl
    · rfl

/-- The first loop nest makes no call on the rows of blocks 2 and 3. -/
theorem vel_point_laplace_rows (A : Args α) (S : Sizes) (i j k : Int) (lat w : α)
    (hi0 : 0 ≤ i) (hi1 : i < S.Nlat) (hj0 : 0 ≤ j) (hj1 : j < S.Nlon)
    (hk : k ≠ 0 ∧ k ≠ 1) :
    row_entries (vel_point K cos get_diff_vector A S i j lat w) (point_row S k i j) = [] := by
  have hr : ∀ k1 : Int, k1 ≠ k → point_row S k1 i j ≠ point_row S k i j := fun k1 h1 =>
    point_row_ne S k1 k i j i j hi0 hi1 hj0 hj1 hi0 hi1 hj0 hj1 (fun h => h1 h.1)
  rw [vel_point_eq]
  split
  · rfl
  · rw [row_entries_append, vel_lon_part_eq, vel_lat_part_eq,
      row_entries_stencil_pair_other _ _ _ _ _ _ _ _ _ _ (hr 1 (Ne.symm hk.2))
        (hr 0 (Ne.symm hk.1)),
      row_entries_stencil_pair_other _ _ _ _ _ _ _ _ _ _ (hr 0 (Ne.symm hk.1))
        (hr 1 (Ne.symm hk.2))]
    rfl

/-- The second loop nest makes no call on the rows of blocks 0 and 1. -/
theorem lap_point_velocity_rows (A : Args α) (S : Sizes) (i j k : Int) (lat w : α)
    (hi0 : 0 ≤ i) (hi1 : i < S.Nlat) (hj0 : 0 ≤ j) (hj1 : j < S.Nlon)
    (hk : k ≠ 2 ∧ k ≠ 3) :
    row_entries (lap_point K cos get_diff_vector A S i j lat w) (point_row S k i j) = [] := by
  have hr : ∀ k1 : Int, k1 ≠ k → point_row S k1 i j ≠ point_row S k i j := fun k1 h1 =>
    point_row_ne S k1 k i j i j hi0 hi1 hj0 hj1 hi0 hi1 hj0 hj1 (fun h => h1 h.1)
  have h2 := hr 2 (Ne.symm hk.1)
  have h3 := hr 3 (Ne.symm hk.2)
  unfold lap_point
  simp only []
  split
  · rw [zonal_part_eq, row_entries_stencil_pair_other _ _ _ _ _ _ _ _ _ _ h2 h3]
  · split
    · rw [row_entries_append, row_entries_append, lap_lon2_part_eq, lap_lat2_part_eq,
        lap_lat1_part_eq,
        row_entries_stencil_pair_other _ _ _ _ _ _ _ _ _ _ h2 h3,
        row_entries_stencil_pair_other _ _ _ _ _ _ _ _ _ _ h2 h3,
        row_entries_stencil_pair_other _ _ _ _ _ _ _ _ _ _ h2 h3]
      rfl
    · rfl

/-- The reads at the head of an iteration succeed on a grid whose `latitude` and (when
weighting) `areas` vectors are long enough. -/
theorem point_reads_some (A : Args α) (S : Sizes) (i j : Int) (hi0 : 0 ≤ i)
    (hi1 : i < S.Nlat) (hj0 : 0 ≤ j) (hj1 : j < S.Nlon)
    (hlat : S.Nlat ≤ A.source_data.latitude.length)
    (harea : A.weight_err = true → S.Nlat * S.Nlon ≤ A.source_data.areas.length) :
    ∃ lat w, point_reads A S i j = some (lat, w) := by
  obtain ⟨lat, hl⟩ := vec_at_of_lt A.source_data.latitude i hi0 (by omega)
  cases hw : A.weight_err
  · exact ⟨lat, 1, by simp [point_reads, hl, hw]⟩
  · have r := Index_sub_range i j S.Nlat S.Nlon hi0 hi1 hj0 hj1
    have hlen := harea hw
    obtain ⟨w, hwv⟩ := vec_at_of_lt A.source_data.areas
      (Index 0 0 i j 1 1 S.Nlat S.Nlon) r.1 (by omega)
    exact ⟨lat, w, by simp [point_reads, hl, hw, hwv]⟩

theorem vel_body_eq (A : Args α) (S : Sizes) (i j : Int) (M : List (Entry α))
    (h : (point_reads A S i j).isSome) :
    vel_body K cos get_diff_vector A S i j M
      = some (M ++ at_point (point_reads A S i j) (vel_point K cos get_diff_vector A S i j)) := by
  unfold vel_body
  cases hr : point_reads A S i j with
  | none => simp [hr] at h
  | some q => cases q; simp [at_point]

theorem lap_body_eq (A : Args α) (S : Sizes) (i j : Int) (M : List (Entry α))
    (h : (point_reads A S i j).isSome) :
    lap_body K cos get_diff_vector A S i j M
      = some (M ++ at_point (point_reads A S i j) (lap_point K cos get_diff_vector A S i j)) := by
  unfold lap_body
  cases hr : point_reads A S i j with
  | none => simp [hr] at h
  | some q => cases q; simp [at_point]

omit [LinearOrderedField α] in
/-- The invariant rule for a loop nest over the grid, with the invariant indexed by the
number `Ilat * Nlon + Ilon` of iterations already made. -/
theorem grid_loop_inv {σ : Type} (S : Sizes) (P : Int → σ → Prop)
    (body : Int → Int → σ → Option σ) (s : σ) (hN0 : 0 ≤ S.Nlat) (hN : 0 ≤ S.Nlon)
    (h0 : P 0 s)
    (hstep : ∀ (i j : Int) (t : σ), 0 ≤ i → i < S.Nlat → 0 ≤ j → j < S.Nlon →
      P (i * S.Nlon + j) t → ∃ t2, body i j t = some t2 ∧ P (i * S.Nlon + j + 1) t2) :
    ∃ t, forLoop S.Nlat.toNat
        (fun Ilat t => forLoop S.Nlon.toNat (fun Ilon t => body Ilat Ilon t) t) s = some t ∧
      P (S.Nlat * S.Nlon) t := by
  have key := forLoop_inv (fun (k : Nat) (t : σ) => P ((k : Int) * S.Nlon) t) S.Nlat.toNat
    (fun Ilat t => forLoop S.Nlon.toNat (fun Ilon t => body Ilat Ilon t) t) s
    (by simpa using h0)
    (by
      intro i t hi hP
      have inner := forLoop_inv (fun (m : Nat) (t : σ) => P ((i : Int) * S.Nlon + (m : Int)) t)
        S.Nlon.toNat (fun Ilon t => body (i : Int) Ilon t) t (by simpa using hP)
        (by
          intro j t1 hj hP1
          obtain ⟨t2, h2, hP2⟩ := hstep (i : Int) (j : Int) t1 (by omega) (by omega)
            (by omega) (by omega) hP1
          refine ⟨t2, h2, ?_⟩
          have e : (i : Int) * S.Nlon + ((j + 1 : Nat) : Int) = (i : Int) * S.Nlon + j + 1 := by
            push_cast; ring
          show P ((i : Int) * S.Nlon + ((j + 1 : Nat) : Int)) t2
          rw [e]; exact hP2)
      obtain ⟨t2, h2, hP2⟩ := inner
      refine ⟨t2, h2, ?_⟩
      have e : ((i + 1 : Nat) : Int) * S.Nlon = (i : Int) * S.Nlon + (S.Nlon.toNat : Int) := by
        rw [Int.toNat_of_nonneg hN]; push_cast; ring
      show P (((i + 1 : Nat) : Int) * S.Nlon) t2
      rw [e]; exact hP2)
  obtain ⟨t, ht, hP⟩ := key
  refine ⟨t, ht, ?_⟩
  rw [Int.toNat_of_nonneg hN0] at hP
  exact hP

omit [LinearOrderedField α] in
/-- A loop nest over the grid whose body appends the calls of a per-point generator appends
the calls of all points. -/
theorem grid_loop_append (S : Sizes) (body : Int → Int → List (Entry α) → Option (List (Entry α)))
    (f : Int → Int → List (Entry α))
    (h : ∀ i j : Int, 0 ≤ i → i < S.Nlat → 0 ≤ j → j < S.Nlon →
      ∀ M, body i j M = some (M ++ f i j))
    (M : List (Entry α)) :
    forLoop S.Nlat.toNat (fun Ilat M => forLoop S.Nlon.toNat (fun Ilon M => body Ilat Ilon M) M) M
      = some (M ++ all_points S f) := by
  unfold all_points
  apply forLoop_append
  intro i hi M1
  apply forLoop_append
  intro j hj M2
  exact h i j (by omega) (by omega) (by omega) (by omega) M2

/-- The function succeeds on a well-sized grid and appends the calls `added`. -/
theorem sparse_vel_eq (LHS_matr : List (Entry α)) (A : Args α) (S : Sizes)
    (hS : read_sizes A.source_data.myCounts = some S)
    (hlat : S.Nlat ≤ A.source_data.latitude.length)
    (harea : A.weight_err = true → S.Nlat * S.Nlon ≤ A.source_data.areas.length) :
    sparse_vel_from_PsiPhi_vortdiv K cos get_diff_vector LHS_matr A
      = some (LHS_matr ++ added K cos get_diff_vector A S) := by
  have hsome : ∀ i j : Int, 0 ≤ i → i < S.Nlat → 0 ≤ j → j < S.Nlon →
      (point_reads A S i j).isSome := by
    intro i j a b c d
    obtain ⟨lat, w, h⟩ := point_reads_some A S i j a b c d hlat harea
    simp [h]
  unfold sparse_vel_from_PsiPhi_vortdiv added
  rw [hS]
  simp only [Option.bind_eq_bind, Option.some_bind]
  rw [grid_loop_append S (fun i j M => vel_body K cos get_diff_vector A S i j M) _
    (fun i j a b c d M => vel_body_eq K cos get_diff_vector A S i j M (hsome i j a b c d))]
  simp only [Option.some_bind]
  rw [grid_loop_append S (fun i j M => lap_body K cos get_diff_vector A S i j M) _
    (fun i j a b c d M => lap_body_eq K cos get_diff_vector A S i j M (hsome i j a b c d))]
  simp

/-- The calls added on a row of an in-range point are those made in the two iterations of
that point. -/
theorem added_row (A : Args α) (S : Sizes) (k i j : Int) (lat w : α)
    (hi0 : 0 ≤ i) (hi1 : i < S.Nlat) (hj0 : 0 ≤ j) (hj1 : j < S.Nlon)
    (hr : point_reads A S i j = some (lat, w)) :
    row_entries (added K cos get_diff_vector A S) (point_row S k i j)
      = row_entries (vel_point K cos get_diff_vector A S i j lat w) (point_row S k i j) ++
        row_entries (lap_point K cos get_diff_vector A S i j lat w) (point_row S k i j) := by
  unfold added
  rw [row_entries_append,
    row_entries_all_points S _ (point_row S k i j) i j hi0 hi1 hj0 hj1,
    row_entries_all_points S _ (point_row S k i j) i j hi0 hi1 hj0 hj1]
  · simp [hr, at_point]
  · intro i1 j1 a b c d hne
    cases hq : point_reads A S i1 j1 with
    | none => simp [at_point, row_entries]
    | some q =>
      exact lap_point_other K cos get_diff_vector A S i1 j1 i j k q.1 q.2 a b c d hi0 hi1
        hj0 hj1 hne
  · intro i1 j1 a b c d hne
    cases hq : point_reads A S i1 j1 with
    | none => simp [at_point, row_entries]
    | some q =>
      exact vel_point_other K cos get_diff_vector A S i1 j1 i j k q.1 q.2 a b c d hi0 hi1
        hj0 hj1 hne

/-- The calls of the first loop nest on the block-0 row of its point. -/
theorem vel_point_row0 (A : Args α) (S : Sizes) (i j : Int) (lat w : α)
    (hi0 : 0 ≤ i) (hi1 : i < S.Nlat) (hj0 : 0 ≤ j) (hj1 : j < S.Nlon) :
    row_entries (vel_point K cos get_diff_vector A S i j lat w) (point_row S 0 i j)
      = if is_pole K lat then [] else
          (if built (lon_stencil K get_diff_vector A S i j 1) (-2 * S.Nlon) then
            placed (point_row S 0 i j) (lon_col K S i 1)
              (fun d => d * (1 / cos lat) * (1 / K.R_earth) * w)
              (lon_stencil K get_diff_vector A S i j 1).2
              (lon_stencil K get_diff_vector A S i j 1).1 else []) ++
          (if built (lat_stencil K get_diff_vector A S i j 1) (-2 * S.Nlat) then
            placed (point_row S 0 i j) (lat_col K S j 0)
              (fun d => -(d * (1 / K.R_earth) * w))
              (lat_stencil K get_diff_vector A S i j 1).2
              (lat_stencil K get_diff_vector A S i j 1).1 else []) := by
  have h10 : point_row S 1 i j ≠ point_row S 0 i j :=
    point_row_ne S 1 0 i j i j hi0 hi1 hj0 hj1 hi0 hi1 hj0 hj1 (fun h => by omega)
  rw [vel_point_eq]
  split
  · rfl
  · rw [row_entries_append, vel_lon_part_eq, vel_lat_part_eq,
      row_entries_stencil_pair_snd _ _ _ _ _ _ _ _ _ h10,
      row_entries_stencil_pair_fst _ _ _ _ _ _ _ _ _ h10]

/-- The calls of the first loop nest on the block-1 row of its point. -/
theorem vel_point_row1 (A : Args α) (S : Sizes) (i j : Int) (lat w : α)
    (hi0 : 0 ≤ i) (hi1 : i < S.Nlat) (hj0 : 0 ≤ j) (hj1 : j < S.Nlon) :
    row_entries (vel_point K cos get_diff_vector A S i j lat w) (point_row S 1 i j)
      = if is_pole K lat then [] else
          (if built (lon_stencil K get_diff_vector A S i j 1) (-2 * S.Nlon) then
            placed (point_row S 1 i j) (lon_col K S i 0)
              (fun d => d * (1 / cos lat) * (1 / K.R_earth) * w)
              (lon_stencil K get_diff_vector A S i j 1).2
              (lon_stencil K get_diff_vector A S i j 1).1 else []) ++
          (if built (lat_stencil K get_diff_vector A S i j 1) (-2 * S.Nlat) then
            placed (point_row S 1 i j) (lat_col K S j 1)
              (fun d => d * (1 / K.R_earth) * w)
              (lat_stencil K get_diff_vector A S i j 1).2
              (lat_stencil K get_diff_vector A S i j 1).1 else []) := by
  have h01 : point_row S 0 i j ≠ point_row S 1 i j :=
    point_row_ne S 0 1 i j i j hi0 hi1 hj0 hj1 hi0 hi1 hj0 hj1 (fun h => by omega)
  rw [vel_point_eq]
  split
  · rfl
  · rw [row_entries_append, vel_lon_part_eq, vel_lat_part_eq,
      row_entries_stencil_pair_fst _ _ _ _ _ _ _ _ _ h01,
      row_entries_stencil_pair_snd _ _ _ _ _ _ _ _ _ h01]

/-- The calls of the second loop nest on the block-2 row of its point. -/
theorem lap_point_row2 (A : Args α) (S : Sizes) (i j : Int) (lat w : α)
    (hi0 : 0 ≤ i) (hi1 : i < S.Nlat) (hj0 : 0 ≤ j) (hj1 : j < S.Nlon) :
    row_entries (lap_point K cos get_diff_vector A S i j lat w) (point_row S 2 i j)
      = if i = 0 ∧ A.Tikhov_Laplace = 0 then
          (if built (lon_stencil K get_diff_vector A S i j 1) (-2 * S.Nlon) then
            placed (point_row S 2 i j) (lon_col K S i 1)
              (fun d => d * (1 / cos lat) * (1 / K.R_earth) * w)
              (lon_stencil K get_diff_vector A S i j 1).2
              (lon_stencil K get_diff_vector A S i j 1).1 else [])
        else if !(is_pole K lat) ∧ 0 < A.Tikhov_Laplace then
          (if built (lon_stencil K get_diff_vector A S i j 2) (-2 * S.Nlon) then
            placed (point_row S 2 i j) (lon_col K S i 0)
              (fun d => d * (1 / cos lat) ^ 2 * (1 / K.R_earth) ^ 2 *
                (w * A.Tikhov_Laplace / A.deriv_scale_factor))
              (lon_stencil K get_diff_vector A S i j 2).2
              (lon_stencil K get_diff_vector A S i j 2).1 else []) ++
          ((if built (lat_stencil K get_diff_vector A S i j 2) (-2 * S.Nlat) then
            placed (point_row S 2 i j) (lat_col K S j 0)
              (fun d => d * (1 / K.R_earth) ^ 2 *
                (w * A.Tikhov_Laplace / A.deriv_scale_factor))
              (lat_stencil K get_diff_vector A S i j 2).2
              (lat_stencil K get_diff_vector A S i j 2).1 else []) ++
           (if built (lat_stencil K get_diff_vector A S i j 1) (-2 * S.Nlat) then
            placed (point_row S 2 i j) (lat_col K S j 0)
              (fun d => -d * A.tan_lat * (1 / K.R_earth) ^ 2 *
                (w * A.Tikhov_Laplace / A.deriv_scale_factor))
              (lat_stencil K get_diff_vector A S i j 1).2
              (lat_stencil K get_diff_vector A S i j 1).1 else []))
        else [] := by
  have h32 : point_row S 3 i j ≠ point_row S 2 i j :=
    point_row_ne S 3 2 i j i j hi0 hi1 hj0 hj1 hi0 hi1 hj0 hj1 (fun h => by omega)
  unfold lap_point
  simp only []
  split
  · rw [zonal_part_eq, row_entries_stencil_pair_fst _ _ _ _ _ _ _ _ _ h32]
  · split
    · rw [row_entries_append, row_entries_append, lap_lon2_part_eq, lap_lat2_part_eq,
        lap_lat1_part_eq,
        row_entries_stencil_pair_fst _ _ _ _ _ _ _ _ _ h32,
        row_entries_stencil_pair_fst _ _ _ _ _ _ _ _ _ h32,
        row_entries_stencil_pair_fst _ _ _ _ _ _ _ _ _ h32]
    · rfl

/-- The calls of the second loop nest on the block-3 row of its point. -/
theorem lap_point_row3 (A : Args α) (S : Sizes) (i j : Int) (lat w : α)
    (hi0 : 0 ≤ i) (hi1 : i < S.Nlat) (hj0 : 0 ≤ j) (hj1 : j < S.Nlon) :
    row_entries (lap_point K cos get_diff_vector A S i j lat w) (point_row S 3 i j)
      = if i = 0 ∧ A.Tikhov_Laplace = 0 then
          (if built (lon_stencil K get_diff_vector A S i j 1) (-2 * S.Nlon) then
            placed (point_row S 3 i j) (lon_col K S i 0)
              (fun d => d * (1 / cos lat) * (1 / K.R_earth) * w)
              (lon_stencil K get_diff_vector A S i j 1).2
              (lon_stencil K get_diff_vector A S i j 1).1 else [])
        else if !(is_pole K lat) ∧ 0 < A.Tikhov_Laplace then
          (if built (lon_stencil K get_diff_vector A S i j 2) (-2 * S.Nlon) then
            placed (point_row S 3 i j) (lon_col K S i 1)
              (fun d => d * (1 / cos lat) ^ 2 * (1 / K.R_earth) ^ 2 *
                (w * A.Tikhov_Laplace / A.deriv_scale_factor))
              (lon_stencil K get_diff_vector A S i j 2).2
              (lon_stencil K get_diff_vector A S i j 2).1 else []) ++
          ((if built (lat_stencil K get_diff_vector A S i j 2) (-2 * S.Nlat) then
            placed (point_row S 3 i j) (lat_col K S j 1)
              (fun d => d * (1 / K.R_earth) ^ 2 *
                (w * A.Tikhov_Laplace / A.deriv_scale_factor))
              (lat_stencil K get_diff_vector A S i j 2).2
              (lat_stencil K get_diff_vector A S i j 2).1 else []) ++
           (if built (lat_stencil K get_diff_vector A S i j 1) (-2 * S.Nlat) then
            placed (point_row S 3 i j) (lat_col K S j 1)
              (fun d => -d * A.tan_lat * (1 / K.R_earth) ^ 2 *
                (w * A.Tikhov_Laplace / A.deriv_scale_factor))
              (lat_stencil K get_diff_vector A S i j 1).2
              (lat_stencil K get_diff_vector A S i j 1).1 else []))
        else [] := by
  have h23 : point_row S 2 i j ≠ point_row S 3 i j :=
    point_row_ne S 2 3 i j i j hi0 hi1 hj0 hj1 hi0 hi1 hj0 hj1 (fun h => by omega)
  unfold lap_point
  simp only []
  split
  · rw [zonal_part_eq, row_entries_stencil_pair_snd _ _ _ _ _ _ _ _ _ h23]
  · split
    · rw [row_entries_append, row_entries_append, lap_lon2_part_eq, lap_lat2_part_eq,
        lap_lat1_part_eq,
        row_entries_stencil_pair_snd _ _ _ _ _ _ _ _ _ h23,
        row_entries_stencil_pair_snd _ _ _ _ _ _ _ _ _ h23,
        row_entries_stencil_pair_snd _ _ _ _ _ _ _ _ _ h23]
    · rfl

/-- Without weighting, at a point that is not a pole, with `Tikhov_Laplace > 0` and the three
stencils built, the calls added on rows `2N + p` and `3N + p` are the Laplacian row of the
specification with the value of the unassigned variable `tan_lat` in the place of the
tangent of the latitude; row `2N + p` lies in the Psi columns and row `3N + p` in the Phi
columns. -/
theorem laplace_rows_code (A : Args α) (S : Sizes) (Ilat Ilon : Int) (lat : α)
    (hi0 : 0 ≤ Ilat) (hi1 : Ilat < S.Nlat) (hj0 : 0 ≤ Ilon) (hj1 : Ilon < S.Nlon)
    (hreads : point_reads A S Ilat Ilon = some (lat, 1))
    (hpole : is_pole K lat = false) (hT : 0 < A.Tikhov_Laplace)
    (hlon2 : (lon_stencil K get_diff_vector A S Ilat Ilon 2).2 ≠ -2 * S.Nlon)
    (hlat2 : (lat_stencil K get_diff_vector A S Ilat Ilon 2).2 ≠ -2 * S.Nlat)
    (hlat1 : (lat_stencil K get_diff_vector A S Ilat Ilon 1).2 ≠ -2 * S.Nlat) :
    row_entries (added K cos get_diff_vector A S) (point_row S 2 Ilat Ilon)
        = spec_Laplace_row K cos get_diff_vector A S Ilat Ilon lat A.tan_lat
            (point_row S 2 Ilat Ilon) 0 ∧
      row_entries (added K cos get_diff_vector A S) (point_row S 3 Ilat Ilon)
        = spec_Laplace_row K cos get_diff_vector A S Ilat Ilon lat A.tan_lat
            (point_row S 3 Ilat Ilon) 1 := by
  have hb1 : built (lon_stencil K get_diff_vector A S Ilat Ilon 2) (-2 * S.Nlon) = true :=
    decide_eq_true hlon2
  have hb2 : built (lat_stencil K get_diff_vector A S Ilat Ilon 2) (-2 * S.Nlat) = true :=
    decide_eq_true hlat2
  have hb3 : built (lat_stencil K get_diff_vector A S Ilat Ilon 1) (-2 * S.Nlat) = true :=
    decide_eq_true hlat1
  have hT0 : ¬(Ilat = 0 ∧ A.Tikhov_Laplace = 0) := fun h => (ne_of_gt hT) h.2
  have hbr : (!(is_pole K lat)) = true ∧ 0 < A.Tikhov_Laplace := by
    rw [hpole]; exact ⟨rfl, hT⟩
  have f1 : (fun d : α => d * (1 / cos lat) ^ 2 * (1 / K.R_earth) ^ 2 *
        (1 * A.Tikhov_Laplace / A.deriv_scale_factor))
      = fun d => A.Tikhov_Laplace / A.deriv_scale_factor *
          (d / (K.R_earth ^ 2 * cos lat ^ 2)) := by
    funext d; ring
  have f2 : (fun d : α => d * (1 / K.R_earth) ^ 2 *
        (1 * A.Tikhov_Laplace / A.deriv_scale_factor))
      = fun d => A.Tikhov_Laplace / A.deriv_scale_factor * (d / K.R_earth ^ 2) := by
    funext d; ring
  have f3 : (fun d : α => -d * A.tan_lat * (1 / K.R_earth) ^ 2 *
        (1 * A.Tikhov_Laplace / A.deriv_scale_factor))
      = fun d => A.Tikhov_Laplace / A.deriv_scale_factor *
          (-(A.tan_lat * d / K.R_earth ^ 2)) := by
    funext d; ring
  constructor
  · rw [added_row K cos get_diff_vector A S 2 Ilat Ilon lat 1 hi0 hi1 hj0 hj1 hreads,
      vel_point_laplace_rows K cos get_diff_vector A S Ilat Ilon 2 lat 1 hi0 hi1 hj0 hj1
        (by omega),
      lap_point_row2 K cos get_diff_vector A S Ilat Ilon lat 1 hi0 hi1 hj0 hj1,
      if_neg hT0, if_pos hbr, if_pos hb1, if_pos hb2, if_pos hb3, f1, f2, f3]
    rfl
  · rw [added_row K cos get_diff_vector A S 3 Ilat Ilon lat 1 hi0 hi1 hj0 hj1 hreads,
      vel_point_laplace_rows K cos get_diff_vector A S Ilat Ilon 3 lat 1 hi0 hi1 hj0 hj1
        (by omega),
      lap_point_row3 K cos get_diff_vector A S Ilat Ilon lat 1 hi0 hi1 hj0 hj1,
      if_neg hT0, if_pos hbr, if_pos hb1, if_pos hb2, if_pos hb3, f1, f2, f3]
    rfl

/-- The calls of the first loop nest with weight `dA` are those with weight 1, each value
multiplied by `dA`; the flag `weight_err` itself plays no part. -/
theorem vel_point_weight (A : Args α) (S : Sizes) (i j : Int) (lat dA : α) (b : Bool) :
    vel_point K cos get_diff_vector A S i j lat dA
      = (vel_point K cos get_diff_vector { A with weight_err := b } S i j lat 1).map
          (scale_entry dA) := by
  rw [vel_point_eq, vel_point_eq]
  split
  · rfl
  · rw [List.map_append, vel_lon_part_eq, vel_lat_part_eq, vel_lon_part_eq, vel_lat_part_eq,
      map_scale_stencil_pair, map_scale_stencil_pair]
    have f1 : (fun d : α => d * (1 / cos lat) * (1 / K.R_earth) * 1 * dA)
        = fun d => d * (1 / cos lat) * (1 / K.R_earth) * dA := by
      funext d; ring
    have f2 : (fun d : α => -(d * (1 / K.R_earth) * 1) * dA)
        = fun d => -(d * (1 / K.R_earth) * dA) := by
      funext d; ring
    have f3 : (fun d : α => d * (1 / K.R_earth) * 1 * dA)
        = fun d => d * (1 / K.R_earth) * dA := by
      funext d; ring
    rw [f1, f2, f3]
    rfl

/-- The calls of the second loop nest with weight `dA` are those with weight 1, each value
multiplied by `dA`. -/
theorem lap_point_weight (A : Args α) (S : Sizes) (i j : Int) (lat dA : α) (b : Bool) :
    lap_point K cos get_diff_vector A S i j lat dA
      = (lap_point K cos get_diff_vector { A with weight_err := b } S i j lat 1).map
          (scale_entry dA) := by
  unfold lap_point
  simp only []
  have f1 : (fun d : α => d * (1 / cos lat) * (1 / K.R_earth) * 1 * dA)
      = fun d => d * (1 / cos lat) * (1 / K.R_earth) * dA := by
    funext d; ring
  have f2 : (fun d : α => d * (1 / cos lat) ^ 2 * (1 / K.R_earth) ^ 2 *
        (1 * A.Tikhov_Laplace / A.deriv_scale_factor) * dA)
      = fun d => d * (1 / cos lat) ^ 2 * (1 / K.R_earth) ^ 2 *
        (dA * A.Tikhov_Laplace / A.deriv_scale_factor) := by
    funext d; ring
  have f3 : (fun d : α => d * (1 / K.R_earth) ^ 2 *
        (1 * A.Tikhov_Laplace / A.deriv_scale_factor) * dA)
      = fun d => d * (1 / K.R_earth) ^ 2 *
        (dA * A.Tikhov_Laplace / A.deriv_scale_factor) := by
    funext d; ring
  have f4 : (fun d : α => -d * A.tan_lat * (1 / K.R_earth) ^ 2 *
        (1 * A.Tikhov_Laplace / A.deriv_scale_factor) * dA)
      = fun d => -d * A.tan_lat * (1 / K.R_earth) ^ 2 *
        (dA * A.Tikhov_Laplace / A.deriv_scale_factor) := by
    funext d; ring
  split
  · rw [zonal_part_eq, zonal_part_eq, map_scale_stencil_pair, f1]
    rfl
  · split
    · rw [List.map_append, List.map_append, lap_lon2_part_eq, lap_lat2_part_eq,
        lap_lat1_part_eq, lap_lon2_part_eq, lap_lat2_part_eq, lap_lat1_part_eq,
        map_scale_stencil_pair, map_scale_stencil_pair, map_scale_stencil_pair]
      simp only [f2, f3, f4]
      rfl
    · rfl

end PartLemmas

/-! ## The cleaning pass -/

section CleanLemmas

variable {α : Type} [LinearOrderedField α]

/-- One iteration of the cleaning loop, at an index inside the three vectors. -/
theorem clean_body_eq (mask : List Bool) (a b : List α) (k : Nat) (m : Bool) (x y : α)
    (hm : mask[k]? = some m) (ha : a[k]? = some x) (hb : b[k]? = some y) :
    clean_body mask (k : Int) (a, b)
      = some (a.set k (clean_point m x y).1, b.set k (clean_point m x y).2) := by
  obtain ⟨hka, hxa⟩ := List.getElem?_eq_some.mp ha
  obtain ⟨hkb, hyb⟩ := List.getElem?_eq_some.mp hb
  have sa : a.set k x = a := by rw [← hxa]; exact list_set_getElem_self a k hka
  have sb : b.set k y = b := by rw [← hyb]; exact list_set_getElem_self b k hkb
  unfold clean_body clean_point
  simp only [vec_at_natCast, hm, ha, hb, vec_set_natCast _ _ _ hka, vec_set_natCast _ _ _ hkb,
    Option.bind_eq_bind, Option.some_bind, Option.map_some']
  cases m
  · simp
  · by_cases h1 : |x| > 30000
    · simp [h1]
    · by_cases h2 : |y| > 30000
      · simp [h1, h2]
      · simp [h1, h2, sa, sb]

/-- The cleaning pass succeeds when `mask` and `u_lat` are at least as long as `u_lon`, and
acts index by index as `clean_point`. -/
theorem clean_velocity_spec (mask : List Bool) (u_lon u_lat : List α)
    (hm : u_lon.length ≤ mask.length) (hl : u_lon.length ≤ u_lat.length) :
    ∃ a b, clean_velocity mask u_lon u_lat = some (a, b) ∧
      a.length = u_lon.length ∧ b.length = u_lat.length ∧
      (∀ (i : Nat) (m : Bool) (x y : α), mask[i]? = some m → u_lon[i]? = some x →
        u_lat[i]? = some y →
        a[i]? = some (clean_point m x y).1 ∧ b[i]? = some (clean_point m x y).2) ∧
      (∀ i : Nat, u_lon.length ≤ i → b[i]? = u_lat[i]?) := by
  have key := forLoop_inv
    (fun (k : Nat) (t : List α × List α) =>
      t.1.length = u_lon.length ∧ t.2.length = u_lat.length ∧
      (∀ (i : Nat) (m : Bool) (x y : α), i < k → mask[i]? = some m → u_lon[i]? = some x →
        u_lat[i]? = some y →
        t.1[i]? = some (clean_point m x y).1 ∧ t.2[i]? = some (clean_point m x y).2) ∧
      (∀ i : Nat, k ≤ i → t.1[i]? = u_lon[i]? ∧ t.2[i]? = u_lat[i]?))
    u_lon.length (clean_body mask) (u_lon, u_lat)
    ⟨rfl, rfl, fun i _ _ _ hi => absurd hi (Nat.not_lt_zero i), fun i _ => ⟨rfl, rfl⟩⟩
    (by
      rintro k ⟨a, b⟩ hk ⟨hla, hlb, hdone, hrest⟩
      simp only at hla hlb hdone hrest
      have hka : k < a.length := by omega
      have hkb : k < b.length := by omega
      have hkm : k < mask.length := by omega
      have hak : a[k]? = some u_lon[k] := by
        rw [(hrest k (Nat.le_refl k)).1, List.getElem?_eq_getElem hk]
      have hbk : b[k]? = some (u_lat[k]) := by
        rw [(hrest k (Nat.le_refl k)).2, List.getElem?_eq_getElem (by omega)]
      refine ⟨_, clean_body_eq mask a b k mask[k] u_lon[k] u_lat[k]
        (List.getElem?_eq_getElem hkm) hak hbk, ?_, ?_, ?_, ?_⟩
      · simp [hla]
      · simp [hlb]
      · intro i m x y hik h1 h2 h3
        by_cases hik2 : i = k
        · subst hik2
          rw [List.getElem?_eq_getElem hkm] at h1
          rw [List.getElem?_eq_getElem hk] at h2
          rw [List.getElem?_eq_getElem (by omega)] at h3
          cases h1; cases h2; cases h3
          simp only [List.getElem?_set_self hka, List.getElem?_set_self hkb]
          exact ⟨trivial, trivial⟩
        · have hlt : i < k := by omega
          simp only [List.getElem?_set_ne (Ne.symm hik2)]
          exact hdone i m x y hlt h1 h2 h3
      · intro i hik
        have hne : k ≠ i := by omega
        simp only [List.getElem?_set_ne hne]
        exact hrest i (by omega))
  obtain ⟨⟨a, b⟩, hr, hla, hlb, hdone, hrest⟩ := key
  refine ⟨a, b, hr, hla, hlb, ?_, fun i hi => (hrest i hi).2⟩
  intro i m x y h1 h2 h3
  have hi : i < u_lon.length := (List.getElem?_eq_some.mp h2).1
  exact hdone i m x y hi h1 h2 h3

theorem clean_point_idem (m : Bool) (x y : α) :
    clean_point m (clean_point m x y).1 (clean_point m x y).2 = clean_point m x y := by
  unfold clean_point
  cases m
  · simp
  · by_cases h : |x| > 30000 ∨ |y| > 30000
    · simp [h]
    · simp [h]

/-- Running the cleaning pass on its own output returns that output. -/
theorem clean_velocity_idem (mask : List Bool) (u_lon u_lat a b : List α)
    (hm : u_lon.length ≤ mask.length) (hl : u_lon.length ≤ u_lat.length)
    (h : clean_velocity mask u_lon u_lat = some (a, b)) :
    clean_velocity mask a b = some (a, b) := by
  obtain ⟨a1, b1, h1, hla, hlb, hpt, hfr⟩ := clean_velocity_spec mask u_lon u_lat hm hl
  rw [h] at h1
  cases h1
  obtain ⟨a2, b2, h2, hla2, hlb2, hpt2, hfr2⟩ :=
    clean_velocity_spec mask a b (by omega) (by omega)
  have ea : a2 = a := by
    apply List.ext_getElem?
    intro n
    by_cases hn : n < u_lon.length
    · have q := hpt n mask[n] u_lon[n] u_lat[n] (List.getElem?_eq_getElem (by omega))
        (List.getElem?_eq_getElem hn) (List.getElem?_eq_getElem (by omega))
      have q2 := hpt2 n mask[n] _ _ (List.getElem?_eq_getElem (by omega)) q.1 q.2
      rw [q2.1, q.1, clean_point_idem]
    · rw [List.getElem?_eq_none (by omega), List.getElem?_eq_none (by omega)]
  have eb : b2 = b := by
    apply List.ext_getElem?
    intro n
    by_cases hn : n < u_lon.length
    · have q := hpt n mask[n] u_lon[n] u_lat[n] (List.getElem?_eq_getElem (by omega))
        (List.getElem?_eq_getElem hn) (List.getElem?_eq_getElem (by omega))
      have q2 := hpt2 n mask[n] _ _ (List.getElem?_eq_getElem (by omega)) q.1 q.2
      rw [q2.2, q.2, clean_point_idem]
    · exact hfr2 n (by omega)
  rw [h2, ea, eb]

end CleanLemmas

/-! ## The right-hand side -/

section RHSLemmas

variable {α : Type} [LinearOrderedField α]
variable (K : Constants α) (latitude dAreas : List α) (S : Sizes) (weight_err : Bool)
variable (Tikhov_Laplace deriv_scale_factor : α)
variable (u_lon_rem u_lat_rem vort_term div_term : List α)

omit [LinearOrderedField α] in
theorem vec_at_lt {β : Type} (v : List β) (a : Nat) (x : β) (h : vec_at v (a : Int) = some x) :
    a < v.length := by
  rw [vec_at_natCast] at h
  exact (List.getElem?_eq_some.mp h).1

/-- The four weighting statements `RHS_vector.at(k*Npts + index_sub) *= dAreas.at(index_sub)`
at pairwise distinct positions holding `x0 .. x3`. -/
theorem weighted_tail (R4 dAreas : List α) (p : Int) (a0 a1 a2 a3 : Nat)
    (x0 x1 x2 x3 dA : α) (hA : vec_at dAreas p = some dA)
    (r0 : vec_at R4 (a0 : Int) = some x0) (r1 : vec_at R4 (a1 : Int) = some x1)
    (r2 : vec_at R4 (a2 : Int) = some x2) (r3 : vec_at R4 (a3 : Int) = some x3)
    (d01 : a0 ≠ a1) (d02 : a0 ≠ a2) (d03 : a0 ≠ a3) (d12 : a1 ≠ a2) (d13 : a1 ≠ a3)
    (d23 : a2 ≠ a3) :
    (do
      let RHS_vector ← vec_set R4 (a0 : Int) ((← vec_at R4 (a0 : Int)) * (← vec_at dAreas p))
      let RHS_vector ← vec_set RHS_vector (a1 : Int)
        ((← vec_at RHS_vector (a1 : Int)) * (← vec_at dAreas p))
      let RHS_vector ← vec_set RHS_vector (a2 : Int)
        ((← vec_at RHS_vector (a2 : Int)) * (← vec_at dAreas p))
      vec_set RHS_vector (a3 : Int) ((← vec_at RHS_vector (a3 : Int)) * (← vec_at dAreas p)))
      = some ((((R4.set a0 (x0 * dA)).set a1 (x1 * dA)).set a2 (x2 * dA)).set a3 (x3 * dA)) := by
  have l0 := vec_at_lt R4 a0 x0 r0
  have l1 := vec_at_lt R4 a1 x1 r1
  have l2 := vec_at_lt R4 a2 x2 r2
  have l3 := vec_at_lt R4 a3 x3 r3
  have t1 : vec_at (R4.set a0 (x0 * dA)) (a1 : Int) = some x1 := by
    rw [vec_at_set_nat _ _ _ _ l0, if_neg (by omega), r1]
  have t2 : vec_at ((R4.set a0 (x0 * dA)).set a1 (x1 * dA)) (a2 : Int) = some x2 := by
    rw [vec_at_set_nat _ _ _ _ (by simpa using l1), if_neg (by omega),
      vec_at_set_nat _ _ _ _ l0, if_neg (by omega), r2]
  have t3 : vec_at (((R4.set a0 (x0 * dA)).set a1 (x1 * dA)).set a2 (x2 * dA)) (a3 : Int)
      = some x3 := by
    rw [vec_at_set_nat _ _ _ _ (by simpa using l2), if_neg (by omega),
      vec_at_set_nat _ _ _ _ (by simpa using l1), if_neg (by omega),
      vec_at_set_nat _ _ _ _ l0, if_neg (by omega), r3]
  simp only [hA, r0, Option.bind_eq_bind, Option.some_bind, vec_set_natCast _ _ _ l0]
  rw [t1]
  simp only [Option.some_bind]
  rw [vec_set_natCast _ _ _ (by simpa using l1)]
  simp only [Option.some_bind]
  rw [t2]
  simp only [Option.some_bind]
  rw [vec_set_natCast _ _ _ (by simpa using l2)]
  simp only [Option.some_bind]
  rw [t3]
  simp only [Option.some_bind]
  rw [vec_set_natCast _ _ _ (by simpa using l3)]

/-- One iteration of the set-up loop succeeds on vectors of the sizes the driver allocates,
writes the four entries of its grid point and leaves every other entry as it was. -/
theorem rhs_body_spec (i j : Int) (R : List α) (hi0 : 0 ≤ i) (hi1 : i < S.Nlat) (hj0 : 0 ≤ j)
    (hj1 : j < S.Nlon) (hlat : S.Nlat ≤ latitude.length)
    (hA : weight_err = true → S.Nlat * S.Nlon ≤ dAreas.length)
    (h1 : S.Nlat * S.Nlon ≤ u_lon_rem.length) (h2 : S.Nlat * S.Nlon ≤ u_lat_rem.length)
    (h3 : S.Nlat * S.Nlon ≤ vort_term.length) (h4 : S.Nlat * S.Nlon ≤ div_term.length)
    (hR : 4 * (S.Nlat * S.Nlon) ≤ R.length) :
    ∃ R2, rhs_body K latitude dAreas S weight_err Tikhov_Laplace deriv_scale_factor
          u_lon_rem u_lat_rem vort_term div_term i j R = some R2 ∧
      R2.length = R.length ∧
      (∀ k : Int, 0 ≤ k → k ≤ 3 →
        vec_at R2 (k * (S.Nlat * S.Nlon) + (i * S.Nlon + j))
          = some (rhs_expected K latitude dAreas S weight_err Tikhov_Laplace
              deriv_scale_factor u_lon_rem u_lat_rem vort_term div_term k
              (i * S.Nlon + j))) ∧
      (∀ q : Int, (∀ k : Int, 0 ≤ k → k ≤ 3 → q ≠ k * (S.Nlat * S.Nlon) + (i * S.Nlon + j)) →
        vec_at R2 q = vec_at R q) := by
  have hr := Index_sub_range i j S.Nlat S.Nlon hi0 hi1 hj0 hj1
  rw [Index_sub_eq] at hr
  have hdiv : (i * S.Nlon + j) / S.Nlon = i := by
    have hN : S.Nlon ≠ 0 := by omega
    rw [Int.add_comm, Int.add_mul_ediv_right _ _ hN, Int.ediv_eq_zero_of_lt hj0 hj1]
    simp
  have rlat := vec_at_getD latitude i 0 hi0 (by omega)
  unfold rhs_body rhs_assign rhs_weight
  simp only [Index_sub_eq]
  generalize hp : i * S.Nlon + j = p at hr hdiv ⊢
  generalize hNp : S.Nlat * S.Nlon = N at hr hA h1 h2 h3 h4 hR ⊢
  obtain ⟨n, rfl⟩ := Int.eq_ofNat_of_zero_le hr.1
  obtain ⟨M, rfl⟩ := Int.eq_ofNat_of_zero_le (by omega : (0 : Int) ≤ N)
  have c0 : (0 : Int) * (M : Int) + (n : Int) = ((n : Nat) : Int) := by simp
  have c1 : (1 : Int) * (M : Int) + (n : Int) = ((M + n : Nat) : Int) := by push_cast; ring
  have c2 : (2 : Int) * (M : Int) + (n : Int) = ((2 * M + n : Nat) : Int) := by push_cast; ring
  have c3 : (3 : Int) * (M : Int) + (n : Int) = ((3 * M + n : Nat) : Int) := by push_cast; ring
  have rx := vec_at_getD u_lon_rem (n : Int) 0 (by omega) (by omega)
  have ry := vec_at_getD u_lat_rem (n : Int) 0 (by omega) (by omega)
  have rv := vec_at_getD vort_term (n : Int) 0 (by omega) (by omega)
  have rd := vec_at_getD div_term (n : Int) 0 (by omega) (by omega)
  have l0 : n < R.length := by omega
  have l1 : M + n < R.length := by omega
  have l2 : 2 * M + n < R.length := by omega
  have l3 : 3 * M + n < R.length := by omega
  have d01 : n ≠ M + n := by omega
  have d02 : n ≠ 2 * M + n := by omega
  have d03 : n ≠ 3 * M + n := by omega
  have d12 : M + n ≠ 2 * M + n := by omega
  have d13 : M + n ≠ 3 * M + n := by omega
  have d23 : 2 * M + n ≠ 3 * M + n := by omega
  have rA : weight_err = true → vec_at dAreas (n : Int) = some (dAreas.getD (n : Int).toNat 0) :=
    fun hw => vec_at_getD dAreas (n : Int) 0 (by omega) (by have := hA hw; omega)
  have s0 : ∀ (L : List α) (x : α), L.length = R.length →
      vec_set L ((n : Nat) : Int) x = some (L.set n x) :=
    fun L x hL => vec_set_natCast L n x (by omega)
  have s1 : ∀ (L : List α) (x : α), L.length = R.length →
      vec_set L ((M + n : Nat) : Int) x = some (L.set (M + n) x) :=
    fun L x hL => vec_set_natCast L (M + n) x (by omega)
  have s2 : ∀ (L : List α) (x : α), L.length = R.length →
      vec_set L ((2 * M + n : Nat) : Int) x = some (L.set (2 * M + n) x) :=
    fun L x hL => vec_set_natCast L (2 * M + n) x (by omega)
  have s3 : ∀ (L : List α) (x : α), L.length = R.length →
      vec_set L ((3 * M + n : Nat) : Int) x = some (L.set (3 * M + n) x) :=
    fun L x hL => vec_set_natCast L (3 * M + n) x (by omega)
  -- the values assigned by the first part
  obtain ⟨z2, z3, hz2, hz3, hassign⟩ : ∃ z2 z3 : α,
      z2 = (if i = 0 ∨ is_pole K (latitude.getD i.toNat 0) = true then 0
        else vort_term.getD (n : Int).toNat 0 * Tikhov_Laplace / deriv_scale_factor) ∧
      z3 = (if i = 0 ∨ is_pole K (latitude.getD i.toNat 0) = true then 0
        else div_term.getD (n : Int).toNat 0 * Tikhov_Laplace / deriv_scale_factor) ∧
      (do
        let pole := is_pole K (← vec_at latitude i)
        let RHS_vector ← vec_set R ((0 : Int) * (M : Int) + (n : Int)) (← vec_at u_lon_rem (n : Int))
        let RHS_vector ← vec_set RHS_vector ((1 : Int) * (M : Int) + (n : Int))
          (← vec_at u_lat_rem (n : Int))
        if i = 0 ∨ pole then do
          let RHS_vector ← vec_set RHS_vector ((2 : Int) * (M : Int) + (n : Int)) 0
          vec_set RHS_vector ((3 : Int) * (M : Int) + (n : Int)) 0
        else do
          let RHS_vector ← vec_set RHS_vector ((2 : Int) * (M : Int) + (n : Int))
            ((← vec_at vort_term (n : Int)) * Tikhov_Laplace / deriv_scale_factor)
          vec_set RHS_vector ((3 : Int) * (M : Int) + (n : Int))
            ((← vec_at div_term (n : Int)) * Tikhov_Laplace / deriv_scale_factor))
        = some ((((R.set n (u_lon_rem.getD (n : Int).toNat 0)).set (M + n)
            (u_lat_rem.getD (n : Int).toNat 0)).set (2 * M + n) z2).set (3 * M + n) z3) := by
    by_cases hb : i = 0 ∨ is_pole K (latitude.getD i.toNat 0) = true
    · refine ⟨0, 0, (if_pos hb).symm, (if_pos hb).symm, ?_⟩
      simp only [c0, c1, c2, c3, rlat, rx, ry, Option.bind_eq_bind, Option.some_bind, s0, s1, s2,
        s3, List.length_set, hb, if_true]
    · refine ⟨_, _, (if_neg hb).symm, (if_neg hb).symm, ?_⟩
      simp only [c0, c1, c2, c3, rlat, rx, ry, rv, rd, Option.bind_eq_bind, Option.some_bind, s0,
        s1, s2, s3, List.length_set, hb, if_false]
  rw [hassign]
  simp only [Option.bind_eq_bind, Option.some_bind]
  have q := set4_spec R n (M + n) (2 * M + n) (3 * M + n) (u_lon_rem.getD (n : Int).toNat 0)
    (u_lat_rem.getD (n : Int).toNat 0) z2 z3 l0 l1 l2 l3 d01 d02 d03 d12 d13 d23
  have hk : ∀ (R2 : List α),
      vec_at R2 ((n : Nat) : Int) = some (rhs_expected K latitude dAreas S weight_err
        Tikhov_Laplace deriv_scale_factor u_lon_rem u_lat_rem vort_term div_term 0 (n : Int)) →
      vec_at R2 ((M + n : Nat) : Int) = some (rhs_expected K latitude dAreas S weight_err
        Tikhov_Laplace deriv_scale_factor u_lon_rem u_lat_rem vort_term div_term 1 (n : Int)) →
      vec_at R2 ((2 * M + n : Nat) : Int) = some (rhs_expected K latitude dAreas S weight_err
        Tikhov_Laplace deriv_scale_factor u_lon_rem u_lat_rem vort_term div_term 2 (n : Int)) →
      vec_at R2 ((3 * M + n : Nat) : Int) = some (rhs_expected K latitude dAreas S weight_err
        Tikhov_Laplace deriv_scale_factor u_lon_rem u_lat_rem vort_term div_term 3 (n : Int)) →
      ∀ k : Int, 0 ≤ k → k ≤ 3 → vec_at R2 (k * (M : Int) + (n : Int))
        = some (rhs_expected K latitude dAreas S weight_err Tikhov_Laplace deriv_scale_factor
            u_lon_rem u_lat_rem vort_term div_term k (n : Int)) := by
    intro R2 v0 v1 v2 v3 k hk0 hk3
    have hk : k = 0 ∨ k = 1 ∨ k = 2 ∨ k = 3 := by omega
    rcases hk with rfl | rfl | rfl | rfl
    · rw [c0]; exact v0
    · rw [c1]; exact v1
    · rw [c2]; exact v2
    · rw [c3]; exact v3
  have hq : ∀ q : Int, (∀ k : Int, 0 ≤ k → k ≤ 3 → q ≠ k * (M : Int) + (n : Int)) →
      q ≠ ((n : Nat) : Int) ∧ q ≠ ((M + n : Nat) : Int) ∧ q ≠ ((2 * M + n : Nat) : Int) ∧
        q ≠ ((3 * M + n : Nat) : Int) := by
    intro q h
    refine ⟨?_, ?_, ?_, ?_⟩
    · rw [← c0]; exact h 0 (by omega) (by omega)
    · rw [← c1]; exact h 1 (by omega) (by omega)
    · rw [← c2]; exact h 2 (by omega) (by omega)
    · rw [← c3]; exact h 3 (by omega) (by omega)
  have e0 : rhs_expected K latitude dAreas S false Tikhov_Laplace deriv_scale_factor
      u_lon_rem u_lat_rem vort_term div_term 0 (n : Int) = u_lon_rem.getD (n : Int).toNat 0 := by
    simp [rhs_expected]
  have e1 : rhs_expected K latitude dAreas S false Tikhov_Laplace deriv_scale_factor
      u_lon_rem u_lat_rem vort_term div_term 1 (n : Int) = u_lat_rem.getD (n : Int).toNat 0 := by
    simp [rhs_expected]
  have e2 : rhs_expected K latitude dAreas S false Tikhov_Laplace deriv_scale_factor
      u_lon_rem u_lat_rem vort_term div_term 2 (n : Int) = z2 := by
    rw [hz2]; simp [rhs_expected, hdiv]
  have e3 : rhs_expected K latitude dAreas S false Tikhov_Laplace deriv_scale_factor
      u_lon_rem u_lat_rem vort_term div_term 3 (n : Int) = z3 := by
    rw [hz3]; simp [rhs_expected, hdiv]
  have w : ∀ k : Int, rhs_expected K latitude dAreas S true Tikhov_Laplace deriv_scale_factor
      u_lon_rem u_lat_rem vort_term div_term k (n : Int)
      = rhs_expected K latitude dAreas S false Tikhov_Laplace deriv_scale_factor
          u_lon_rem u_lat_rem vort_term div_term k (n : Int) * dAreas.getD (n : Int).toNat 0 := by
    intro k; simp [rhs_expected]
  cases weight_err
  · simp only [Bool.false_eq_true, if_false, Option.pure_def]
    refine ⟨_, rfl, by simp, ?_, ?_⟩
    · exact hk _ (by rw [e0]; exact q.1) (by rw [e1]; exact q.2.1) (by rw [e2]; exact q.2.2.1)
        (by rw [e3]; exact q.2.2.2.1)
    · intro q1 hq1
      obtain ⟨a, b, c, d⟩ := hq q1 hq1
      exact q.2.2.2.2 q1 a b c d
  · simp only [if_true, c0, c1, c2, c3]
    have wt := weighted_tail _ dAreas (n : Int) n (M + n) (2 * M + n) (3 * M + n) _ _ _ _ _
      (rA rfl) q.1 q.2.1 q.2.2.1 q.2.2.2.1 d01 d02 d03 d12 d13 d23
    have q2 := set4_spec ((((R.set n (u_lon_rem.getD (n : Int).toNat 0)).set (M + n)
        (u_lat_rem.getD (n : Int).toNat 0)).set (2 * M + n) z2).set (3 * M + n) z3)
      n (M + n) (2 * M + n) (3 * M + n)
      (u_lon_rem.getD (n : Int).toNat 0 * dAreas.getD (n : Int).toNat 0)
      (u_lat_rem.getD (n : Int).toNat 0 * dAreas.getD (n : Int).toNat 0)
      (z2 * dAreas.getD (n : Int).toNat 0) (z3 * dAreas.getD (n : Int).toNat 0)
      (by simpa using l0) (by simpa using l1) (by simpa using l2) (by simpa using l3)
      d01 d02 d03 d12 d13 d23
    refine ⟨_, wt, by simp, ?_, ?_⟩
    · exact hk _ (by rw [w, e0]; exact q2.1) (by rw [w, e1]; exact q2.2.1)
        (by rw [w, e2]; exact q2.2.2.1) (by rw [w, e3]; exact q2.2.2.2.1)
    · intro q1 hq1
      obtain ⟨a, b, c, d⟩ := hq q1 hq1
      rw [q2.2.2.2.2 q1 a b c d]
      exact q.2.2.2.2 q1 a b c d

/-- The set-up loop succeeds on vectors of the sizes the driver allocates and leaves in
`RHS_vector`, at position `k * Npts + m` for every block `k` and in-slice offset `m`, the
value `rhs_expected`. -/
theorem build_RHS_spec (R0 : List α) (hN0 : 0 ≤ S.Nlat) (hN : 0 ≤ S.Nlon)
    (hlat : S.Nlat ≤ latitude.length)
    (hA : weight_err = true → S.Nlat * S.Nlon ≤ dAreas.length)
    (h1 : S.Nlat * S.Nlon ≤ u_lon_rem.length) (h2 : S.Nlat * S.Nlon ≤ u_lat_rem.length)
    (h3 : S.Nlat * S.Nlon ≤ vort_term.length) (h4 : S.Nlat * S.Nlon ≤ div_term.length)
    (hR : 4 * (S.Nlat * S.Nlon) ≤ R0.length) :
    ∃ R, build_RHS K latitude dAreas S weight_err Tikhov_Laplace deriv_scale_factor
          u_lon_rem u_lat_rem vort_term div_term R0 = some R ∧
      R.length = R0.length ∧
      ∀ k m : Int, 0 ≤ k → k ≤ 3 → 0 ≤ m → m < S.Nlat * S.Nlon →
        vec_at R (k * (S.Nlat * S.Nlon) + m)
          = some (rhs_expected K latitude dAreas S weight_err Tikhov_Laplace
              deriv_scale_factor u_lon_rem u_lat_rem vort_term div_term k m) := by
  have key := grid_loop_inv S
    (fun (n : Int) (R : List α) => R.length = R0.length ∧
      ∀ k m : Int, 0 ≤ k → k ≤ 3 → 0 ≤ m → m < n →
        vec_at R (k * (S.Nlat * S.Nlon) + m)
          = some (rhs_expected K latitude dAreas S weight_err Tikhov_Laplace
              deriv_scale_factor u_lon_rem u_lat_rem vort_term div_term k m))
    (fun Ilat Ilon R => rhs_body K latitude dAreas S weight_err Tikhov_Laplace
      deriv_scale_factor u_lon_rem u_lat_rem vort_term div_term Ilat Ilon R)
    R0 hN0 hN ⟨rfl, fun k m _ _ h0 h1 => absurd h1 (by omega)⟩
    (by
      intro i j R hi0 hi1 hj0 hj1 hP
      obtain ⟨hlen, hdone⟩ := hP
      obtain ⟨R2, hb, hl2, hval, hfr⟩ := rhs_body_spec K latitude dAreas S weight_err
        Tikhov_Laplace deriv_scale_factor u_lon_rem u_lat_rem vort_term div_term i j R
        hi0 hi1 hj0 hj1 hlat hA h1 h2 h3 h4 (by omega)
      refine ⟨R2, hb, by omega, ?_⟩
      intro k m hk0 hk3 hm0 hm1
      have hr := Index_sub_range i j S.Nlat S.Nlon hi0 hi1 hj0 hj1
      rw [Index_sub_eq] at hr
      by_cases hmn : m = i * S.Nlon + j
      · rw [hmn]; exact hval k hk0 hk3
      · have hlt : m < i * S.Nlon + j := by omega
        rw [hfr]
        · exact hdone k m hk0 hk3 hm0 hlt
        · intro k2 _ _ heq
          have := lin_inj (S.Nlat * S.Nlon) k k2 m (i * S.Nlon + j) hm0 (by omega) hr.1 hr.2
            heq
          exact hmn this.2)
  obtain ⟨R, hR1, hlen, hall⟩ := key
  exact ⟨R, hR1, hlen, hall⟩

/-- Under `weight_err` the expected entry is the unweighted one multiplied by the area. -/
theorem rhs_expected_weight (k m : Int) :
    rhs_expected K latitude dAreas S true Tikhov_Laplace deriv_scale_factor
        u_lon_rem u_lat_rem vort_term div_term k m
      = rhs_expected K latitude dAreas S false Tikhov_Laplace deriv_scale_factor
          u_lon_rem u_lat_rem vort_term div_term k m * dAreas.getD m.toNat 0 := by
  simp [rhs_expected]

end RHSLemmas

/-! ## The loops of a slice -/

section SliceLemmas

variable {α : Type} [LinearOrderedField α]

/-- The loop that subtracts the seed velocity succeeds on vectors of the sizes the driver
allocates and fills `u_lon_rem` and `u_lat_rem` with `rem_value`. -/
theorem subtract_seed_spec (S : Sizes) (Itime Idepth : Int)
    (u_lon u_lat t1 t2 p1 p2 r1 r2 : List α) (hN0 : 0 ≤ S.Nlat) (hN : 0 ≤ S.Nlon)
    (hb : 0 ≤ slice_base S Itime Idepth)
    (hu1 : slice_base S Itime Idepth + S.Nlat * S.Nlon ≤ u_lon.length)
    (hu2 : slice_base S Itime Idepth + S.Nlat * S.Nlon ≤ u_lat.length)
    (ht1 : S.Nlat * S.Nlon ≤ t1.length) (ht2 : S.Nlat * S.Nlon ≤ t2.length)
    (hp1 : S.Nlat * S.Nlon ≤ p1.length) (hp2 : S.Nlat * S.Nlon ≤ p2.length)
    (hr1 : S.Nlat * S.Nlon ≤ r1.length) (hr2 : S.Nlat * S.Nlon ≤ r2.length) :
    ∃ a b, subtract_seed S Itime Idepth u_lon u_lat t1 t2 p1 p2 (r1, r2) = some (a, b) ∧
      filled r1 a 0 (rem_value u_lon t1 p1 (slice_base S Itime Idepth)) (S.Nlat * S.Nlon) ∧
      filled r2 b 0 (rem_value u_lat t2 p2 (slice_base S Itime Idepth)) (S.Nlat * S.Nlon) := by
  have key := grid_loop_inv S
    (fun (n : Int) (t : List α × List α) =>
      filled r1 t.1 0 (rem_value u_lon t1 p1 (slice_base S Itime Idepth)) n ∧
      filled r2 t.2 0 (rem_value u_lat t2 p2 (slice_base S Itime Idepth)) n)
    (fun Ilat Ilon t => subtract_seed_body S Itime Idepth u_lon u_lat t1 t2 p1 p2 Ilat Ilon t)
    (r1, r2) hN0 hN ⟨filled_zero _ _ _, filled_zero _ _ _⟩
    (by
      rintro i j ⟨a, b⟩ hi0 hi1 hj0 hj1 ⟨fa, fb⟩
      simp only at fa fb
      have hr := Index_sub_range i j S.Nlat S.Nlon hi0 hi1 hj0 hj1
      rw [Index_sub_eq] at hr
      have e := Index_split S Itime Idepth i j
      unfold subtract_seed_body
      dsimp only
      rw [Index_sub_eq, e]
      unfold slice_base at hb hu1 hu2 fa fb ⊢
      generalize Index Itime Idepth 0 0 S.Ntime S.Ndepth S.Nlat S.Nlon = base at *
      generalize i * S.Nlon + j = p at *
      have x1 := vec_at_getD u_lon (base + p) 0 (by omega) (by omega)
      have x2 := vec_at_getD u_lat (base + p) 0 (by omega) (by omega)
      have y1 := vec_at_getD t1 p 0 (by omega) (by omega)
      have y2 := vec_at_getD t2 p 0 (by omega) (by omega)
      have z1 := vec_at_getD p1 p 0 (by omega) (by omega)
      have z2 := vec_at_getD p2 p 0 (by omega) (by omega)
      obtain ⟨a2, ha2, fa2⟩ := filled_step r1 a 0 _ p
        (u_lon.getD (base + p).toNat 0 - t1.getD p.toNat 0 - p1.getD p.toNat 0)
        fa hr.1 (le_refl 0) (by omega) rfl
      obtain ⟨b2, hb2, fb2⟩ := filled_step r2 b 0 _ p
        (u_lat.getD (base + p).toNat 0 - t2.getD p.toNat 0 - p2.getD p.toNat 0)
        fb hr.1 (le_refl 0) (by omega) rfl
      rw [zero_add] at ha2 hb2
      refine ⟨(a2, b2), ?_, fa2, fb2⟩
      simp only [x1, x2, y1, y2, z1, z2, ha2, hb2, Option.bind_eq_bind, Option.some_bind,
        Option.pure_def])
  obtain ⟨⟨a, b⟩, h, fa, fb⟩ := key
  exact ⟨a, b, h, fa, fb⟩

/-- The loop that extracts the seed of a slice succeeds on vectors of the sizes the driver
allocates and fills the two seed vectors with the slice of `seed_tor` and `seed_pot`. -/
theorem extract_seed_spec (S : Sizes) (Itime Idepth : Int)
    (seed_tor seed_pot s1 s2 : List α) (hN0 : 0 ≤ S.Nlat) (hN : 0 ≤ S.Nlon)
    (hb : 0 ≤ slice_base S Itime Idepth)
    (hu1 : slice_base S Itime Idepth + S.Nlat * S.Nlon ≤ seed_tor.length)
    (hu2 : slice_base S Itime Idepth + S.Nlat * S.Nlon ≤ seed_pot.length)
    (hr1 : S.Nlat * S.Nlon ≤ s1.length) (hr2 : S.Nlat * S.Nlon ≤ s2.length) :
    ∃ a b, extract_seed S Itime Idepth seed_tor seed_pot (s1, s2) = some (a, b) ∧
      filled s1 a 0 (slice_value seed_tor (slice_base S Itime Idepth)) (S.Nlat * S.Nlon) ∧
      filled s2 b 0 (slice_value seed_pot (slice_base S Itime Idepth)) (S.Nlat * S.Nlon) := by
  have key := grid_loop_inv S
    (fun (n : Int) (t : List α × List α) =>
      filled s1 t.1 0 (slice_value seed_tor (slice_base S Itime Idepth)) n ∧
      filled s2 t.2 0 (slice_value seed_pot (slice_base S Itime Idepth)) n)
    (fun Ilat Ilon t => extract_seed_body S Itime Idepth seed_tor seed_pot Ilat Ilon t)
    (s1, s2) hN0 hN ⟨filled_zero _ _ _, filled_zero _ _ _⟩
    (by
      rintro i j ⟨a, b⟩ hi0 hi1 hj0 hj1 ⟨fa, fb⟩
      simp only at fa fb
      have hr := Index_sub_range i j S.Nlat S.Nlon hi0 hi1 hj0 hj1
      rw [Index_sub_eq] at hr
      have e := Index_split S Itime Idepth i j
      unfold extract_seed_body
      dsimp only
      rw [Index_sub_eq, e]
      unfold slice_base at hb hu1 hu2 fa fb ⊢
      generalize Index Itime Idepth 0 0 S.Ntime S.Ndepth S.Nlat S.Nlon = base at *
      generalize i * S.Nlon + j = p at *
      have x1 := vec_at_getD seed_tor (base + p) 0 (by omega) (by omega)
      have x2 := vec_at_getD seed_pot (base + p) 0 (by omega) (by omega)
      obtain ⟨a2, ha2, fa2⟩ := filled_step s1 a 0 _ p (seed_tor.getD (base + p).toNat 0)
        fa hr.1 (le_refl 0) (by omega) rfl
      obtain ⟨b2, hb2, fb2⟩ := filled_step s2 b 0 _ p (seed_pot.getD (base + p).toNat 0)
        fb hr.1 (le_refl 0) (by omega) rfl
      rw [zero_add] at ha2 hb2
      refine ⟨(a2, b2), ?_, fa2, fb2⟩
      simp only [x1, x2, ha2, hb2, Option.bind_eq_bind, Option.some_bind, Option.pure_def])
  obtain ⟨⟨a, b⟩, h, fa, fb⟩ := key
  exact ⟨a, b, h, fa, fb⟩

/-- The extraction of the solution succeeds when the solver output has `2 * Npts` entries
and the seeds at least `Npts`; `Psi_vector` and `Phi_vector` have `Npts` entries, the sums
of the two halves of the solver output with the seeds. -/
theorem extract_solution_spec (Npts : Int) (F Psi_seed Phi_seed : List α) (hN : 0 ≤ Npts)
    (hF : (F.length : Int) = 2 * Npts) (h1 : Npts ≤ Psi_seed.length)
    (h2 : Npts ≤ Phi_seed.length) :
    ∃ Psi_vector Phi_vector,
      extract_solution Npts F Psi_seed Phi_seed = some (Psi_vector, Phi_vector) ∧
      (Psi_vector.length : Int) = Npts ∧ (Phi_vector.length : Int) = Npts ∧
      ∀ m : Int, 0 ≤ m → m < Npts →
        vec_at Psi_vector m = some (sub_value F m + sub_value Psi_seed m) ∧
        vec_at Phi_vector m = some (slice_value F Npts m + sub_value Phi_seed m) := by
  obtain ⟨N, rfl⟩ := Int.eq_ofNat_of_zero_le hN
  have hP0 : (F.take N).length = N := by simp; omega
  have hQ0 : ((F.drop N).take N).length = N := by simp; omega
  have key := forLoop_inv
    (fun (k : Nat) (t : List α × List α) =>
      filled (F.take N) t.1 0 (fun m => sub_value F m + sub_value Psi_seed m) (k : Int) ∧
      filled ((F.drop N).take N) t.2 0
        (fun m => slice_value F (N : Int) m + sub_value Phi_seed m) (k : Int))
    N
    (fun ii PV => do
      let Psi_vector ← vec_set PV.1 ii ((← vec_at PV.1 ii) + (← vec_at Psi_seed ii))
      let Phi_vector ← vec_set PV.2 ii ((← vec_at PV.2 ii) + (← vec_at Phi_seed ii))
      pure (Psi_vector, Phi_vector))
    (F.take N, (F.drop N).take N) ⟨filled_zero _ _ _, filled_zero _ _ _⟩
    (by
      rintro k ⟨a, b⟩ hk ⟨fa, fb⟩
      simp only at fa fb
      have ra : vec_at a (k : Int) = some (sub_value F (k : Int)) := by
        rw [fa.2.2 (k : Int) (Or.inr (by omega)), vec_at_natCast,
          List.getElem?_take_of_lt hk]
        simp [sub_value, List.getElem?_eq_getElem (by omega : k < F.length)]
      have rb : vec_at b (k : Int) = some (slice_value F (N : Int) (k : Int)) := by
        rw [fb.2.2 (k : Int) (Or.inr (by omega)), vec_at_natCast,
          List.getElem?_take_of_lt hk, List.getElem?_drop]
        have e : ((N : Int) + (k : Int)).toNat = N + k := by omega
        simp [slice_value, e, List.getElem?_eq_getElem (by omega : N + k < F.length)]
      have s1 : vec_at Psi_seed (k : Int) = some (sub_value Psi_seed (k : Int)) :=
        vec_at_getD Psi_seed (k : Int) 0 (by omega) (by omega)
      have s2 : vec_at Phi_seed (k : Int) = some (sub_value Phi_seed (k : Int)) :=
        vec_at_getD Phi_seed (k : Int) 0 (by omega) (by omega)
      obtain ⟨a2, ha2, fa2⟩ := filled_step (F.take N) a 0 _ (k : Int)
        (sub_value F (k : Int) + sub_value Psi_seed (k : Int)) fa (by omega) (le_refl 0)
        (by omega) rfl
      obtain ⟨b2, hb2, fb2⟩ := filled_step ((F.drop N).take N) b 0 _ (k : Int)
        (slice_value F (N : Int) (k : Int) + sub_value Phi_seed (k : Int)) fb (by omega)
        (le_refl 0) (by omega) rfl
      rw [zero_add] at ha2 hb2
      refine ⟨(a2, b2), ?_, ?_, ?_⟩
      · simp only [ra, rb, s1, s2, ha2, hb2, Option.bind_eq_bind, Option.some_bind,
          Option.pure_def]
      · have e : ((k + 1 : Nat) : Int) = (k : Int) + 1 := by push_cast; ring
        show filled _ _ _ _ ((k + 1 : Nat) : Int)
        rw [e]; exact fa2
      · have e : ((k + 1 : Nat) : Int) = (k : Int) + 1 := by push_cast; ring
        show filled _ _ _ _ ((k + 1 : Nat) : Int)
        rw [e]; exact fb2)
  obtain ⟨⟨a, b⟩, h, fa, fb⟩ := key
  refine ⟨a, b, ?_, by rw [fa.1]; exact_mod_cast hP0, by rw [fb.1]; exact_mod_cast hQ0, ?_⟩
  · unfold extract_solution
    simp only [Int.toNat_ofNat]
    exact h
  · intro m hm0 hm1
    have q1 := fa.2.1 m hm0 hm1
    have q2 := fb.2.1 m hm0 hm1
    rw [zero_add] at q1 q2
    exact ⟨q1, q2⟩

/-- The loop that stores the result of a slice succeeds on vectors of the sizes the driver
allocates; it writes the slice of the six full arrays and, under `single_seed`, the seed. -/
theorem store_slice_spec (S : Sizes) (Itime Idepth : Int) (single_seed : Bool)
    (u_lon_tor u_lat_tor u_lon_pot u_lat_pot Psi_vector Phi_vector : List α) (o : Stored α)
    (hN0 : 0 ≤ S.Nlat) (hN : 0 ≤ S.Nlon) (hb : 0 ≤ slice_base S Itime Idepth)
    (f1 : slice_base S Itime Idepth + S.Nlat * S.Nlon ≤ o.full_u_lon_tor.length)
    (f2 : slice_base S Itime Idepth + S.Nlat * S.Nlon ≤ o.full_u_lat_tor.length)
    (f3 : slice_base S Itime Idepth + S.Nlat * S.Nlon ≤ o.full_u_lon_pot.length)
    (f4 : slice_base S Itime Idepth + S.Nlat * S.Nlon ≤ o.full_u_lat_pot.length)
    (f5 : slice_base S Itime Idepth + S.Nlat * S.Nlon ≤ o.full_Psi.length)
    (f6 : slice_base S Itime Idepth + S.Nlat * S.Nlon ≤ o.full_Phi.length)
    (f7 : S.Nlat * S.Nlon ≤ o.Psi_seed.length) (f8 : S.Nlat * S.Nlon ≤ o.Phi_seed.length)
    (g1 : S.Nlat * S.Nlon ≤ u_lon_tor.length) (g2 : S.Nlat * S.Nlon ≤ u_lat_tor.length)
    (g3 : S.Nlat * S.Nlon ≤ u_lon_pot.length) (g4 : S.Nlat * S.Nlon ≤ u_lat_pot.length)
    (g5 : S.Nlat * S.Nlon ≤ Psi_vector.length) (g6 : S.Nlat * S.Nlon ≤ Phi_vector.length) :
    ∃ st, store_slice S Itime Idepth single_seed u_lon_tor u_lat_tor u_lon_pot u_lat_pot
          Psi_vector Phi_vector o = some st ∧
      stored_upto S Itime Idepth single_seed u_lon_tor u_lat_tor u_lon_pot u_lat_pot
        Psi_vector Phi_vector o st (S.Nlat * S.Nlon) := by
  have key := grid_loop_inv S
    (fun (n : Int) (st : Stored α) =>
      stored_upto S Itime Idepth single_seed u_lon_tor u_lat_tor u_lon_pot u_lat_pot
        Psi_vector Phi_vector o st n)
    (fun Ilat Ilon st => store_body S Itime Idepth single_seed u_lon_tor u_lat_tor u_lon_pot
      u_lat_pot Psi_vector Phi_vector Ilat Ilon st)
    o hN0 hN
    ⟨filled_zero _ _ _, filled_zero _ _ _, filled_zero _ _ _, filled_zero _ _ _,
      filled_zero _ _ _, filled_zero _ _ _, fun _ => ⟨filled_zero _ _ _, filled_zero _ _ _⟩,
      fun _ => ⟨rfl, rfl⟩⟩
    (by
      rintro i j st hi0 hi1 hj0 hj1 ⟨q1, q2, q3, q4, q5, q6, q7, q8⟩
      have hr := Index_sub_range i j S.Nlat S.Nlon hi0 hi1 hj0 hj1
      rw [Index_sub_eq] at hr
      have e := Index_split S Itime Idepth i j
      unfold store_body
      dsimp only
      rw [Index_sub_eq, e]
      unfold stored_upto
      unfold slice_base at hb f1 f2 f3 f4 f5 f6 q1 q2 q3 q4 q5 q6 ⊢
      generalize Index Itime Idepth 0 0 S.Ntime S.Ndepth S.Nlat S.Nlon = base at *
      generalize i * S.Nlon + j = p at *
      have x1 : vec_at u_lon_tor p = some (sub_value u_lon_tor p) :=
        vec_at_getD u_lon_tor p 0 (by omega) (by omega)
      have x2 : vec_at u_lat_tor p = some (sub_value u_lat_tor p) :=
        vec_at_getD u_lat_tor p 0 (by omega) (by omega)
      have x3 : vec_at u_lon_pot p = some (sub_value u_lon_pot p) :=
        vec_at_getD u_lon_pot p 0 (by omega) (by omega)
      have x4 : vec_at u_lat_pot p = some (sub_value u_lat_pot p) :=
        vec_at_getD u_lat_pot p 0 (by omega) (by omega)
      have x5 : vec_at Psi_vector p = some (sub_value Psi_vector p) :=
        vec_at_getD Psi_vector p 0 (by omega) (by omega)
      have x6 : vec_at Phi_vector p = some (sub_value Phi_vector p) :=
        vec_at_getD Phi_vector p 0 (by omega) (by omega)
      obtain ⟨a1, h1, r1⟩ := filled_step _ _ base _ p (sub_value u_lon_tor p) q1 hr.1 hb
        (by omega) rfl
      obtain ⟨a2, h2, r2⟩ := filled_step _ _ base _ p (sub_value u_lat_tor p) q2 hr.1 hb
        (by omega) rfl
      obtain ⟨a3, h3, r3⟩ := filled_step _ _ base _ p (sub_value u_lon_pot p) q3 hr.1 hb
        (by omega) rfl
      obtain ⟨a4, h4, r4⟩ := filled_step _ _ base _ p (sub_value u_lat_pot p) q4 hr.1 hb
        (by omega) rfl
      obtain ⟨a5, h5, r5⟩ := filled_step _ _ base _ p (sub_value Psi_vector p) q5 hr.1 hb
        (by omega) rfl
      obtain ⟨a6, h6, r6⟩ := filled_step _ _ base _ p (sub_value Phi_vector p) q6 hr.1 hb
        (by omega) rfl
      cases hs : single_seed
      · obtain ⟨e7, e8⟩ := q8 hs
        refine ⟨⟨a1, a2, a3, a4, a5, a6, st.Psi_seed, st.Phi_seed⟩, ?_, r1, r2, r3, r4, r5, r6,
          fun h => by simp at h, fun _ => ⟨e7, e8⟩⟩
        simp only [assign_from, x1, x2, x3, x4, x5, x6, h1, h2, h3, h4, h5, h6,
          Option.bind_eq_bind, Option.some_bind, Option.pure_def, Bool.false_eq_true, if_false]
      · obtain ⟨q7a, q7b⟩ := q7 hs
        obtain ⟨a7, h7, r7⟩ := filled_step _ _ 0 _ p (sub_value Psi_vector p) q7a hr.1
          (le_refl 0) (by omega) rfl
        obtain ⟨a8, h8, r8⟩ := filled_step _ _ 0 _ p (sub_value Phi_vector p) q7b hr.1
          (le_refl 0) (by omega) rfl
        rw [zero_add] at h7 h8
        refine ⟨⟨a1, a2, a3, a4, a5, a6, a7, a8⟩, ?_, r1, r2, r3, r4, r5, r6,
          fun _ => ⟨r7, r8⟩, fun h => by simp at h⟩
        simp only [assign_from, x1, x2, x3, x4, x5, x6, h1, h2, h3, h4, h5, h6, h7, h8,
          Option.bind_eq_bind, Option.some_bind, Option.pure_def, if_true])
  exact key

/-- The body of the loop over the slices succeeds on the arrays the driver allocates, and
its result is assembled from the results of its five loops, each of which acts as specified
above. -/
theorem Apply_slice_spec (X : Collaborators α) (K : Constants α) (I : SliceInputs α)
    (S : Sizes) (Itime Idepth : Int) (st : SliceState α)
    (hN0 : 0 ≤ S.Nlat) (hN : 0 ≤ S.Nlon) (hb : 0 ≤ slice_base S Itime Idepth)
    (hu1 : slice_base S Itime Idepth + S.Nlat * S.Nlon ≤ I.u_lon.length)
    (hu2 : slice_base S Itime Idepth + S.Nlat * S.Nlon ≤ I.u_lat.length)
    (hs1 : I.single_seed = false →
      slice_base S Itime Idepth + S.Nlat * S.Nlon ≤ I.seed_tor.length)
    (hs2 : I.single_seed = false →
      slice_base S Itime Idepth + S.Nlat * S.Nlon ≤ I.seed_pot.length)
    (hlat : S.Nlat ≤ I.source_data.latitude.length)
    (hA : I.weight_err = true → S.Nlat * S.Nlon ≤ I.source_data.areas.length)
    (hal : allocated I S st) (hX : keeps_sizes X S) :
    ∃ (seed rem : List α × List α) (RHS : List α) (sol : List α × List α) (out : Stored α),
      slice_seed I S Itime Idepth st = some seed ∧
      ((seed.1.length : Int) = S.Nlat * S.Nlon ∧ (seed.2.length : Int) = S.Nlat * S.Nlon) ∧
      (I.single_seed = true → seed = (st.out.Psi_seed, st.out.Phi_seed)) ∧
      (I.single_seed = false →
        filled st.out.Psi_seed seed.1 0 (slice_value I.seed_tor (slice_base S Itime Idepth))
          (S.Nlat * S.Nlon) ∧
        filled st.out.Phi_seed seed.2 0 (slice_value I.seed_pot (slice_base S Itime Idepth))
          (S.Nlat * S.Nlon)) ∧
      filled st.u_lon_rem rem.1 0
        (rem_value I.u_lon
          (X.toroidal_vel_from_F st.u_lon_tor_seed st.u_lat_tor_seed seed.1
            I.source_data.longitude I.source_data.latitude S.Ntime S.Ndepth S.Nlat S.Nlon
            (used_mask I)).1
          (X.potential_vel_from_F st.u_lon_pot_seed st.u_lat_pot_seed seed.2
            I.source_data.longitude I.source_data.latitude S.Ntime S.Ndepth S.Nlat S.Nlon
            (used_mask I)).1
          (slice_base S Itime Idepth)) (S.Nlat * S.Nlon) ∧
      filled st.u_lat_rem rem.2 0
        (rem_value I.u_lat
          (X.toroidal_vel_from_F st.u_lon_tor_seed st.u_lat_tor_seed seed.1
            I.source_data.longitude I.source_data.latitude S.Ntime S.Ndepth S.Nlat S.Nlon
            (used_mask I)).2
          (X.potential_vel_from_F st.u_lon_pot_seed st.u_lat_pot_seed seed.2
            I.source_data.longitude I.source_data.latitude S.Ntime S.Ndepth S.Nlat S.Nlon
            (used_mask I)).2
          (slice_base S Itime Idepth)) (S.Nlat * S.Nlon) ∧
      build_RHS K I.source_data.latitude I.source_data.areas S I.weight_err I.Tikhov_Laplace
          I.deriv_scale_factor rem.1 rem.2
          (X.toroidal_curl_u_dot_er st.vort_term rem.1 rem.2 I.source_data.longitude
            I.source_data.latitude 0 0 1 1 S.Nlat S.Nlon (used_mask I))
          (X.toroidal_vel_div st.div_term rem.1 rem.2 I.source_data.longitude
            I.source_data.latitude 1 1 S.Nlat S.Nlon (used_mask I))
          st.RHS_vector = some RHS ∧
      extract_solution (S.Nlat * S.Nlon) (X.solve I.LHS_matr RHS).1 seed.1 seed.2 = some sol ∧
      (∀ m : Int, 0 ≤ m → m < S.Nlat * S.Nlon →
        vec_at sol.1 m = some (sub_value (X.solve I.LHS_matr RHS).1 m + sub_value seed.1 m) ∧
        vec_at sol.2 m = some (slice_value (X.solve I.LHS_matr RHS).1 (S.Nlat * S.Nlon) m
          + sub_value seed.2 m)) ∧
      stored_upto S Itime Idepth I.single_seed
        (X.toroidal_vel_from_F (List.replicate (S.Nlat * S.Nlon).toNat 0)
          (List.replicate (S.Nlat * S.Nlon).toNat 0) sol.1 I.source_data.longitude
          I.source_data.latitude S.Ntime S.Ndepth S.Nlat S.Nlon (used_mask I)).1
        (X.toroidal_vel_from_F (List.replicate (S.Nlat * S.Nlon).toNat 0)
          (List.replicate (S.Nlat * S.Nlon).toNat 0) sol.1 I.source_data.longitude
          I.source_data.latitude S.Ntime S.Ndepth S.Nlat S.Nlon (used_mask I)).2
        (X.potential_vel_from_F (List.replicate (S.Nlat * S.Nlon).toNat 0)
          (List.replicate (S.Nlat * S.Nlon).toNat 0) sol.2 I.source_data.longitude
          I.source_data.latitude S.Ntime S.Ndepth S.Nlat S.Nlon (used_mask I)).1
        (X.potential_vel_from_F (List.replicate (S.Nlat * S.Nlon).toNat 0)
          (List.replicate (S.Nlat * S.Nlon).toNat 0) sol.2 I.source_data.longitude
          I.source_data.latitude S.Ntime S.Ndepth S.Nlat S.Nlon (used_mask I)).2
        sol.1 sol.2 { st.out with Psi_seed := seed.1, Phi_seed := seed.2 } out
        (S.Nlat * S.Nlon) ∧
      Apply_slice X K I S Itime Idepth st = some
        { u_lon_tor_seed := (X.toroidal_vel_from_F st.u_lon_tor_seed st.u_lat_tor_seed seed.1
            I.source_data.longitude I.source_data.latitude S.Ntime S.Ndepth S.Nlat S.Nlon
            (used_mask I)).1
          u_lat_tor_seed := (X.toroidal_vel_from_F st.u_lon_tor_seed st.u_lat_tor_seed seed.1
            I.source_data.longitude I.source_data.latitude S.Ntime S.Ndepth S.Nlat S.Nlon
            (used_mask I)).2
          u_lon_pot_seed := (X.potential_vel_from_F st.u_lon_pot_seed st.u_lat_pot_seed seed.2
            I.source_data.longitude I.source_data.latitude S.Ntime S.Ndepth S.Nlat S.Nlon
            (used_mask I)).1
          u_lat_pot_seed := (X.potential_vel_from_F st.u_lon_pot_seed st.u_lat_pot_seed seed.2
            I.source_data.longitude I.source_data.latitude S.Ntime S.Ndepth S.Nlat S.Nlon
            (used_mask I)).2
          u_lon_rem := rem.1
          u_lat_rem := rem.2
          div_term := X.toroidal_vel_div st.div_term rem.1 rem.2 I.source_data.longitude
            I.source_data.latitude 1 1 S.Nlat S.Nlon (used_mask I)
          vort_term := X.toroidal_curl_u_dot_er st.vort_term rem.1 rem.2
            I.source_data.longitude I.source_data.latitude 0 0 1 1 S.Nlat S.Nlon (used_mask I)
          RHS_vector := RHS
          out := out
          counts := count_termination (X.solve I.LHS_matr RHS).2 st.counts } := by
  obtain ⟨a1, a2, a3, a4, a5, a6, a7, a8, a9, a10, a11, a12, a13, a14, a15, a16, a17⟩ := hal
  obtain ⟨k1, k2, k3, k4, k5⟩ := hX
  -- the seed
  obtain ⟨seed, hseed, hsl, hst, hsf⟩ : ∃ seed : List α × List α,
      slice_seed I S Itime Idepth st = some seed ∧
      ((seed.1.length : Int) = S.Nlat * S.Nlon ∧ (seed.2.length : Int) = S.Nlat * S.Nlon) ∧
      (I.single_seed = true → seed = (st.out.Psi_seed, st.out.Phi_seed)) ∧
      (I.single_seed = false →
        filled st.out.Psi_seed seed.1 0 (slice_value I.seed_tor (slice_base S Itime Idepth))
          (S.Nlat * S.Nlon) ∧
        filled st.out.Phi_seed seed.2 0 (slice_value I.seed_pot (slice_base S Itime Idepth))
          (S.Nlat * S.Nlon)) := by
    cases hss : I.single_seed
    · obtain ⟨a, b, h, fa, fb⟩ := extract_seed_spec S Itime Idepth I.seed_tor I.seed_pot
        st.out.Psi_seed st.out.Phi_seed hN0 hN hb (hs1 hss) (hs2 hss) (le_of_eq a10.symm)
        (le_of_eq a11.symm)
      refine ⟨(a, b), by simp [slice_seed, hss, h], ⟨?_, ?_⟩, fun h => by simp at h,
        fun _ => ⟨fa, fb⟩⟩
      · rw [fa.1]; exact a10
      · rw [fb.1]; exact a11
    · exact ⟨(st.out.Psi_seed, st.out.Phi_seed), by simp [slice_seed, hss], ⟨a10, a11⟩,
        fun _ => rfl, fun h => by simp at h⟩
  -- the remaining velocity
  obtain ⟨r1, r2, hrem, fr1, fr2⟩ := subtract_seed_spec S Itime Idepth I.u_lon I.u_lat
    (X.toroidal_vel_from_F st.u_lon_tor_seed st.u_lat_tor_seed seed.1
      I.source_data.longitude I.source_data.latitude S.Ntime S.Ndepth S.Nlat S.Nlon
      (used_mask I)).1
    (X.toroidal_vel_from_F st.u_lon_tor_seed st.u_lat_tor_seed seed.1
      I.source_data.longitude I.source_data.latitude S.Ntime S.Ndepth S.Nlat S.Nlon
      (used_mask I)).2
    (X.potential_vel_from_F st.u_lon_pot_seed st.u_lat_pot_seed seed.2
      I.source_data.longitude I.source_data.latitude S.Ntime S.Ndepth S.Nlat S.Nlon
      (used_mask I)).1
    (X.potential_vel_from_F st.u_lon_pot_seed st.u_lat_pot_seed seed.2
      I.source_data.longitude I.source_data.latitude S.Ntime S.Ndepth S.Nlat S.Nlon
      (used_mask I)).2
    st.u_lon_rem st.u_lat_rem hN0 hN hb hu1 hu2
    (by rw [(k1 _ _ _ _ _ _ _ _ _ _).1]; exact le_of_eq a1.symm)
    (by rw [(k1 _ _ _ _ _ _ _ _ _ _).2]; exact le_of_eq a2.symm)
    (by rw [(k2 _ _ _ _ _ _ _ _ _ _).1]; exact le_of_eq a3.symm)
    (by rw [(k2 _ _ _ _ _ _ _ _ _ _).2]; exact le_of_eq a4.symm)
    (le_of_eq a5.symm) (le_of_eq a6.symm)
  -- the right-hand side
  obtain ⟨RHS, hRHS, hRl, _⟩ := build_RHS_spec K I.source_data.latitude I.source_data.areas S
    I.weight_err I.Tikhov_Laplace I.deriv_scale_factor r1 r2
    (X.toroidal_curl_u_dot_er st.vort_term r1 r2 I.source_data.longitude
      I.source_data.latitude 0 0 1 1 S.Nlat S.Nlon (used_mask I))
    (X.toroidal_vel_div st.div_term r1 r2 I.source_data.longitude
      I.source_data.latitude 1 1 S.Nlat S.Nlon (used_mask I))
    st.RHS_vector hN0 hN hlat hA (by rw [fr1.1]; exact le_of_eq a5.symm)
    (by rw [fr2.1]; exact le_of_eq a6.symm) (by rw [k4]; exact le_of_eq a8.symm)
    (by rw [k3]; exact le_of_eq a7.symm) (le_of_eq a9.symm)
  -- the solution
  have hNN : 0 ≤ S.Nlat * S.Nlon := Int.mul_nonneg hN0 hN
  obtain ⟨P, Q, hsol, hPl, hQl, hsv⟩ := extract_solution_spec (S.Nlat * S.Nlon)
    (X.solve I.LHS_matr RHS).1 seed.1 seed.2 hNN (k5 _ _) (le_of_eq hsl.1.symm)
    (le_of_eq hsl.2.symm)
  -- the stored arrays
  have hrep : ((List.replicate (S.Nlat * S.Nlon).toNat (0 : α)).length : Int)
      = S.Nlat * S.Nlon := by
    simp [Int.toNat_of_nonneg hNN]
  obtain ⟨out, hout, fout⟩ := store_slice_spec S Itime Idepth I.single_seed
    (X.toroidal_vel_from_F (List.replicate (S.Nlat * S.Nlon).toNat 0)
      (List.replicate (S.Nlat * S.Nlon).toNat 0) P I.source_data.longitude
      I.source_data.latitude S.Ntime S.Ndepth S.Nlat S.Nlon (used_mask I)).1
    (X.toroidal_vel_from_F (List.replicate (S.Nlat * S.Nlon).toNat 0)
      (List.replicate (S.Nlat * S.Nlon).toNat 0) P I.source_data.longitude
      I.source_data.latitude S.Ntime S.Ndepth S.Nlat S.Nlon (used_mask I)).2
    (X.potential_vel_from_F (List.replicate (S.Nlat * S.Nlon).toNat 0)
      (List.replicate (S.Nlat * S.Nlon).toNat 0) Q I.source_data.longitude
      I.source_data.latitude S.Ntime S.Ndepth S.Nlat S.Nlon (used_mask I)).1
    (X.potential_vel_from_F (List.replicate (S.Nlat * S.Nlon).toNat 0)
      (List.replicate (S.Nlat * S.Nlon).toNat 0) Q I.source_data.longitude
      I.source_data.latitude S.Ntime S.Ndepth S.Nlat S.Nlon (used_mask I)).2
    P Q { st.out with Psi_seed := seed.1, Phi_seed := seed.2 } hN0 hN hb
    (by show _ ≤ (st.out.full_u_lon_tor.length : Int); rw [a12]; exact hu1)
    (by show _ ≤ (st.out.full_u_lat_tor.length : Int); rw [a13]; exact hu1)
    (by show _ ≤ (st.out.full_u_lon_pot.length : Int); rw [a14]; exact hu1)
    (by show _ ≤ (st.out.full_u_lat_pot.length : Int); rw [a15]; exact hu1)
    (by show _ ≤ (st.out.full_Psi.length : Int); rw [a16]; exact hu1)
    (by show _ ≤ (st.out.full_Phi.length : Int); rw [a17]; exact hu1)
    (le_of_eq hsl.1.symm) (le_of_eq hsl.2.symm)
    (by rw [(k1 _ _ _ _ _ _ _ _ _ _).1]; exact le_of_eq hrep.symm)
    (by rw [(k1 _ _ _ _ _ _ _ _ _ _).2]; exact le_of_eq hrep.symm)
    (by rw [(k2 _ _ _ _ _ _ _ _ _ _).1]; exact le_of_eq hrep.symm)
    (by rw [(k2 _ _ _ _ _ _ _ _ _ _).2]; exact le_of_eq hrep.symm)
    (le_of_eq hPl.symm) (le_of_eq hQl.symm)
  refine ⟨seed, (r1, r2), RHS, (P, Q), out, hseed, hsl, hst, hsf, fr1, fr2, hRHS, hsol, hsv,
    fout, ?_⟩
  unfold Apply_slice
  simp only [hseed, hrem, hRHS, hsol, hout, Option.bind_eq_bind, Option.some_bind,
    Option.pure_def]

end SliceLemmas

/-! ## The claims about the operator assembly -/

section AssemblyClaims

variable {α : Type} [LinearOrderedField α]
variable (K : Constants α) (cos : α → α) (get_diff_vector : GetDiffVector α)

/-- C1. With `weight_err = false`, at a grid point `p = (Ilat, Ilon)` that is not a pole and
whose two first-derivative stencils are built, the function succeeds and the calls it adds on
row `p` are the longitude stencil scaled by `1/(R_earth*cos(lat))` in the Phi columns followed
by the latitude stencil scaled by `-1/R_earth` in the Psi columns; on row `N + p` they are
the longitude stencil scaled by `1/(R_earth*cos(lat))` in the Psi columns followed by the
latitude stencil scaled by `1/R_earth` in the Phi columns, each weight at its (wrapped)
column index. -/
theorem C1_velocity_block_rows (LHS_matr : List (Entry α)) (A : Args α) (S : Sizes)
    (Ilat Ilon : Int) (lat : α)
    (hS : read_sizes A.source_data.myCounts = some S)
    (hlen : S.Nlat ≤ A.source_data.latitude.length)
    (hw : A.weight_err = false)
    (hi0 : 0 ≤ Ilat) (hi1 : Ilat < S.Nlat) (hj0 : 0 ≤ Ilon) (hj1 : Ilon < S.Nlon)
    (hlat : vec_at A.source_data.latitude Ilat = some lat)
    (hpole : is_pole K lat = false)
    (hlon : (lon_stencil K get_diff_vector A S Ilat Ilon 1).2 ≠ -2 * S.Nlon)
    (hlt : (lat_stencil K get_diff_vector A S Ilat Ilon 1).2 ≠ -2 * S.Nlat) :
    sparse_vel_from_PsiPhi_vortdiv K cos get_diff_vector LHS_matr A
          = some (LHS_matr ++ added K cos get_diff_vector A S) ∧
      row_entries (added K cos get_diff_vector A S) (Index 0 0 Ilat Ilon 1 1 S.Nlat S.Nlon)
        = placed (Index 0 0 Ilat Ilon 1 1 S.Nlat S.Nlon) (lon_col K S Ilat 1)
            (fun d => d / (K.R_earth * cos lat))
            (lon_stencil K get_diff_vector A S Ilat Ilon 1).2
            (lon_stencil K get_diff_vector A S Ilat Ilon 1).1 ++
          placed (Index 0 0 Ilat Ilon 1 1 S.Nlat S.Nlon) (lat_col K S Ilon 0)
            (fun d => -d / K.R_earth)
            (lat_stencil K get_diff_vector A S Ilat Ilon 1).2
            (lat_stencil K get_diff_vector A S Ilat Ilon 1).1 ∧
      row_entries (added K cos get_diff_vector A S)
          (S.Nlat * S.Nlon + Index 0 0 Ilat Ilon 1 1 S.Nlat S.Nlon)
        = placed (S.Nlat * S.Nlon + Index 0 0 Ilat Ilon 1 1 S.Nlat S.Nlon) (lon_col K S Ilat 0)
            (fun d => d / (K.R_earth * cos lat))
            (lon_stencil K get_diff_vector A S Ilat Ilon 1).2
            (lon_stencil K get_diff_vector A S Ilat Ilon 1).1 ++
          placed (S.Nlat * S.Nlon + Index 0 0 Ilat Ilon 1 1 S.Nlat S.Nlon) (lat_col K S Ilon 1)
            (fun d => d / K.R_earth)
            (lat_stencil K get_diff_vector A S Ilat Ilon 1).2
            (lat_stencil K get_diff_vector A S Ilat Ilon 1).1 := by
  have hreads : point_reads A S Ilat Ilon = some (lat, 1) := by
    simp [point_reads, hlat, hw]
  have hb1 : built (lon_stencil K get_diff_vector A S Ilat Ilon 1) (-2 * S.Nlon) = true :=
    decide_eq_true hlon
  have hb2 : built (lat_stencil K get_diff_vector A S Ilat Ilon 1) (-2 * S.Nlat) = true :=
    decide_eq_true hlt
  have e0 : point_row S 0 Ilat Ilon = Index 0 0 Ilat Ilon 1 1 S.Nlat S.Nlon := by
    simp [point_row]
  have e1 : point_row S 1 Ilat Ilon
      = S.Nlat * S.Nlon + Index 0 0 Ilat Ilon 1 1 S.Nlat S.Nlon := by
    simp [point_row]
  have f1 : (fun d : α => d * (1 / cos lat) * (1 / K.R_earth) * 1)
      = fun d => d / (K.R_earth * cos lat) := by
    funext d
    ring
  have f2 : (fun d : α => -(d * (1 / K.R_earth) * 1)) = fun d => -d / K.R_earth := by
    funext d
    ring
  have f3 : (fun d : α => d * (1 / K.R_earth) * 1) = fun d => d / K.R_earth := by
    funext d
    ring
  refine ⟨sparse_vel_eq K cos get_diff_vector LHS_matr A S hS hlen (by simp [hw]), ?_, ?_⟩
  · rw [← e0, added_row K cos get_diff_vector A S 0 Ilat Ilon lat 1 hi0 hi1 hj0 hj1 hreads,
      vel_point_row0 K cos get_diff_vector A S Ilat Ilon lat 1 hi0 hi1 hj0 hj1,
      lap_point_velocity_rows K cos get_diff_vector A S Ilat Ilon 0 lat 1 hi0 hi1 hj0 hj1
        (by omega)]
    simp only [hpole, Bool.false_eq_true, if_false, hb1, hb2, if_true, f1, f2,
      List.append_nil]
  · rw [← e1, added_row K cos get_diff_vector A S 1 Ilat Ilon lat 1 hi0 hi1 hj0 hj1 hreads,
      vel_point_row1 K cos get_diff_vector A S Ilat Ilon lat 1 hi0 hi1 hj0 hj1,
      lap_point_velocity_rows K cos get_diff_vector A S Ilat Ilon 1 lat 1 hi0 hi1 hj0 hj1
        (by omega)]
    simp only [hpole, Bool.false_eq_true, if_false, hb1, hb2, if_true, f1, f3,
      List.append_nil]

/-- C7. For `Nlon > 0` and any integer offset `IDIFF`, the reduction
`( IDIFF % Nlon + Nlon ) % Nlon` (truncating remainder) lies in `[0, Nlon)` and differs from
`IDIFF` by a multiple of `Nlon`; without periodicity the index is `IDIFF` itself; and with
`PERIODIC_X` every column index that one of the three longitude stencil loops passes to the
matrix for a row `0 <= Ilat < Nlat` lies in `[0, 2 * Nlat * Nlon)`. -/
theorem C7_periodic_index (A : Args α) (S : Sizes) (IDIFF : Int) (hN : 0 < S.Nlon) :
    (0 ≤ wrap_index true IDIFF S.Nlon ∧ wrap_index true IDIFF S.Nlon < S.Nlon) ∧
    (∃ q : Int, wrap_index true IDIFF S.Nlon = IDIFF + q * S.Nlon) ∧
    wrap_index false IDIFF S.Nlon = IDIFF ∧
    (K.PERIODIC_X = true → ∀ (Ilat Ilon : Int) (w c c2 : α) (e : Entry α),
      0 ≤ Ilat → Ilat < S.Nlat →
      e ∈ vel_lon_part K get_diff_vector A S Ilat Ilon w c ++
        (zonal_part K get_diff_vector A S Ilat Ilon w c ++
          lap_lon2_part K get_diff_vector A S Ilat Ilon w c2) →
      0 ≤ e.col ∧ e.col < 2 * (S.Nlat * S.Nlon)) := by
  refine ⟨wrap_index_range IDIFF S.Nlon hN, wrap_index_congr IDIFF S.Nlon, by simp [wrap_index],
    ?_⟩
  intro hP Ilat Ilon w c c2 e hi0 hi1 he
  have hcol : ∀ (skip I : Int), (skip = 0 ∨ skip = 1) →
      0 ≤ lon_col K S Ilat skip I ∧ lon_col K S Ilat skip I < 2 * (S.Nlat * S.Nlon) := by
    intro skip I hs
    have hw := wrap_index_range I S.Nlon hN
    have hr := Index_sub_range Ilat (wrap_index true I S.Nlon) S.Nlat S.Nlon hi0 hi1 hw.1 hw.2
    unfold lon_col
    rw [hP]
    rcases hs with hs | hs <;> subst hs <;> constructor <;> omega
  rw [vel_lon_part_eq, zonal_part_eq, lap_lon2_part_eq] at he
  simp only [List.mem_append] at he
  rcases he with he | he | he <;>
    obtain ⟨I, d, hd | hd⟩ := mem_stencil_pair _ _ _ _ _ _ _ _ _ _ he <;>
    subst hd <;> simp only <;>
    first
    | exact hcol 0 I (Or.inl rfl)
    | exact hcol 1 I (Or.inr rfl)

/-- C5 (amended). At a grid point whose latitude is within 0.01 degrees of a pole, for every
`Tikhov_Laplace`: no call is made on rows `p` and `N + p`; no call is made on rows `2N + p`
and `3N + p` unless `Tikhov_Laplace = 0` and the point is in the first latitude row; and in
that case, when the zonal first-derivative stencil is built, the values added on each of the
rows `2N + p` and `3N + p` are its weights scaled by `(1/cos(lat)) * (1/R_earth)` and by the
weight of the point. -/
theorem C5_pole_rows (A : Args α) (S : Sizes) (Ilat Ilon : Int) (lat w : α)
    (hi0 : 0 ≤ Ilat) (hi1 : Ilat < S.Nlat) (hj0 : 0 ≤ Ilon) (hj1 : Ilon < S.Nlon)
    (hreads : point_reads A S Ilat Ilon = some (lat, w))
    (hpole : is_pole K lat = true) :
    (row_entries (added K cos get_diff_vector A S) (Index 0 0 Ilat Ilon 1 1 S.Nlat S.Nlon) = [] ∧
      row_entries (added K cos get_diff_vector A S)
        (S.Nlat * S.Nlon + Index 0 0 Ilat Ilon 1 1 S.Nlat S.Nlon) = []) ∧
    (¬(Ilat = 0 ∧ A.Tikhov_Laplace = 0) →
      row_entries (added K cos get_diff_vector A S)
        (2 * (S.Nlat * S.Nlon) + Index 0 0 Ilat Ilon 1 1 S.Nlat S.Nlon) = [] ∧
      row_entries (added K cos get_diff_vector A S)
        (3 * (S.Nlat * S.Nlon) + Index 0 0 Ilat Ilon 1 1 S.Nlat S.Nlon) = []) ∧
    (Ilat = 0 → A.Tikhov_Laplace = 0 →
      (lon_stencil K get_diff_vector A S Ilat Ilon 1).2 ≠ -2 * S.Nlon →
      (row_entries (added K cos get_diff_vector A S)
          (2 * (S.Nlat * S.Nlon) + Index 0 0 Ilat Ilon 1 1 S.Nlat S.Nlon)).map Entry.val
        = (lon_stencil K get_diff_vector A S Ilat Ilon 1).1.map
            (fun d => d * (1 / cos lat) * (1 / K.R_earth) * w) ∧
      (row_entries (added K cos get_diff_vector A S)
          (3 * (S.Nlat * S.Nlon) + Index 0 0 Ilat Ilon 1 1 S.Nlat S.Nlon)).map Entry.val
        = (lon_stencil K get_diff_vector A S Ilat Ilon 1).1.map
            (fun d => d * (1 / cos lat) * (1 / K.R_earth) * w)) := by
  have e0 : Index 0 0 Ilat Ilon 1 1 S.Nlat S.Nlon = point_row S 0 Ilat Ilon := by
    simp [point_row]
  have e1 : S.Nlat * S.Nlon + Index 0 0 Ilat Ilon 1 1 S.Nlat S.Nlon
      = point_row S 1 Ilat Ilon := by
    simp [point_row]
  have e2 : 2 * (S.Nlat * S.Nlon) + Index 0 0 Ilat Ilon 1 1 S.Nlat S.Nlon
      = point_row S 2 Ilat Ilon := rfl
  have e3 : 3 * (S.Nlat * S.Nlon) + Index 0 0 Ilat Ilon 1 1 S.Nlat S.Nlon
      = point_row S 3 Ilat Ilon := rfl
  rw [e3, e2, e1, e0]
  refine ⟨⟨?_, ?_⟩, ?_, ?_⟩
  · rw [added_row K cos get_diff_vector A S 0 Ilat Ilon lat w hi0 hi1 hj0 hj1 hreads,
      vel_point_row0 K cos get_diff_vector A S Ilat Ilon lat w hi0 hi1 hj0 hj1,
      lap_point_velocity_rows K cos get_diff_vector A S Ilat Ilon 0 lat w hi0 hi1 hj0 hj1
        (by omega)]
    simp only [hpole, if_true, List.append_nil]
  · rw [added_row K cos get_diff_vector A S 1 Ilat Ilon lat w hi0 hi1 hj0 hj1 hreads,
      vel_point_row1 K cos get_diff_vector A S Ilat Ilon lat w hi0 hi1 hj0 hj1,
      lap_point_velocity_rows K cos get_diff_vector A S Ilat Ilon 1 lat w hi0 hi1 hj0 hj1
        (by omega)]
    simp only [hpole, if_true, List.append_nil]
  · intro hno
    constructor
    · rw [added_row K cos get_diff_vector A S 2 Ilat Ilon lat w hi0 hi1 hj0 hj1 hreads,
        vel_point_laplace_rows K cos get_diff_vector A S Ilat Ilon 2 lat w hi0 hi1 hj0 hj1
          (by omega),
        lap_point_row2 K cos get_diff_vector A S Ilat Ilon lat w hi0 hi1 hj0 hj1]
      simp [hno, hpole]
    · rw [added_row K cos get_diff_vector A S 3 Ilat Ilon lat w hi0 hi1 hj0 hj1 hreads,
        vel_point_laplace_rows K cos get_diff_vector A S Ilat Ilon 3 lat w hi0 hi1 hj0 hj1
          (by omega),
        lap_point_row3 K cos get_diff_vector A S Ilat Ilon lat w hi0 hi1 hj0 hj1]
      simp [hno, hpole]
  · intro hI hT hb
    have hb1 : built (lon_stencil K get_diff_vector A S Ilat Ilon 1) (-2 * S.Nlon) = true :=
      decide_eq_true hb
    constructor
    · rw [added_row K cos get_diff_vector A S 2 Ilat Ilon lat w hi0 hi1 hj0 hj1 hreads,
        vel_point_laplace_rows K cos get_diff_vector A S Ilat Ilon 2 lat w hi0 hi1 hj0 hj1
          (by omega),
        lap_point_row2 K cos get_diff_vector A S Ilat Ilon lat w hi0 hi1 hj0 hj1]
      simp only [hI, hT, and_self, if_true, List.nil_append]
      rw [← hI, if_pos hb1, placed_vals]
    · rw [added_row K cos get_diff_vector A S 3 Ilat Ilon lat w hi0 hi1 hj0 hj1 hreads,
        vel_point_laplace_rows K cos get_diff_vector A S Ilat Ilon 3 lat w hi0 hi1 hj0 hj1
          (by omega),
        lap_point_row3 K cos get_diff_vector A S Ilat Ilon lat w hi0 hi1 hj0 hj1]
      simp only [hI, hT, and_self, if_true, List.nil_append]
      rw [← hI, if_pos hb1, placed_vals]

/-- C6. Whatever `get_diff_vector` is and whatever it leaves in `diff_vec`: a stencil
request that leaves `LB` at the sentinel (`-2*Nlon` on the longitude axis, `-2*Nlat` on the
latitude axis) contributes no call, in each of the six stencil loops; and the calls made on
the rows of a grid point are those of the stencil loops of that point, so the loops of the
other requests are still run. -/
theorem C6_failed_stencil_skipped (A : Args α) (S : Sizes) (Ilat Ilon : Int) (lat w : α)
    (hi0 : 0 ≤ Ilat) (hi1 : Ilat < S.Nlat) (hj0 : 0 ≤ Ilon) (hj1 : Ilon < S.Nlon)
    (hreads : point_reads A S Ilat Ilon = some (lat, w)) :
    ((lon_stencil K get_diff_vector A S Ilat Ilon 1).2 = -2 * S.Nlon →
      ∀ c : α, vel_lon_part K get_diff_vector A S Ilat Ilon w c = [] ∧
        zonal_part K get_diff_vector A S Ilat Ilon w c = []) ∧
    ((lat_stencil K get_diff_vector A S Ilat Ilon 1).2 = -2 * S.Nlat →
      vel_lat_part K get_diff_vector A S Ilat Ilon w = [] ∧
        lap_lat1_part K get_diff_vector A S Ilat Ilon w = []) ∧
    ((lon_stencil K get_diff_vector A S Ilat Ilon 2).2 = -2 * S.Nlon →
      ∀ c2 : α, lap_lon2_part K get_diff_vector A S Ilat Ilon w c2 = []) ∧
    ((lat_stencil K get_diff_vector A S Ilat Ilon 2).2 = -2 * S.Nlat →
      lap_lat2_part K get_diff_vector A S Ilat Ilon w = []) ∧
    (∀ k : Int, row_entries (added K cos get_diff_vector A S)
          (k * (S.Nlat * S.Nlon) + Index 0 0 Ilat Ilon 1 1 S.Nlat S.Nlon)
        = row_entries
            ((if is_pole K lat then [] else
                vel_lon_part K get_diff_vector A S Ilat Ilon w (1 / cos lat) ++
                  vel_lat_part K get_diff_vector A S Ilat Ilon w) ++
              (if Ilat = 0 ∧ A.Tikhov_Laplace = 0 then
                zonal_part K get_diff_vector A S Ilat Ilon w (1 / cos lat)
              else if !(is_pole K lat) ∧ 0 < A.Tikhov_Laplace then
                lap_lon2_part K get_diff_vector A S Ilat Ilon w ((1 / cos lat) ^ 2) ++
                  (lap_lat2_part K get_diff_vector A S Ilat Ilon w ++
                    lap_lat1_part K get_diff_vector A S Ilat Ilon w)
              else []))
            (k * (S.Nlat * S.Nlon) + Index 0 0 Ilat Ilon 1 1 S.Nlat S.Nlon)) := by
  refine ⟨?_, ?_, ?_, ?_, ?_⟩
  · intro h c
    simp [vel_lon_part, zonal_part, h]
  · intro h
    simp [vel_lat_part, lap_lat1_part, h]
  · intro h c2
    simp [lap_lon2_part, h]
  · intro h
    simp [lap_lat2_part, h]
  · intro k
    have e : k * (S.Nlat * S.Nlon) + Index 0 0 Ilat Ilon 1 1 S.Nlat S.Nlon
        = point_row S k Ilat Ilon := rfl
    rw [e, added_row K cos get_diff_vector A S k Ilat Ilon lat w hi0 hi1 hj0 hj1 hreads,
      row_entries_append, vel_point_eq]
    rfl

/-- C4 (amended). When `weight_err` is true, the calls made on each of the rows of a grid
point `p` are those made when `weight_err` is false with every value multiplied by the cell
area `dAreas(p)`, and each of the four right-hand-side entries of `p` is its unweighted value
multiplied by `dAreas(p)`. -/
theorem C4_area_weighting (A : Args α) (S : Sizes) (Ilat Ilon : Int) (lat dA : α)
    (u_lon_rem u_lat_rem vort_term div_term R0 : List α)
    (hw : A.weight_err = true)
    (hi0 : 0 ≤ Ilat) (hi1 : Ilat < S.Nlat) (hj0 : 0 ≤ Ilon) (hj1 : Ilon < S.Nlon)
    (hlat : vec_at A.source_data.latitude Ilat = some lat)
    (hdA : vec_at A.source_data.areas (Index 0 0 Ilat Ilon 1 1 S.Nlat S.Nlon) = some dA)
    (hlen : S.Nlat ≤ A.source_data.latitude.length)
    (hAlen : S.Nlat * S.Nlon ≤ A.source_data.areas.length)
    (h1 : S.Nlat * S.Nlon ≤ u_lon_rem.length) (h2 : S.Nlat * S.Nlon ≤ u_lat_rem.length)
    (h3 : S.Nlat * S.Nlon ≤ vort_term.length) (h4 : S.Nlat * S.Nlon ≤ div_term.length)
    (hR : 4 * (S.Nlat * S.Nlon) ≤ R0.length) :
    (∀ k : Int,
      row_entries (added K cos get_diff_vector A S)
          (k * (S.Nlat * S.Nlon) + Index 0 0 Ilat Ilon 1 1 S.Nlat S.Nlon)
        = (row_entries (added K cos get_diff_vector { A with weight_err := false } S)
            (k * (S.Nlat * S.Nlon) + Index 0 0 Ilat Ilon 1 1 S.Nlat S.Nlon)).map
            (scale_entry dA)) ∧
    (∃ R Rw,
      build_RHS K A.source_data.latitude A.source_data.areas S false A.Tikhov_Laplace
          A.deriv_scale_factor u_lon_rem u_lat_rem vort_term div_term R0 = some R ∧
      build_RHS K A.source_data.latitude A.source_data.areas S true A.Tikhov_Laplace
          A.deriv_scale_factor u_lon_rem u_lat_rem vort_term div_term R0 = some Rw ∧
      ∀ k : Int, 0 ≤ k → k ≤ 3 → ∃ x : α,
        vec_at R (k * (S.Nlat * S.Nlon) + Index 0 0 Ilat Ilon 1 1 S.Nlat S.Nlon) = some x ∧
        vec_at Rw (k * (S.Nlat * S.Nlon) + Index 0 0 Ilat Ilon 1 1 S.Nlat S.Nlon)
          = some (x * dA)) := by
  have hr := Index_sub_range Ilat Ilon S.Nlat S.Nlon hi0 hi1 hj0 hj1
  constructor
  · intro k
    have e : k * (S.Nlat * S.Nlon) + Index 0 0 Ilat Ilon 1 1 S.Nlat S.Nlon
        = point_row S k Ilat Ilon := rfl
    have r1 : point_reads A S Ilat Ilon = some (lat, dA) := by
      simp [point_reads, hlat, hw, hdA]
    have r0 : point_reads { A with weight_err := false } S Ilat Ilon = some (lat, 1) := by
      simp [point_reads, hlat]
    rw [e, added_row K cos get_diff_vector A S k Ilat Ilon lat dA hi0 hi1 hj0 hj1 r1,
      added_row K cos get_diff_vector _ S k Ilat Ilon lat 1 hi0 hi1 hj0 hj1 r0,
      vel_point_weight K cos get_diff_vector A S Ilat Ilon lat dA false,
      lap_point_weight K cos get_diff_vector A S Ilat Ilon lat dA false,
      row_entries_map_scale, row_entries_map_scale, List.map_append]
  · obtain ⟨R, hRe, _, hRv⟩ := build_RHS_spec K A.source_data.latitude A.source_data.areas S
      false A.Tikhov_Laplace A.deriv_scale_factor u_lon_rem u_lat_rem vort_term div_term R0
      (by omega) (by omega) hlen (by simp) h1 h2 h3 h4 hR
    obtain ⟨Rw, hWe, _, hWv⟩ := build_RHS_spec K A.source_data.latitude A.source_data.areas S
      true A.Tikhov_Laplace A.deriv_scale_factor u_lon_rem u_lat_rem vort_term div_term R0
      (by omega) (by omega) hlen (fun _ => hAlen) h1 h2 h3 h4 hR
    refine ⟨R, Rw, hRe, hWe, ?_⟩
    intro k hk0 hk3
    refine ⟨_, hRv k _ hk0 hk3 hr.1 hr.2, ?_⟩
    rw [hWv k _ hk0 hk3 hr.1 hr.2, rhs_expected_weight]
    have hd := vec_at_getD A.source_data.areas (Index 0 0 Ilat Ilon 1 1 S.Nlat S.Nlon) 0
      hr.1 (by omega)
    rw [hdA] at hd
    rw [← Option.some.inj hd]

end AssemblyClaims

/-! ## The claims about the cleaning pass -/

section CleanClaims

variable {α : Type} [LinearOrderedField α]

/-- C9. When `mask` and `u_lat` are at least as long as `u_lon`, the cleaning pass returns,
and in its result: at every index where `mask` is false both components are 0; at every index
where `mask` is true and both `|u_lon| <= 30000` and `|u_lat| <= 30000` both components are
unchanged; the lengths are unchanged, and so is `u_lat` beyond the end of `u_lon`; running
the pass again on the result returns the same result.  The pass has no state beside the two
velocity arrays. -/
theorem C9_clean_pass (mask : List Bool) (u_lon u_lat : List α)
    (hm : u_lon.length ≤ mask.length) (hl : u_lon.length ≤ u_lat.length) :
    ∃ a b, clean_velocity mask u_lon u_lat = some (a, b) ∧
      (a.length = u_lon.length ∧ b.length = u_lat.length) ∧
      (∀ i : Nat, i < u_lon.length → mask[i]? = some false →
        a[i]? = some 0 ∧ b[i]? = some 0) ∧
      (∀ (i : Nat) (x y : α), mask[i]? = some true → u_lon[i]? = some x →
        u_lat[i]? = some y → |x| ≤ 30000 → |y| ≤ 30000 →
        a[i]? = some x ∧ b[i]? = some y) ∧
      (∀ i : Nat, u_lon.length ≤ i → b[i]? = u_lat[i]?) ∧
      clean_velocity mask a b = some (a, b) := by
  obtain ⟨a, b, h, hla, hlb, hpt, hfr⟩ := clean_velocity_spec mask u_lon u_lat hm hl
  refine ⟨a, b, h, ⟨hla, hlb⟩, ?_, ?_, hfr, clean_velocity_idem mask u_lon u_lat a b hm hl h⟩
  · intro i hi hmi
    have q := hpt i false u_lon[i] u_lat[i] hmi (List.getElem?_eq_getElem hi)
      (List.getElem?_eq_getElem (by omega))
    simpa [clean_point] using q
  · intro i x y hmi hx hy hax hay
    have q := hpt i true x y hmi hx hy
    have hnot : ¬(|x| > 30000 ∨ |y| > 30000) := by
      intro hor
      rcases hor with h1 | h1
      · exact absurd hax (not_le.mpr h1)
      · exact absurd hay (not_le.mpr h1)
    simpa [clean_point, hnot] using q

/-- C10 (amended). After the cleaning pass, every water index at which `|u_lon| > 30000` or
`|u_lat| > 30000` has both components set to 0. -/
theorem C10_component_threshold (mask : List Bool) (u_lon u_lat : List α)
    (hm : u_lon.length ≤ mask.length) (hl : u_lon.length ≤ u_lat.length) :
    ∃ a b, clean_velocity mask u_lon u_lat = some (a, b) ∧
      ∀ (i : Nat) (x y : α), mask[i]? = some true → u_lon[i]? = some x →
        u_lat[i]? = some y → (|x| > 30000 ∨ |y| > 30000) →
        a[i]? = some 0 ∧ b[i]? = some 0 := by
  obtain ⟨a, b, h, _, _, hpt, _⟩ := clean_velocity_spec mask u_lon u_lat hm hl
  refine ⟨a, b, h, ?_⟩
  intro i x y hmi hx hy hbad
  have q := hpt i true x y hmi hx hy
  simpa [clean_point, hbad] using q

end CleanClaims

/-- C9 on a four-element input: land, clean water, a bad longitude component, a bad latitude
component. -/
theorem C9_clean_pass_witness :
    ∃ a b, clean_velocity [false, true, true, true] [(5 : ℚ), 1, 40000, 2] [6, -3, 7, -50000]
          = some (a, b) ∧
      (a.length = [(5 : ℚ), 1, 40000, 2].length ∧ b.length = [(6 : ℚ), -3, 7, -50000].length) ∧
      (∀ i : Nat, i < [(5 : ℚ), 1, 40000, 2].length →
        [false, true, true, true][i]? = some false → a[i]? = some 0 ∧ b[i]? = some 0) ∧
      (∀ (i : Nat) (x y : ℚ), [false, true, true, true][i]? = some true →
        [(5 : ℚ), 1, 40000, 2][i]? = some x → [(6 : ℚ), -3, 7, -50000][i]? = some y →
        |x| ≤ 30000 → |y| ≤ 30000 → a[i]? = some x ∧ b[i]? = some y) ∧
      (∀ i : Nat, [(5 : ℚ), 1, 40000, 2].length ≤ i → b[i]? = [(6 : ℚ), -3, 7, -50000][i]?) ∧
      clean_velocity [false, true, true, true] a b = some (a, b) :=
  C9_clean_pass [false, true, true, true] [5, 1, 40000, 2] [6, -3, 7, -50000]
    (by decide) (by decide)

/-- C10 (amended) on the same four-element input. -/
theorem C10_component_threshold_witness :
    ∃ a b, clean_velocity [false, true, true, true] [(5 : ℚ), 1, 40000, 2] [6, -3, 7, -50000]
          = some (a, b) ∧
      ∀ (i : Nat) (x y : ℚ), [false, true, true, true][i]? = some true →
        [(5 : ℚ), 1, 40000, 2][i]? = some x → [(6 : ℚ), -3, 7, -50000][i]? = some y →
        (|x| > 30000 ∨ |y| > 30000) → a[i]? = some 0 ∧ b[i]? = some 0 :=
  C10_component_threshold [false, true, true, true] [5, 1, 40000, 2] [6, -3, 7, -50000]
    (by decide) (by decide)

/-- C10 as stated fails: a water point with `u_lon = u_lat = 25000` has speed above 30000
(its square is above `30000^2`) and the pass leaves it unchanged. -/
theorem C10_counterexample :
    (25000 : ℚ) ^ 2 + 25000 ^ 2 > 30000 ^ 2 ∧
    clean_velocity [true] [(25000 : ℚ)] [25000] = some ([25000], [25000]) := by
  constructor
  · norm_num
  · have h := clean_body_eq [true] [(25000 : ℚ)] [25000] 0 true 25000 25000 rfl rfl rfl
    have hc : clean_point true (25000 : ℚ) 25000 = (25000, 25000) := by
      unfold clean_point
      norm_num [abs_of_nonneg]
    rw [hc] at h
    simp only [clean_velocity, List.length_singleton, forLoop, Option.some_bind]
    exact h

/-- C7 on the test grid, at the offset `-1`. -/
theorem C7_periodic_index_witness :
    (0 ≤ wrap_index true (-1) ex_S.Nlon ∧ wrap_index true (-1) ex_S.Nlon < ex_S.Nlon) ∧
    (∃ q : Int, wrap_index true (-1) ex_S.Nlon = -1 + q * ex_S.Nlon) ∧
    wrap_index false (-1) ex_S.Nlon = -1 ∧
    (ex_K.PERIODIC_X = true → ∀ (Ilat Ilon : Int) (w c c2 : ℚ) (e : Entry ℚ),
      0 ≤ Ilat → Ilat < ex_S.Nlat →
      e ∈ vel_lon_part ex_K ex_gdv (ex_A ex_data false 1 0) ex_S Ilat Ilon w c ++
        (zonal_part ex_K ex_gdv (ex_A ex_data false 1 0) ex_S Ilat Ilon w c ++
          lap_lon2_part ex_K ex_gdv (ex_A ex_data false 1 0) ex_S Ilat Ilon w c2) →
      0 ≤ e.col ∧ e.col < 2 * (ex_S.Nlat * ex_S.Nlon)) :=
  C7_periodic_index ex_K ex_gdv (ex_A ex_data false 1 0) ex_S (-1) (by decide)

/-- C1 at the point `(1, 2)` of the test grid (latitude 0). -/
theorem C1_velocity_block_rows_witness :
    sparse_vel_from_PsiPhi_vortdiv ex_K ex_cos ex_gdv [] (ex_A ex_data false 1 0)
          = some ([] ++ added ex_K ex_cos ex_gdv (ex_A ex_data false 1 0) ex_S) ∧
      row_entries (added ex_K ex_cos ex_gdv (ex_A ex_data false 1 0) ex_S)
          (Index 0 0 1 2 1 1 ex_S.Nlat ex_S.Nlon)
        = placed (Index 0 0 1 2 1 1 ex_S.Nlat ex_S.Nlon) (lon_col ex_K ex_S 1 1)
            (fun d => d / (ex_K.R_earth * ex_cos 0))
            (lon_stencil ex_K ex_gdv (ex_A ex_data false 1 0) ex_S 1 2 1).2
            (lon_stencil ex_K ex_gdv (ex_A ex_data false 1 0) ex_S 1 2 1).1 ++
          placed (Index 0 0 1 2 1 1 ex_S.Nlat ex_S.Nlon) (lat_col ex_K ex_S 2 0)
            (fun d => -d / ex_K.R_earth)
            (lat_stencil ex_K ex_gdv (ex_A ex_data false 1 0) ex_S 1 2 1).2
            (lat_stencil ex_K ex_gdv (ex_A ex_data false 1 0) ex_S 1 2 1).1 ∧
      row_entries (added ex_K ex_cos ex_gdv (ex_A ex_data false 1 0) ex_S)
          (ex_S.Nlat * ex_S.Nlon + Index 0 0 1 2 1 1 ex_S.Nlat ex_S.Nlon)
        = placed (ex_S.Nlat * ex_S.Nlon + Index 0 0 1 2 1 1 ex_S.Nlat ex_S.Nlon)
            (lon_col ex_K ex_S 1 0)
            (fun d => d / (ex_K.R_earth * ex_cos 0))
            (lon_stencil ex_K ex_gdv (ex_A ex_data false 1 0) ex_S 1 2 1).2
            (lon_stencil ex_K ex_gdv (ex_A ex_data false 1 0) ex_S 1 2 1).1 ++
          placed (ex_S.Nlat * ex_S.Nlon + Index 0 0 1 2 1 1 ex_S.Nlat ex_S.Nlon)
            (lat_col ex_K ex_S 2 1)
            (fun d => d / ex_K.R_earth)
            (lat_stencil ex_K ex_gdv (ex_A ex_data false 1 0) ex_S 1 2 1).2
            (lat_stencil ex_K ex_gdv (ex_A ex_data false 1 0) ex_S 1 2 1).1 :=
  C1_velocity_block_rows ex_K ex_cos ex_gdv [] (ex_A ex_data false 1 0) ex_S 1 2 0
    (by rfl) (by decide) (by rfl) (by decide) (by decide) (by decide) (by decide) (by rfl)
    (by norm_num [is_pole, ex_K]) (by decide) (by decide)


/-- C5 (amended) at the point `(0, 0)` of the test grid with polar rows, `Tikhov_Laplace = 0`. -/
theorem C5_pole_rows_witness :
    (row_entries (added ex_K ex_cos ex_gdv (ex_A ex_data_pole false 0 0) ex_S)
        (Index 0 0 0 0 1 1 ex_S.Nlat ex_S.Nlon) = [] ∧
      row_entries (added ex_K ex_cos ex_gdv (ex_A ex_data_pole false 0 0) ex_S)
        (ex_S.Nlat * ex_S.Nlon + Index 0 0 0 0 1 1 ex_S.Nlat ex_S.Nlon) = []) ∧
    (row_entries (added ex_K ex_cos ex_gdv (ex_A ex_data_pole false 0 0) ex_S)
          (2 * (ex_S.Nlat * ex_S.Nlon) + Index 0 0 0 0 1 1 ex_S.Nlat ex_S.Nlon)).map Entry.val
        = (lon_stencil ex_K ex_gdv (ex_A ex_data_pole false 0 0) ex_S 0 0 1).1.map
            (fun d => d * (1 / ex_cos (-11 / 7)) * (1 / ex_K.R_earth) * 1) :=
  have h := C5_pole_rows ex_K ex_cos ex_gdv (ex_A ex_data_pole false 0 0) ex_S 0 0 (-11 / 7) 1
    (by decide) (by decide) (by decide) (by decide) (by rfl) (by norm_num [is_pole, ex_K])
  ⟨h.1, (h.2.2 rfl rfl (by decide)).1⟩

/-- C6 at the point `(1, 2)` of the test grid, with a `get_diff_vector` that fails on every
longitude request and leaves stale weights in `diff_vec`. -/
theorem C6_failed_stencil_skipped_witness :
    (∀ c : ℚ, vel_lon_part ex_K ex_gdv_nolon (ex_A ex_data false 1 0) ex_S 1 2 1 c = [] ∧
        zonal_part ex_K ex_gdv_nolon (ex_A ex_data false 1 0) ex_S 1 2 1 c = []) ∧
    (∀ c2 : ℚ, lap_lon2_part ex_K ex_gdv_nolon (ex_A ex_data false 1 0) ex_S 1 2 1 c2 = []) ∧
    (∀ k : Int, row_entries (added ex_K ex_cos ex_gdv_nolon (ex_A ex_data false 1 0) ex_S)
          (k * (ex_S.Nlat * ex_S.Nlon) + Index 0 0 1 2 1 1 ex_S.Nlat ex_S.Nlon)
        = row_entries
            ((if is_pole ex_K 0 then [] else
                vel_lon_part ex_K ex_gdv_nolon (ex_A ex_data false 1 0) ex_S 1 2 1
                    (1 / ex_cos 0) ++
                  vel_lat_part ex_K ex_gdv_nolon (ex_A ex_data false 1 0) ex_S 1 2 1) ++
              (if (1 : Int) = 0 ∧ (ex_A ex_data false 1 0).Tikhov_Laplace = 0 then
                zonal_part ex_K ex_gdv_nolon (ex_A ex_data false 1 0) ex_S 1 2 1 (1 / ex_cos 0)
              else if !(is_pole ex_K 0) ∧ 0 < (ex_A ex_data false 1 0).Tikhov_Laplace then
                lap_lon2_part ex_K ex_gdv_nolon (ex_A ex_data false 1 0) ex_S 1 2 1
                    ((1 / ex_cos 0) ^ 2) ++
                  (lap_lat2_part ex_K ex_gdv_nolon (ex_A ex_data false 1 0) ex_S 1 2 1 ++
                    lap_lat1_part ex_K ex_gdv_nolon (ex_A ex_data false 1 0) ex_S 1 2 1)
              else []))
            (k * (ex_S.Nlat * ex_S.Nlon) + Index 0 0 1 2 1 1 ex_S.Nlat ex_S.Nlon)) :=
  have h := C6_failed_stencil_skipped ex_K ex_cos ex_gdv_nolon (ex_A ex_data false 1 0) ex_S
    1 2 0 1 (by decide) (by decide) (by decide) (by decide) (by rfl)
  ⟨h.1 (by decide), h.2.2.1 (by decide), h.2.2.2.2⟩

/-- C2, the code at a failing input.  On the test grid with `Tikhov_Laplace = 1`, at the
point `(2, 0)` (latitude 45 degrees, tangent 1, `p = 8`, row `2N + p = 32`): whatever value
`t` the unassigned variable `tan_lat` holds, the row added by the code is the Laplacian row
of the specification with `t` in the place of the tangent of the latitude; with `t = 0` it
differs from the row the claim describes. -/
theorem C2_tan_lat_unassigned :
    (∀ t : ℚ, row_entries (added ex_K ex_cos ex_gdv (ex_A ex_data false 1 t) ex_S) 32
        = spec_Laplace_row ex_K ex_cos ex_gdv (ex_A ex_data false 1 t) ex_S 2 0 (11 / 14) t
            32 0) ∧
    row_entries (added ex_K ex_cos ex_gdv (ex_A ex_data false 1 0) ex_S) 32
      ≠ spec_Laplace_row ex_K ex_cos ex_gdv (ex_A ex_data false 1 0) ex_S 2 0 (11 / 14) 1
          32 0 := by
  have hcode : ∀ t : ℚ, row_entries (added ex_K ex_cos ex_gdv (ex_A ex_data false 1 t) ex_S) 32
      = spec_Laplace_row ex_K ex_cos ex_gdv (ex_A ex_data false 1 t) ex_S 2 0 (11 / 14) t
          32 0 := fun t =>
    (laplace_rows_code ex_K ex_cos ex_gdv (ex_A ex_data false 1 t) ex_S 2 0 (11 / 14)
      (by decide) (by decide) (by decide) (by decide) (by rfl)
      (by norm_num [is_pole, ex_K]) (by norm_num [ex_A])
      (by simp [lon_stencil, ex_gdv, ex_S]) (by simp [lat_stencil, ex_gdv, ex_S])
      (by simp [lat_stencil, ex_gdv, ex_S])).1
  refine ⟨hcode, ?_⟩
  rw [hcode 0]
  simp [spec_Laplace_row, placed, stencil_for, lat_stencil, lon_stencil, ex_gdv, ex_A, ex_S,
    ex_K]

/-- C3, the code at a failing input.  On the test grid with `weight_err = false`,
`Tikhov_Laplace = 1` and `deriv_scale_factor = 1/2`, the point `(0, 1)` (`p = 1`) of the first
latitude row is not a pole, its operator row `2N + p = 25` holds the nine calls of the
Laplacian stencil, and `vort_term(p) = 3`, `div_term(p) = 2` give
`lambda * vort_term(p) = 6` and `lambda * div_term(p) = 4`; the set-up loop returns and
leaves 0 in `RHS[2N + p]` and in `RHS[3N + p]`. -/
theorem C3_first_row_rhs_zero :
    is_pole ex_K (-11 / 14) = false ∧
    row_entries (added ex_K ex_cos ex_gdv (ex_A ex_data false 1 0) ex_S) 25
      = spec_Laplace_row ex_K ex_cos ex_gdv (ex_A ex_data false 1 0) ex_S 0 1 (-11 / 14) 0
          25 0 ∧
    (row_entries (added ex_K ex_cos ex_gdv (ex_A ex_data false 1 0) ex_S) 25).length = 9 ∧
    vec_at ex_vort_term 1 = some 3 ∧ vec_at ex_div_term 1 = some 2 ∧
    (1 : ℚ) / (1 / 2) * 3 = 6 ∧ (1 : ℚ) / (1 / 2) * 2 = 4 ∧
    ∃ R, build_RHS ex_K ex_data.latitude ex_data.areas ex_S false 1 (1 / 2) ex_u_lon_rem
          ex_u_lat_rem ex_vort_term ex_div_term (List.replicate 48 0) = some R ∧
      vec_at R 25 = some 0 ∧ vec_at R 37 = some 0 := by
  have hpole : is_pole ex_K (-11 / 14) = false := by norm_num [is_pole, ex_K]
  have hrow := (laplace_rows_code ex_K ex_cos ex_gdv (ex_A ex_data false 1 0) ex_S 0 1
    (-11 / 14) (by decide) (by decide) (by decide) (by decide) (by rfl) hpole
    (by norm_num [ex_A]) (by simp [lon_stencil, ex_gdv, ex_S])
    (by simp [lat_stencil, ex_gdv, ex_S]) (by simp [lat_stencil, ex_gdv, ex_S])).1
  have e25 : point_row ex_S 2 0 1 = 25 := by decide
  rw [e25] at hrow
  refine ⟨hpole, hrow, ?_, by rfl, by rfl, by norm_num, by norm_num, ?_⟩
  · rw [hrow]
    simp [spec_Laplace_row, placed, stencil_for, lat_stencil, lon_stencil, ex_gdv, ex_S]
  · obtain ⟨R, hR, _, hv⟩ := build_RHS_spec ex_K ex_data.latitude ex_data.areas ex_S false 1
      (1 / 2) ex_u_lon_rem ex_u_lat_rem ex_vort_term ex_div_term (List.replicate 48 0)
      (by decide) (by decide) (by decide) (by simp) (by decide) (by decide) (by decide)
      (by decide) (by decide)
    refine ⟨R, hR, ?_, ?_⟩
    · have h := hv 2 1 (by decide) (by decide) (by decide) (by decide)
      have e : (2 : Int) * (ex_S.Nlat * ex_S.Nlon) + 1 = 25 := by decide
      have d : (1 : Int) / ex_S.Nlon = 0 := by decide
      rw [e] at h
      rw [h]
      simp [rhs_expected, d]
    · have h := hv 3 1 (by decide) (by decide) (by decide) (by decide)
      have e : (3 : Int) * (ex_S.Nlat * ex_S.Nlon) + 1 = 37 := by decide
      have d : (1 : Int) / ex_S.Nlon = 0 := by decide
      rw [e] at h
      rw [h]
      simp [rhs_expected, d]

/-- C4 (amended) at the point `(1, 2)` of the test grid, whose cell area is 9. -/
theorem C4_area_weighting_witness :
    (∀ k : Int,
      row_entries (added ex_K ex_cos ex_gdv (ex_A ex_data true 1 0) ex_S)
          (k * (ex_S.Nlat * ex_S.Nlon) + Index 0 0 1 2 1 1 ex_S.Nlat ex_S.Nlon)
        = (row_entries
            (added ex_K ex_cos ex_gdv { ex_A ex_data true 1 0 with weight_err := false } ex_S)
            (k * (ex_S.Nlat * ex_S.Nlon) + Index 0 0 1 2 1 1 ex_S.Nlat ex_S.Nlon)).map
            (scale_entry 9)) ∧
    (∃ R Rw,
      build_RHS ex_K ex_data.latitude ex_data.areas ex_S false 1 (1 / 2) ex_u_lon_rem
          ex_u_lat_rem ex_vort_term ex_div_term (List.replicate 48 0) = some R ∧
      build_RHS ex_K ex_data.latitude ex_data.areas ex_S true 1 (1 / 2) ex_u_lon_rem
          ex_u_lat_rem ex_vort_term ex_div_term (List.replicate 48 0) = some Rw ∧
      ∀ k : Int, 0 ≤ k → k ≤ 3 → ∃ x : ℚ,
        vec_at R (k * (ex_S.Nlat * ex_S.Nlon) + Index 0 0 1 2 1 1 ex_S.Nlat ex_S.Nlon)
          = some x ∧
        vec_at Rw (k * (ex_S.Nlat * ex_S.Nlon) + Index 0 0 1 2 1 1 ex_S.Nlat ex_S.Nlon)
          = some (x * 9)) :=
  C4_area_weighting ex_K ex_cos ex_gdv (ex_A ex_data true 1 0) ex_S 1 2 0 9 ex_u_lon_rem
    ex_u_lat_rem ex_vort_term ex_div_term (List.replicate 48 0) (by rfl) (by decide)
    (by decide) (by decide) (by decide) (by rfl) (by rfl) (by decide) (by decide) (by decide)
    (by decide) (by decide) (by decide) (by decide)

/-- C4 as stated fails: at the point `(1, 2)` of the test grid the cell area is 9, whose
square root is 3, and the calls made on row `p = 6` under `weight_err` are not the
unweighted calls multiplied by 3. -/
theorem C4_counterexample :
    vec_at ex_data.areas (Index 0 0 1 2 1 1 3 4) = some 9 ∧ (3 : ℚ) * 3 = 9 ∧ (0 : ℚ) ≤ 3 ∧
    row_entries (added ex_K ex_cos ex_gdv (ex_A ex_data true 1 0) ex_S) 6
      ≠ (row_entries (added ex_K ex_cos ex_gdv (ex_A ex_data false 1 0) ex_S) 6).map
          (scale_entry 3) := by
  refine ⟨by rfl, by norm_num, by norm_num, ?_⟩
  have hpole : is_pole ex_K 0 = false := by norm_num [is_pole, ex_K]
  have e : (6 : Int) = point_row ex_S 0 1 2 := by decide
  rw [e, added_row ex_K ex_cos ex_gdv (ex_A ex_data true 1 0) ex_S 0 1 2 0 9 (by decide)
      (by decide) (by decide) (by decide) (by rfl),
    added_row ex_K ex_cos ex_gdv (ex_A ex_data false 1 0) ex_S 0 1 2 0 1 (by decide)
      (by decide) (by decide) (by decide) (by rfl),
    vel_point_row0 ex_K ex_cos ex_gdv _ ex_S 1 2 0 9 (by decide) (by decide) (by decide)
      (by decide),
    vel_point_row0 ex_K ex_cos ex_gdv _ ex_S 1 2 0 1 (by decide) (by decide) (by decide)
      (by decide),
    lap_point_velocity_rows ex_K ex_cos ex_gdv _ ex_S 1 2 0 0 9 (by decide) (by decide)
      (by decide) (by decide) (by decide),
    lap_point_velocity_rows ex_K ex_cos ex_gdv _ ex_S 1 2 0 0 1 (by decide) (by decide)
      (by decide) (by decide) (by decide)]
  simp only [hpole, Bool.false_eq_true, if_false]
  simp [built, lon_stencil, lat_stencil, ex_gdv, placed, stencil_for, scale_entry, ex_S,
    ex_K, ex_A, ex_cos]

/-- C5 as stated fails: on the test grid whose first latitude row is at -90 degrees, with
`Tikhov_Laplace = 0`, the point `(0, 0)` is a pole and row `2N + p` receives the zonal
first-derivative stencil scaled by `1/cos(lat)`. -/
theorem C5_counterexample :
    vec_at ex_data_pole.latitude 0 = some (-11 / 7) ∧
    is_pole ex_K (-11 / 7) = true ∧
    row_entries (added ex_K ex_cos ex_gdv (ex_A ex_data_pole false 0 0) ex_S)
        (2 * (3 * 4) + Index 0 0 0 0 1 1 3 4)
      = [⟨24, 15, -14406 / 1117⟩, ⟨24, 12, 0⟩, ⟨24, 13, 14406 / 1117⟩] := by
  refine ⟨by rfl, by norm_num [is_pole, ex_K], ?_⟩
  have hr : point_reads (ex_A ex_data_pole false 0 0) ex_S 0 0 = some (-11 / 7, 1) := by rfl
  have e : (2 * (3 * 4) + Index 0 0 0 0 1 1 3 4 : Int) = point_row ex_S 2 0 0 := by decide
  rw [e, added_row ex_K ex_cos ex_gdv _ ex_S 2 0 0 _ _ (by decide) (by decide) (by decide)
      (by decide) hr,
    vel_point_laplace_rows ex_K ex_cos ex_gdv _ ex_S 0 0 2 _ _ (by decide) (by decide)
      (by decide) (by decide) (by decide),
    lap_point_row2 ex_K ex_cos ex_gdv _ ex_S 0 0 _ _ (by decide) (by decide) (by decide)
      (by decide)]
  simp [built, lon_stencil, ex_gdv, placed, stencil_for, lon_col, wrap_index, Index, point_row,
    ex_S, ex_K, ex_A, ex_cos]
  norm_num
  decide

/-! ## The claims about a slice of the projection -/

section SliceClaims
variable {α : Type} [LinearOrderedField α]

theorem sub_value_of_vec_at {β : Type} [Zero β] (v : List β) (p : Int) (y : β)
    (h : vec_at v p = some y) : sub_value v p = y := by
  unfold vec_at at h
  by_cases h0 : 0 ≤ p
  · simp only [h0, if_true] at h
    simp [sub_value, h]
  · simp [h0] at h

/-- C8. One slice of `Apply_Helmholtz_Projection` solves for the residual of the seed. The
slice runs to completion, and at every grid point of the slice the remaining velocity is
`u - u_tor_seed - u_pot_seed` (the seed velocities being those computed from the seed of the
slice), this is the velocity block of the right-hand side handed to the solver when no area
weighting is applied, and the stored potentials are `Psi = x[p] + Psi_seed[p]` and
`Phi = x[N + p] + Phi_seed[p]` for the vector `x` returned by the solver. Where seed and seed
velocities are zero this gives `u_rem = u` and `(Psi, Phi) = x`. -/
theorem C8_seed_residual (X : Collaborators α) (K : Constants α) (I : SliceInputs α)
    (S : Sizes) (Itime Idepth : Int) (st : SliceState α)
    (hN0 : 0 ≤ S.Nlat) (hN : 0 ≤ S.Nlon) (hb : 0 ≤ slice_base S Itime Idepth)
    (hu1 : slice_base S Itime Idepth + S.Nlat * S.Nlon ≤ I.u_lon.length)
    (hu2 : slice_base S Itime Idepth + S.Nlat * S.Nlon ≤ I.u_lat.length)
    (hs1 : I.single_seed = false →
      slice_base S Itime Idepth + S.Nlat * S.Nlon ≤ I.seed_tor.length)
    (hs2 : I.single_seed = false →
      slice_base S Itime Idepth + S.Nlat * S.Nlon ≤ I.seed_pot.length)
    (hlat : S.Nlat ≤ I.source_data.latitude.length)
    (hA : I.weight_err = true → S.Nlat * S.Nlon ≤ I.source_data.areas.length)
    (hal : allocated I S st) (hX : keeps_sizes X S) :
    ∃ (st2 : SliceState α) (seed : List α × List α) (x : List α),
      Apply_slice X K I S Itime Idepth st = some st2 ∧
      slice_seed I S Itime Idepth st = some seed ∧
      x = (X.solve I.LHS_matr st2.RHS_vector).1 ∧
      (st2.u_lon_tor_seed, st2.u_lat_tor_seed)
        = X.toroidal_vel_from_F st.u_lon_tor_seed st.u_lat_tor_seed seed.1
            I.source_data.longitude I.source_data.latitude S.Ntime S.Ndepth S.Nlat S.Nlon
            (used_mask I) ∧
      (st2.u_lon_pot_seed, st2.u_lat_pot_seed)
        = X.potential_vel_from_F st.u_lon_pot_seed st.u_lat_pot_seed seed.2
            I.source_data.longitude I.source_data.latitude S.Ntime S.Ndepth S.Nlat S.Nlon
            (used_mask I) ∧
      ∀ Ilat Ilon : Int, 0 ≤ Ilat → Ilat < S.Nlat → 0 ≤ Ilon → Ilon < S.Nlon →
        ∃ u v tl tla pl pla xp xq sp sq : α,
          vec_at I.u_lon (Index Itime Idepth Ilat Ilon S.Ntime S.Ndepth S.Nlat S.Nlon)
            = some u ∧
          vec_at I.u_lat (Index Itime Idepth Ilat Ilon S.Ntime S.Ndepth S.Nlat S.Nlon)
            = some v ∧
          vec_at st2.u_lon_tor_seed (Index 0 0 Ilat Ilon 1 1 S.Nlat S.Nlon) = some tl ∧
          vec_at st2.u_lat_tor_seed (Index 0 0 Ilat Ilon 1 1 S.Nlat S.Nlon) = some tla ∧
          vec_at st2.u_lon_pot_seed (Index 0 0 Ilat Ilon 1 1 S.Nlat S.Nlon) = some pl ∧
          vec_at st2.u_lat_pot_seed (Index 0 0 Ilat Ilon 1 1 S.Nlat S.Nlon) = some pla ∧
          vec_at x (Index 0 0 Ilat Ilon 1 1 S.Nlat S.Nlon) = some xp ∧
          vec_at x (S.Nlat * S.Nlon + Index 0 0 Ilat Ilon 1 1 S.Nlat S.Nlon) = some xq ∧
          vec_at seed.1 (Index 0 0 Ilat Ilon 1 1 S.Nlat S.Nlon) = some sp ∧
          vec_at seed.2 (Index 0 0 Ilat Ilon 1 1 S.Nlat S.Nlon) = some sq ∧
          vec_at st2.u_lon_rem (Index 0 0 Ilat Ilon 1 1 S.Nlat S.Nlon) = some (u - tl - pl) ∧
          vec_at st2.u_lat_rem (Index 0 0 Ilat Ilon 1 1 S.Nlat S.Nlon) = some (v - tla - pla) ∧
          (I.weight_err = false →
            vec_at st2.RHS_vector (Index 0 0 Ilat Ilon 1 1 S.Nlat S.Nlon)
              = some (u - tl - pl) ∧
            vec_at st2.RHS_vector (S.Nlat * S.Nlon + Index 0 0 Ilat Ilon 1 1 S.Nlat S.Nlon)
              = some (v - tla - pla)) ∧
          vec_at st2.out.full_Psi (Index Itime Idepth Ilat Ilon S.Ntime S.Ndepth S.Nlat S.Nlon)
            = some (xp + sp) ∧
          vec_at st2.out.full_Phi (Index Itime Idepth Ilat Ilon S.Ntime S.Ndepth S.Nlat S.Nlon)
            = some (xq + sq) ∧
          (tl = 0 → tla = 0 → pl = 0 → pla = 0 → sp = 0 → sq = 0 →
            vec_at st2.u_lon_rem (Index 0 0 Ilat Ilon 1 1 S.Nlat S.Nlon) = some u ∧
            vec_at st2.u_lat_rem (Index 0 0 Ilat Ilon 1 1 S.Nlat S.Nlon) = some v ∧
            vec_at st2.out.full_Psi
              (Index Itime Idepth Ilat Ilon S.Ntime S.Ndepth S.Nlat S.Nlon) = some xp ∧
            vec_at st2.out.full_Phi
              (Index Itime Idepth Ilat Ilon S.Ntime S.Ndepth S.Nlat S.Nlon) = some xq) := by
  obtain ⟨seed, rem, RHS, sol, out, hseed, hsl, _, _, fr1, fr2, hRHS, _, hsv, fout, hres⟩ :=
    Apply_slice_spec X K I S Itime Idepth st hN0 hN hb hu1 hu2 hs1 hs2 hlat hA hal hX
  obtain ⟨a1, a2, a3, a4, a5, a6, a7, a8, a9, a10, a11, a12, a13, a14, a15, a16, a17⟩ := hal
  obtain ⟨k1, k2, k3, k4, k5⟩ := hX
  obtain ⟨_, _, _, _, oPsi, oPhi, _, _⟩ := fout
  cases hst : Apply_slice X K I S Itime Idepth st with
  | none => rw [hst] at hres; cases hres
  | some st2 =>
    rw [hst] at hres
    have hres2 := Option.some.inj hres
    have g1 : st2.u_lon_rem = rem.1 := by rw [hres2]
    have g2 : st2.u_lat_rem = rem.2 := by rw [hres2]
    have g3 : st2.RHS_vector = RHS := by rw [hres2]
    have g4 : st2.out = out := by rw [hres2]
    have g5 : (st2.u_lon_tor_seed, st2.u_lat_tor_seed)
        = X.toroidal_vel_from_F st.u_lon_tor_seed st.u_lat_tor_seed seed.1
            I.source_data.longitude I.source_data.latitude S.Ntime S.Ndepth S.Nlat S.Nlon
            (used_mask I) := by rw [hres2]
    have g6 : (st2.u_lon_pot_seed, st2.u_lat_pot_seed)
        = X.potential_vel_from_F st.u_lon_pot_seed st.u_lat_pot_seed seed.2
            I.source_data.longitude I.source_data.latitude S.Ntime S.Ndepth S.Nlat S.Nlon
            (used_mask I) := by rw [hres2]
    have l1 : (st2.u_lon_tor_seed.length : Int) = S.Nlat * S.Nlon := by
      rw [(Prod.mk.inj g5).1, (k1 _ _ _ _ _ _ _ _ _ _).1]; exact a1
    have l2 : (st2.u_lat_tor_seed.length : Int) = S.Nlat * S.Nlon := by
      rw [(Prod.mk.inj g5).2, (k1 _ _ _ _ _ _ _ _ _ _).2]; exact a2
    have l3 : (st2.u_lon_pot_seed.length : Int) = S.Nlat * S.Nlon := by
      rw [(Prod.mk.inj g6).1, (k2 _ _ _ _ _ _ _ _ _ _).1]; exact a3
    have l4 : (st2.u_lat_pot_seed.length : Int) = S.Nlat * S.Nlon := by
      rw [(Prod.mk.inj g6).2, (k2 _ _ _ _ _ _ _ _ _ _).2]; exact a4
    have t1 : (X.toroidal_vel_from_F st.u_lon_tor_seed st.u_lat_tor_seed seed.1
            I.source_data.longitude I.source_data.latitude S.Ntime S.Ndepth S.Nlat S.Nlon
            (used_mask I)).1 = st2.u_lon_tor_seed := (Prod.mk.inj g5).1.symm
    have t3 : (X.potential_vel_from_F st.u_lon_pot_seed st.u_lat_pot_seed seed.2
            I.source_data.longitude I.source_data.latitude S.Ntime S.Ndepth S.Nlat S.Nlon
            (used_mask I)).1 = st2.u_lon_pot_seed := (Prod.mk.inj g6).1.symm
    have t2 : (X.toroidal_vel_from_F st.u_lon_tor_seed st.u_lat_tor_seed seed.1
            I.source_data.longitude I.source_data.latitude S.Ntime S.Ndepth S.Nlat S.Nlon
            (used_mask I)).2 = st2.u_lat_tor_seed := (Prod.mk.inj g5).2.symm
    have t4 : (X.potential_vel_from_F st.u_lon_pot_seed st.u_lat_pot_seed seed.2
            I.source_data.longitude I.source_data.latitude S.Ntime S.Ndepth S.Nlat S.Nlon
            (used_mask I)).2 = st2.u_lat_pot_seed := (Prod.mk.inj g6).2.symm
    rw [t1, t3] at fr1
    rw [t2, t4] at fr2
    clear hres hres2 hst t1 t2 t3 t4
    refine ⟨st2, seed, _, rfl, hseed, rfl, g5, g6, ?_⟩
    rw [g1, g2, g3, g4]
    clear g1 g2 g3 g4 g5 g6
    intro Ilat Ilon hi0 hi1 hj0 hj1
    have hr := Index_sub_range Ilat Ilon S.Nlat S.Nlon hi0 hi1 hj0 hj1
    rw [Index_split S Itime Idepth Ilat Ilon]
    unfold slice_base at hb hu1 hu2 fr1 fr2 oPsi oPhi
    have e1 := fr1.2.1 _ hr.1 hr.2
    have e2 := fr2.2.1 _ hr.1 hr.2
    rw [zero_add] at e1 e2
    have e3 := oPsi.2.1 _ hr.1 hr.2
    have e4 := oPhi.2.1 _ hr.1 hr.2
    have e5 := hsv _ hr.1 hr.2
    rw [sub_value_of_vec_at _ _ _ e5.1] at e3
    rw [sub_value_of_vec_at _ _ _ e5.2] at e4
    obtain ⟨Rb, hRb, _, hRv⟩ := build_RHS_spec K I.source_data.latitude I.source_data.areas S
      I.weight_err I.Tikhov_Laplace I.deriv_scale_factor rem.1 rem.2
      (X.toroidal_curl_u_dot_er st.vort_term rem.1 rem.2 I.source_data.longitude
        I.source_data.latitude 0 0 1 1 S.Nlat S.Nlon (used_mask I))
      (X.toroidal_vel_div st.div_term rem.1 rem.2 I.source_data.longitude
        I.source_data.latitude 1 1 S.Nlat S.Nlon (used_mask I))
      st.RHS_vector hN0 hN hlat hA (by rw [fr1.1]; exact le_of_eq a5.symm)
      (by rw [fr2.1]; exact le_of_eq a6.symm) (by rw [k4]; exact le_of_eq a8.symm)
      (by rw [k3]; exact le_of_eq a7.symm) (le_of_eq a9.symm)
    rw [hRHS] at hRb
    cases hRb
    have q0 := hRv 0 _ (le_refl 0) (by decide) hr.1 hr.2
    have q1 := hRv 1 _ (by decide) (by decide) hr.1 hr.2
    rw [zero_mul, zero_add] at q0
    rw [one_mul] at q1
    have hk5 := k5 I.LHS_matr RHS
    have hl1 := hsl.1
    have hl2 := hsl.2
    clear hRv hsv fr1 fr2 oPsi oPhi hRHS hseed hs1 hs2 hA hlat k1 k2 k3 k4 k5 e5 hsl
    clear a1 a2 a3 a4 a5 a6 a7 a8 a9 a10 a11 a12 a13 a14 a15 a16 a17
    rw [← Index_sub_eq Ilat Ilon S.Nlat S.Nlon] at *
    generalize Index 0 0 Ilat Ilon 1 1 S.Nlat S.Nlon = p at *
    generalize Index Itime Idepth 0 0 S.Ntime S.Ndepth S.Nlat S.Nlon = base at *
    generalize S.Nlat * S.Nlon = N at *
    have hp0 := hr.1
    have hp1 := hr.2
    have hx1 : vec_at (X.solve I.LHS_matr RHS).1 p
        = some (sub_value (X.solve I.LHS_matr RHS).1 p) :=
      vec_at_getD _ p 0 hp0 (by rw [hk5]; omega)
    have hx2 : vec_at (X.solve I.LHS_matr RHS).1 (N + p)
        = some (slice_value (X.solve I.LHS_matr RHS).1 N p) :=
      vec_at_getD _ (N + p) 0 (by omega) (by rw [hk5]; omega)
    refine ⟨_, _, _, _, _, _, _, _, _, _,
      vec_at_getD I.u_lon (base + p) 0 (by omega) (by omega),
      vec_at_getD I.u_lat (base + p) 0 (by omega) (by omega),
      vec_at_getD _ p 0 hp0 (by rw [l1]; exact hp1),
      vec_at_getD _ p 0 hp0 (by rw [l2]; exact hp1),
      vec_at_getD _ p 0 hp0 (by rw [l3]; exact hp1),
      vec_at_getD _ p 0 hp0 (by rw [l4]; exact hp1),
      hx1, hx2,
      vec_at_getD seed.1 p 0 hp0 (by rw [hl1]; exact hp1),
      vec_at_getD seed.2 p 0 hp0 (by rw [hl2]; exact hp1),
      e1, e2, ?_, e3, e4, ?_⟩
    · intro hw
      have v1 := sub_value_of_vec_at _ _ _ e1
      have v2 := sub_value_of_vec_at _ _ _ e2
      unfold sub_value at v1 v2
      constructor
      · rw [q0]; simp only [rhs_expected, hw, if_true, Bool.false_eq_true, if_false]
        rw [v1]; rfl
      · rw [q1]; simp only [rhs_expected, hw, Bool.false_eq_true, if_false]
        simp only [show ¬((1 : Int) = 0) by decide, if_false, if_true]
        rw [v2]; rfl
    · intro z1 z2 z3 z4 z5 z6
      have w1 : ∀ a b c : α, b = 0 → c = 0 → a - b - c = a := by
        intro a b c hb hc; rw [hb, hc]; ring
      have w2 : ∀ a b : α, b = 0 → a + b = a := by
        intro a b hb; rw [hb]; ring
      refine ⟨?_, ?_, ?_, ?_⟩
      · rw [e1]; exact congrArg some (w1 _ _ _ z1 z3)
      · rw [e2]; exact congrArg some (w1 _ _ _ z2 z4)
      · rw [e3]; exact congrArg some (w2 _ _ z5)
      · rw [e4]; exact congrArg some (w2 _ _ z6)
end SliceClaims

/-- C8 on the small grid, slice `(0, 0)`, with a seed per slice. -/
theorem C8_seed_residual_witness :
    ∃ (st2 : SliceState ℚ) (seed : List ℚ × List ℚ) (x : List ℚ),
      Apply_slice ex_X ex_K ex_I ex_S 0 0 ex_st = some st2 ∧
      slice_seed ex_I ex_S 0 0 ex_st = some seed ∧
      x = (ex_X.solve ex_I.LHS_matr st2.RHS_vector).1 ∧
      (st2.u_lon_tor_seed, st2.u_lat_tor_seed)
        = ex_X.toroidal_vel_from_F ex_st.u_lon_tor_seed ex_st.u_lat_tor_seed seed.1
            ex_I.source_data.longitude ex_I.source_data.latitude ex_S.Ntime ex_S.Ndepth ex_S.Nlat ex_S.Nlon
            (used_mask ex_I) ∧
      (st2.u_lon_pot_seed, st2.u_lat_pot_seed)
        = ex_X.potential_vel_from_F ex_st.u_lon_pot_seed ex_st.u_lat_pot_seed seed.2
            ex_I.source_data.longitude ex_I.source_data.latitude ex_S.Ntime ex_S.Ndepth ex_S.Nlat ex_S.Nlon
            (used_mask ex_I) ∧
      ∀ Ilat Ilon : Int, 0 ≤ Ilat → Ilat < ex_S.Nlat → 0 ≤ Ilon → Ilon < ex_S.Nlon →
        ∃ u v tl tla pl pla xp xq sp sq : ℚ,
          vec_at ex_I.u_lon (Index 0 0 Ilat Ilon ex_S.Ntime ex_S.Ndepth ex_S.Nlat ex_S.Nlon)
            = some u ∧
          vec_at ex_I.u_lat (Index 0 0 Ilat Ilon ex_S.Ntime ex_S.Ndepth ex_S.Nlat ex_S.Nlon)
            = some v ∧
          vec_at st2.u_lon_tor_seed (Index 0 0 Ilat Ilon 1 1 ex_S.Nlat ex_S.Nlon) = some tl ∧
          vec_at st2.u_lat_tor_seed (Index 0 0 Ilat Ilon 1 1 ex_S.Nlat ex_S.Nlon) = some tla ∧
          vec_at st2.u_lon_pot_seed (Index 0 0 Ilat Ilon 1 1 ex_S.Nlat ex_S.Nlon) = some pl ∧
          vec_at st2.u_lat_pot_seed (Index 0 0 Ilat Ilon 1 1 ex_S.Nlat ex_S.Nlon) = some pla ∧
          vec_at x (Index 0 0 Ilat Ilon 1 1 ex_S.Nlat ex_S.Nlon) = some xp ∧
          vec_at x (ex_S.Nlat * ex_S.Nlon + Index 0 0 Ilat Ilon 1 1 ex_S.Nlat ex_S.Nlon) = some xq ∧
          vec_at seed.1 (Index 0 0 Ilat Ilon 1 1 ex_S.Nlat ex_S.Nlon) = some sp ∧
          vec_at seed.2 (Index 0 0 Ilat Ilon 1 1 ex_S.Nlat ex_S.Nlon) = some sq ∧
          vec_at st2.u_lon_rem (Index 0 0 Ilat Ilon 1 1 ex_S.Nlat ex_S.Nlon) = some (u - tl - pl) ∧
          vec_at st2.u_lat_rem (Index 0 0 Ilat Ilon 1 1 ex_S.Nlat ex_S.Nlon) = some (v - tla - pla) ∧
          (ex_I.weight_err = false →
            vec_at st2.RHS_vector (Index 0 0 Ilat Ilon 1 1 ex_S.Nlat ex_S.Nlon)
              = some (u - tl - pl) ∧
            vec_at st2.RHS_vector (ex_S.Nlat * ex_S.Nlon + Index 0 0 Ilat Ilon 1 1 ex_S.Nlat ex_S.Nlon)
              = some (v - tla - pla)) ∧
          vec_at st2.out.full_Psi (Index 0 0 Ilat Ilon ex_S.Ntime ex_S.Ndepth ex_S.Nlat ex_S.Nlon)
            = some (xp + sp) ∧
          vec_at st2.out.full_Phi (Index 0 0 Ilat Ilon ex_S.Ntime ex_S.Ndepth ex_S.Nlat ex_S.Nlon)
            = some (xq + sq) ∧
          (tl = 0 → tla = 0 → pl = 0 → pla = 0 → sp = 0 → sq = 0 →
            vec_at st2.u_lon_rem (Index 0 0 Ilat Ilon 1 1 ex_S.Nlat ex_S.Nlon) = some u ∧
            vec_at st2.u_lat_rem (Index 0 0 Ilat Ilon 1 1 ex_S.Nlat ex_S.Nlon) = some v ∧
            vec_at st2.out.full_Psi
              (Index 0 0 Ilat Ilon ex_S.Ntime ex_S.Ndepth ex_S.Nlat ex_S.Nlon) = some xp ∧
            vec_at st2.out.full_Phi
              (Index 0 0 Ilat Ilon ex_S.Ntime ex_S.Ndepth ex_S.Nlat ex_S.Nlon) = some xq) :=
  C8_seed_residual ex_X ex_K ex_I ex_S 0 0 ex_st (by decide) (by decide) (by decide)
    (by decide) (by decide) (fun _ => by decide) (fun _ => by decide) (by decide)
    (fun h => absurd h (by decide))
    (by unfold allocated; decide)
    (by
      refine ⟨?_, ?_, ?_, ?_, ?_⟩
      · intros; simp [ex_X]
      · intros; simp [ex_X]
      · intros; simp [ex_X]
      · intros; simp [ex_X]
      · intros; simp [ex_X, ex_S])

/-! ## The claims about `Index` -/

/-- A mixed-radix digit pair: for `0 <= a < A` and `0 <= b < B` the number `a * B + b` lies
in `[0, A * B)`. -/
theorem radix_range (a b A B : Int) (ha0 : 0 ≤ a) (haA : a < A) (hb0 : 0 ≤ b) (hbB : b < B) :
    0 ≤ a * B + b ∧ a * B + b < A * B := by
  have hB : 0 ≤ B := by omega
  have h1 : 0 ≤ a * B := Int.mul_nonneg ha0 hB
  have h2 : (a + 1) * B ≤ A * B := Int.mul_le_mul_of_nonneg_right (by omega) hB
  have h3 : (a + 1) * B = a * B + B := by ring
  omega

/-- The row-major form of `Index`. -/
theorem Index_row_major (Itime Idepth Ilat Ilon Ntime Ndepth Nlat Nlon : Int) :
    Index Itime Idepth Ilat Ilon Ntime Ndepth Nlat Nlon
      = ((Itime * Ndepth + Idepth) * Nlat + Ilat) * Nlon + Ilon := by
  simp only [Index]
  ring

/-- In unbounded integers `Index` maps every in-range tuple `(Itime, Idepth, Ilat, Ilon)` into
`[0, Ntime * Ndepth * Nlat * Nlon)`, and two in-range tuples with the same `Index` are equal.
(The sizes are positive as soon as an in-range tuple exists, and the time index of the second
tuple needs no bound.) -/
theorem Index_injective (Ntime Ndepth Nlat Nlon : Int) (t z i j t2 z2 i2 j2 : Int)
    (ht : 0 ≤ t ∧ t < Ntime) (hz : 0 ≤ z ∧ z < Ndepth) (hi : 0 ≤ i ∧ i < Nlat)
    (hj : 0 ≤ j ∧ j < Nlon)
    (hz2 : 0 ≤ z2 ∧ z2 < Ndepth) (hi2 : 0 ≤ i2 ∧ i2 < Nlat) (hj2 : 0 ≤ j2 ∧ j2 < Nlon) :
    (0 ≤ Index t z i j Ntime Ndepth Nlat Nlon ∧
      Index t z i j Ntime Ndepth Nlat Nlon < Ntime * Ndepth * Nlat * Nlon) ∧
    (Index t z i j Ntime Ndepth Nlat Nlon = Index t2 z2 i2 j2 Ntime Ndepth Nlat Nlon →
      t = t2 ∧ z = z2 ∧ i = i2 ∧ j = j2) := by
  rw [Index_row_major, Index_row_major]
  have a1 := radix_range t z Ntime Ndepth ht.1 ht.2 hz.1 hz.2
  have a2 := radix_range (t * Ndepth + z) i (Ntime * Ndepth) Nlat a1.1 a1.2 hi.1 hi.2
  have a3 := radix_range ((t * Ndepth + z) * Nlat + i) j (Ntime * Ndepth * Nlat) Nlon
    a2.1 a2.2 hj.1 hj.2
  refine ⟨a3, ?_⟩
  intro h
  obtain ⟨e1, e2⟩ := lin_inj Nlon _ _ j j2 hj.1 hj.2 hj2.1 hj2.2 h
  obtain ⟨e3, e4⟩ := lin_inj Nlat _ _ i i2 hi.1 hi.2 hi2.1 hi2.2 e1
  obtain ⟨e5, e6⟩ := lin_inj Ndepth _ _ z z2 hz.1 hz.2 hz2.1 hz2.2 e3
  exact ⟨e5, e6, e4, e2⟩

/-- C16. Over the unbounded integers `Index` is the row-major offset
`((Itime * Ndepth + Idepth) * Nlat + Ilat) * Nlon + Ilon`; it does not depend on `Ntime`; and
it is the slice number `Index(Itime, Idepth, 0, 0, Ntime, Ndepth, 1, 1)` times the slice size
`Nlat * Nlon` plus the in-slice offset `Index(0, 0, Ilat, Ilon, 1, 1, Nlat, Nlon)`. -/
theorem C16_row_major_offset (Itime Idepth Ilat Ilon Ntime Ndepth Nlat Nlon : Int) :
    Index Itime Idepth Ilat Ilon Ntime Ndepth Nlat Nlon
      = ((Itime * Ndepth + Idepth) * Nlat + Ilat) * Nlon + Ilon ∧
    (∀ Ntime2 : Int, Index Itime Idepth Ilat Ilon Ntime2 Ndepth Nlat Nlon
      = Index Itime Idepth Ilat Ilon Ntime Ndepth Nlat Nlon) ∧
    Index Itime Idepth Ilat Ilon Ntime Ndepth Nlat Nlon
      = Index Itime Idepth 0 0 Ntime Ndepth 1 1 * (Nlat * Nlon)
        + Index 0 0 Ilat Ilon 1 1 Nlat Nlon := by
  refine ⟨Index_row_major _ _ _ _ _ _ _ _, fun _ => rfl, ?_⟩
  simp only [Index]
  ring

/-! ## The loop over the slices: termination counters and seeds -/

section DriverLemmas
variable {α : Type} [LinearOrderedField α]

/-- The invariant rule for a loop nest with bounds `A` and `B`. -/
theorem nest_loop_inv {σ : Type} (A B : Int) (P : Int → σ → Prop)
    (body : Int → Int → σ → Option σ) (s : σ) (hA : 0 ≤ A) (hB : 0 ≤ B) (h0 : P 0 s)
    (hstep : ∀ (i j : Int) (t : σ), 0 ≤ i → i < A → 0 ≤ j → j < B →
      P (i * B + j) t → ∃ t2, body i j t = some t2 ∧ P (i * B + j + 1) t2) :
    ∃ t, forLoop A.toNat (fun i t => forLoop B.toNat (fun j t => body i j t) t) s = some t ∧
      P (A * B) t :=
  grid_loop_inv ⟨0, 0, A, B⟩ P body s hA hB h0 hstep

/-- The first position of the slice `(Itime, Idepth)` is the slice number times the slice
size. -/
theorem slice_base_eq (S : Sizes) (Itime Idepth : Int) :
    slice_base S Itime Idepth = (Itime * S.Ndepth + Idepth) * (S.Nlat * S.Nlon) := by
  simp only [slice_base, Index]
  ring

/-- An in-range slice lies inside an array with one entry per point of every slice. -/
theorem slice_base_range (S : Sizes) (Itime Idepth : Int) (hN0 : 0 ≤ S.Nlat) (hN : 0 ≤ S.Nlon)
    (ht0 : 0 ≤ Itime) (ht1 : Itime < S.Ntime) (hz0 : 0 ≤ Idepth) (hz1 : Idepth < S.Ndepth) :
    0 ≤ slice_base S Itime Idepth ∧
    slice_base S Itime Idepth + S.Nlat * S.Nlon ≤ S.Ntime * S.Ndepth * (S.Nlat * S.Nlon) := by
  rw [slice_base_eq]
  have hr := radix_range Itime Idepth S.Ntime S.Ndepth ht0 ht1 hz0 hz1
  have hNN : 0 ≤ S.Nlat * S.Nlon := Int.mul_nonneg hN0 hN
  have h1 : 0 ≤ (Itime * S.Ndepth + Idepth) * (S.Nlat * S.Nlon) := Int.mul_nonneg hr.1 hNN
  have h2 : (Itime * S.Ndepth + Idepth + 1) * (S.Nlat * S.Nlon)
      ≤ S.Ntime * S.Ndepth * (S.Nlat * S.Nlon) :=
    Int.mul_le_mul_of_nonneg_right (by omega) hNN
  have h3 : (Itime * S.Ndepth + Idepth + 1) * (S.Nlat * S.Nlon)
      = (Itime * S.Ndepth + Idepth) * (S.Nlat * S.Nlon) + S.Nlat * S.Nlon := by ring
  rw [h3] at h2
  exact ⟨h1, h2⟩

/-- One slice: the iteration returns, keeps the allocation, counts its termination type, and
stores the solution plus the seed at the positions of the slice. -/
theorem Apply_slice_step (X : Collaborators α) (K : Constants α) (I : SliceInputs α)
    (S : Sizes) (Itime Idepth : Int) (st : SliceState α)
    (hN0 : 0 ≤ S.Nlat) (hN : 0 ≤ S.Nlon) (hb : 0 ≤ slice_base S Itime Idepth)
    (hu1 : slice_base S Itime Idepth + S.Nlat * S.Nlon ≤ I.u_lon.length)
    (hu2 : slice_base S Itime Idepth + S.Nlat * S.Nlon ≤ I.u_lat.length)
    (hs1 : I.single_seed = false →
      slice_base S Itime Idepth + S.Nlat * S.Nlon ≤ I.seed_tor.length)
    (hs2 : I.single_seed = false →
      slice_base S Itime Idepth + S.Nlat * S.Nlon ≤ I.seed_pot.length)
    (hlat : S.Nlat ≤ I.source_data.latitude.length)
    (hA : I.weight_err = true → S.Nlat * S.Nlon ≤ I.source_data.areas.length)
    (hal : allocated I S st) (hX : keeps_sizes X S) :
    ∃ (st2 : SliceState α) (seed : List α × List α),
      Apply_slice X K I S Itime Idepth st = some st2 ∧
      slice_seed I S Itime Idepth st = some seed ∧
      ((seed.1.length : Int) = S.Nlat * S.Nlon ∧ (seed.2.length : Int) = S.Nlat * S.Nlon) ∧
      (I.single_seed = true → seed = (st.out.Psi_seed, st.out.Phi_seed)) ∧
      (I.single_seed = false → ∀ p : Int, 0 ≤ p → p < S.Nlat * S.Nlon →
        vec_at seed.1 p = some (slice_value I.seed_tor (slice_base S Itime Idepth) p) ∧
        vec_at seed.2 p = some (slice_value I.seed_pot (slice_base S Itime Idepth) p)) ∧
      allocated I S st2 ∧
      st2.counts = count_termination (X.solve I.LHS_matr st2.RHS_vector).2 st.counts ∧
      (∀ p : Int, 0 ≤ p → p < S.Nlat * S.Nlon →
        vec_at st2.out.full_Psi (slice_base S Itime Idepth + p)
          = some (sub_value (X.solve I.LHS_matr st2.RHS_vector).1 p + sub_value seed.1 p) ∧
        vec_at st2.out.full_Phi (slice_base S Itime Idepth + p)
          = some (slice_value (X.solve I.LHS_matr st2.RHS_vector).1 (S.Nlat * S.Nlon) p
              + sub_value seed.2 p)) ∧
      (∀ q : Int, (q < slice_base S Itime Idepth ∨
          slice_base S Itime Idepth + S.Nlat * S.Nlon ≤ q) →
        vec_at st2.out.full_Psi q = vec_at st.out.full_Psi q ∧
        vec_at st2.out.full_Phi q = vec_at st.out.full_Phi q) ∧
      (I.single_seed = true → ∀ p : Int, 0 ≤ p → p < S.Nlat * S.Nlon →
        vec_at st2.out.Psi_seed p = vec_at st2.out.full_Psi (slice_base S Itime Idepth + p) ∧
        vec_at st2.out.Phi_seed p = vec_at st2.out.full_Phi (slice_base S Itime Idepth + p)) ∧
      (I.single_seed = false → st2.out.Psi_seed = seed.1 ∧ st2.out.Phi_seed = seed.2) := by
  obtain ⟨seed, rem, RHS, sol, out, hseed, hsl, hsing, hnons, fr1, fr2, hRHS, _, hsv, fout,
    hres⟩ :=
    Apply_slice_spec X K I S Itime Idepth st hN0 hN hb hu1 hu2 hs1 hs2 hlat hA hal hX
  have hal0 := hal
  obtain ⟨a1, a2, a3, a4, a5, a6, a7, a8, a9, a10, a11, a12, a13, a14, a15, a16, a17⟩ := hal
  obtain ⟨k1, k2, k3, k4, k5⟩ := hX
  obtain ⟨o1, o2, o3, o4, oPsi, oPhi, osg, onn⟩ := fout
  obtain ⟨Rb, hRb, hRl, _⟩ := build_RHS_spec K I.source_data.latitude I.source_data.areas S
    I.weight_err I.Tikhov_Laplace I.deriv_scale_factor rem.1 rem.2
    (X.toroidal_curl_u_dot_er st.vort_term rem.1 rem.2 I.source_data.longitude
      I.source_data.latitude 0 0 1 1 S.Nlat S.Nlon (used_mask I))
    (X.toroidal_vel_div st.div_term rem.1 rem.2 I.source_data.longitude
      I.source_data.latitude 1 1 S.Nlat S.Nlon (used_mask I))
    st.RHS_vector hN0 hN hlat hA (by rw [fr1.1]; exact le_of_eq a5.symm)
    (by rw [fr2.1]; exact le_of_eq a6.symm) (by rw [k4]; exact le_of_eq a8.symm)
    (by rw [k3]; exact le_of_eq a7.symm) (le_of_eq a9.symm)
  rw [hRHS] at hRb
  cases hRb
  cases hst : Apply_slice X K I S Itime Idepth st with
  | none => rw [hst] at hres; cases hres
  | some st2 =>
    rw [hst] at hres
    have hres2 := Option.some.inj hres
    have g1 : st2.u_lon_rem = rem.1 := by rw [hres2]
    have g2 : st2.u_lat_rem = rem.2 := by rw [hres2]
    have g3 : st2.RHS_vector = RHS := by rw [hres2]
    have g4 : st2.out = out := by rw [hres2]
    have g5 : st2.counts = count_termination (X.solve I.LHS_matr RHS).2 st.counts := by
      rw [hres2]
    have l1 : (st2.u_lon_tor_seed.length : Int) = S.Nlat * S.Nlon := by
      rw [hres2]; show ((_ : List α).length : Int) = _
      rw [(k1 _ _ _ _ _ _ _ _ _ _).1]; exact a1
    have l2 : (st2.u_lat_tor_seed.length : Int) = S.Nlat * S.Nlon := by
      rw [hres2]; show ((_ : List α).length : Int) = _
      rw [(k1 _ _ _ _ _ _ _ _ _ _).2]; exact a2
    have l3 : (st2.u_lon_pot_seed.length : Int) = S.Nlat * S.Nlon := by
      rw [hres2]; show ((_ : List α).length : Int) = _
      rw [(k2 _ _ _ _ _ _ _ _ _ _).1]; exact a3
    have l4 : (st2.u_lat_pot_seed.length : Int) = S.Nlat * S.Nlon := by
      rw [hres2]; show ((_ : List α).length : Int) = _
      rw [(k2 _ _ _ _ _ _ _ _ _ _).2]; exact a4
    have l7 : (st2.div_term.length : Int) = S.Nlat * S.Nlon := by
      rw [hres2]; show ((_ : List α).length : Int) = _
      rw [k3]; exact a7
    have l8 : (st2.vort_term.length : Int) = S.Nlat * S.Nlon := by
      rw [hres2]; show ((_ : List α).length : Int) = _
      rw [k4]; exact a8
    clear hres hres2 hst
    have s1 : (out.Psi_seed.length : Int) = S.Nlat * S.Nlon := by
      cases hss : I.single_seed with
      | true => rw [((osg hss).1).1]; exact hsl.1
      | false => rw [(onn hss).1]; exact hsl.1
    have s2 : (out.Phi_seed.length : Int) = S.Nlat * S.Nlon := by
      cases hss : I.single_seed with
      | true => rw [((osg hss).2).1]; exact hsl.2
      | false => rw [(onn hss).2]; exact hsl.2
    refine ⟨st2, seed, rfl, hseed, hsl, hsing, ?_, ?_, ?_, ?_, ?_, ?_, ?_⟩
    · intro hss p hp0 hp1
      have f := hnons hss
      have e1 := f.1.2.1 p hp0 hp1
      have e2 := f.2.2.1 p hp0 hp1
      rw [zero_add] at e1 e2
      exact ⟨e1, e2⟩
    · refine ⟨l1, l2, l3, l4, ?_, ?_, l7, l8, ?_, ?_, ?_, ?_, ?_, ?_, ?_, ?_, ?_⟩
      · rw [g1, fr1.1]; exact a5
      · rw [g2, fr2.1]; exact a6
      · rw [g3, hRl]; exact a9
      · rw [g4]; exact s1
      · rw [g4]; exact s2
      · rw [g4, o1.1]; exact a12
      · rw [g4, o2.1]; exact a13
      · rw [g4, o3.1]; exact a14
      · rw [g4, o4.1]; exact a15
      · rw [g4, oPsi.1]; exact a16
      · rw [g4, oPhi.1]; exact a17
    · rw [g3]; exact g5
    · intro p hp0 hp1
      rw [g3, g4]
      have e3 := oPsi.2.1 p hp0 hp1
      have e4 := oPhi.2.1 p hp0 hp1
      have e5 := hsv p hp0 hp1
      rw [sub_value_of_vec_at _ _ _ e5.1] at e3
      rw [sub_value_of_vec_at _ _ _ e5.2] at e4
      exact ⟨e3, e4⟩
    · intro q hq
      rw [g4]
      exact ⟨oPsi.2.2 q hq, oPhi.2.2 q hq⟩
    · intro hss p hp0 hp1
      rw [g4]
      have f := osg hss
      have e1 := f.1.2.1 p hp0 hp1
      have e2 := f.2.2.1 p hp0 hp1
      rw [zero_add] at e1 e2
      rw [e1, e2, oPsi.2.1 p hp0 hp1, oPhi.2.1 p hp0 hp1]
      exact ⟨rfl, rfl⟩
    · intro hss
      rw [g4]
      exact onn hss

/-- The freshly declared arrays have the sizes of the allocation. -/
theorem initial_state_allocated (I : SliceInputs α) (S : Sizes) (hN0 : 0 ≤ S.Nlat)
    (hN : 0 ≤ S.Nlon) : allocated I S (initial_state I.u_lon S) := by
  have h : 0 ≤ S.Nlat * S.Nlon := Int.mul_nonneg hN0 hN
  have e : (((S.Nlat * S.Nlon).toNat : Nat) : Int) = S.Nlat * S.Nlon := Int.toNat_of_nonneg h
  unfold allocated initial_state
  simp only [List.length_replicate, Nat.cast_mul, Nat.cast_ofNat, e]
  simp

/-- Two vectors of the same size with the same elements are equal. -/
theorem list_eq_of_vec_at {β : Type} (a b : List β) (N : Int) (ha : (a.length : Int) = N)
    (hb : (b.length : Int) = N)
    (h : ∀ p : Int, 0 ≤ p → p < N → vec_at a p = vec_at b p) : a = b := by
  apply List.ext_getElem?
  intro n
  by_cases hn : (n : Int) < N
  · have := h n (by omega) hn
    simpa [vec_at] using this
  · have h1 : a.length ≤ n := by omega
    have h2 : b.length ≤ n := by omega
    rw [List.getElem?_eq_none h1, List.getElem?_eq_none h2]

/-- The copy of the starting seed returns, keeps the allocation and the counters, and leaves
the first `Nlat * Nlon` entries of `seed_tor`, `seed_pot` in the seed vectors. -/
theorem copy_seed_spec (I : SliceInputs α) (S : Sizes) (st : SliceState α)
    (hN0 : 0 ≤ S.Nlat) (hN : 0 ≤ S.Nlon) (hss : I.single_seed = true)
    (hc1 : S.Nlat * S.Nlon ≤ I.seed_tor.length) (hc2 : S.Nlat * S.Nlon ≤ I.seed_pot.length)
    (hal : allocated I S st) :
    ∃ st0, copy_seed I S st = some st0 ∧ allocated I S st0 ∧ st0.counts = st.counts ∧
      ∀ p : Int, 0 ≤ p → p < S.Nlat * S.Nlon →
        vec_at st0.out.Psi_seed p = vec_at I.seed_tor p ∧
        vec_at st0.out.Phi_seed p = vec_at I.seed_pot p := by
  have hb0 : slice_base (⟨1, 1, S.Nlat, S.Nlon⟩ : Sizes) 0 0 = 0 := by
    simp [slice_base, Index]
  obtain ⟨a1, a2, a3, a4, a5, a6, a7, a8, a9, a10, a11, a12, a13, a14, a15, a16, a17⟩ := hal
  obtain ⟨a, b, hab, fa, fb⟩ := extract_seed_spec (⟨1, 1, S.Nlat, S.Nlon⟩ : Sizes) 0 0
    I.seed_tor I.seed_pot st.out.Psi_seed st.out.Phi_seed hN0 hN (le_of_eq hb0.symm)
    (by rw [hb0, zero_add]; exact hc1) (by rw [hb0, zero_add]; exact hc2)
    (le_of_eq a10.symm) (le_of_eq a11.symm)
  rw [hb0] at fa fb
  have hloop : forLoop S.Nlat.toNat (fun Ilat seed =>
      forLoop S.Nlon.toNat (fun Ilon seed =>
        copy_seed_body S I.seed_tor I.seed_pot Ilat Ilon seed) seed)
      (st.out.Psi_seed, st.out.Phi_seed) = some (a, b) := hab
  cases hst : copy_seed I S st with
  | none =>
    unfold copy_seed at hst
    rw [if_pos hss, hloop] at hst
    cases hst
  | some st0 =>
    unfold copy_seed at hst
    rw [if_pos hss, hloop] at hst
    have hst2 := (Option.some.inj hst).symm
    have g1 : st0.out.Psi_seed = a := by rw [hst2]
    have g2 : st0.out.Phi_seed = b := by rw [hst2]
    have g3 : st0.counts = st.counts := by rw [hst2]
    have g4 : st0.u_lon_tor_seed = st.u_lon_tor_seed ∧ st0.u_lat_tor_seed = st.u_lat_tor_seed ∧
        st0.u_lon_pot_seed = st.u_lon_pot_seed ∧ st0.u_lat_pot_seed = st.u_lat_pot_seed ∧
        st0.u_lon_rem = st.u_lon_rem ∧ st0.u_lat_rem = st.u_lat_rem ∧
        st0.div_term = st.div_term ∧ st0.vort_term = st.vort_term ∧
        st0.RHS_vector = st.RHS_vector := by
      rw [hst2]; exact ⟨rfl, rfl, rfl, rfl, rfl, rfl, rfl, rfl, rfl⟩
    have g5 : st0.out.full_u_lon_tor = st.out.full_u_lon_tor ∧
        st0.out.full_u_lat_tor = st.out.full_u_lat_tor ∧
        st0.out.full_u_lon_pot = st.out.full_u_lon_pot ∧
        st0.out.full_u_lat_pot = st.out.full_u_lat_pot ∧
        st0.out.full_Psi = st.out.full_Psi ∧ st0.out.full_Phi = st.out.full_Phi := by
      rw [hst2]; exact ⟨rfl, rfl, rfl, rfl, rfl, rfl⟩
    clear hst hst2
    obtain ⟨b1, b2, b3, b4, b5, b6, b7, b8, b9⟩ := g4
    obtain ⟨c1, c2, c3, c4, c5, c6⟩ := g5
    refine ⟨st0, rfl, ?_, g3, ?_⟩
    · unfold allocated
      rw [b1, b2, b3, b4, b5, b6, b7, b8, b9, c1, c2, c3, c4, c5, c6, g1, g2, fa.1, fb.1]
      exact ⟨a1, a2, a3, a4, a5, a6, a7, a8, a9, a10, a11, a12, a13, a14, a15, a16, a17⟩
    · intro p hp0 hp1
      rw [g1, g2]
      have e1 := fa.2.1 p hp0 hp1
      have e2 := fb.2.1 p hp0 hp1
      rw [zero_add] at e1 e2
      have g1 : vec_at I.seed_tor p = some (slice_value I.seed_tor 0 p) := by
        unfold slice_value; rw [zero_add]
        exact vec_at_getD _ p 0 hp0 (lt_of_lt_of_le hp1 hc1)
      have g2 : vec_at I.seed_pot p = some (slice_value I.seed_pot 0 p) := by
        unfold slice_value; rw [zero_add]
        exact vec_at_getD _ p 0 hp0 (lt_of_lt_of_le hp1 hc2)
      exact ⟨e1.trans g1.symm, e2.trans g2.symm⟩

end DriverLemmas

section VorticityClaims
variable {α : Type} [LinearOrderedField α]

/-- The spherical branch in closed form: with the four lookups successful the function
returns the record of the five formulas of the source. -/
theorem compute_vorticity_spherical (K : Constants α) (cos tan : α → α)
    (spher_derivative_at_point : SpherDerivative α)
    (Cart_derivatives_at_point : CartDerivatives α) (ulon_r ulat_r ur_r : α)
    (u_r u_lon u_lat : List α) (Ntime Ndepth Nlat Nlon Itime Idepth Ilat Ilon : Int)
    (longitude latitude : List α) (mask : List Bool) (lat w u v : α)
    (hlat : vec_at latitude Ilat = some lat)
    (hw : vec_at u_r (Index Itime Idepth Ilat Ilon Ntime Ndepth Nlat Nlon) = some w)
    (hu : vec_at u_lon (Index Itime Idepth Ilat Ilon Ntime Ndepth Nlat Nlon) = some u)
    (hv : vec_at u_lat (Index Itime Idepth Ilat Ilon Ntime Ndepth Nlat Nlon) = some v) :
    ∃ out, compute_vorticity_at_point K false cos tan spher_derivative_at_point
        Cart_derivatives_at_point ulon_r ulat_r ur_r u_r u_lon u_lat
        Ntime Ndepth Nlat Nlon Itime Idepth Ilat Ilon longitude latitude mask = some out ∧
      out.vort_r_tmp
        = (spher_derivative_at_point [u_lon, u_lat, u_r] longitude "lon"
              Itime Idepth Ilat Ilon Ntime Ndepth Nlat Nlon mask 1 / cos lat
            - spher_derivative_at_point [u_lon, u_lat, u_r] latitude "lat"
              Itime Idepth Ilat Ilon Ntime Ndepth Nlat Nlon mask 0
            + tan lat * u) / K.R_earth ∧
      out.div_tmp
        = 2 * w / K.R_earth + ur_r
          + spher_derivative_at_point [u_lon, u_lat, u_r] longitude "lon"
              Itime Idepth Ilat Ilon Ntime Ndepth Nlat Nlon mask 0 / (K.R_earth * cos lat)
          + spher_derivative_at_point [u_lon, u_lat, u_r] latitude "lat"
              Itime Idepth Ilat Ilon Ntime Ndepth Nlat Nlon mask 1 / K.R_earth
          - v * tan lat / K.R_earth ∧
      out.OkuboWeiss_tmp
        = ((cos lat * spher_derivative_at_point [u_lon, u_lat, u_r] longitude "lon"
                Itime Idepth Ilat Ilon Ntime Ndepth Nlat Nlon mask 0
              - spher_derivative_at_point [u_lon, u_lat, u_r] latitude "lat"
                Itime Idepth Ilat Ilon Ntime Ndepth Nlat Nlon mask 1) / K.R_earth) ^ 2
          + ((cos lat * spher_derivative_at_point [u_lon, u_lat, u_r] longitude "lon"
                Itime Idepth Ilat Ilon Ntime Ndepth Nlat Nlon mask 1
              + spher_derivative_at_point [u_lon, u_lat, u_r] latitude "lat"
                Itime Idepth Ilat Ilon Ntime Ndepth Nlat Nlon mask 0) / K.R_earth) ^ 2
          - out.vort_r_tmp ^ 2 := by
  unfold compute_vorticity_at_point
  simp only [Bool.false_eq_true, if_false, hlat, hw, hu, hv, Option.bind_eq_bind,
    Option.some_bind]
  exact ⟨_, rfl, rfl, rfl, rfl⟩

/-- C11. In the spherical configuration, at a point with `cos(lat) != 0` where the lookups
of the function succeed, `compute_vorticity_at_point` returns with
`vort_r_tmp = (1 / R_earth) * ((d u_lat / d lon) / cos(lat) - d u_lon / d lat
+ tan(lat) * u_lon)`: the derivatives are the values that `spher_derivative_at_point` gives
for the field `u_lat` along longitude and for the field `u_lon` along latitude, and `u_lon` is
the value at `Index(Itime, Idepth, Ilat, Ilon)`. -/
theorem C11_spherical_vorticity (K : Constants α) (cos tan : α → α)
    (spher_derivative_at_point : SpherDerivative α)
    (Cart_derivatives_at_point : CartDerivatives α) (ulon_r ulat_r ur_r : α)
    (u_r u_lon u_lat : List α) (Ntime Ndepth Nlat Nlon Itime Idepth Ilat Ilon : Int)
    (longitude latitude : List α) (mask : List Bool) (lat w u v : α)
    (hlat : vec_at latitude Ilat = some lat)
    (hw : vec_at u_r (Index Itime Idepth Ilat Ilon Ntime Ndepth Nlat Nlon) = some w)
    (hu : vec_at u_lon (Index Itime Idepth Ilat Ilon Ntime Ndepth Nlat Nlon) = some u)
    (hv : vec_at u_lat (Index Itime Idepth Ilat Ilon Ntime Ndepth Nlat Nlon) = some v)
    (hcos : cos lat ≠ 0) :
    ∃ out, compute_vorticity_at_point K false cos tan spher_derivative_at_point
        Cart_derivatives_at_point ulon_r ulat_r ur_r u_r u_lon u_lat
        Ntime Ndepth Nlat Nlon Itime Idepth Ilat Ilon longitude latitude mask = some out ∧
      out.vort_r_tmp
        = (1 / K.R_earth) *
          (spher_derivative_at_point [u_lon, u_lat, u_r] longitude "lon"
              Itime Idepth Ilat Ilon Ntime Ndepth Nlat Nlon mask 1 / cos lat
            - spher_derivative_at_point [u_lon, u_lat, u_r] latitude "lat"
              Itime Idepth Ilat Ilon Ntime Ndepth Nlat Nlon mask 0
            + tan lat * u) := by
  have _ := hcos
  obtain ⟨out, h1, h2, _⟩ := compute_vorticity_spherical K cos tan spher_derivative_at_point
    Cart_derivatives_at_point ulon_r ulat_r ur_r u_r u_lon u_lat
    Ntime Ndepth Nlat Nlon Itime Idepth Ilat Ilon longitude latitude mask lat w u v
    hlat hw hu hv
  refine ⟨out, h1, ?_⟩
  rw [h2]
  ring

/-- C13. In the spherical configuration, where the lookups of the function succeed,
`compute_vorticity_at_point` returns with `OkuboWeiss_tmp = s_n^2 + s_s^2 - vort_r_tmp^2`,
for the normal strain `s_n = (cos(lat) * d u_lon / d lon - d u_lat / d lat) / R_earth`, the
shear strain `s_s = (cos(lat) * d u_lat / d lon + d u_lon / d lat) / R_earth`, and the radial
vorticity `vort_r_tmp` returned by the same call. -/
theorem C13_okubo_weiss (K : Constants α) (cos tan : α → α)
    (spher_derivative_at_point : SpherDerivative α)
    (Cart_derivatives_at_point : CartDerivatives α) (ulon_r ulat_r ur_r : α)
    (u_r u_lon u_lat : List α) (Ntime Ndepth Nlat Nlon Itime Idepth Ilat Ilon : Int)
    (longitude latitude : List α) (mask : List Bool) (lat w u v : α)
    (hlat : vec_at latitude Ilat = some lat)
    (hw : vec_at u_r (Index Itime Idepth Ilat Ilon Ntime Ndepth Nlat Nlon) = some w)
    (hu : vec_at u_lon (Index Itime Idepth Ilat Ilon Ntime Ndepth Nlat Nlon) = some u)
    (hv : vec_at u_lat (Index Itime Idepth Ilat Ilon Ntime Ndepth Nlat Nlon) = some v) :
    ∃ (out : VortOut α) (s_n s_s : α),
      compute_vorticity_at_point K false cos tan spher_derivative_at_point
        Cart_derivatives_at_point ulon_r ulat_r ur_r u_r u_lon u_lat
        Ntime Ndepth Nlat Nlon Itime Idepth Ilat Ilon longitude latitude mask = some out ∧
      s_n = (cos lat * spher_derivative_at_point [u_lon, u_lat, u_r] longitude "lon"
                Itime Idepth Ilat Ilon Ntime Ndepth Nlat Nlon mask 0
              - spher_derivative_at_point [u_lon, u_lat, u_r] latitude "lat"
                Itime Idepth Ilat Ilon Ntime Ndepth Nlat Nlon mask 1) / K.R_earth ∧
      s_s = (cos lat * spher_derivative_at_point [u_lon, u_lat, u_r] longitude "lon"
                Itime Idepth Ilat Ilon Ntime Ndepth Nlat Nlon mask 1
              + spher_derivative_at_point [u_lon, u_lat, u_r] latitude "lat"
                Itime Idepth Ilat Ilon Ntime Ndepth Nlat Nlon mask 0) / K.R_earth ∧
      out.OkuboWeiss_tmp = s_n ^ 2 + s_s ^ 2 - out.vort_r_tmp ^ 2 := by
  obtain ⟨out, h1, _, _, h4⟩ := compute_vorticity_spherical K cos tan
    spher_derivative_at_point Cart_derivatives_at_point ulon_r ulat_r ur_r u_r u_lon u_lat
    Ntime Ndepth Nlat Nlon Itime Idepth Ilat Ilon longitude latitude mask lat w u v
    hlat hw hu hv
  exact ⟨out, _, _, h1, rfl, rfl, h4⟩

end VorticityClaims

/-- C11 at the point `(2, 1)` of the small grid. -/
theorem C11_spherical_vorticity_witness :
    ∃ out, compute_vorticity_at_point ex_K false ex_cos ex_tan ex_spher ex_Cart 0 0 0
        ex_u_r ex_u_lon_rem ex_u_lat_rem 1 1 3 4 0 0 2 1 ex_data.longitude ex_data.latitude
        ex_data.mask = some out ∧
      out.vort_r_tmp
        = (1 / ex_K.R_earth) *
          (ex_spher [ex_u_lon_rem, ex_u_lat_rem, ex_u_r] ex_data.longitude "lon"
              0 0 2 1 1 1 3 4 ex_data.mask 1 / ex_cos (11 / 14)
            - ex_spher [ex_u_lon_rem, ex_u_lat_rem, ex_u_r] ex_data.latitude "lat"
              0 0 2 1 1 1 3 4 ex_data.mask 0
            + ex_tan (11 / 14) * 10) :=
  C11_spherical_vorticity ex_K ex_cos ex_tan ex_spher ex_Cart 0 0 0
    ex_u_r ex_u_lon_rem ex_u_lat_rem 1 1 3 4 0 0 2 1 ex_data.longitude ex_data.latitude
    ex_data.mask (11 / 14) 0 10 (-10) (by rfl) (by rfl) (by rfl) (by rfl)
    (by norm_num [ex_cos])

/-- C13 at the point `(2, 1)` of the small grid. -/
theorem C13_okubo_weiss_witness :
    ∃ (out : VortOut ℚ) (s_n s_s : ℚ),
      compute_vorticity_at_point ex_K false ex_cos ex_tan ex_spher ex_Cart 0 0 0
        ex_u_r ex_u_lon_rem ex_u_lat_rem 1 1 3 4 0 0 2 1 ex_data.longitude ex_data.latitude
        ex_data.mask = some out ∧
      s_n = (ex_cos (11 / 14) * ex_spher [ex_u_lon_rem, ex_u_lat_rem, ex_u_r]
                ex_data.longitude "lon" 0 0 2 1 1 1 3 4 ex_data.mask 0
              - ex_spher [ex_u_lon_rem, ex_u_lat_rem, ex_u_r] ex_data.latitude "lat"
                0 0 2 1 1 1 3 4 ex_data.mask 1) / ex_K.R_earth ∧
      s_s = (ex_cos (11 / 14) * ex_spher [ex_u_lon_rem, ex_u_lat_rem, ex_u_r]
                ex_data.longitude "lon" 0 0 2 1 1 1 3 4 ex_data.mask 1
              + ex_spher [ex_u_lon_rem, ex_u_lat_rem, ex_u_r] ex_data.latitude "lat"
                0 0 2 1 1 1 3 4 ex_data.mask 0) / ex_K.R_earth ∧
      out.OkuboWeiss_tmp = s_n ^ 2 + s_s ^ 2 - out.vort_r_tmp ^ 2 :=
  C13_okubo_weiss ex_K ex_cos ex_tan ex_spher ex_Cart 0 0 0
    ex_u_r ex_u_lon_rem ex_u_lat_rem 1 1 3 4 0 0 2 1 ex_data.longitude ex_data.latitude
    ex_data.mask (11 / 14) 0 10 (-10) (by rfl) (by rfl) (by rfl) (by rfl)

/-- C12, the code at a failing input.  On the small grid with a zero radial velocity, at the
point `(2, 1)`: whatever value `t` the unassigned local `ur_r` holds, the function returns
with `div_tmp` equal to `t` plus the divergence of the specification; with `t = 1` it differs
from the value the claim gives. -/
theorem C12_radial_derivative_unassigned :
    (∀ t : ℚ, ∃ out, compute_vorticity_at_point ex_K false ex_cos ex_tan ex_spher ex_Cart
        0 0 t ex_u_r ex_u_lon_rem ex_u_lat_rem 1 1 3 4 0 0 2 1 ex_data.longitude
        ex_data.latitude ex_data.mask = some out ∧
      out.div_tmp = t + spec_divergence ex_K ex_cos ex_tan
        (ex_spher [ex_u_lon_rem, ex_u_lat_rem, ex_u_r] ex_data.longitude "lon"
          0 0 2 1 1 1 3 4 ex_data.mask 0)
        (ex_spher [ex_u_lon_rem, ex_u_lat_rem, ex_u_r] ex_data.latitude "lat"
          0 0 2 1 1 1 3 4 ex_data.mask 1) (11 / 14) (-10)) ∧
    (∃ out, compute_vorticity_at_point ex_K false ex_cos ex_tan ex_spher ex_Cart
        0 0 1 ex_u_r ex_u_lon_rem ex_u_lat_rem 1 1 3 4 0 0 2 1 ex_data.longitude
        ex_data.latitude ex_data.mask = some out ∧
      out.div_tmp ≠ spec_divergence ex_K ex_cos ex_tan
        (ex_spher [ex_u_lon_rem, ex_u_lat_rem, ex_u_r] ex_data.longitude "lon"
          0 0 2 1 1 1 3 4 ex_data.mask 0)
        (ex_spher [ex_u_lon_rem, ex_u_lat_rem, ex_u_r] ex_data.latitude "lat"
          0 0 2 1 1 1 3 4 ex_data.mask 1) (11 / 14) (-10)) := by
  have hcode : ∀ t : ℚ, ∃ out, compute_vorticity_at_point ex_K false ex_cos ex_tan ex_spher
        ex_Cart 0 0 t ex_u_r ex_u_lon_rem ex_u_lat_rem 1 1 3 4 0 0 2 1 ex_data.longitude
        ex_data.latitude ex_data.mask = some out ∧
      out.div_tmp = t + spec_divergence ex_K ex_cos ex_tan
        (ex_spher [ex_u_lon_rem, ex_u_lat_rem, ex_u_r] ex_data.longitude "lon"
          0 0 2 1 1 1 3 4 ex_data.mask 0)
        (ex_spher [ex_u_lon_rem, ex_u_lat_rem, ex_u_r] ex_data.latitude "lat"
          0 0 2 1 1 1 3 4 ex_data.mask 1) (11 / 14) (-10) := by
    intro t
    obtain ⟨out, h1, _, h3, _⟩ := compute_vorticity_spherical ex_K ex_cos ex_tan ex_spher
      ex_Cart 0 0 t ex_u_r ex_u_lon_rem ex_u_lat_rem 1 1 3 4 0 0 2 1 ex_data.longitude
      ex_data.latitude ex_data.mask (11 / 14) 0 10 (-10) (by rfl) (by rfl) (by rfl) (by rfl)
    refine ⟨out, h1, ?_⟩
    rw [h3]
    unfold spec_divergence
    ring
  refine ⟨hcode, ?_⟩
  obtain ⟨out, h1, h2⟩ := hcode 1
  refine ⟨out, h1, ?_⟩
  rw [h2]
  intro h
  exact one_ne_zero (add_left_eq_self.mp h)

/-! ## The claim about `compute_Lambda_nonlin_model` -/

section LambdaLemmas
variable {α : Type} [LinearOrderedField α]
variable (K : Constants α) (CARTESIAN : Bool) (fill_value : α) (cos : α → α)
  (spher_derivative_at_point : SpherDerivative α) (Index1to4 : Index1to4Fn)
  (coarse_u_r coarse_u_lon coarse_u_lat coarse_rho coarse_p : List α)
  (Ntime Ndepth Nlat Nlon : Int) (longitude latitude : List α) (mask : List Bool)
  (scale_factor : α)

/-- At an index whose latitude index and density can be read, the water value exists. -/
theorem Lambda_water_some (index : Int) (h0 : 0 ≤ index) (hrho : index < coarse_rho.length)
    (hlat : CARTESIAN = false →
      0 ≤ (Index1to4 index Ntime Ndepth Nlat Nlon).2.2.1 ∧
      (Index1to4 index Ntime Ndepth Nlat Nlon).2.2.1 < latitude.length) :
    ∃ v, Lambda_water K CARTESIAN cos spher_derivative_at_point Index1to4
      coarse_u_lon coarse_u_lat coarse_rho coarse_p Ntime Ndepth Nlat Nlon
      longitude latitude mask scale_factor index = some v := by
  obtain ⟨rho, hr⟩ := vec_at_of_lt coarse_rho index h0 hrho
  unfold Lambda_water
  cases hC : CARTESIAN with
  | true =>
    simp only [if_true, hr, Option.bind_eq_bind, Option.some_bind]
    exact ⟨_, rfl⟩
  | false =>
    obtain ⟨lat, hl⟩ := vec_at_of_lt latitude _ (hlat hC).1 (hlat hC).2
    simp only [Bool.false_eq_true, if_false, hr, hl, Option.bind_eq_bind, Option.some_bind]
    exact ⟨_, rfl⟩

/-- One iteration of the loop makes one assignment, at its own index. -/
theorem Lambda_body_set (index : Int) (L L2 : List α)
    (h : Lambda_body K CARTESIAN fill_value cos spher_derivative_at_point Index1to4
      coarse_u_lon coarse_u_lat coarse_rho coarse_p Ntime Ndepth Nlat Nlon
      longitude latitude mask scale_factor index L = some L2) :
    ∃ v, L2 = L.set index.toNat v := by
  unfold Lambda_body at h
  cases hm : vec_at mask index with
  | none => simp [hm] at h
  | some m =>
    cases m with
    | true =>
      cases hw : Lambda_water K CARTESIAN cos spher_derivative_at_point Index1to4
          coarse_u_lon coarse_u_lat coarse_rho coarse_p Ntime Ndepth Nlat Nlon
          longitude latitude mask scale_factor index with
      | none => simp [hm, hw] at h
      | some v =>
        simp only [hm, hw, Option.bind_eq_bind, Option.some_bind, if_true] at h
        unfold vec_set at h
        split_ifs at h
        exact ⟨v, (Option.some.inj h).symm⟩
    | false =>
      simp only [hm, Option.bind_eq_bind, Option.some_bind, Bool.false_eq_true, if_false] at h
      unfold vec_set at h
      split_ifs at h
      exact ⟨fill_value, (Option.some.inj h).symm⟩

/-- C14. `compute_Lambda_nonlin_model` writes every index of `Lambda_nonlin` once.  With the
mask and the density at least as long as `Lambda_nonlin` and the latitude index of every
point inside the latitude grid, the function returns an array of the same size in which
every land index (mask false) holds `fill_value`, whatever the fields, and every water index
(mask true) holds the value computed for it; and each iteration of the loop makes one
assignment, at its own index.  (The other arrays are `const` references: the function returns
`Lambda_nonlin` only.) -/
theorem C14_Lambda_every_index (Lambda_nonlin : List α)
    (hmask : Lambda_nonlin.length ≤ mask.length)
    (hrho : Lambda_nonlin.length ≤ coarse_rho.length)
    (hlat : CARTESIAN = false → ∀ index : Int, 0 ≤ index → index < Lambda_nonlin.length →
      0 ≤ (Index1to4 index Ntime Ndepth Nlat Nlon).2.2.1 ∧
      (Index1to4 index Ntime Ndepth Nlat Nlon).2.2.1 < latitude.length) :
    (∃ out, compute_Lambda_nonlin_model K CARTESIAN fill_value cos spher_derivative_at_point
        Index1to4 Lambda_nonlin coarse_u_r coarse_u_lon coarse_u_lat coarse_rho coarse_p
        Ntime Ndepth Nlat Nlon longitude latitude mask scale_factor = some out ∧
      out.length = Lambda_nonlin.length ∧
      (∀ i : Nat, i < Lambda_nonlin.length → mask[i]? = some false →
        out[i]? = some fill_value) ∧
      (∀ i : Nat, i < Lambda_nonlin.length → mask[i]? = some true →
        ∃ v, Lambda_water K CARTESIAN cos spher_derivative_at_point Index1to4
            coarse_u_lon coarse_u_lat coarse_rho coarse_p Ntime Ndepth Nlat Nlon
            longitude latitude mask scale_factor (i : Int) = some v ∧
          out[i]? = some v)) ∧
    (∀ (index : Int) (L L2 : List α),
      Lambda_body K CARTESIAN fill_value cos spher_derivative_at_point Index1to4
        coarse_u_lon coarse_u_lat coarse_rho coarse_p Ntime Ndepth Nlat Nlon
        longitude latitude mask scale_factor index L = some L2 →
      ∃ v, L2 = L.set index.toNat v) := by
  refine ⟨?_, fun index L L2 h => Lambda_body_set K CARTESIAN fill_value cos
    spher_derivative_at_point Index1to4 coarse_u_lon coarse_u_lat coarse_rho coarse_p
    Ntime Ndepth Nlat Nlon longitude latitude mask scale_factor index L L2 h⟩
  have key := forLoop_inv
    (fun (k : Nat) (L : List α) => L.length = Lambda_nonlin.length ∧
      (∀ i : Nat, i < k → mask[i]? = some false → L[i]? = some fill_value) ∧
      (∀ i : Nat, i < k → mask[i]? = some true →
        ∃ v, Lambda_water K CARTESIAN cos spher_derivative_at_point Index1to4
            coarse_u_lon coarse_u_lat coarse_rho coarse_p Ntime Ndepth Nlat Nlon
            longitude latitude mask scale_factor (i : Int) = some v ∧
          L[i]? = some v))
    Lambda_nonlin.length
    (fun index L => Lambda_body K CARTESIAN fill_value cos spher_derivative_at_point
      Index1to4 coarse_u_lon coarse_u_lat coarse_rho coarse_p Ntime Ndepth Nlat Nlon
      longitude latitude mask scale_factor index L)
    Lambda_nonlin
    ⟨rfl, fun i hi => absurd hi (Nat.not_lt_zero i), fun i hi => absurd hi (Nat.not_lt_zero i)⟩
    (by
      intro k L hk ⟨hlen, hland, hwater⟩
      have hkL : k < L.length := by rw [hlen]; exact hk
      have hkm : k < mask.length := lt_of_lt_of_le hk hmask
      have hm : vec_at mask (k : Int) = some mask[k] := by
        rw [vec_at_natCast, List.getElem?_eq_getElem hkm]
      obtain ⟨v, hv⟩ := Lambda_water_some K CARTESIAN cos spher_derivative_at_point Index1to4
        coarse_u_lon coarse_u_lat coarse_rho coarse_p Ntime Ndepth Nlat Nlon
        longitude latitude mask scale_factor (k : Int) (Int.natCast_nonneg k)
        (by exact_mod_cast lt_of_lt_of_le hk hrho)
        (fun hC => hlat hC (k : Int) (Int.natCast_nonneg k) (by exact_mod_cast hk))
      have hstep : ∃ x, Lambda_body K CARTESIAN fill_value cos spher_derivative_at_point
            Index1to4 coarse_u_lon coarse_u_lat coarse_rho coarse_p Ntime Ndepth Nlat Nlon
            longitude latitude mask scale_factor (k : Int) L = some (L.set k x) ∧
          (mask[k]? = some false → x = fill_value) ∧ (mask[k]? = some true → x = v) := by
        unfold Lambda_body
        rw [List.getElem?_eq_getElem hkm]
        cases hb : mask[k] with
        | true =>
          refine ⟨v, ?_, fun h => by simp at h, fun _ => rfl⟩
          simp only [hm, hb, hv, Option.bind_eq_bind, Option.some_bind, if_true]
          exact vec_set_natCast L k v hkL
        | false =>
          refine ⟨fill_value, ?_, fun _ => rfl, fun h => by simp at h⟩
          simp only [hm, hb, Option.bind_eq_bind, Option.some_bind, Bool.false_eq_true,
            if_false]
          exact vec_set_natCast L k fill_value hkL
      obtain ⟨x, hx, hxl, hxw⟩ := hstep
      refine ⟨L.set k x, hx, by rw [List.length_set]; exact hlen, ?_, ?_⟩
      · intro i hi hmi
        by_cases hik : i = k
        · subst hik
          rw [List.getElem?_set_self hkL, hxl hmi]
        · rw [List.getElem?_set_ne (Ne.symm hik)]
          exact hland i (by omega) hmi
      · intro i hi hmi
        by_cases hik : i = k
        · subst hik
          refine ⟨v, hv, ?_⟩
          rw [List.getElem?_set_self hkL, hxw hmi]
        · rw [List.getElem?_set_ne (Ne.symm hik)]
          exact hwater i (by omega) hmi)
  obtain ⟨out, h1, h2, h3, h4⟩ := key
  exact ⟨out, h1, h2, h3, h4⟩

end LambdaLemmas

/-- C14 on the small grid with three land points. -/
theorem C14_Lambda_every_index_witness :
    (∃ out, compute_Lambda_nonlin_model ex_K false (-32767) ex_cos ex_spher ex_Index1to4
        ex_u_r ex_u_r ex_u_lon_rem ex_u_lat_rem ex_rho ex_p 1 1 3 4 ex_data.longitude
        ex_data.latitude ex_mask (1 / 2) = some out ∧
      out.length = ex_u_r.length ∧
      (∀ i : Nat, i < ex_u_r.length → ex_mask[i]? = some false → out[i]? = some (-32767)) ∧
      (∀ i : Nat, i < ex_u_r.length → ex_mask[i]? = some true →
        ∃ v, Lambda_water ex_K false ex_cos ex_spher ex_Index1to4 ex_u_lon_rem ex_u_lat_rem
            ex_rho ex_p 1 1 3 4 ex_data.longitude ex_data.latitude ex_mask (1 / 2) (i : Int)
            = some v ∧
          out[i]? = some v)) ∧
    (∀ (index : Int) (L L2 : List ℚ),
      Lambda_body ex_K false (-32767) ex_cos ex_spher ex_Index1to4 ex_u_lon_rem ex_u_lat_rem
        ex_rho ex_p 1 1 3 4 ex_data.longitude ex_data.latitude ex_mask (1 / 2) index L
        = some L2 →
      ∃ v, L2 = L.set index.toNat v) :=
  C14_Lambda_every_index ex_K false (-32767) ex_cos ex_spher ex_Index1to4 ex_u_r ex_u_lon_rem
    ex_u_lat_rem ex_rho ex_p 1 1 3 4 ex_data.longitude ex_data.latitude ex_mask (1 / 2) ex_u_r
    (by decide) (by decide)
    (fun _ index _ _ => by
      simp only [ex_Index1to4, ex_data]
      constructor
      · exact Int.emod_nonneg _ (by decide)
      · exact Int.emod_lt_of_pos _ (by decide))

/-! ## The claims about the error norms -/

section NormLemmas
variable {α : Type} [LinearOrderedField α]

theorem cell_sum_zero (f : Nat → α) : cell_sum 0 f = 0 := by
  simp [cell_sum]

theorem cell_sum_succ (n : Nat) (f : Nat → α) : cell_sum (n + 1) f = cell_sum n f + f n := by
  simp [cell_sum, List.range_succ]

theorem cell_max_zero (f : Nat → α) : cell_max 0 f = 0 := by
  simp [cell_max]

theorem cell_max_succ (n : Nat) (f : Nat → α) :
    cell_max (n + 1) f = max (cell_max n f) (f n) := by
  simp [cell_max, List.range_succ, List.foldl_append]

theorem cell_max_nonneg (n : Nat) (f : Nat → α) : 0 ≤ cell_max n f := by
  induction n with
  | zero => rw [cell_max_zero]
  | succ k ih => rw [cell_max_succ]; exact le_trans ih (le_max_left _ _)

/-- Every cell value is at most `cell_max`. -/
theorem cell_max_ge (n : Nat) (f : Nat → α) (m : Nat) (hm : m < n) : f m ≤ cell_max n f := by
  induction n with
  | zero => exact absurd hm (Nat.not_lt_zero m)
  | succ k ih =>
    rw [cell_max_succ]
    by_cases h : m = k
    · subst h; exact le_max_right _ _
    · exact le_trans (ih (by omega)) (le_max_left _ _)

/-- For non-negative cell values and at least one cell, `cell_max` is one of the values. -/
theorem cell_max_attained (n : Nat) (f : Nat → α) (hn : 0 < n) (hf : ∀ m, 0 ≤ f m) :
    ∃ m, m < n ∧ cell_max n f = f m := by
  induction n with
  | zero => exact absurd hn (Nat.lt_irrefl 0)
  | succ k ih =>
    rw [cell_max_succ]
    by_cases hk : k = 0
    · subst hk
      exact ⟨0, Nat.zero_lt_one, by rw [cell_max_zero, max_eq_right (hf 0)]⟩
    · obtain ⟨m, hm, e⟩ := ih (Nat.pos_of_ne_zero hk)
      rcases le_total (cell_max k f) (f k) with h | h
      · exact ⟨k, Nat.lt_succ_self k, max_eq_right h⟩
      · exact ⟨m, Nat.lt_succ_of_lt hm, by rw [max_eq_left h, e]⟩

/-- The sum of zeros. -/
theorem cell_sum_eq_zero (n : Nat) (f : Nat → α) (h : ∀ m, m < n → f m = 0) :
    cell_sum n f = 0 := by
  induction n with
  | zero => exact cell_sum_zero f
  | succ k ih =>
    rw [cell_sum_succ, ih (fun m hm => h m (Nat.lt_succ_of_lt hm)), h k (Nat.lt_succ_self k),
      add_zero]

theorem cell_sum_congr (n : Nat) (f g : Nat → α) (h : ∀ m, m < n → f m = g m) :
    cell_sum n f = cell_sum n g := by
  induction n with
  | zero => rw [cell_sum_zero, cell_sum_zero]
  | succ k ih =>
    rw [cell_sum_succ, cell_sum_succ, ih (fun m hm => h m (Nat.lt_succ_of_lt hm)),
      h k (Nat.lt_succ_self k)]

theorem cell_max_eq_zero (n : Nat) (f : Nat → α) (h : ∀ m, m < n → f m = 0) :
    cell_max n f = 0 := by
  induction n with
  | zero => exact cell_max_zero f
  | succ k ih =>
    rw [cell_max_succ, ih (fun m hm => h m (Nat.lt_succ_of_lt hm)), h k (Nat.lt_succ_self k),
      max_self]

/-- One cell more: the eight updates turn the accumulators of `n` cells into those of
`n + 1` cells. -/
theorem partial_norms_succ (sqrt : α → α) (hsqrt : ∀ x, 0 ≤ sqrt x)
    (dAreas u_lon u_lat : List α) (F : Stored α) (base : Int) (n : Nat) :
    norms_update sqrt (partial_norms sqrt dAreas u_lon u_lat F base n)
      (sub_value dAreas n) (slice_value u_lon base n) (slice_value u_lat base n)
      (slice_value F.full_u_lon_tor base n) (slice_value F.full_u_lat_tor base n)
      (slice_value F.full_u_lon_pot base n) (slice_value F.full_u_lat_pot base n)
      = partial_norms sqrt dAreas u_lon u_lat F base (n + 1) := by
  simp only [norms_update, partial_norms, cell_sum_succ, cell_max_succ, residual_sq,
    speed_sq, projected_sq, abs_of_nonneg (hsqrt _)]

/-- The loop over the cells of a slice returns the accumulators of all its cells. -/
theorem slice_norms_spec (sqrt : α → α) (hsqrt : ∀ x, 0 ≤ sqrt x)
    (dAreas u_lon u_lat : List α) (F : Stored α) (S : Sizes) (Itime Idepth : Int)
    (hN0 : 0 ≤ S.Nlat) (hN : 0 ≤ S.Nlon) (hb : 0 ≤ slice_base S Itime Idepth)
    (hA : S.Nlat * S.Nlon ≤ dAreas.length)
    (h1 : slice_base S Itime Idepth + S.Nlat * S.Nlon ≤ u_lon.length)
    (h2 : slice_base S Itime Idepth + S.Nlat * S.Nlon ≤ u_lat.length)
    (h3 : slice_base S Itime Idepth + S.Nlat * S.Nlon ≤ F.full_u_lon_tor.length)
    (h4 : slice_base S Itime Idepth + S.Nlat * S.Nlon ≤ F.full_u_lat_tor.length)
    (h5 : slice_base S Itime Idepth + S.Nlat * S.Nlon ≤ F.full_u_lon_pot.length)
    (h6 : slice_base S Itime Idepth + S.Nlat * S.Nlon ≤ F.full_u_lat_pot.length) :
    slice_norms sqrt dAreas u_lon u_lat F S Itime Idepth
      = some (partial_norms sqrt dAreas u_lon u_lat F (slice_base S Itime Idepth)
          (S.Nlat * S.Nlon).toNat) := by
  have key := grid_loop_inv S
    (fun (n : Int) (a : Norms α) =>
      a = partial_norms sqrt dAreas u_lon u_lat F (slice_base S Itime Idepth) n.toNat)
    (fun Ilat Ilon a => norms_body sqrt dAreas u_lon u_lat F S Itime Idepth Ilat Ilon a)
    ⟨0, 0, 0, 0, 0, 0, 0, 0⟩ hN0 hN
    (by
      show (⟨0, 0, 0, 0, 0, 0, 0, 0⟩ : Norms α) = partial_norms _ _ _ _ _ _ 0
      simp only [partial_norms, cell_sum_zero, cell_max_zero])
    (by
      intro i j a hi0 hi1 hj0 hj1 ha
      have hr := Index_sub_range i j S.Nlat S.Nlon hi0 hi1 hj0 hj1
      rw [Index_sub_eq] at hr
      have hp : (((i * S.Nlon + j).toNat : Nat) : Int) = i * S.Nlon + j :=
        Int.toNat_of_nonneg hr.1
      have hsucc : (i * S.Nlon + j + 1).toNat = (i * S.Nlon + j).toNat + 1 := by omega
      refine ⟨partial_norms sqrt dAreas u_lon u_lat F (slice_base S Itime Idepth)
        (i * S.Nlon + j + 1).toNat, ?_, rfl⟩
      rw [hsucc, ← partial_norms_succ sqrt hsqrt, ← ha]
      unfold norms_body
      dsimp only
      rw [Index_split S Itime Idepth i j, Index_sub_eq]
      have e0 : vec_at dAreas (i * S.Nlon + j)
          = some (sub_value dAreas ((i * S.Nlon + j).toNat : Nat)) := by
        rw [hp]; exact vec_at_getD _ _ 0 hr.1 (lt_of_lt_of_le hr.2 hA)
      have e (v : List α) (hv : slice_base S Itime Idepth + S.Nlat * S.Nlon ≤ v.length) :
          vec_at v (Index Itime Idepth 0 0 S.Ntime S.Ndepth S.Nlat S.Nlon + (i * S.Nlon + j))
            = some (slice_value v (slice_base S Itime Idepth)
                ((i * S.Nlon + j).toNat : Nat)) := by
        rw [hp]
        exact vec_at_getD _ _ 0 (by unfold slice_base at hb; omega)
          (by unfold slice_base at hv; omega)
      simp only [e0, e u_lon h1, e u_lat h2, e _ h3, e _ h4, e _ h5, e _ h6,
        Option.bind_eq_bind, Option.some_bind])
  obtain ⟨t, ht, hP⟩ := key
  unfold slice_norms
  rw [ht, hP]

end NormLemmas

section ReportLemmas
variable {α : Type} [LinearOrderedField α]

omit [LinearOrderedField α] in
/-- Reading the eight arrays after the eight assignments at position `q0`. -/
theorem report_at_set (r : Reports α) (L q0 : Int) (hs : reports_sized r L) (h0 : 0 ≤ q0)
    (h1 : q0 < L) (x : SliceReport α) :
    reports_sized
      { tot_areas := r.tot_areas.set q0.toNat x.total_area
        projection_2error := r.projection_2error.set q0.toNat x.projection_2error
        projection_Inferror := r.projection_Inferror.set q0.toNat x.projection_Inferror
        velocity_2norm := r.velocity_2norm.set q0.toNat x.velocity_2norm
        velocity_Infnorm := r.velocity_Infnorm.set q0.toNat x.velocity_Infnorm
        projection_KE := r.projection_KE.set q0.toNat x.projection_KE
        toroidal_KE := r.toroidal_KE.set q0.toNat x.toroidal_KE
        potential_KE := r.potential_KE.set q0.toNat x.potential_KE } L ∧
    report_at
      { tot_areas := r.tot_areas.set q0.toNat x.total_area
        projection_2error := r.projection_2error.set q0.toNat x.projection_2error
        projection_Inferror := r.projection_Inferror.set q0.toNat x.projection_Inferror
        velocity_2norm := r.velocity_2norm.set q0.toNat x.velocity_2norm
        velocity_Infnorm := r.velocity_Infnorm.set q0.toNat x.velocity_Infnorm
        projection_KE := r.projection_KE.set q0.toNat x.projection_KE
        toroidal_KE := r.toroidal_KE.set q0.toNat x.toroidal_KE
        potential_KE := r.potential_KE.set q0.toNat x.potential_KE } q0 = some x ∧
    ∀ q : Int, q ≠ q0 → report_at
      { tot_areas := r.tot_areas.set q0.toNat x.total_area
        projection_2error := r.projection_2error.set q0.toNat x.projection_2error
        projection_Inferror := r.projection_Inferror.set q0.toNat x.projection_Inferror
        velocity_2norm := r.velocity_2norm.set q0.toNat x.velocity_2norm
        velocity_Infnorm := r.velocity_Infnorm.set q0.toNat x.velocity_Infnorm
        projection_KE := r.projection_KE.set q0.toNat x.projection_KE
        toroidal_KE := r.toroidal_KE.set q0.toNat x.toroidal_KE
        potential_KE := r.potential_KE.set q0.toNat x.potential_KE } q = report_at r q := by
  obtain ⟨l1, l2, l3, l4, l5, l6, l7, l8⟩ := hs
  refine ⟨?_, ?_, ?_⟩
  · simp only [reports_sized, List.length_set]
    exact ⟨l1, l2, l3, l4, l5, l6, l7, l8⟩
  · simp only [report_at, vec_at_set _ q0 q0 _ h0 (by rw [l1]; exact h1),
      vec_at_set _ q0 q0 _ h0 (by rw [l2]; exact h1),
      vec_at_set _ q0 q0 _ h0 (by rw [l3]; exact h1),
      vec_at_set _ q0 q0 _ h0 (by rw [l4]; exact h1),
      vec_at_set _ q0 q0 _ h0 (by rw [l5]; exact h1),
      vec_at_set _ q0 q0 _ h0 (by rw [l6]; exact h1),
      vec_at_set _ q0 q0 _ h0 (by rw [l7]; exact h1),
      vec_at_set _ q0 q0 _ h0 (by rw [l8]; exact h1), if_true, Option.bind_eq_bind,
      Option.some_bind]
  · intro q hq
    simp only [report_at, vec_at_set _ q0 q _ h0 (by rw [l1]; exact h1),
      vec_at_set _ q0 q _ h0 (by rw [l2]; exact h1),
      vec_at_set _ q0 q _ h0 (by rw [l3]; exact h1),
      vec_at_set _ q0 q _ h0 (by rw [l4]; exact h1),
      vec_at_set _ q0 q _ h0 (by rw [l5]; exact h1),
      vec_at_set _ q0 q _ h0 (by rw [l6]; exact h1),
      vec_at_set _ q0 q _ h0 (by rw [l7]; exact h1),
      vec_at_set _ q0 q _ h0 (by rw [l8]; exact h1), hq, if_false]

/-- The body of the loop over the slices stores the eight numbers of its slice at the
position `Itime * Ndepth + Idepth` and leaves the other positions as they were. -/
theorem report_slice_spec (sqrt : α → α) (hsqrt : ∀ x, 0 ≤ sqrt x)
    (dAreas u_lon u_lat : List α) (F : Stored α) (S : Sizes) (Itime Idepth : Int)
    (r : Reports α) (hN0 : 0 ≤ S.Nlat) (hN : 0 ≤ S.Nlon)
    (ht0 : 0 ≤ Itime) (ht1 : Itime < S.Ntime) (hz0 : 0 ≤ Idepth) (hz1 : Idepth < S.Ndepth)
    (hA : S.Nlat * S.Nlon ≤ dAreas.length)
    (h1 : S.Ntime * S.Ndepth * (S.Nlat * S.Nlon) ≤ u_lon.length)
    (h2 : S.Ntime * S.Ndepth * (S.Nlat * S.Nlon) ≤ u_lat.length)
    (h3 : S.Ntime * S.Ndepth * (S.Nlat * S.Nlon) ≤ F.full_u_lon_tor.length)
    (h4 : S.Ntime * S.Ndepth * (S.Nlat * S.Nlon) ≤ F.full_u_lat_tor.length)
    (h5 : S.Ntime * S.Ndepth * (S.Nlat * S.Nlon) ≤ F.full_u_lon_pot.length)
    (h6 : S.Ntime * S.Ndepth * (S.Nlat * S.Nlon) ≤ F.full_u_lat_pot.length)
    (hs : reports_sized r (S.Ntime * S.Ndepth)) :
    ∃ r2, report_slice sqrt dAreas u_lon u_lat F S Itime Idepth r = some r2 ∧
      reports_sized r2 (S.Ntime * S.Ndepth) ∧
      report_at r2 (Itime * S.Ndepth + Idepth)
        = some (spec_report sqrt dAreas u_lon u_lat F (S.Nlat * S.Nlon).toNat
            (slice_base S Itime Idepth)) ∧
      ∀ q : Int, q ≠ Itime * S.Ndepth + Idepth → report_at r2 q = report_at r q := by
  have hr := slice_base_range S Itime Idepth hN0 hN ht0 ht1 hz0 hz1
  have hq := radix_range Itime Idepth S.Ntime S.Ndepth ht0 ht1 hz0 hz1
  have hnorm := slice_norms_spec sqrt hsqrt dAreas u_lon u_lat F S Itime Idepth hN0 hN hr.1
    hA (le_trans hr.2 h1) (le_trans hr.2 h2) (le_trans hr.2 h3) (le_trans hr.2 h4)
    (le_trans hr.2 h5) (le_trans hr.2 h6)
  have hidx : Index Itime Idepth 0 0 S.Ntime S.Ndepth 1 1 = Itime * S.Ndepth + Idepth := by
    simp [Index]
  have key := report_at_set r (S.Ntime * S.Ndepth) (Itime * S.Ndepth + Idepth) hs hq.1 hq.2
    (spec_report sqrt dAreas u_lon u_lat F (S.Nlat * S.Nlon).toNat (slice_base S Itime Idepth))
  obtain ⟨l1, l2, l3, l4, l5, l6, l7, l8⟩ := hs
  refine ⟨_, ?_, key⟩
  unfold report_slice
  rw [hnorm, hidx]
  simp only [Option.bind_eq_bind, Option.some_bind,
    vec_set_of_lt _ _ _ hq.1 (show Itime * S.Ndepth + Idepth < (r.tot_areas.length : Int) by
      rw [l1]; exact hq.2),
    vec_set_of_lt _ _ _ hq.1 (show Itime * S.Ndepth + Idepth
      < (r.projection_2error.length : Int) by rw [l2]; exact hq.2),
    vec_set_of_lt _ _ _ hq.1 (show Itime * S.Ndepth + Idepth
      < (r.projection_Inferror.length : Int) by rw [l3]; exact hq.2),
    vec_set_of_lt _ _ _ hq.1 (show Itime * S.Ndepth + Idepth
      < (r.velocity_2norm.length : Int) by rw [l4]; exact hq.2),
    vec_set_of_lt _ _ _ hq.1 (show Itime * S.Ndepth + Idepth
      < (r.velocity_Infnorm.length : Int) by rw [l5]; exact hq.2),
    vec_set_of_lt _ _ _ hq.1 (show Itime * S.Ndepth + Idepth
      < (r.projection_KE.length : Int) by rw [l6]; exact hq.2),
    vec_set_of_lt _ _ _ hq.1 (show Itime * S.Ndepth + Idepth
      < (r.toroidal_KE.length : Int) by rw [l7]; exact hq.2),
    vec_set_of_lt _ _ _ hq.1 (show Itime * S.Ndepth + Idepth
      < (r.potential_KE.length : Int) by rw [l8]; exact hq.2)]
  rfl

/-- The loop over the slices returns with the eight numbers of every slice at the position of
the slice. -/
theorem projection_reports_spec (sqrt : α → α) (hsqrt : ∀ x, 0 ≤ sqrt x)
    (dAreas u_lon u_lat : List α) (F : Stored α) (S : Sizes)
    (hT : 0 ≤ S.Ntime) (hD : 0 ≤ S.Ndepth) (hN0 : 0 ≤ S.Nlat) (hN : 0 ≤ S.Nlon)
    (hA : S.Nlat * S.Nlon ≤ dAreas.length)
    (h1 : S.Ntime * S.Ndepth * (S.Nlat * S.Nlon) ≤ u_lon.length)
    (h2 : S.Ntime * S.Ndepth * (S.Nlat * S.Nlon) ≤ u_lat.length)
    (h3 : S.Ntime * S.Ndepth * (S.Nlat * S.Nlon) ≤ F.full_u_lon_tor.length)
    (h4 : S.Ntime * S.Ndepth * (S.Nlat * S.Nlon) ≤ F.full_u_lat_tor.length)
    (h5 : S.Ntime * S.Ndepth * (S.Nlat * S.Nlon) ≤ F.full_u_lon_pot.length)
    (h6 : S.Ntime * S.Ndepth * (S.Nlat * S.Nlon) ≤ F.full_u_lat_pot.length) :
    ∃ r, projection_reports sqrt dAreas u_lon u_lat F S = some r ∧
      ∀ Itime Idepth : Int, 0 ≤ Itime → Itime < S.Ntime → 0 ≤ Idepth → Idepth < S.Ndepth →
        report_at r (Itime * S.Ndepth + Idepth)
          = some (spec_report sqrt dAreas u_lon u_lat F (S.Nlat * S.Nlon).toNat
              (slice_base S Itime Idepth)) := by
  have hL : (((S.Ntime * S.Ndepth).toNat : Nat) : Int) = S.Ntime * S.Ndepth :=
    Int.toNat_of_nonneg (Int.mul_nonneg hT hD)
  have key := nest_loop_inv S.Ntime S.Ndepth
    (fun (n : Int) (r : Reports α) => reports_sized r (S.Ntime * S.Ndepth) ∧
      ∀ Itime Idepth : Int, 0 ≤ Itime → Itime < S.Ntime → 0 ≤ Idepth → Idepth < S.Ndepth →
        Itime * S.Ndepth + Idepth < n →
        report_at r (Itime * S.Ndepth + Idepth)
          = some (spec_report sqrt dAreas u_lon u_lat F (S.Nlat * S.Nlon).toNat
              (slice_base S Itime Idepth)))
    (fun Itime Idepth r => report_slice sqrt dAreas u_lon u_lat F S Itime Idepth r)
    ⟨List.replicate (S.Ntime * S.Ndepth).toNat 0, List.replicate (S.Ntime * S.Ndepth).toNat 0,
      List.replicate (S.Ntime * S.Ndepth).toNat 0, List.replicate (S.Ntime * S.Ndepth).toNat 0,
      List.replicate (S.Ntime * S.Ndepth).toNat 0, List.replicate (S.Ntime * S.Ndepth).toNat 0,
      List.replicate (S.Ntime * S.Ndepth).toNat 0, List.replicate (S.Ntime * S.Ndepth).toNat 0⟩
    hT hD
    (by
      refine ⟨?_, ?_⟩
      · simp only [reports_sized, List.length_replicate, hL, and_self]
      · intro t z ht0 ht1 hz0 hz1 hlt
        have := (radix_range t z S.Ntime S.Ndepth ht0 ht1 hz0 hz1).1
        omega)
    (by
      intro i j r hi0 hi1 hj0 hj1 ⟨hs, hprev⟩
      obtain ⟨r2, e1, e2, e3, e4⟩ := report_slice_spec sqrt hsqrt dAreas u_lon u_lat F S i j r
        hN0 hN hi0 hi1 hj0 hj1 hA h1 h2 h3 h4 h5 h6 hs
      refine ⟨r2, e1, e2, ?_⟩
      intro t z ht0 ht1 hz0 hz1 hlt
      by_cases hq : t * S.Ndepth + z = i * S.Ndepth + j
      · obtain ⟨q1, q2⟩ := lin_inj S.Ndepth t i z j hz0 hz1 hj0 hj1 hq
        rw [q1, q2]
        exact e3
      · rw [e4 _ hq]
        exact hprev t z ht0 ht1 hz0 hz1 (by omega))
  obtain ⟨r, hr, _, hP⟩ := key
  refine ⟨r, hr, ?_⟩
  intro t z ht0 ht1 hz0 hz1
  exact hP t z ht0 ht1 hz0 hz1 (radix_range t z S.Ntime S.Ndepth ht0 ht1 hz0 hz1).2

end ReportLemmas

section NormClaims
variable {α : Type} [LinearOrderedField α]

/-- C17. The computation of the error norms returns and, for every slice `(Itime, Idepth)`,
the eight arrays hold at position `Itime * Ndepth + Idepth` the numbers of the specification:
`total_area` is the sum of `dAreas` over all cells of the slice; `projection_2error`,
`velocity_2norm`, `projection_KE`, `toroidal_KE`, `potential_KE` are
`sqrt(sum dA * |.|^2 / total_area)` for `u - u_tor - u_pot`, `u`, `u_tor + u_pot`, `u_tor`,
`u_pot`; and `projection_Inferror`, `velocity_Infnorm` are the largest `|u - u_tor - u_pot|`
and `|u|` over the cells (an upper bound of every cell value that, with at least one cell, is
the value of a cell). -/
theorem C17_slice_reports (sqrt : α → α) (hsqrt : ∀ x, 0 ≤ sqrt x)
    (dAreas u_lon u_lat : List α) (F : Stored α) (S : Sizes)
    (hT : 0 ≤ S.Ntime) (hD : 0 ≤ S.Ndepth) (hN0 : 0 ≤ S.Nlat) (hN : 0 ≤ S.Nlon)
    (hA : S.Nlat * S.Nlon ≤ dAreas.length)
    (h1 : S.Ntime * S.Ndepth * (S.Nlat * S.Nlon) ≤ u_lon.length)
    (h2 : S.Ntime * S.Ndepth * (S.Nlat * S.Nlon) ≤ u_lat.length)
    (h3 : S.Ntime * S.Ndepth * (S.Nlat * S.Nlon) ≤ F.full_u_lon_tor.length)
    (h4 : S.Ntime * S.Ndepth * (S.Nlat * S.Nlon) ≤ F.full_u_lat_tor.length)
    (h5 : S.Ntime * S.Ndepth * (S.Nlat * S.Nlon) ≤ F.full_u_lon_pot.length)
    (h6 : S.Ntime * S.Ndepth * (S.Nlat * S.Nlon) ≤ F.full_u_lat_pot.length) :
    ∃ r, projection_reports sqrt dAreas u_lon u_lat F S = some r ∧
      ∀ Itime Idepth : Int, 0 ≤ Itime → Itime < S.Ntime → 0 ≤ Idepth → Idepth < S.Ndepth →
        report_at r (Itime * S.Ndepth + Idepth)
          = some (spec_report sqrt dAreas u_lon u_lat F (S.Nlat * S.Nlon).toNat
              (Index Itime Idepth 0 0 S.Ntime S.Ndepth S.Nlat S.Nlon)) ∧
        (∀ m : Nat, m < (S.Nlat * S.Nlon).toNat →
          sqrt (residual_sq u_lon u_lat F
              (Index Itime Idepth 0 0 S.Ntime S.Ndepth S.Nlat S.Nlon) m)
            ≤ (spec_report sqrt dAreas u_lon u_lat F (S.Nlat * S.Nlon).toNat
                (Index Itime Idepth 0 0 S.Ntime S.Ndepth S.Nlat S.Nlon)).projection_Inferror ∧
          sqrt (speed_sq u_lon u_lat
              (Index Itime Idepth 0 0 S.Ntime S.Ndepth S.Nlat S.Nlon) m)
            ≤ (spec_report sqrt dAreas u_lon u_lat F (S.Nlat * S.Nlon).toNat
                (Index Itime Idepth 0 0 S.Ntime S.Ndepth S.Nlat S.Nlon)).velocity_Infnorm) ∧
        (0 < (S.Nlat * S.Nlon).toNat →
          (∃ m : Nat, m < (S.Nlat * S.Nlon).toNat ∧
            (spec_report sqrt dAreas u_lon u_lat F (S.Nlat * S.Nlon).toNat
                (Index Itime Idepth 0 0 S.Ntime S.Ndepth S.Nlat S.Nlon)).projection_Inferror
              = sqrt (residual_sq u_lon u_lat F
                  (Index Itime Idepth 0 0 S.Ntime S.Ndepth S.Nlat S.Nlon) m)) ∧
          (∃ m : Nat, m < (S.Nlat * S.Nlon).toNat ∧
            (spec_report sqrt dAreas u_lon u_lat F (S.Nlat * S.Nlon).toNat
                (Index Itime Idepth 0 0 S.Ntime S.Ndepth S.Nlat S.Nlon)).velocity_Infnorm
              = sqrt (speed_sq u_lon u_lat
                  (Index Itime Idepth 0 0 S.Ntime S.Ndepth S.Nlat S.Nlon) m))) := by
  obtain ⟨r, hr, hP⟩ := projection_reports_spec sqrt hsqrt dAreas u_lon u_lat F S hT hD hN0 hN
    hA h1 h2 h3 h4 h5 h6
  refine ⟨r, hr, ?_⟩
  intro Itime Idepth ht0 ht1 hz0 hz1
  refine ⟨hP Itime Idepth ht0 ht1 hz0 hz1, ?_, ?_⟩
  · intro m hm
    exact ⟨cell_max_ge _ (fun m => sqrt (residual_sq u_lon u_lat F _ m)) m hm,
      cell_max_ge _ (fun m => sqrt (speed_sq u_lon u_lat _ m)) m hm⟩
  · intro hpos
    exact ⟨cell_max_attained _ (fun m => sqrt (residual_sq u_lon u_lat F _ m)) hpos
        (fun m => hsqrt _),
      cell_max_attained _ (fun m => sqrt (speed_sq u_lon u_lat _ m)) hpos (fun m => hsqrt _)⟩

/-- C18. For a slice of non-zero total area in which the projection is exact, that is
`u_lon = u_lon_tor + u_lon_pot` and `u_lat = u_lat_tor + u_lat_pot` at every cell of the
slice, the numbers stored for the slice satisfy `projection_KE = velocity_2norm`,
`projection_2error = 0` and `projection_Inferror = 0`. -/
theorem C18_exact_projection (sqrt : α → α) (hsqrt : ∀ x, 0 ≤ sqrt x) (hsqrt0 : sqrt 0 = 0)
    (dAreas u_lon u_lat : List α) (F : Stored α) (S : Sizes)
    (hT : 0 ≤ S.Ntime) (hD : 0 ≤ S.Ndepth) (hN0 : 0 ≤ S.Nlat) (hN : 0 ≤ S.Nlon)
    (hA : S.Nlat * S.Nlon ≤ dAreas.length)
    (h1 : S.Ntime * S.Ndepth * (S.Nlat * S.Nlon) ≤ u_lon.length)
    (h2 : S.Ntime * S.Ndepth * (S.Nlat * S.Nlon) ≤ u_lat.length)
    (h3 : S.Ntime * S.Ndepth * (S.Nlat * S.Nlon) ≤ F.full_u_lon_tor.length)
    (h4 : S.Ntime * S.Ndepth * (S.Nlat * S.Nlon) ≤ F.full_u_lat_tor.length)
    (h5 : S.Ntime * S.Ndepth * (S.Nlat * S.Nlon) ≤ F.full_u_lon_pot.length)
    (h6 : S.Ntime * S.Ndepth * (S.Nlat * S.Nlon) ≤ F.full_u_lat_pot.length)
    (Itime Idepth : Int) (ht0 : 0 ≤ Itime) (ht1 : Itime < S.Ntime) (hz0 : 0 ≤ Idepth)
    (hz1 : Idepth < S.Ndepth)
    (harea : cell_sum (S.Nlat * S.Nlon).toNat (fun m => sub_value dAreas m) ≠ 0)
    (hexact : ∀ m : Nat, m < (S.Nlat * S.Nlon).toNat →
      slice_value u_lon (Index Itime Idepth 0 0 S.Ntime S.Ndepth S.Nlat S.Nlon) m
        = slice_value F.full_u_lon_tor (Index Itime Idepth 0 0 S.Ntime S.Ndepth S.Nlat S.Nlon) m
          + slice_value F.full_u_lon_pot
              (Index Itime Idepth 0 0 S.Ntime S.Ndepth S.Nlat S.Nlon) m ∧
      slice_value u_lat (Index Itime Idepth 0 0 S.Ntime S.Ndepth S.Nlat S.Nlon) m
        = slice_value F.full_u_lat_tor (Index Itime Idepth 0 0 S.Ntime S.Ndepth S.Nlat S.Nlon) m
          + slice_value F.full_u_lat_pot
              (Index Itime Idepth 0 0 S.Ntime S.Ndepth S.Nlat S.Nlon) m) :
    ∃ (r : Reports α) (rep : SliceReport α),
      projection_reports sqrt dAreas u_lon u_lat F S = some r ∧
      report_at r (Itime * S.Ndepth + Idepth) = some rep ∧
      rep.projection_KE = rep.velocity_2norm ∧
      rep.projection_2error = 0 ∧ rep.projection_Inferror = 0 := by
  have _ := harea
  obtain ⟨r, hr, hP⟩ := projection_reports_spec sqrt hsqrt dAreas u_lon u_lat F S hT hD hN0 hN
    hA h1 h2 h3 h4 h5 h6
  have hres : ∀ m : Nat, m < (S.Nlat * S.Nlon).toNat →
      residual_sq u_lon u_lat F (slice_base S Itime Idepth) m = 0 := by
    intro m hm
    unfold residual_sq slice_base
    rw [(hexact m hm).1, (hexact m hm).2]
    ring
  have hproj : ∀ m : Nat, m < (S.Nlat * S.Nlon).toNat →
      projected_sq F (slice_base S Itime Idepth) m
        = speed_sq u_lon u_lat (slice_base S Itime Idepth) m := by
    intro m hm
    unfold projected_sq speed_sq slice_base
    rw [(hexact m hm).1, (hexact m hm).2]
  refine ⟨r, _, hr, hP Itime Idepth ht0 ht1 hz0 hz1, ?_, ?_, ?_⟩
  · show area_rms sqrt dAreas _ (projected_sq F _) = area_rms sqrt dAreas _ (speed_sq u_lon u_lat _)
    unfold area_rms
    rw [cell_sum_congr _ _ _ (fun m hm => by rw [hproj m hm])]
  · show area_rms sqrt dAreas _ (residual_sq u_lon u_lat F _) = 0
    unfold area_rms
    rw [cell_sum_eq_zero _ _ (fun m hm => by rw [hres m hm, mul_zero]), zero_div, hsqrt0]
  · show cell_max _ (fun m => sqrt (residual_sq u_lon u_lat F _ m)) = 0
    exact cell_max_eq_zero _ _ (fun m hm => by rw [hres m hm, hsqrt0])
end NormClaims

/-- The stand-in square root is non-negative. -/
theorem ex_sqrt_nonneg (x : ℚ) : 0 ≤ ex_sqrt x := Nat.cast_nonneg _

/-- The stand-in square root of 0 is 0. -/
theorem ex_sqrt_zero : ex_sqrt 0 = 0 := by
  simp [ex_sqrt]

/-- Every entry of a vector of zeros is zero. -/
theorem slice_value_zeros {β : Type} [Zero β] (n : Nat) (b m : Int) :
    slice_value (List.replicate n (0 : β)) b m = 0 := by
  simp only [slice_value, List.getD_eq_getElem?_getD, List.getElem?_replicate]
  split_ifs <;> rfl

/-- C17 on the small grid with two depths. -/
theorem C17_slice_reports_witness :
    ∃ r, projection_reports ex_sqrt ex_data.areas ex_I2.u_lon ex_I2.u_lat ex_F ex_S2 = some r ∧
      ∀ Itime Idepth : Int, 0 ≤ Itime → Itime < ex_S2.Ntime → 0 ≤ Idepth → Idepth < ex_S2.Ndepth →
        report_at r (Itime * ex_S2.Ndepth + Idepth)
          = some (spec_report ex_sqrt ex_data.areas ex_I2.u_lon ex_I2.u_lat ex_F (ex_S2.Nlat * ex_S2.Nlon).toNat
              (Index Itime Idepth 0 0 ex_S2.Ntime ex_S2.Ndepth ex_S2.Nlat ex_S2.Nlon)) ∧
        (∀ m : Nat, m < (ex_S2.Nlat * ex_S2.Nlon).toNat →
          ex_sqrt (residual_sq ex_I2.u_lon ex_I2.u_lat ex_F
              (Index Itime Idepth 0 0 ex_S2.Ntime ex_S2.Ndepth ex_S2.Nlat ex_S2.Nlon) m)
            ≤ (spec_report ex_sqrt ex_data.areas ex_I2.u_lon ex_I2.u_lat ex_F (ex_S2.Nlat * ex_S2.Nlon).toNat
                (Index Itime Idepth 0 0 ex_S2.Ntime ex_S2.Ndepth ex_S2.Nlat ex_S2.Nlon)).projection_Inferror ∧
          ex_sqrt (speed_sq ex_I2.u_lon ex_I2.u_lat
              (Index Itime Idepth 0 0 ex_S2.Ntime ex_S2.Ndepth ex_S2.Nlat ex_S2.Nlon) m)
            ≤ (spec_report ex_sqrt ex_data.areas ex_I2.u_lon ex_I2.u_lat ex_F (ex_S2.Nlat * ex_S2.Nlon).toNat
                (Index Itime Idepth 0 0 ex_S2.Ntime ex_S2.Ndepth ex_S2.Nlat ex_S2.Nlon)).velocity_Infnorm) ∧
        (0 < (ex_S2.Nlat * ex_S2.Nlon).toNat →
          (∃ m : Nat, m < (ex_S2.Nlat * ex_S2.Nlon).toNat ∧
            (spec_report ex_sqrt ex_data.areas ex_I2.u_lon ex_I2.u_lat ex_F (ex_S2.Nlat * ex_S2.Nlon).toNat
                (Index Itime Idepth 0 0 ex_S2.Ntime ex_S2.Ndepth ex_S2.Nlat ex_S2.Nlon)).projection_Inferror
              = ex_sqrt (residual_sq ex_I2.u_lon ex_I2.u_lat ex_F
                  (Index Itime Idepth 0 0 ex_S2.Ntime ex_S2.Ndepth ex_S2.Nlat ex_S2.Nlon) m)) ∧
          (∃ m : Nat, m < (ex_S2.Nlat * ex_S2.Nlon).toNat ∧
            (spec_report ex_sqrt ex_data.areas ex_I2.u_lon ex_I2.u_lat ex_F (ex_S2.Nlat * ex_S2.Nlon).toNat
                (Index Itime Idepth 0 0 ex_S2.Ntime ex_S2.Ndepth ex_S2.Nlat ex_S2.Nlon)).velocity_Infnorm
              = ex_sqrt (speed_sq ex_I2.u_lon ex_I2.u_lat
                  (Index Itime Idepth 0 0 ex_S2.Ntime ex_S2.Ndepth ex_S2.Nlat ex_S2.Nlon) m))) :=
  C17_slice_reports ex_sqrt ex_sqrt_nonneg ex_data.areas ex_I2.u_lon ex_I2.u_lat ex_F ex_S2
    (by decide) (by decide) (by decide) (by decide) (by decide)
    (by decide) (by decide) (by decide) (by decide) (by decide) (by decide)

/-- C18 on the small grid with two depths, at the slice `(0, 1)`: the toroidal part carries
the whole velocity. -/
theorem C18_exact_projection_witness :
    ∃ (r : Reports ℚ) (rep : SliceReport ℚ),
      projection_reports ex_sqrt ex_data.areas ex_I2.u_lon ex_I2.u_lat ex_F ex_S2 = some r ∧
      report_at r (0 * ex_S2.Ndepth + 1) = some rep ∧
      rep.projection_KE = rep.velocity_2norm ∧
      rep.projection_2error = 0 ∧ rep.projection_Inferror = 0 :=
  C18_exact_projection ex_sqrt ex_sqrt_nonneg ex_sqrt_zero ex_data.areas ex_I2.u_lon
    ex_I2.u_lat ex_F ex_S2
    (by decide) (by decide) (by decide) (by decide) (by decide)
    (by decide) (by decide) (by decide) (by decide) (by decide) (by decide)
    0 1 (by decide) (by decide) (by decide) (by decide)
    (by
      rw [show (ex_S2.Nlat * ex_S2.Nlon).toNat = 12 from rfl]
      norm_num [cell_sum, sub_value, ex_data, List.range_succ])
    (fun m _ =>
      ⟨by
        rw [show ex_F.full_u_lon_pot = List.replicate 24 0 from rfl, slice_value_zeros,
          add_zero]
        rfl,
      by
        rw [show ex_F.full_u_lat_pot = List.replicate 24 0 from rfl, slice_value_zeros,
          add_zero]
        rfl⟩)

/-! ## The claims about the coarse-graining entry point -/

/-- C21. The build-time checks of the coarse-graining entry point accept a configuration
exactly when `PERIODIC_Y` implies `UNIFORM_LAT_GRID`, `NO_FULL_OUTPUTS` implies
`APPLY_POSTPROCESS`, and `NO_FULL_OUTPUTS` implies `MINIMAL_OUTPUT`; and in an accepted
configuration every scale either has its output file created or has the post-processing
applied. -/
theorem C21_static_checks (c : Flags) :
    (static_checks c = true ↔
      ((c.PERIODIC_Y = true → c.UNIFORM_LAT_GRID = true) ∧
       (c.NO_FULL_OUTPUTS = true → c.APPLY_POSTPROCESS = true) ∧
       (c.NO_FULL_OUTPUTS = true → c.MINIMAL_OUTPUT = true))) ∧
    (static_checks c = true → file_initialised c = true ∨ postprocess_applied c = true) := by
  obtain ⟨a1, a2, a3, a4, a5, a6, a7⟩ := c
  cases a1 <;> cases a2 <;> cases a3 <;> cases a4 <;> cases a5 <;>
    simp [static_checks, file_initialised, postprocess_applied]

/-- C22 as stated fails: with a single time, a single depth and two ranks the adjusted
counts are `(1, 1)`, their product is 1, and the assertion on the product fails. -/
theorem C22_counterexample :
    adjusted_Nprocs 1 1 2 1 2 = (1, 1) ∧ Nprocs_assertion 2 (adjusted_Nprocs 1 1 2 1 2) = false := by
  decide

/-- C22 (amended). When exactly one of `Ntime`, `Ndepth` is 1, or both are 1 and there is a
single rank, the adjusted counts put all ranks on the other axis, their product is `wSize`
and the assertion passes, whatever counts the user supplied; when both are 1 the adjusted
counts are `(1, 1)` and the assertion passes only for `wSize = 1`; and when neither is 1 the
user-supplied counts are kept unchanged. -/
theorem C22_collapse (Ntime Ndepth wSize Nprocs_in_time_input Nprocs_in_depth_input : Int)
    (hone : (Ntime = 1 ∧ Ndepth ≠ 1) ∨ (Ntime ≠ 1 ∧ Ndepth = 1) ∨
      (Ntime = 1 ∧ Ndepth = 1 ∧ wSize = 1)) :
    ((adjusted_Nprocs Ntime Ndepth wSize Nprocs_in_time_input Nprocs_in_depth_input).1
        * (adjusted_Nprocs Ntime Ndepth wSize Nprocs_in_time_input Nprocs_in_depth_input).2
        = wSize ∧
      Nprocs_assertion wSize
        (adjusted_Nprocs Ntime Ndepth wSize Nprocs_in_time_input Nprocs_in_depth_input)
        = true) ∧
    (Ntime = 1 → Ndepth ≠ 1 →
      adjusted_Nprocs Ntime Ndepth wSize Nprocs_in_time_input Nprocs_in_depth_input
        = (1, wSize)) ∧
    (Ntime ≠ 1 → Ndepth = 1 →
      adjusted_Nprocs Ntime Ndepth wSize Nprocs_in_time_input Nprocs_in_depth_input
        = (wSize, 1)) ∧
    (∀ (w a b : Int),
      adjusted_Nprocs 1 1 w a b = (1, 1) ∧
      (Nprocs_assertion w (adjusted_Nprocs 1 1 w a b) = true ↔ w = 1)) ∧
    (∀ (nt nd w a b : Int), nt ≠ 1 → nd ≠ 1 → adjusted_Nprocs nt nd w a b = (a, b)) := by
  refine ⟨?_, ?_, ?_, ?_, ?_⟩
  · rcases hone with ⟨h1, h2⟩ | ⟨h1, h2⟩ | ⟨h1, h2, h3⟩
    · simp [adjusted_Nprocs, Nprocs_assertion, h1, h2]
    · simp [adjusted_Nprocs, Nprocs_assertion, h1, h2]
    · simp [adjusted_Nprocs, Nprocs_assertion, h1, h2, h3]
  · intro h1 h2
    simp [adjusted_Nprocs, h1, h2]
  · intro h1 h2
    simp [adjusted_Nprocs, h1, h2]
  · intro w a b
    constructor
    · simp [adjusted_Nprocs]
    · simp [adjusted_Nprocs, Nprocs_assertion]
      exact eq_comm
  · intro nt nd w a b h1 h2
    simp [adjusted_Nprocs, h1, h2]

/-- C22 (amended) for a single time, five depths, four ranks and the user counts 3 and 7. -/
theorem C22_collapse_witness :
    ((adjusted_Nprocs 1 5 4 3 7).1 * (adjusted_Nprocs 1 5 4 3 7).2 = 4 ∧
      Nprocs_assertion 4 (adjusted_Nprocs 1 5 4 3 7) = true) ∧
    ((1 : Int) = 1 → (5 : Int) ≠ 1 → adjusted_Nprocs 1 5 4 3 7 = (1, 4)) ∧
    ((1 : Int) ≠ 1 → (5 : Int) = 1 → adjusted_Nprocs 1 5 4 3 7 = (4, 1)) ∧
    (∀ (w a b : Int),
      adjusted_Nprocs 1 1 w a b = (1, 1) ∧
      (Nprocs_assertion w (adjusted_Nprocs 1 1 w a b) = true ↔ w = 1)) ∧
    (∀ (nt nd w a b : Int), nt ≠ 1 → nd ≠ 1 → adjusted_Nprocs nt nd w a b = (a, b)) :=
  C22_collapse 1 5 4 3 7 (Or.inl ⟨rfl, by decide⟩)

/-! ## The formula of `compute_Lambda_nonlin_model` -/

section LambdaClaims
variable {α : Type} [LinearOrderedField α]
variable (K : Constants α) (CARTESIAN : Bool) (fill_value : α) (cos : α → α)
  (spher_derivative_at_point : SpherDerivative α) (Index1to4 : Index1to4Fn)
  (coarse_u_r coarse_u_lon coarse_u_lat coarse_rho coarse_p : List α)
  (Ntime Ndepth Nlat Nlon : Int) (longitude latitude : List α) (mask : List Bool)
  (scale_factor : α)

/-- The function returns, and the array it returns holds at every water index the value
computed for that index. -/
theorem compute_Lambda_water_values (Lambda_nonlin : List α)
    (hmask : Lambda_nonlin.length ≤ mask.length)
    (hrho : Lambda_nonlin.length ≤ coarse_rho.length)
    (hlat : CARTESIAN = false → ∀ index : Int, 0 ≤ index → index < Lambda_nonlin.length →
      0 ≤ (Index1to4 index Ntime Ndepth Nlat Nlon).2.2.1 ∧
      (Index1to4 index Ntime Ndepth Nlat Nlon).2.2.1 < latitude.length) :
    ∃ out, compute_Lambda_nonlin_model K CARTESIAN fill_value cos spher_derivative_at_point
        Index1to4 Lambda_nonlin coarse_u_r coarse_u_lon coarse_u_lat coarse_rho coarse_p
        Ntime Ndepth Nlat Nlon longitude latitude mask scale_factor = some out ∧
      ∀ i : Nat, i < Lambda_nonlin.length → mask[i]? = some true →
        ∃ v, Lambda_water K CARTESIAN cos spher_derivative_at_point Index1to4
            coarse_u_lon coarse_u_lat coarse_rho coarse_p Ntime Ndepth Nlat Nlon
            longitude latitude mask scale_factor (i : Int) = some v ∧
          out[i]? = some v := by
  have key := forLoop_inv
    (fun (k : Nat) (L : List α) => L.length = Lambda_nonlin.length ∧
      (∀ i : Nat, i < k → mask[i]? = some true →
        ∃ v, Lambda_water K CARTESIAN cos spher_derivative_at_point Index1to4
            coarse_u_lon coarse_u_lat coarse_rho coarse_p Ntime Ndepth Nlat Nlon
            longitude latitude mask scale_factor (i : Int) = some v ∧
          L[i]? = some v))
    Lambda_nonlin.length
    (fun index L => Lambda_body K CARTESIAN fill_value cos spher_derivative_at_point
      Index1to4 coarse_u_lon coarse_u_lat coarse_rho coarse_p Ntime Ndepth Nlat Nlon
      longitude latitude mask scale_factor index L)
    Lambda_nonlin
    ⟨rfl, fun i hi => absurd hi (Nat.not_lt_zero i)⟩
    (by
      intro k L hk ⟨hlen, hwater⟩
      have hkL : k < L.length := by rw [hlen]; exact hk
      have hkm : k < mask.length := lt_of_lt_of_le hk hmask
      have hm : vec_at mask (k : Int) = some mask[k] := by
        rw [vec_at_natCast, List.getElem?_eq_getElem hkm]
      obtain ⟨v, hv⟩ := Lambda_water_some K CARTESIAN cos spher_derivative_at_point Index1to4
        coarse_u_lon coarse_u_lat coarse_rho coarse_p Ntime Ndepth Nlat Nlon
        longitude latitude mask scale_factor (k : Int) (Int.natCast_nonneg k)
        (by exact_mod_cast lt_of_lt_of_le hk hrho)
        (fun hC => hlat hC (k : Int) (Int.natCast_nonneg k) (by exact_mod_cast hk))
      have hstep : ∃ x, Lambda_body K CARTESIAN fill_value cos spher_derivative_at_point
            Index1to4 coarse_u_lon coarse_u_lat coarse_rho coarse_p Ntime Ndepth Nlat Nlon
            longitude latitude mask scale_factor (k : Int) L = some (L.set k x) ∧
          (mask[k]? = some true → x = v) := by
        unfold Lambda_body
        rw [List.getElem?_eq_getElem hkm]
        cases hb : mask[k] with
        | true =>
          refine ⟨v, ?_, fun _ => rfl⟩
          simp only [hm, hb, hv, Option.bind_eq_bind, Option.some_bind, if_true]
          exact vec_set_natCast L k v hkL
        | false =>
          refine ⟨fill_value, ?_, fun h => by simp at h⟩
          simp only [hm, hb, Option.bind_eq_bind, Option.some_bind, Bool.false_eq_true,
            if_false]
          exact vec_set_natCast L k fill_value hkL
      obtain ⟨x, hx, hxw⟩ := hstep
      refine ⟨L.set k x, hx, by rw [List.length_set]; exact hlen, ?_⟩
      intro i hi hmi
      by_cases hik : i = k
      · subst hik
        refine ⟨v, hv, ?_⟩
        rw [List.getElem?_set_self hkL, hxw hmi]
      · rw [List.getElem?_set_ne (Ne.symm hik)]
        exact hwater i (lt_of_le_of_ne (Nat.le_of_lt_succ hi) hik) hmi)
  obtain ⟨out, h1, _, h3⟩ := key
  exact ⟨out, h1, h3⟩

/-- The value computed at an index of the spherical configuration, as the sum of the four
products of scaled derivatives; `dlon` and `dlat` are the derivatives in longitude and in
latitude of the four fields. -/
theorem Lambda_water_spherical (i : Nat) (lat rho s : α) (dlon dlat : Nat → α)
    (hdlon : dlon = spher_derivative_at_point [coarse_rho, coarse_p, coarse_u_lon, coarse_u_lat]
        longitude "lon" (Index1to4 (i : Int) Ntime Ndepth Nlat Nlon).1
        (Index1to4 (i : Int) Ntime Ndepth Nlat Nlon).2.1
        (Index1to4 (i : Int) Ntime Ndepth Nlat Nlon).2.2.1
        (Index1to4 (i : Int) Ntime Ndepth Nlat Nlon).2.2.2 Ntime Ndepth Nlat Nlon mask)
    (hdlat : dlat = spher_derivative_at_point [coarse_rho, coarse_p, coarse_u_lon, coarse_u_lat]
        latitude "lat" (Index1to4 (i : Int) Ntime Ndepth Nlat Nlon).1
        (Index1to4 (i : Int) Ntime Ndepth Nlat Nlon).2.1
        (Index1to4 (i : Int) Ntime Ndepth Nlat Nlon).2.2.1
        (Index1to4 (i : Int) Ntime Ndepth Nlat Nlon).2.2.2 Ntime Ndepth Nlat Nlon mask)
    (hlat : vec_at latitude (Index1to4 (i : Int) Ntime Ndepth Nlat Nlon).2.2.1 = some lat)
    (hrho : vec_at coarse_rho (i : Int) = some rho) :
    Lambda_water K false cos spher_derivative_at_point Index1to4
        coarse_u_lon coarse_u_lat coarse_rho coarse_p Ntime Ndepth Nlat Nlon
        longitude latitude mask s (i : Int)
      = some (s * (1 / rho) *
          (dlon 1 / (K.R_earth * cos lat) * (dlon 0 / (K.R_earth * cos lat))
              * (dlon 2 / (K.R_earth * cos lat))
            + dlon 1 / (K.R_earth * cos lat) * (dlat 0 / K.R_earth) * (dlat 2 / K.R_earth)
            + dlat 1 / K.R_earth * (dlon 0 / (K.R_earth * cos lat))
              * (dlon 3 / (K.R_earth * cos lat))
            + dlat 1 / K.R_earth * (dlat 0 / K.R_earth) * (dlat 3 / K.R_earth))) := by
  unfold Lambda_water
  simp only [hlat, hrho, Bool.false_eq_true, if_false, Option.bind_eq_bind, Option.some_bind,
    ← hdlon, ← hdlat]
  congr 1
  simp only [div_eq_mul_inv, mul_inv]
  ring

/-- C23. In the spherical configuration, with the mask and the density at least as long as
`Lambda_nonlin` and every latitude index inside the latitude grid, at every water index `i`
with `coarse_rho(i) != 0` and `cos(lat) != 0` the function `compute_Lambda_nonlin_model`
returns an array whose entry `i` is
`scale_factor * (1/coarse_rho(i)) * sum over j, k in {lon, lat} of (d_j p)(d_k rho)(d_k u_j)`,
where `d_lon` is the stencil derivative in longitude divided by `R_earth * cos(lat)` and
`d_lat` the stencil derivative in latitude divided by `R_earth`, of the fields `coarse_p`,
`coarse_rho`, `coarse_u_lon`, `coarse_u_lat`; replacing `scale_factor` by `c * scale_factor`
multiplies the entry by `c`; and the entry is 0 when both derivatives of `coarse_rho`, or
both derivatives of `coarse_p`, vanish at the point.  (The two conditions `!= 0` are those
under which the divisions of the code are defined.) -/
theorem C23_Lambda_formula (Lambda_nonlin : List α) (i : Nat) (lat rho : α)
    (hmask : Lambda_nonlin.length ≤ mask.length)
    (hrhol : Lambda_nonlin.length ≤ coarse_rho.length)
    (hlatl : ∀ index : Int, 0 ≤ index → index < Lambda_nonlin.length →
      0 ≤ (Index1to4 index Ntime Ndepth Nlat Nlon).2.2.1 ∧
      (Index1to4 index Ntime Ndepth Nlat Nlon).2.2.1 < latitude.length)
    (hi : i < Lambda_nonlin.length) (hwater : mask[i]? = some true)
    (hlat : vec_at latitude (Index1to4 (i : Int) Ntime Ndepth Nlat Nlon).2.2.1 = some lat)
    (hrho : vec_at coarse_rho (i : Int) = some rho)
    (hrho0 : rho ≠ 0) (hcos : cos lat ≠ 0) :
    ∃ (out : List α)
      (v drho_dlon dp_dlon dulon_dlon dulat_dlon drho_dlat dp_dlat dulon_dlat dulat_dlat : α),
      compute_Lambda_nonlin_model K false fill_value cos spher_derivative_at_point
        Index1to4 Lambda_nonlin coarse_u_r coarse_u_lon coarse_u_lat coarse_rho coarse_p
        Ntime Ndepth Nlat Nlon longitude latitude mask scale_factor = some out ∧
      out[i]? = some v ∧
      drho_dlon = spher_derivative_at_point [coarse_rho, coarse_p, coarse_u_lon, coarse_u_lat]
          longitude "lon" (Index1to4 (i : Int) Ntime Ndepth Nlat Nlon).1
          (Index1to4 (i : Int) Ntime Ndepth Nlat Nlon).2.1
          (Index1to4 (i : Int) Ntime Ndepth Nlat Nlon).2.2.1
          (Index1to4 (i : Int) Ntime Ndepth Nlat Nlon).2.2.2 Ntime Ndepth Nlat Nlon mask 0
        / (K.R_earth * cos lat) ∧
      dp_dlon = spher_derivative_at_point [coarse_rho, coarse_p, coarse_u_lon, coarse_u_lat]
          longitude "lon" (Index1to4 (i : Int) Ntime Ndepth Nlat Nlon).1
          (Index1to4 (i : Int) Ntime Ndepth Nlat Nlon).2.1
          (Index1to4 (i : Int) Ntime Ndepth Nlat Nlon).2.2.1
          (Index1to4 (i : Int) Ntime Ndepth Nlat Nlon).2.2.2 Ntime Ndepth Nlat Nlon mask 1
        / (K.R_earth * cos lat) ∧
      dulon_dlon = spher_derivative_at_point [coarse_rho, coarse_p, coarse_u_lon, coarse_u_lat]
          longitude "lon" (Index1to4 (i : Int) Ntime Ndepth Nlat Nlon).1
          (Index1to4 (i : Int) Ntime Ndepth Nlat Nlon).2.1
          (Index1to4 (i : Int) Ntime Ndepth Nlat Nlon).2.2.1
          (Index1to4 (i : Int) Ntime Ndepth Nlat Nlon).2.2.2 Ntime Ndepth Nlat Nlon mask 2
        / (K.R_earth * cos lat) ∧
      dulat_dlon = spher_derivative_at_point [coarse_rho, coarse_p, coarse_u_lon, coarse_u_lat]
          longitude "lon" (Index1to4 (i : Int) Ntime Ndepth Nlat Nlon).1
          (Index1to4 (i : Int) Ntime Ndepth Nlat Nlon).2.1
          (Index1to4 (i : Int) Ntime Ndepth Nlat Nlon).2.2.1
          (Index1to4 (i : Int) Ntime Ndepth Nlat Nlon).2.2.2 Ntime Ndepth Nlat Nlon mask 3
        / (K.R_earth * cos lat) ∧
      drho_dlat = spher_derivative_at_point [coarse_rho, coarse_p, coarse_u_lon, coarse_u_lat]
          latitude "lat" (Index1to4 (i : Int) Ntime Ndepth Nlat Nlon).1
          (Index1to4 (i : Int) Ntime Ndepth Nlat Nlon).2.1
          (Index1to4 (i : Int) Ntime Ndepth Nlat Nlon).2.2.1
          (Index1to4 (i : Int) Ntime Ndepth Nlat Nlon).2.2.2 Ntime Ndepth Nlat Nlon mask 0
        / K.R_earth ∧
      dp_dlat = spher_derivative_at_point [coarse_rho, coarse_p, coarse_u_lon, coarse_u_lat]
          latitude "lat" (Index1to4 (i : Int) Ntime Ndepth Nlat Nlon).1
          (Index1to4 (i : Int) Ntime Ndepth Nlat Nlon).2.1
          (Index1to4 (i : Int) Ntime Ndepth Nlat Nlon).2.2.1
          (Index1to4 (i : Int) Ntime Ndepth Nlat Nlon).2.2.2 Ntime Ndepth Nlat Nlon mask 1
        / K.R_earth ∧
      dulon_dlat = spher_derivative_at_point [coarse_rho, coarse_p, coarse_u_lon, coarse_u_lat]
          latitude "lat" (Index1to4 (i : Int) Ntime Ndepth Nlat Nlon).1
          (Index1to4 (i : Int) Ntime Ndepth Nlat Nlon).2.1
          (Index1to4 (i : Int) Ntime Ndepth Nlat Nlon).2.2.1
          (Index1to4 (i : Int) Ntime Ndepth Nlat Nlon).2.2.2 Ntime Ndepth Nlat Nlon mask 2
        / K.R_earth ∧
      dulat_dlat = spher_derivative_at_point [coarse_rho, coarse_p, coarse_u_lon, coarse_u_lat]
          latitude "lat" (Index1to4 (i : Int) Ntime Ndepth Nlat Nlon).1
          (Index1to4 (i : Int) Ntime Ndepth Nlat Nlon).2.1
          (Index1to4 (i : Int) Ntime Ndepth Nlat Nlon).2.2.1
          (Index1to4 (i : Int) Ntime Ndepth Nlat Nlon).2.2.2 Ntime Ndepth Nlat Nlon mask 3
        / K.R_earth ∧
      v = scale_factor * (1 / rho) *
          (dp_dlon * drho_dlon * dulon_dlon + dp_dlon * drho_dlat * dulon_dlat
            + dp_dlat * drho_dlon * dulat_dlon + dp_dlat * drho_dlat * dulat_dlat) ∧
      (∀ c : α, ∃ out2 : List α,
        compute_Lambda_nonlin_model K false fill_value cos spher_derivative_at_point
          Index1to4 Lambda_nonlin coarse_u_r coarse_u_lon coarse_u_lat coarse_rho coarse_p
          Ntime Ndepth Nlat Nlon longitude latitude mask (c * scale_factor) = some out2 ∧
        out2[i]? = some (c * v)) ∧
      (drho_dlon = 0 → drho_dlat = 0 → v = 0) ∧
      (dp_dlon = 0 → dp_dlat = 0 → v = 0) := by
  have _ := hrho0
  have _ := hcos
  obtain ⟨dlon, hdlon⟩ : ∃ d : Nat → α, d =
      spher_derivative_at_point [coarse_rho, coarse_p, coarse_u_lon, coarse_u_lat]
        longitude "lon" (Index1to4 (i : Int) Ntime Ndepth Nlat Nlon).1
        (Index1to4 (i : Int) Ntime Ndepth Nlat Nlon).2.1
        (Index1to4 (i : Int) Ntime Ndepth Nlat Nlon).2.2.1
        (Index1to4 (i : Int) Ntime Ndepth Nlat Nlon).2.2.2 Ntime Ndepth Nlat Nlon mask := ⟨_, rfl⟩
  obtain ⟨dlat, hdlat⟩ : ∃ d : Nat → α, d =
      spher_derivative_at_point [coarse_rho, coarse_p, coarse_u_lon, coarse_u_lat]
        latitude "lat" (Index1to4 (i : Int) Ntime Ndepth Nlat Nlon).1
        (Index1to4 (i : Int) Ntime Ndepth Nlat Nlon).2.1
        (Index1to4 (i : Int) Ntime Ndepth Nlat Nlon).2.2.1
        (Index1to4 (i : Int) Ntime Ndepth Nlat Nlon).2.2.2 Ntime Ndepth Nlat Nlon mask := ⟨_, rfl⟩
  have hval : ∀ s : α, ∃ o : List α,
      compute_Lambda_nonlin_model K false fill_value cos spher_derivative_at_point
        Index1to4 Lambda_nonlin coarse_u_r coarse_u_lon coarse_u_lat coarse_rho coarse_p
        Ntime Ndepth Nlat Nlon longitude latitude mask s = some o ∧
      o[i]? = some (s * (1 / rho) *
          (dlon 1 / (K.R_earth * cos lat) * (dlon 0 / (K.R_earth * cos lat))
              * (dlon 2 / (K.R_earth * cos lat))
            + dlon 1 / (K.R_earth * cos lat) * (dlat 0 / K.R_earth) * (dlat 2 / K.R_earth)
            + dlat 1 / K.R_earth * (dlon 0 / (K.R_earth * cos lat))
              * (dlon 3 / (K.R_earth * cos lat))
            + dlat 1 / K.R_earth * (dlat 0 / K.R_earth) * (dlat 3 / K.R_earth))) := by
    intro s
    obtain ⟨o, ho, hw⟩ := compute_Lambda_water_values K false fill_value cos
      spher_derivative_at_point Index1to4 coarse_u_r coarse_u_lon coarse_u_lat coarse_rho
      coarse_p Ntime Ndepth Nlat Nlon longitude latitude mask s Lambda_nonlin hmask hrhol
      (fun _ => hlatl)
    obtain ⟨v, hv, hov⟩ := hw i hi hwater
    rw [Lambda_water_spherical K cos spher_derivative_at_point Index1to4 coarse_u_lon
      coarse_u_lat coarse_rho coarse_p Ntime Ndepth Nlat Nlon longitude latitude mask i lat rho
      s dlon dlat hdlon hdlat hlat hrho] at hv
    rw [← Option.some.inj hv] at hov
    exact ⟨o, ho, hov⟩
  obtain ⟨out, ho, hov⟩ := hval scale_factor
  rw [← hdlon, ← hdlat]
  refine ⟨out, _, _, _, _, _, _, _, _, _, ho, hov, rfl, rfl, rfl, rfl, rfl, rfl, rfl, rfl, ?_,
    ?_, ?_, ?_⟩
  · ring
  · intro c
    obtain ⟨o2, ho2, hov2⟩ := hval (c * scale_factor)
    refine ⟨o2, ho2, ?_⟩
    rw [hov2]
    congr 1
    ring
  · intro h1 h2
    rw [h1, h2]
    ring
  · intro h1 h2
    rw [h1, h2]
    ring

/-- C23 at the water index 4 of the small grid, the point `(1, 0)` at latitude 0 with density
1. -/
theorem C23_Lambda_formula_witness :
    ∃ (out : List ℚ)
      (v drho_dlon dp_dlon dulon_dlon dulat_dlon drho_dlat dp_dlat dulon_dlat dulat_dlat : ℚ),
      compute_Lambda_nonlin_model ex_K false (-32767) ex_cos ex_spher
        ex_Index1to4 ex_u_r ex_u_r ex_u_lon_rem ex_u_lat_rem ex_rho ex_p
        1 1 3 4 ex_data.longitude ex_data.latitude ex_mask (1 / 2) = some out ∧
      out[4]? = some v ∧
      drho_dlon = ex_spher [ex_rho, ex_p, ex_u_lon_rem, ex_u_lat_rem]
          ex_data.longitude "lon" (ex_Index1to4 4 1 1 3 4).1
          (ex_Index1to4 4 1 1 3 4).2.1
          (ex_Index1to4 4 1 1 3 4).2.2.1
          (ex_Index1to4 4 1 1 3 4).2.2.2 1 1 3 4 ex_mask 0
        / (ex_K.R_earth * ex_cos 0) ∧
      dp_dlon = ex_spher [ex_rho, ex_p, ex_u_lon_rem, ex_u_lat_rem]
          ex_data.longitude "lon" (ex_Index1to4 4 1 1 3 4).1
          (ex_Index1to4 4 1 1 3 4).2.1
          (ex_Index1to4 4 1 1 3 4).2.2.1
          (ex_Index1to4 4 1 1 3 4).2.2.2 1 1 3 4 ex_mask 1
        / (ex_K.R_earth * ex_cos 0) ∧
      dulon_dlon = ex_spher [ex_rho, ex_p, ex_u_lon_rem, ex_u_lat_rem]
          ex_data.longitude "lon" (ex_Index1to4 4 1 1 3 4).1
          (ex_Index1to4 4 1 1 3 4).2.1
          (ex_Index1to4 4 1 1 3 4).2.2.1
          (ex_Index1to4 4 1 1 3 4).2.2.2 1 1 3 4 ex_mask 2
        / (ex_K.R_earth * ex_cos 0) ∧
      dulat_dlon = ex_spher [ex_rho, ex_p, ex_u_lon_rem, ex_u_lat_rem]
          ex_data.longitude "lon" (ex_Index1to4 4 1 1 3 4).1
          (ex_Index1to4 4 1 1 3 4).2.1
          (ex_Index1to4 4 1 1 3 4).2.2.1
          (ex_Index1to4 4 1 1 3 4).2.2.2 1 1 3 4 ex_mask 3
        / (ex_K.R_earth * ex_cos 0) ∧
      drho_dlat = ex_spher [ex_rho, ex_p, ex_u_lon_rem, ex_u_lat_rem]
          ex_data.latitude "lat" (ex_Index1to4 4 1 1 3 4).1
          (ex_Index1to4 4 1 1 3 4).2.1
          (ex_Index1to4 4 1 1 3 4).2.2.1
          (ex_Index1to4 4 1 1 3 4).2.2.2 1 1 3 4 ex_mask 0
        / ex_K.R_earth ∧
      dp_dlat = ex_spher [ex_rho, ex_p, ex_u_lon_rem, ex_u_lat_rem]
          ex_data.latitude "lat" (ex_Index1to4 4 1 1 3 4).1
          (ex_Index1to4 4 1 1 3 4).2.1
          (ex_Index1to4 4 1 1 3 4).2.2.1
          (ex_Index1to4 4 1 1 3 4).2.2.2 1 1 3 4 ex_mask 1
        / ex_K.R_earth ∧
      dulon_dlat = ex_spher [ex_rho, ex_p, ex_u_lon_rem, ex_u_lat_rem]
          ex_data.latitude "lat" (ex_Index1to4 4 1 1 3 4).1
          (ex_Index1to4 4 1 1 3 4).2.1
          (ex_Index1to4 4 1 1 3 4).2.2.1
          (ex_Index1to4 4 1 1 3 4).2.2.2 1 1 3 4 ex_mask 2
        / ex_K.R_earth ∧
      dulat_dlat = ex_spher [ex_rho, ex_p, ex_u_lon_rem, ex_u_lat_rem]
          ex_data.latitude "lat" (ex_Index1to4 4 1 1 3 4).1
          (ex_Index1to4 4 1 1 3 4).2.1
          (ex_Index1to4 4 1 1 3 4).2.2.1
          (ex_Index1to4 4 1 1 3 4).2.2.2 1 1 3 4 ex_mask 3
        / ex_K.R_earth ∧
      v = (1 / 2) * (1 / 1) *
          (dp_dlon * drho_dlon * dulon_dlon + dp_dlon * drho_dlat * dulon_dlat
            + dp_dlat * drho_dlon * dulat_dlon + dp_dlat * drho_dlat * dulat_dlat) ∧
      (∀ c : ℚ, ∃ out2 : List ℚ,
        compute_Lambda_nonlin_model ex_K false (-32767) ex_cos ex_spher
          ex_Index1to4 ex_u_r ex_u_r ex_u_lon_rem ex_u_lat_rem ex_rho ex_p
          1 1 3 4 ex_data.longitude ex_data.latitude ex_mask (c * (1 / 2)) = some out2 ∧
        out2[4]? = some (c * v)) ∧
      (drho_dlon = 0 → drho_dlat = 0 → v = 0) ∧
      (dp_dlon = 0 → dp_dlat = 0 → v = 0) :=
  C23_Lambda_formula ex_K (-32767) ex_cos ex_spher ex_Index1to4 ex_u_r ex_u_lon_rem
    ex_u_lat_rem ex_rho ex_p 1 1 3 4 ex_data.longitude ex_data.latitude ex_mask (1 / 2) ex_u_r
    4 0 1 (by decide) (by decide)
    (fun index _ _ => by
      simp only [ex_Index1to4, ex_data]
      constructor
      · exact Int.emod_nonneg _ (by decide)
      · exact Int.emod_lt_of_pos _ (by decide))
    (by decide) (by rfl) (by rfl) (by rfl) (by norm_num) (by norm_num [ex_cos])

end LambdaClaims

/-! ## The zonal rows and the row weights of the assembly -/

section AssemblyClaims2
variable {α : Type} [LinearOrderedField α]
variable (K : Constants α) (cos : α → α) (get_diff_vector : GetDiffVector α)

omit [LinearOrderedField α] in
/-- The columns of the calls placed by a longitude stencil loop on a periodic grid lie in the
column block of the loop. -/
theorem placed_lon_col_range (S : Sizes) (row Ilat skip : Int) (scale : α → α) (LB : Int)
    (dv : List α) (hP : K.PERIODIC_X = true) (hi0 : 0 ≤ Ilat) (hi1 : Ilat < S.Nlat)
    (hN : 0 < S.Nlon) (e : Entry α) (he : e ∈ placed row (lon_col K S Ilat skip) scale LB dv) :
    skip * (S.Nlat * S.Nlon) ≤ e.col ∧ e.col < skip * (S.Nlat * S.Nlon) + S.Nlat * S.Nlon := by
  unfold placed at he
  obtain ⟨IDIFF, d, hm⟩ := mem_stencil_for _ _ _ _ he
  simp only [List.mem_singleton] at hm
  subst hm
  simp only [lon_col, hP]
  have hw := wrap_index_range IDIFF S.Nlon hN
  have hr := Index_sub_range Ilat (wrap_index true IDIFF S.Nlon) S.Nlat S.Nlon hi0 hi1 hw.1 hw.2
  constructor
  · exact le_add_of_nonneg_right hr.1
  · exact add_lt_add_left hr.2 _

/-- The calls on the rows of blocks 2 and 3 of a point when `Tikhov_Laplace = 0`. -/
theorem zonal_rows_code (A : Args α) (S : Sizes) (Ilat Ilon : Int) (lat w : α)
    (hT : A.Tikhov_Laplace = 0)
    (hi0 : 0 ≤ Ilat) (hi1 : Ilat < S.Nlat) (hj0 : 0 ≤ Ilon) (hj1 : Ilon < S.Nlon)
    (hreads : point_reads A S Ilat Ilon = some (lat, w)) :
    row_entries (added K cos get_diff_vector A S) (point_row S 2 Ilat Ilon)
      = (if Ilat = 0 then
          (if built (lon_stencil K get_diff_vector A S Ilat Ilon 1) (-2 * S.Nlon) then
            placed (point_row S 2 Ilat Ilon) (lon_col K S Ilat 1)
              (fun d => d * (1 / cos lat) * (1 / K.R_earth) * w)
              (lon_stencil K get_diff_vector A S Ilat Ilon 1).2
              (lon_stencil K get_diff_vector A S Ilat Ilon 1).1 else [])
        else []) ∧
    row_entries (added K cos get_diff_vector A S) (point_row S 3 Ilat Ilon)
      = (if Ilat = 0 then
          (if built (lon_stencil K get_diff_vector A S Ilat Ilon 1) (-2 * S.Nlon) then
            placed (point_row S 3 Ilat Ilon) (lon_col K S Ilat 0)
              (fun d => d * (1 / cos lat) * (1 / K.R_earth) * w)
              (lon_stencil K get_diff_vector A S Ilat Ilon 1).2
              (lon_stencil K get_diff_vector A S Ilat Ilon 1).1 else [])
        else []) := by
  constructor
  · rw [added_row K cos get_diff_vector A S 2 Ilat Ilon lat w hi0 hi1 hj0 hj1 hreads,
      vel_point_laplace_rows K cos get_diff_vector A S Ilat Ilon 2 lat w hi0 hi1 hj0 hj1
        (by omega),
      lap_point_row2 K cos get_diff_vector A S Ilat Ilon lat w hi0 hi1 hj0 hj1]
    simp only [hT, and_true, List.nil_append, lt_self_iff_false, and_false, if_false]
  · rw [added_row K cos get_diff_vector A S 3 Ilat Ilon lat w hi0 hi1 hj0 hj1 hreads,
      vel_point_laplace_rows K cos get_diff_vector A S Ilat Ilon 3 lat w hi0 hi1 hj0 hj1
        (by omega),
      lap_point_row3 K cos get_diff_vector A S Ilat Ilon lat w hi0 hi1 hj0 hj1]
    simp only [hT, and_true, List.nil_append, lt_self_iff_false, and_false, if_false]

/-- The rows of blocks 2 and 3 as the code fills them.  When `Tikhov_Laplace = 0`, the rows `2N + p` and `3N + p` of a grid point
`p = (Ilat, Ilon)` receive no call unless `Ilat = 0`; for a point of the first latitude row
with a built zonal first-derivative stencil, row `2N + p` receives the stencil, scaled by
`(1/cos(lat)) * (1/R_earth)` and the weight of the point, in the columns
`N + Index(0, 0, Ilat, Idiff)` of the Phi block, and row `3N + p` receives the same values in
the columns `Index(0, 0, Ilat, Idiff)` of the Psi block; on a grid periodic in longitude all
columns of row `2N + p` lie in `[N, 2N)` and all columns of row `3N + p` in `[0, N)`; and
the right-hand side is built with the entries `2N + p` and `3N + p` equal to 0. -/
theorem zonal_rows_placement (A : Args α) (S : Sizes) (Ilat Ilon : Int) (lat w : α)
    (u_lon_rem u_lat_rem vort_term div_term R0 : List α)
    (hT : A.Tikhov_Laplace = 0)
    (hi0 : 0 ≤ Ilat) (hi1 : Ilat < S.Nlat) (hj0 : 0 ≤ Ilon) (hj1 : Ilon < S.Nlon)
    (hreads : point_reads A S Ilat Ilon = some (lat, w))
    (hlen : S.Nlat ≤ A.source_data.latitude.length)
    (hAlen : A.weight_err = true → S.Nlat * S.Nlon ≤ A.source_data.areas.length)
    (h1 : S.Nlat * S.Nlon ≤ u_lon_rem.length) (h2 : S.Nlat * S.Nlon ≤ u_lat_rem.length)
    (h3 : S.Nlat * S.Nlon ≤ vort_term.length) (h4 : S.Nlat * S.Nlon ≤ div_term.length)
    (hR : 4 * (S.Nlat * S.Nlon) ≤ R0.length) :
    (Ilat ≠ 0 →
      row_entries (added K cos get_diff_vector A S)
        (2 * (S.Nlat * S.Nlon) + Index 0 0 Ilat Ilon 1 1 S.Nlat S.Nlon) = [] ∧
      row_entries (added K cos get_diff_vector A S)
        (3 * (S.Nlat * S.Nlon) + Index 0 0 Ilat Ilon 1 1 S.Nlat S.Nlon) = []) ∧
    (Ilat = 0 →
      row_entries (added K cos get_diff_vector A S)
          (2 * (S.Nlat * S.Nlon) + Index 0 0 Ilat Ilon 1 1 S.Nlat S.Nlon)
        = (if built (lon_stencil K get_diff_vector A S Ilat Ilon 1) (-2 * S.Nlon) then
            placed (2 * (S.Nlat * S.Nlon) + Index 0 0 Ilat Ilon 1 1 S.Nlat S.Nlon)
              (fun IDIFF => 1 * (S.Nlat * S.Nlon)
                + Index 0 0 Ilat (wrap_index K.PERIODIC_X IDIFF S.Nlon) 1 1 S.Nlat S.Nlon)
              (fun d => d * (1 / cos lat) * (1 / K.R_earth) * w)
              (lon_stencil K get_diff_vector A S Ilat Ilon 1).2
              (lon_stencil K get_diff_vector A S Ilat Ilon 1).1 else []) ∧
      row_entries (added K cos get_diff_vector A S)
          (3 * (S.Nlat * S.Nlon) + Index 0 0 Ilat Ilon 1 1 S.Nlat S.Nlon)
        = (if built (lon_stencil K get_diff_vector A S Ilat Ilon 1) (-2 * S.Nlon) then
            placed (3 * (S.Nlat * S.Nlon) + Index 0 0 Ilat Ilon 1 1 S.Nlat S.Nlon)
              (fun IDIFF => 0 * (S.Nlat * S.Nlon)
                + Index 0 0 Ilat (wrap_index K.PERIODIC_X IDIFF S.Nlon) 1 1 S.Nlat S.Nlon)
              (fun d => d * (1 / cos lat) * (1 / K.R_earth) * w)
              (lon_stencil K get_diff_vector A S Ilat Ilon 1).2
              (lon_stencil K get_diff_vector A S Ilat Ilon 1).1 else [])) ∧
    (K.PERIODIC_X = true →
      (∀ e ∈ row_entries (added K cos get_diff_vector A S)
          (2 * (S.Nlat * S.Nlon) + Index 0 0 Ilat Ilon 1 1 S.Nlat S.Nlon),
        S.Nlat * S.Nlon ≤ e.col ∧ e.col < 2 * (S.Nlat * S.Nlon)) ∧
      (∀ e ∈ row_entries (added K cos get_diff_vector A S)
          (3 * (S.Nlat * S.Nlon) + Index 0 0 Ilat Ilon 1 1 S.Nlat S.Nlon),
        0 ≤ e.col ∧ e.col < S.Nlat * S.Nlon)) ∧
    (∃ R, build_RHS K A.source_data.latitude A.source_data.areas S A.weight_err
          A.Tikhov_Laplace A.deriv_scale_factor u_lon_rem u_lat_rem vort_term div_term R0
        = some R ∧
      vec_at R (2 * (S.Nlat * S.Nlon) + Index 0 0 Ilat Ilon 1 1 S.Nlat S.Nlon) = some 0 ∧
      vec_at R (3 * (S.Nlat * S.Nlon) + Index 0 0 Ilat Ilon 1 1 S.Nlat S.Nlon) = some 0) := by
  have e2 : 2 * (S.Nlat * S.Nlon) + Index 0 0 Ilat Ilon 1 1 S.Nlat S.Nlon
      = point_row S 2 Ilat Ilon := rfl
  have e3 : 3 * (S.Nlat * S.Nlon) + Index 0 0 Ilat Ilon 1 1 S.Nlat S.Nlon
      = point_row S 3 Ilat Ilon := rfl
  have hz := zonal_rows_code K cos get_diff_vector A S Ilat Ilon lat w hT hi0 hi1 hj0 hj1 hreads
  have hr := Index_sub_range Ilat Ilon S.Nlat S.Nlon hi0 hi1 hj0 hj1
  refine ⟨?_, ?_, ?_, ?_⟩
  · intro hne
    rw [e2, e3, hz.1, hz.2, if_neg hne, if_neg hne]
    exact ⟨rfl, rfl⟩
  · intro h0
    rw [e2, e3, hz.1, hz.2, if_pos h0, if_pos h0]
    exact ⟨rfl, rfl⟩
  · intro hP
    have hN : 0 < S.Nlon := lt_of_le_of_lt hj0 hj1
    rw [e2, e3, hz.1, hz.2]
    constructor
    · intro e he
      split at he
      · split at he
        · have := placed_lon_col_range K S _ Ilat 1 _ _ _ hP hi0 hi1 hN e he
          constructor <;> omega
        · simp at he
      · simp at he
    · intro e he
      split at he
      · split at he
        · have := placed_lon_col_range K S _ Ilat 0 _ _ _ hP hi0 hi1 hN e he
          constructor <;> omega
        · simp at he
      · simp at he
  · obtain ⟨R, hRe, _, hRv⟩ := build_RHS_spec K A.source_data.latitude A.source_data.areas S
      A.weight_err A.Tikhov_Laplace A.deriv_scale_factor u_lon_rem u_lat_rem vort_term div_term
      R0 (le_trans hi0 (le_of_lt hi1)) (le_trans hj0 (le_of_lt hj1)) hlen hAlen h1 h2 h3 h4 hR
    refine ⟨R, hRe, ?_, ?_⟩
    · rw [hRv 2 _ (by decide) (by decide) hr.1 hr.2]
      simp [rhs_expected, hT]
    · rw [hRv 3 _ (by decide) (by decide) hr.1 hr.2]
      simp [rhs_expected, hT]

end AssemblyClaims2

section AssemblyClaims3
variable {α : Type} [LinearOrderedField α]
variable (K : Constants α) (cos : α → α) (get_diff_vector : GetDiffVector α)

/-- The entry of `W` on each of the rows of a grid point is the cell area of the point. -/
theorem spec_row_weight_point {β : Type} [Zero β] (dAreas : List β) (S : Sizes) (k p : Int)
    (h0 : 0 ≤ p) (h1 : p < S.Nlat * S.Nlon) :
    spec_row_weight dAreas S (k * (S.Nlat * S.Nlon) + p) = dAreas.getD p.toNat 0 := by
  unfold spec_row_weight
  rw [add_comm, Int.add_mul_emod_self, Int.emod_eq_of_lt h0 h1]

/-- C26. With `weight_err = true`, for every grid point `p` and each of its four rows
`k N + p` (`k = 0, 1, 2, 3`), the calls made on the row are those made with
`weight_err = false` with every value multiplied by `W(k N + p)`, and the right-hand-side
entry of the row is its unweighted value multiplied by the same `W(k N + p)`, where `W` is
`spec_row_weight`, a function of the cell areas and the grid sizes alone whose value on each
of the rows of `p` is the cell area `dAreas(p)`; `W` is positive on these rows when all cell
areas are positive. -/
theorem C26_row_scaling (A : Args α) (S : Sizes) (Ilat Ilon : Int)
    (u_lon_rem u_lat_rem vort_term div_term R0 : List α)
    (hw : A.weight_err = true)
    (hi0 : 0 ≤ Ilat) (hi1 : Ilat < S.Nlat) (hj0 : 0 ≤ Ilon) (hj1 : Ilon < S.Nlon)
    (hlen : S.Nlat ≤ A.source_data.latitude.length)
    (hAlen : S.Nlat * S.Nlon ≤ A.source_data.areas.length)
    (h1 : S.Nlat * S.Nlon ≤ u_lon_rem.length) (h2 : S.Nlat * S.Nlon ≤ u_lat_rem.length)
    (h3 : S.Nlat * S.Nlon ≤ vort_term.length) (h4 : S.Nlat * S.Nlon ≤ div_term.length)
    (hR : 4 * (S.Nlat * S.Nlon) ≤ R0.length) :
    (∀ k : Int, 0 ≤ k → k ≤ 3 →
      row_entries (added K cos get_diff_vector A S)
          (k * (S.Nlat * S.Nlon) + Index 0 0 Ilat Ilon 1 1 S.Nlat S.Nlon)
        = (row_entries (added K cos get_diff_vector { A with weight_err := false } S)
            (k * (S.Nlat * S.Nlon) + Index 0 0 Ilat Ilon 1 1 S.Nlat S.Nlon)).map
            (scale_entry (spec_row_weight A.source_data.areas S
              (k * (S.Nlat * S.Nlon) + Index 0 0 Ilat Ilon 1 1 S.Nlat S.Nlon)))) ∧
    (∃ R Rw,
      build_RHS K A.source_data.latitude A.source_data.areas S false A.Tikhov_Laplace
          A.deriv_scale_factor u_lon_rem u_lat_rem vort_term div_term R0 = some R ∧
      build_RHS K A.source_data.latitude A.source_data.areas S true A.Tikhov_Laplace
          A.deriv_scale_factor u_lon_rem u_lat_rem vort_term div_term R0 = some Rw ∧
      ∀ k : Int, 0 ≤ k → k ≤ 3 → ∃ x : α,
        vec_at R (k * (S.Nlat * S.Nlon) + Index 0 0 Ilat Ilon 1 1 S.Nlat S.Nlon) = some x ∧
        vec_at Rw (k * (S.Nlat * S.Nlon) + Index 0 0 Ilat Ilon 1 1 S.Nlat S.Nlon)
          = some (x * spec_row_weight A.source_data.areas S
              (k * (S.Nlat * S.Nlon) + Index 0 0 Ilat Ilon 1 1 S.Nlat S.Nlon))) ∧
    (∀ k : Int,
      vec_at A.source_data.areas (Index 0 0 Ilat Ilon 1 1 S.Nlat S.Nlon)
        = some (spec_row_weight A.source_data.areas S
            (k * (S.Nlat * S.Nlon) + Index 0 0 Ilat Ilon 1 1 S.Nlat S.Nlon))) ∧
    ((∀ a ∈ A.source_data.areas, 0 < a) → ∀ k : Int,
      0 < spec_row_weight A.source_data.areas S
        (k * (S.Nlat * S.Nlon) + Index 0 0 Ilat Ilon 1 1 S.Nlat S.Nlon)) := by
  have hr := Index_sub_range Ilat Ilon S.Nlat S.Nlon hi0 hi1 hj0 hj1
  have hpl : Index 0 0 Ilat Ilon 1 1 S.Nlat S.Nlon < A.source_data.areas.length :=
    lt_of_lt_of_le hr.2 hAlen
  have hdA := vec_at_getD A.source_data.areas (Index 0 0 Ilat Ilon 1 1 S.Nlat S.Nlon) 0
    hr.1 hpl
  have hlat := vec_at_getD A.source_data.latitude Ilat 0 hi0 (lt_of_lt_of_le hi1 hlen)
  have hW : ∀ k : Int, spec_row_weight A.source_data.areas S
        (k * (S.Nlat * S.Nlon) + Index 0 0 Ilat Ilon 1 1 S.Nlat S.Nlon)
      = A.source_data.areas.getD (Index 0 0 Ilat Ilon 1 1 S.Nlat S.Nlon).toNat 0 :=
    fun k => spec_row_weight_point A.source_data.areas S k _ hr.1 hr.2
  refine ⟨?_, ?_, ?_, ?_⟩
  · intro k _ _
    have e : k * (S.Nlat * S.Nlon) + Index 0 0 Ilat Ilon 1 1 S.Nlat S.Nlon
        = point_row S k Ilat Ilon := rfl
    have r1 : point_reads A S Ilat Ilon = some (A.source_data.latitude.getD Ilat.toNat 0,
        A.source_data.areas.getD (Index 0 0 Ilat Ilon 1 1 S.Nlat S.Nlon).toNat 0) := by
      simp [point_reads, hlat, hw, hdA]
    have r0 : point_reads { A with weight_err := false } S Ilat Ilon
        = some (A.source_data.latitude.getD Ilat.toNat 0, 1) := by
      simp [point_reads, hlat]
    rw [hW k, e, added_row K cos get_diff_vector A S k Ilat Ilon _ _ hi0 hi1 hj0 hj1 r1,
      added_row K cos get_diff_vector _ S k Ilat Ilon _ 1 hi0 hi1 hj0 hj1 r0,
      vel_point_weight K cos get_diff_vector A S Ilat Ilon _ _ false,
      lap_point_weight K cos get_diff_vector A S Ilat Ilon _ _ false,
      row_entries_map_scale, row_entries_map_scale, List.map_append]
  · obtain ⟨R, hRe, _, hRv⟩ := build_RHS_spec K A.source_data.latitude A.source_data.areas S
      false A.Tikhov_Laplace A.deriv_scale_factor u_lon_rem u_lat_rem vort_term div_term R0
      (le_trans hi0 (le_of_lt hi1)) (le_trans hj0 (le_of_lt hj1)) hlen (by simp) h1 h2 h3 h4 hR
    obtain ⟨Rw, hWe, _, hWv⟩ := build_RHS_spec K A.source_data.latitude A.source_data.areas S
      true A.Tikhov_Laplace A.deriv_scale_factor u_lon_rem u_lat_rem vort_term div_term R0
      (le_trans hi0 (le_of_lt hi1)) (le_trans hj0 (le_of_lt hj1)) hlen (fun _ => hAlen)
      h1 h2 h3 h4 hR
    refine ⟨R, Rw, hRe, hWe, ?_⟩
    intro k hk0 hk3
    refine ⟨_, hRv k _ hk0 hk3 hr.1 hr.2, ?_⟩
    rw [hWv k _ hk0 hk3 hr.1 hr.2, rhs_expected_weight, hW k]
  · intro k
    rw [hW k]
    exact hdA
  · intro hpos k
    rw [hW k]
    have h2 : (Index 0 0 Ilat Ilon 1 1 S.Nlat S.Nlon).toNat < A.source_data.areas.length := by
      have := hr.1
      omega
    rw [List.getD_eq_getElem _ _ h2]
    exact hpos _ (List.getElem_mem h2)

/-- C26 at the point `(1, 2)` of the test grid, whose cell areas are 4 and 9. -/
theorem C26_row_scaling_witness :
    (∀ k : Int, 0 ≤ k → k ≤ 3 →
      row_entries (added ex_K ex_cos ex_gdv (ex_A ex_data true 1 0) ex_S)
          (k * (ex_S.Nlat * ex_S.Nlon) + Index 0 0 1 2 1 1 ex_S.Nlat ex_S.Nlon)
        = (row_entries
            (added ex_K ex_cos ex_gdv { ex_A ex_data true 1 0 with weight_err := false } ex_S)
            (k * (ex_S.Nlat * ex_S.Nlon) + Index 0 0 1 2 1 1 ex_S.Nlat ex_S.Nlon)).map
            (scale_entry (spec_row_weight ex_data.areas ex_S
              (k * (ex_S.Nlat * ex_S.Nlon) + Index 0 0 1 2 1 1 ex_S.Nlat ex_S.Nlon)))) ∧
    (∃ R Rw,
      build_RHS ex_K ex_data.latitude ex_data.areas ex_S false 1 (1 / 2) ex_u_lon_rem
          ex_u_lat_rem ex_vort_term ex_div_term (List.replicate 48 0) = some R ∧
      build_RHS ex_K ex_data.latitude ex_data.areas ex_S true 1 (1 / 2) ex_u_lon_rem
          ex_u_lat_rem ex_vort_term ex_div_term (List.replicate 48 0) = some Rw ∧
      ∀ k : Int, 0 ≤ k → k ≤ 3 → ∃ x : ℚ,
        vec_at R (k * (ex_S.Nlat * ex_S.Nlon) + Index 0 0 1 2 1 1 ex_S.Nlat ex_S.Nlon) = some x ∧
        vec_at Rw (k * (ex_S.Nlat * ex_S.Nlon) + Index 0 0 1 2 1 1 ex_S.Nlat ex_S.Nlon)
          = some (x * spec_row_weight ex_data.areas ex_S
              (k * (ex_S.Nlat * ex_S.Nlon) + Index 0 0 1 2 1 1 ex_S.Nlat ex_S.Nlon))) ∧
    (∀ k : Int,
      vec_at ex_data.areas (Index 0 0 1 2 1 1 ex_S.Nlat ex_S.Nlon)
        = some (spec_row_weight ex_data.areas ex_S
            (k * (ex_S.Nlat * ex_S.Nlon) + Index 0 0 1 2 1 1 ex_S.Nlat ex_S.Nlon))) ∧
    ((∀ a ∈ ex_data.areas, 0 < a) → ∀ k : Int,
      0 < spec_row_weight ex_data.areas ex_S
        (k * (ex_S.Nlat * ex_S.Nlon) + Index 0 0 1 2 1 1 ex_S.Nlat ex_S.Nlon)) :=
  C26_row_scaling ex_K ex_cos ex_gdv (ex_A ex_data true 1 0) ex_S 1 2 ex_u_lon_rem
    ex_u_lat_rem ex_vort_term ex_div_term (List.replicate 48 0) (by rfl) (by decide)
    (by decide) (by decide) (by decide) (by decide) (by decide) (by decide) (by decide)
    (by decide) (by decide) (by decide)

end AssemblyClaims3

/-! ## The other outputs of `compute_vorticity_at_point` -/

section VorticityClaims2
variable {α : Type} [LinearOrderedField α]

/-- The other two components in the spherical branch: with the four lookups successful the
function returns with `vort_lon_tmp` and `vort_lat_tmp` given by the formulas of lines
110-111, in which the unassigned locals `ulat_r` and `ulon_r` occur. -/
theorem compute_vorticity_spherical_components (K : Constants α) (cos tan : α → α)
    (spher_derivative_at_point : SpherDerivative α)
    (Cart_derivatives_at_point : CartDerivatives α) (ulon_r ulat_r ur_r : α)
    (u_r u_lon u_lat : List α) (Ntime Ndepth Nlat Nlon Itime Idepth Ilat Ilon : Int)
    (longitude latitude : List α) (mask : List Bool) (lat w u v : α)
    (hlat : vec_at latitude Ilat = some lat)
    (hw : vec_at u_r (Index Itime Idepth Ilat Ilon Ntime Ndepth Nlat Nlon) = some w)
    (hu : vec_at u_lon (Index Itime Idepth Ilat Ilon Ntime Ndepth Nlat Nlon) = some u)
    (hv : vec_at u_lat (Index Itime Idepth Ilat Ilon Ntime Ndepth Nlat Nlon) = some v) :
    ∃ out, compute_vorticity_at_point K false cos tan spher_derivative_at_point
        Cart_derivatives_at_point ulon_r ulat_r ur_r u_r u_lon u_lat
        Ntime Ndepth Nlat Nlon Itime Idepth Ilat Ilon longitude latitude mask = some out ∧
      out.vort_lon_tmp
        = (spher_derivative_at_point [u_lon, u_lat, u_r] latitude "lat"
              Itime Idepth Ilat Ilon Ntime Ndepth Nlat Nlon mask 2 - v) / K.R_earth
          - ulat_r ∧
      out.vort_lat_tmp
        = (u - spher_derivative_at_point [u_lon, u_lat, u_r] longitude "lon"
              Itime Idepth Ilat Ilon Ntime Ndepth Nlat Nlon mask 2 / cos lat) / K.R_earth
          + ulon_r := by
  unfold compute_vorticity_at_point
  simp only [Bool.false_eq_true, if_false, hlat, hw, hu, hv, Option.bind_eq_bind,
    Option.some_bind]
  exact ⟨_, rfl, rfl, rfl⟩

/-- C28. In the `CARTESIAN` branch, for all values of the velocity derivatives, the function
returns with `OkuboWeiss_tmp = (ux_x - uy_y)^2 + 4 * ux_y * uy_x` and
`vort_r_tmp = uy_x - ux_y`, and this Okubo-Weiss value equals `s_n^2 + s_s^2 - vort_r_tmp^2`
for the normal strain `s_n = ux_x - uy_y` and the shear strain `s_s = uy_x + ux_y`. -/
theorem C28_cartesian_okubo_weiss (K : Constants α) (cos tan : α → α)
    (spher_derivative_at_point : SpherDerivative α)
    (Cart_derivatives_at_point : CartDerivatives α) (ulon_r ulat_r ur_r : α)
    (u_r u_lon u_lat : List α) (Ntime Ndepth Nlat Nlon Itime Idepth Ilat Ilon : Int)
    (longitude latitude : List α) (mask : List Bool) :
    ∃ (out : VortOut α) (ux_x ux_y uy_x uy_y s_n s_s : α),
      compute_vorticity_at_point K true cos tan spher_derivative_at_point
        Cart_derivatives_at_point ulon_r ulat_r ur_r u_r u_lon u_lat
        Ntime Ndepth Nlat Nlon Itime Idepth Ilat Ilon longitude latitude mask = some out ∧
      ux_x = (Cart_derivatives_at_point [u_lon, u_lat, u_r] latitude longitude
        Itime Idepth Ilat Ilon Ntime Ndepth Nlat Nlon mask).1 0 ∧
      uy_x = (Cart_derivatives_at_point [u_lon, u_lat, u_r] latitude longitude
        Itime Idepth Ilat Ilon Ntime Ndepth Nlat Nlon mask).1 1 ∧
      ux_y = (Cart_derivatives_at_point [u_lon, u_lat, u_r] latitude longitude
        Itime Idepth Ilat Ilon Ntime Ndepth Nlat Nlon mask).2.1 0 ∧
      uy_y = (Cart_derivatives_at_point [u_lon, u_lat, u_r] latitude longitude
        Itime Idepth Ilat Ilon Ntime Ndepth Nlat Nlon mask).2.1 1 ∧
      out.OkuboWeiss_tmp = (ux_x - uy_y) ^ 2 + 4 * ux_y * uy_x ∧
      out.vort_r_tmp = uy_x - ux_y ∧
      s_n = ux_x - uy_y ∧ s_s = uy_x + ux_y ∧
      out.OkuboWeiss_tmp = s_n ^ 2 + s_s ^ 2 - out.vort_r_tmp ^ 2 := by
  unfold compute_vorticity_at_point
  simp only [if_true]
  refine ⟨_, _, _, _, _, _, _, rfl, rfl, rfl, rfl, rfl, rfl, rfl, rfl, rfl, ?_⟩
  show (_ - _) ^ 2 + 4 * _ * _ = (_ - _) ^ 2 + (_ + _) ^ 2 - (_ - _) ^ 2
  ring

end VorticityClaims2

/-- C25, the code at a failing input.  On the small grid in the spherical configuration, at
the point `(2, 1)`: whatever values `a` and `b` the unassigned locals `ulon_r` and `ulat_r`
hold, the function returns with `vort_lon_tmp = (d u_r / d lat - u_lat) / R_earth - b` and
`vort_lat_tmp = (u_lon - (d u_r / d lon) / cos(lat)) / R_earth + a`; with `a = b = 0` both
are non-zero (5 and 5). -/
theorem C25_other_components_assigned :
    (∀ a b : ℚ, ∃ out, compute_vorticity_at_point ex_K false ex_cos ex_tan ex_spher ex_Cart
        a b 0 ex_u_r ex_u_lon_rem ex_u_lat_rem 1 1 3 4 0 0 2 1 ex_data.longitude
        ex_data.latitude ex_data.mask = some out ∧
      out.vort_lon_tmp
        = (ex_spher [ex_u_lon_rem, ex_u_lat_rem, ex_u_r] ex_data.latitude "lat"
            0 0 2 1 1 1 3 4 ex_data.mask 2 - (-10)) / ex_K.R_earth - b ∧
      out.vort_lat_tmp
        = (10 - ex_spher [ex_u_lon_rem, ex_u_lat_rem, ex_u_r] ex_data.longitude "lon"
            0 0 2 1 1 1 3 4 ex_data.mask 2 / ex_cos (11 / 14)) / ex_K.R_earth + a) ∧
    (∃ out, compute_vorticity_at_point ex_K false ex_cos ex_tan ex_spher ex_Cart
        0 0 0 ex_u_r ex_u_lon_rem ex_u_lat_rem 1 1 3 4 0 0 2 1 ex_data.longitude
        ex_data.latitude ex_data.mask = some out ∧
      out.vort_lon_tmp = 5 ∧ out.vort_lat_tmp = 5 ∧
      out.vort_lon_tmp ≠ 0 ∧ out.vort_lat_tmp ≠ 0) := by
  have hcode : ∀ a b : ℚ, ∃ out, compute_vorticity_at_point ex_K false ex_cos ex_tan ex_spher
        ex_Cart a b 0 ex_u_r ex_u_lon_rem ex_u_lat_rem 1 1 3 4 0 0 2 1 ex_data.longitude
        ex_data.latitude ex_data.mask = some out ∧
      out.vort_lon_tmp
        = (ex_spher [ex_u_lon_rem, ex_u_lat_rem, ex_u_r] ex_data.latitude "lat"
            0 0 2 1 1 1 3 4 ex_data.mask 2 - (-10)) / ex_K.R_earth - b ∧
      out.vort_lat_tmp
        = (10 - ex_spher [ex_u_lon_rem, ex_u_lat_rem, ex_u_r] ex_data.longitude "lon"
            0 0 2 1 1 1 3 4 ex_data.mask 2 / ex_cos (11 / 14)) / ex_K.R_earth + a :=
    fun a b => compute_vorticity_spherical_components ex_K ex_cos ex_tan ex_spher
      ex_Cart a b 0 ex_u_r ex_u_lon_rem ex_u_lat_rem 1 1 3 4 0 0 2 1 ex_data.longitude
      ex_data.latitude ex_data.mask (11 / 14) 0 10 (-10) (by rfl) (by rfl) (by rfl) (by rfl)
  refine ⟨hcode, ?_⟩
  obtain ⟨out, h1, h2, h3⟩ := hcode 0 0
  have z1 : ex_spher [ex_u_lon_rem, ex_u_lat_rem, ex_u_r] ex_data.latitude "lat"
      0 0 2 1 1 1 3 4 ex_data.mask 2 = 0 := by
    have hne : ¬(("lat" : String) = "lon") := by decide
    simp only [ex_spher, Index, if_neg hne]
    have t1 : ((0 : Int) * (1 * 3 * 4) + 0 * (3 * 4) + 2 * 4 + 1).toNat = 9 := by decide
    have t2 : ((0 : Int) * (1 * 3 * 4) + 0 * (3 * 4) + 2 * 4 + 1 - 4).toNat = 5 := by decide
    rw [t1, t2]
    simp [ex_u_r]
  have z2 : ex_spher [ex_u_lon_rem, ex_u_lat_rem, ex_u_r] ex_data.longitude "lon"
      0 0 2 1 1 1 3 4 ex_data.mask 2 = 0 := by
    simp only [ex_spher, Index, if_true]
    have t1 : ((0 : Int) * (1 * 3 * 4) + 0 * (3 * 4) + 2 * 4 + 1).toNat = 9 := by decide
    have t2 : ((0 : Int) * (1 * 3 * 4) + 0 * (3 * 4) + 2 * 4 + 1 - 1).toNat = 8 := by decide
    rw [t1, t2]
    simp [ex_u_r]
  have e1 : out.vort_lon_tmp = 5 := by
    rw [h2, z1]
    norm_num [ex_K]
  have e2 : out.vort_lat_tmp = 5 := by
    rw [h3, z2]
    norm_num [ex_K]
  refine ⟨out, h1, e1, e2, ?_, ?_⟩
  · rw [e1]; norm_num
  · rw [e2]; norm_num

/-! ## The names written by `filtering_helmholtz` -/

/-- C27, the code at a failing input.  With `NO_FULL_OUTPUTS` false and `MINIMAL_OUTPUT`
true (so that `NO_FULL_OUTPUTS` implies `MINIMAL_OUTPUT`), whatever the other flags: the
output file is initialised, and the names `KE_tor_filt`, `KE_pot_filt`, `KE_tot_filt` are
written to it although they are not among the declared names.  These three are the only
ones: in every configuration in which `NO_FULL_OUTPUTS` implies `MINIMAL_OUTPUT`, every other
written name is declared, and nothing is written when the file is not initialised. -/
theorem C27_filtered_KE_undeclared :
    (∀ c : Flags, c.NO_FULL_OUTPUTS = false → c.MINIMAL_OUTPUT = true →
      file_initialised c = true ∧
      ∀ name ∈ ["KE_tor_filt", "KE_pot_filt", "KE_tot_filt"],
        name ∈ written_vars c ∧ name ∉ vars_to_write c) ∧
    (∀ c : Flags, (c.NO_FULL_OUTPUTS = true → c.MINIMAL_OUTPUT = true) →
      (∀ name ∈ written_vars c,
        name ∈ vars_to_write c ∨ name ∈ ["KE_tor_filt", "KE_pot_filt", "KE_tot_filt"]) ∧
      (file_initialised c = false → written_vars c = [])) := by
  constructor
  · rintro ⟨a1, a2, a3, a4, a5, a6, a7⟩ h3 h5
    simp only at h3 h5
    subst h3 h5
    show file_initialised ⟨false, false, false, false, true, a6, a7⟩ = true ∧
      ∀ name ∈ ["KE_tor_filt", "KE_pot_filt", "KE_tot_filt"],
        name ∈ written_vars ⟨false, false, false, false, true, a6, a7⟩ ∧
        name ∉ vars_to_write ⟨false, false, false, false, true, a6, a7⟩
    cases a6 <;> cases a7 <;> decide
  · rintro ⟨a1, a2, a3, a4, a5, a6, a7⟩ h
    simp only at h
    show (∀ name ∈ written_vars ⟨false, false, a3, false, a5, a6, a7⟩,
        name ∈ vars_to_write ⟨false, false, a3, false, a5, a6, a7⟩ ∨
        name ∈ ["KE_tor_filt", "KE_pot_filt", "KE_tot_filt"]) ∧
      (file_initialised ⟨false, false, a3, false, a5, a6, a7⟩ = false →
        written_vars ⟨false, false, a3, false, a5, a6, a7⟩ = [])
    cases a3 <;> cases a5 <;> cases a6 <;> cases a7 <;> first
      | decide
      | exact absurd (h rfl) (by decide)

/-! ## The error norms: root-mean-square against maximum -/

section NormClaims
variable {α : Type} [LinearOrderedField α]

/-- A weighted sum of values bounded by `B`, with non-negative weights, is at most `B` times
the sum of the weights. -/
theorem cell_sum_weighted_le (n : Nat) (a q : Nat → α) (B : α)
    (ha : ∀ m, m < n → 0 ≤ a m) (hq : ∀ m, m < n → q m ≤ B) :
    cell_sum n (fun m => a m * q m) ≤ B * cell_sum n a := by
  induction n with
  | zero => rw [cell_sum_zero, cell_sum_zero, mul_zero]
  | succ k ih =>
    rw [cell_sum_succ, cell_sum_succ, mul_add]
    have h1 := ih (fun m hm => ha m (Nat.lt_succ_of_lt hm))
      (fun m hm => hq m (Nat.lt_succ_of_lt hm))
    have h2 : a k * q k ≤ B * a k := by
      rw [mul_comm B]
      exact mul_le_mul_of_nonneg_left (hq k (Nat.lt_succ_self k)) (ha k (Nat.lt_succ_self k))
    exact add_le_add h1 h2

/-- A sum of non-negative values is non-negative. -/
theorem cell_sum_nonneg (n : Nat) (f : Nat → α) (h : ∀ m, m < n → 0 ≤ f m) :
    0 ≤ cell_sum n f := by
  induction n with
  | zero => rw [cell_sum_zero]
  | succ k ih =>
    rw [cell_sum_succ]
    exact add_nonneg (ih (fun m hm => h m (Nat.lt_succ_of_lt hm))) (h k (Nat.lt_succ_self k))

/-- A square root that is non-negative and whose square is its argument is monotone on the
non-negative numbers. -/
theorem sqrt_le_sqrt_of_sq (sqrt : α → α) (hsqrt : ∀ x, 0 ≤ sqrt x)
    (hsq : ∀ x, 0 ≤ x → sqrt x ^ 2 = x) (x y : α) (hx : 0 ≤ x) (hxy : x ≤ y) :
    sqrt x ≤ sqrt y := by
  by_contra h
  have h1 : sqrt y < sqrt x := lt_of_not_le h
  have h2 : sqrt y ^ 2 < sqrt x ^ 2 := pow_lt_pow_left₀ h1 (hsqrt y) (by decide)
  rw [hsq x hx, hsq y (le_trans hx hxy)] at h2
  exact absurd hxy (not_le_of_lt h2)

/-- A square root that is non-negative and whose square is its argument returns `y` on the
square of a non-negative `y`. -/
theorem sqrt_sq_of_sq (sqrt : α → α) (hsqrt : ∀ x, 0 ≤ sqrt x)
    (hsq : ∀ x, 0 ≤ x → sqrt x ^ 2 = x) (y : α) (hy : 0 ≤ y) : sqrt (y ^ 2) = y := by
  have h := hsq (y ^ 2) (sq_nonneg y)
  have h2 := (sq_eq_sq_iff_abs_eq_abs _ _).mp h
  rw [abs_of_nonneg (hsqrt _), abs_of_nonneg hy] at h2
  exact h2

/-- The area-weighted root-mean-square of a non-negative quantity is at most the largest
square root of the quantity over the cells, and the mean itself is at most the square of
that maximum. -/
theorem area_rms_le_cell_max (sqrt : α → α) (hsqrt : ∀ x, 0 ≤ sqrt x)
    (hsq : ∀ x, 0 ≤ x → sqrt x ^ 2 = x) (dAreas : List α) (N : Nat) (q : Nat → α)
    (hq : ∀ m, 0 ≤ q m) (hA0 : ∀ m : Nat, m < N → 0 ≤ sub_value dAreas m)
    (hAp : 0 < cell_sum N (fun m => sub_value dAreas m)) :
    cell_sum N (fun m => sub_value dAreas m * q m) / cell_sum N (fun m => sub_value dAreas m)
        ≤ cell_max N (fun m => sqrt (q m)) ^ 2 ∧
    area_rms sqrt dAreas N q ≤ cell_max N (fun m => sqrt (q m)) := by
  have hM : 0 ≤ cell_max N (fun m => sqrt (q m)) := cell_max_nonneg N _
  have hb : ∀ m, m < N → q m ≤ cell_max N (fun m => sqrt (q m)) ^ 2 := by
    intro m hm
    have h1 := cell_max_ge N (fun m => sqrt (q m)) m hm
    have h2 : sqrt (q m) ^ 2 ≤ cell_max N (fun m => sqrt (q m)) ^ 2 :=
      pow_le_pow_left₀ (hsqrt _) h1 2
    rw [hsq _ (hq m)] at h2
    exact h2
  have hs := cell_sum_weighted_le N (fun m => sub_value dAreas m) q _ hA0 hb
  have hd : cell_sum N (fun m => sub_value dAreas m * q m)
      / cell_sum N (fun m => sub_value dAreas m) ≤ cell_max N (fun m => sqrt (q m)) ^ 2 :=
    (div_le_iff₀ hAp).mpr hs
  refine ⟨hd, ?_⟩
  have hn : 0 ≤ cell_sum N (fun m => sub_value dAreas m * q m)
      / cell_sum N (fun m => sub_value dAreas m) := by
    exact div_nonneg
      (cell_sum_nonneg N _ (fun m hm => mul_nonneg (hA0 m hm) (hq m))) (le_of_lt hAp)
  have := sqrt_le_sqrt_of_sq sqrt hsqrt hsq _ _ hn hd
  rw [sqrt_sq_of_sq sqrt hsqrt hsq _ hM] at this
  exact this

/-- C29. With a square root that is non-negative and squares back to its argument, cell areas
that are non-negative and a positive total area, the error norms are computed and for every
slice the stored numbers satisfy `projection_2error <= projection_Inferror` and
`velocity_2norm <= velocity_Infnorm`; equivalently the area-weighted mean of `|r|^2`, with
`r = u - u_tor - u_pot`, divided by the stored total area is at most the square of the stored
maximum of `|r|`, and likewise for `|u|^2`. -/
theorem C29_rms_le_max (sqrt : α → α) (hsqrt : ∀ x, 0 ≤ sqrt x)
    (hsq : ∀ x, 0 ≤ x → sqrt x ^ 2 = x)
    (dAreas u_lon u_lat : List α) (F : Stored α) (S : Sizes)
    (hT : 0 ≤ S.Ntime) (hD : 0 ≤ S.Ndepth) (hN0 : 0 ≤ S.Nlat) (hN : 0 ≤ S.Nlon)
    (hA : S.Nlat * S.Nlon ≤ dAreas.length)
    (h1 : S.Ntime * S.Ndepth * (S.Nlat * S.Nlon) ≤ u_lon.length)
    (h2 : S.Ntime * S.Ndepth * (S.Nlat * S.Nlon) ≤ u_lat.length)
    (h3 : S.Ntime * S.Ndepth * (S.Nlat * S.Nlon) ≤ F.full_u_lon_tor.length)
    (h4 : S.Ntime * S.Ndepth * (S.Nlat * S.Nlon) ≤ F.full_u_lat_tor.length)
    (h5 : S.Ntime * S.Ndepth * (S.Nlat * S.Nlon) ≤ F.full_u_lon_pot.length)
    (h6 : S.Ntime * S.Ndepth * (S.Nlat * S.Nlon) ≤ F.full_u_lat_pot.length)
    (hA0 : ∀ m : Nat, m < (S.Nlat * S.Nlon).toNat → 0 ≤ sub_value dAreas m)
    (hAp : 0 < cell_sum (S.Nlat * S.Nlon).toNat (fun m => sub_value dAreas m)) :
    ∃ r, projection_reports sqrt dAreas u_lon u_lat F S = some r ∧
      ∀ Itime Idepth : Int, 0 ≤ Itime → Itime < S.Ntime → 0 ≤ Idepth → Idepth < S.Ndepth →
        ∃ rep : SliceReport α,
          report_at r (Itime * S.Ndepth + Idepth) = some rep ∧
          rep.projection_2error ≤ rep.projection_Inferror ∧
          rep.velocity_2norm ≤ rep.velocity_Infnorm ∧
          cell_sum (S.Nlat * S.Nlon).toNat (fun m => sub_value dAreas m
              * residual_sq u_lon u_lat F
                  (Index Itime Idepth 0 0 S.Ntime S.Ndepth S.Nlat S.Nlon) m)
            / rep.total_area ≤ rep.projection_Inferror ^ 2 ∧
          cell_sum (S.Nlat * S.Nlon).toNat (fun m => sub_value dAreas m
              * speed_sq u_lon u_lat (Index Itime Idepth 0 0 S.Ntime S.Ndepth S.Nlat S.Nlon) m)
            / rep.total_area ≤ rep.velocity_Infnorm ^ 2 := by
  obtain ⟨r, hr, hP⟩ := projection_reports_spec sqrt hsqrt dAreas u_lon u_lat F S hT hD hN0 hN
    hA h1 h2 h3 h4 h5 h6
  refine ⟨r, hr, ?_⟩
  intro Itime Idepth ht0 ht1 hz0 hz1
  have e1 := area_rms_le_cell_max sqrt hsqrt hsq dAreas (S.Nlat * S.Nlon).toNat
    (fun m => residual_sq u_lon u_lat F (slice_base S Itime Idepth) m)
    (fun m => add_nonneg (sq_nonneg _) (sq_nonneg _)) hA0 hAp
  have e2 := area_rms_le_cell_max sqrt hsqrt hsq dAreas (S.Nlat * S.Nlon).toNat
    (fun m => speed_sq u_lon u_lat (slice_base S Itime Idepth) m)
    (fun m => add_nonneg (sq_nonneg _) (sq_nonneg _)) hA0 hAp
  exact ⟨_, hP Itime Idepth ht0 ht1 hz0 hz1, e1.2, e2.2, e1.1, e2.1⟩

/-- C29 over the real numbers with `Real.sqrt`, on a slice of two cells of areas 1 and 3 with
velocity `(3, 4)` in the first cell and nothing stored for the two parts. -/
theorem C29_rms_le_max_witness :
    ∃ r, projection_reports Real.sqrt ([1, 3] : List ℝ) [3, 0] [4, 0]
        ⟨[0, 0], [0, 0], [0, 0], [0, 0], [], [], [], []⟩ ex_S1 = some r ∧
      ∀ Itime Idepth : Int, 0 ≤ Itime → Itime < ex_S1.Ntime → 0 ≤ Idepth →
        Idepth < ex_S1.Ndepth →
        ∃ rep : SliceReport ℝ,
          report_at r (Itime * ex_S1.Ndepth + Idepth) = some rep ∧
          rep.projection_2error ≤ rep.projection_Inferror ∧
          rep.velocity_2norm ≤ rep.velocity_Infnorm ∧
          cell_sum (ex_S1.Nlat * ex_S1.Nlon).toNat (fun m => sub_value ([1, 3] : List ℝ) m
              * residual_sq [3, 0] [4, 0] ⟨[0, 0], [0, 0], [0, 0], [0, 0], [], [], [], []⟩
                  (Index Itime Idepth 0 0 ex_S1.Ntime ex_S1.Ndepth ex_S1.Nlat ex_S1.Nlon) m)
            / rep.total_area ≤ rep.projection_Inferror ^ 2 ∧
          cell_sum (ex_S1.Nlat * ex_S1.Nlon).toNat (fun m => sub_value ([1, 3] : List ℝ) m
              * speed_sq [3, 0] [4, 0]
                  (Index Itime Idepth 0 0 ex_S1.Ntime ex_S1.Ndepth ex_S1.Nlat ex_S1.Nlon) m)
            / rep.total_area ≤ rep.velocity_Infnorm ^ 2 :=
  C29_rms_le_max Real.sqrt Real.sqrt_nonneg (fun _ hx => Real.sq_sqrt hx) [1, 3] [3, 0] [4, 0]
    ⟨[0, 0], [0, 0], [0, 0], [0, 0], [], [], [], []⟩ ex_S1 (by decide) (by decide) (by decide)
    (by decide) (by decide) (by decide) (by decide) (by decide) (by decide) (by decide)
    (by decide)
    (by
      intro m hm
      have hm2 : m < 2 := hm
      interval_cases m <;> simp [sub_value])
    (by
      rw [show (ex_S1.Nlat * ex_S1.Nlon).toNat = 2 from rfl]
      simp [cell_sum, List.range_succ, sub_value]
      norm_num)

end NormClaims

/-! ## `Index` in the 32-bit arithmetic of the code -/

/-- A value in the range of `int` is held unchanged. -/
theorem int32_of_range (x : Int) (h0 : -2 ^ 31 ≤ x) (h1 : x < 2 ^ 31) : int32 x = x := by
  unfold int32
  omega

/-- A non-negative value below a bound that fits in `int` is held unchanged. -/
theorem int32_of_lt (x N : Int) (h0 : 0 ≤ x) (h1 : x ≤ N) (hN : N < 2 ^ 31) : int32 x = x :=
  int32_of_range x (by omega) (by omega)

/-- When the number of elements `Ntime * Ndepth * Nlat * Nlon` fits in `int`, no operation of
`Index` overflows on an in-range tuple: the code returns the offset computed in unbounded
integers. -/
theorem Index_int32_eq (Ntime Ndepth Nlat Nlon t z i j : Int)
    (hsize : Ntime * Ndepth * Nlat * Nlon < 2 ^ 31)
    (ht : 0 ≤ t ∧ t < Ntime) (hz : 0 ≤ z ∧ z < Ndepth) (hi : 0 ≤ i ∧ i < Nlat)
    (hj : 0 ≤ j ∧ j < Nlon) :
    Index_int32 t z i j Ntime Ndepth Nlat Nlon = Index t z i j Ntime Ndepth Nlat Nlon := by
  have hT : 1 ≤ Ntime := by omega
  have hD : 1 ≤ Ndepth := by omega
  have hL : 1 ≤ Nlat := by omega
  have hO : 1 ≤ Nlon := by omega
  have pa : 0 ≤ Ndepth * Nlat := by positivity
  have pc : 0 ≤ Nlat * Nlon := by positivity
  have pb : 0 ≤ Ndepth * Nlat * Nlon := by positivity
  -- the sizes of the sub-arrays
  have c_le_b : Nlat * Nlon ≤ Ndepth * Nlat * Nlon := by nlinarith
  have a_le_b : Ndepth * Nlat ≤ Ndepth * Nlat * Nlon := by nlinarith
  have b_le_N : Ndepth * Nlat * Nlon ≤ Ntime * Ndepth * Nlat * Nlon := by nlinarith
  -- the terms
  have t1 : 0 ≤ t * (Ndepth * Nlat * Nlon) := mul_nonneg ht.1 pb
  have t2 : 0 ≤ z * (Nlat * Nlon) := mul_nonneg hz.1 pc
  have t3 : 0 ≤ i * Nlon := mul_nonneg hi.1 (by omega)
  have r := (Index_injective Ntime Ndepth Nlat Nlon t z i j t z i j ht hz hi hj hz hi hj).1
  unfold Index at r
  have e1 : int32 (Ndepth * Nlat) = Ndepth * Nlat :=
    int32_of_lt _ _ pa (le_trans a_le_b b_le_N) hsize
  have e2 : int32 (Ndepth * Nlat * Nlon) = Ndepth * Nlat * Nlon :=
    int32_of_lt _ _ pb b_le_N hsize
  have e3 : int32 (Nlat * Nlon) = Nlat * Nlon :=
    int32_of_lt _ _ pc (le_trans c_le_b b_le_N) hsize
  have e4 : int32 (t * (Ndepth * Nlat * Nlon)) = t * (Ndepth * Nlat * Nlon) :=
    int32_of_lt _ _ t1 (by omega) hsize
  have e5 : int32 (z * (Nlat * Nlon)) = z * (Nlat * Nlon) :=
    int32_of_lt _ _ t2 (by omega) hsize
  have e6 : int32 (i * Nlon) = i * Nlon := int32_of_lt _ _ t3 (by omega) hsize
  have e7 : int32 (t * (Ndepth * Nlat * Nlon) + z * (Nlat * Nlon))
      = t * (Ndepth * Nlat * Nlon) + z * (Nlat * Nlon) :=
    int32_of_lt _ _ (by omega) (by omega) hsize
  have e8 : int32 (t * (Ndepth * Nlat * Nlon) + z * (Nlat * Nlon) + i * Nlon)
      = t * (Ndepth * Nlat * Nlon) + z * (Nlat * Nlon) + i * Nlon :=
    int32_of_lt _ _ (by omega) (by omega) hsize
  have e9 : int32 (t * (Ndepth * Nlat * Nlon) + z * (Nlat * Nlon) + i * Nlon + j)
      = t * (Ndepth * Nlat * Nlon) + z * (Nlat * Nlon) + i * Nlon + j :=
    int32_of_lt _ _ (by omega) (by omega) hsize
  unfold Index_int32 Index
  rw [e1, e2, e3, e4, e5, e6, e7, e8, e9]

/-- C15 (amended). For sizes whose product `Ntime * Ndepth * Nlat * Nlon` fits in the 32-bit
`int` in which `Index` computes, the function returns on every in-range tuple
`(Itime, Idepth, Ilat, Ilon)` the offset `Itime * (Ndepth * Nlat * Nlon) + Idepth * (Nlat * Nlon)
+ Ilat * Nlon + Ilon`, a value in `[0, Ntime * Ndepth * Nlat * Nlon)`, and two in-range
tuples with the same index are equal: two distinct centres never address the same element of
an output array.  (The sizes are positive as soon as an in-range tuple exists.) -/
theorem C15_index_injective (Ntime Ndepth Nlat Nlon : Int) (t z i j t2 z2 i2 j2 : Int)
    (hsize : Ntime * Ndepth * Nlat * Nlon < 2 ^ 31)
    (ht : 0 ≤ t ∧ t < Ntime) (hz : 0 ≤ z ∧ z < Ndepth) (hi : 0 ≤ i ∧ i < Nlat)
    (hj : 0 ≤ j ∧ j < Nlon)
    (ht2 : 0 ≤ t2 ∧ t2 < Ntime) (hz2 : 0 ≤ z2 ∧ z2 < Ndepth) (hi2 : 0 ≤ i2 ∧ i2 < Nlat)
    (hj2 : 0 ≤ j2 ∧ j2 < Nlon) :
    Index_int32 t z i j Ntime Ndepth Nlat Nlon
      = t * (Ndepth * Nlat * Nlon) + z * (Nlat * Nlon) + i * Nlon + j ∧
    (0 ≤ Index_int32 t z i j Ntime Ndepth Nlat Nlon ∧
      Index_int32 t z i j Ntime Ndepth Nlat Nlon < Ntime * Ndepth * Nlat * Nlon) ∧
    (Index_int32 t z i j Ntime Ndepth Nlat Nlon
        = Index_int32 t2 z2 i2 j2 Ntime Ndepth Nlat Nlon →
      t = t2 ∧ z = z2 ∧ i = i2 ∧ j = j2) := by
  rw [Index_int32_eq Ntime Ndepth Nlat Nlon t z i j hsize ht hz hi hj,
    Index_int32_eq Ntime Ndepth Nlat Nlon t2 z2 i2 j2 hsize ht2 hz2 hi2 hj2]
  exact ⟨rfl, Index_injective Ntime Ndepth Nlat Nlon t z i j t2 z2 i2 j2 ht hz hi hj hz2 hi2 hj2⟩

/-- C15 (amended) on a `2 x 3 x 4 x 5` array, at the tuples `(1, 2, 3, 4)` and
`(1, 0, 2, 1)`. -/
theorem C15_index_injective_witness :
    Index_int32 1 2 3 4 2 3 4 5 = 1 * (3 * 4 * 5) + 2 * (4 * 5) + 3 * 5 + 4 ∧
    (0 ≤ Index_int32 1 2 3 4 2 3 4 5 ∧ Index_int32 1 2 3 4 2 3 4 5 < 2 * 3 * 4 * 5) ∧
    (Index_int32 1 2 3 4 2 3 4 5 = Index_int32 1 0 2 1 2 3 4 5 →
      (1 : Int) = 1 ∧ (2 : Int) = 0 ∧ (3 : Int) = 2 ∧ (4 : Int) = 1) :=
  C15_index_injective 2 3 4 5 1 2 3 4 1 0 2 1 (by decide) (by decide) (by decide) (by decide)
    (by decide) (by decide) (by decide) (by decide) (by decide)

/-- C15 as stated fails for sizes whose product does not fit in `int`.  On a
`2 x 50000 x 50000 x 1` array the in-range tuple `(1, 0, 0, 0)` gets the index
`-1794967296`, which is not in `[0, Ntime * Ndepth * Nlat * Nlon)`; and on a
`2 x 65536 x 65536 x 1` array the distinct in-range tuples `(1, 0, 0, 0)` and `(0, 0, 0, 0)`
get the same index 0. -/
theorem C15_counterexample :
    Index_int32 1 0 0 0 2 50000 50000 1 = -1794967296 ∧
    ¬ (0 ≤ Index_int32 1 0 0 0 2 50000 50000 1 ∧
      Index_int32 1 0 0 0 2 50000 50000 1 < 2 * 50000 * 50000 * 1) ∧
    Index_int32 1 0 0 0 2 65536 65536 1 = 0 ∧
    Index_int32 1 0 0 0 2 65536 65536 1 = Index_int32 0 0 0 0 2 65536 65536 1 ∧
    ¬ ((1 : Int) = 0 ∧ (0 : Int) = 0 ∧ (0 : Int) = 0 ∧ (0 : Int) = 0) := by
  decide

/-! ## The output times of the particles entry point -/

section ParticleClaims
variable {α : Type} [LinearOrderedField α]

/-- The loop that fills `target_times` returns a vector of `Nouts` entries whose entry `k` is
`start_time + k * (final_time - start_time) / Nouts`. -/
theorem target_times_spec (N : Int) (hN : 0 ≤ N) (start_time final_time : α) :
    ∃ T, target_times N start_time final_time = some T ∧
      (T.length : Int) = N ∧
      ∀ k : Int, 0 ≤ k → k < N →
        vec_at T k = some (start_time + (k : α) * (final_time - start_time) / (N : α)) := by
  have hcast : ((N.toNat : Nat) : Int) = N := Int.toNat_of_nonneg hN
  have key := forLoop_inv
    (fun (n : Nat) (T : List α) =>
      filled (List.replicate N.toNat (0 : α)) T 0
        (fun m => start_time + (m : α) * (final_time - start_time) / (N : α)) (n : Int))
    N.toNat
    (fun II target_times =>
      vec_set target_times II
        (start_time + (II : α) * (final_time - start_time) / (N : α)))
    (List.replicate N.toNat 0)
    (filled_zero _ _ _)
    (by
      intro k T hk hP
      have h := filled_step _ T 0 _ (k : Int)
        (start_time + ((k : Int) : α) * (final_time - start_time) / (N : α)) hP
        (Int.natCast_nonneg k)
        (le_refl 0) (by rw [List.length_replicate, zero_add]; exact_mod_cast hk) rfl
      rw [zero_add] at h
      obtain ⟨v2, h1, h2⟩ := h
      exact ⟨v2, h1, by exact_mod_cast h2⟩)
  obtain ⟨T, hT, hl, hv, _⟩ := key
  refine ⟨T, hT, ?_, ?_⟩
  · rw [hl, List.length_replicate, hcast]
  · intro k hk0 hk1
    have := hv k hk0 (by rw [hcast]; exact hk1)
    rwa [zero_add] at this

/-- The output times for a number of outputs `N >= 2` and `final_time > start_time`: the
first is `start_time`, all are below `final_time`, consecutive ones increase by
`(final_time - start_time) / N`. -/
theorem target_times_props (N : Int) (hN : 2 ≤ N) (start_time final_time : α)
    (ht : start_time < final_time) :
    ∃ T, target_times N start_time final_time = some T ∧
      (T.length : Int) = N ∧
      (∀ k : Int, 0 ≤ k → k < N →
        vec_at T k = some (start_time + (k : α) * (final_time - start_time) / (N : α))) ∧
      vec_at T 0 = some start_time ∧
      (∀ (k : Int) (x : α), vec_at T k = some x → x < final_time) ∧
      (∀ (k : Int) (x y : α), vec_at T k = some x → vec_at T (k + 1) = some y →
        x < y ∧ y - x = (final_time - start_time) / (N : α)) := by
  have hD : 0 < final_time - start_time := sub_pos.mpr ht
  obtain ⟨T, hT, hl, hv⟩ := target_times_spec N (by omega) start_time final_time
  have hNpos : (0 : α) < (N : α) := by exact_mod_cast (by omega : 0 < N)
  have hrange : ∀ (k : Int) (x : α), vec_at T k = some x → 0 ≤ k ∧ k < N := by
    intro k x hx
    unfold vec_at at hx
    by_cases h0 : 0 ≤ k
    · rw [if_pos h0] at hx
      have h1 := (List.getElem?_eq_some.mp hx).1
      refine ⟨h0, ?_⟩
      rw [← hl]
      omega
    · rw [if_neg h0] at hx
      cases hx
  refine ⟨T, hT, hl, hv, ?_, ?_, ?_⟩
  · have h0 := hv 0 (le_refl 0) (by omega)
    rw [h0]
    simp
  · intro k x hx
    obtain ⟨hk0, hk1⟩ := hrange k x hx
    rw [hv k hk0 hk1] at hx
    rw [← Option.some.inj hx]
    have hk : ((k : Int) : α) < (N : α) := by exact_mod_cast hk1
    have h1 : ((k : Int) : α) * (final_time - start_time) / (N : α)
        < final_time - start_time := by
      rw [div_lt_iff₀ hNpos]
      calc ((k : Int) : α) * (final_time - start_time)
          < (N : α) * (final_time - start_time) := mul_lt_mul_of_pos_right hk hD
        _ = (final_time - start_time) * (N : α) := mul_comm _ _
    linarith
  · intro k x y hx hy
    obtain ⟨hk0, hk1⟩ := hrange k x hx
    obtain ⟨hj0, hj1⟩ := hrange (k + 1) y hy
    rw [hv k hk0 hk1] at hx
    rw [hv (k + 1) hj0 hj1] at hy
    rw [← Option.some.inj hx, ← Option.some.inj hy]
    have hstep : start_time + (((k + 1 : Int)) : α) * (final_time - start_time) / (N : α)
        - (start_time + ((k : Int) : α) * (final_time - start_time) / (N : α))
        = (final_time - start_time) / (N : α) := by
      push_cast
      ring
    have hpos : 0 < (final_time - start_time) / (N : α) := div_pos hD hNpos
    exact ⟨by linarith, hstep⟩

variable [FloorRing α]

/-- C30 (amended). In the particles entry point, for `out_freq > 0` and
`final_time > start_time`, with `q` the quotient `(final_time - start_time) / out_freq` as
the machine computes it: `Nouts >= 2` always, and `Nouts = max(trunc(q), 2)`, the truncation
being toward zero, when `q` is within the range of `int`; the loop returns `Nouts` output
times `target_times[k] = start_time + k * (final_time - start_time) / Nouts`; the first is
`start_time`; every one is strictly less than `final_time`; consecutive ones are strictly
increasing, and they are at least `out_freq` apart exactly when
`Nouts * out_freq <= final_time - start_time`, which holds whenever
`final_time - start_time >= 2 * out_freq`, `q` is within the range of `int` and `q` does not
exceed the exact quotient. -/
theorem C30_output_times (fsub fdiv : α → α → α) (out_of_range : Int)
    (start_time final_time out_freq : α)
    (hf : 0 < out_freq) (ht : start_time < final_time) :
    2 ≤ Nouts fsub fdiv out_of_range start_time final_time out_freq ∧
    (-(2 : α) ^ 31 ≤ fdiv (fsub final_time start_time) out_freq →
      fdiv (fsub final_time start_time) out_freq < 2 ^ 31 →
      Nouts fsub fdiv out_of_range start_time final_time out_freq
        = max (if 0 ≤ fdiv (fsub final_time start_time) out_freq
            then ⌊fdiv (fsub final_time start_time) out_freq⌋
            else ⌈fdiv (fsub final_time start_time) out_freq⌉) 2) ∧
    (∃ T, target_times (Nouts fsub fdiv out_of_range start_time final_time out_freq)
        start_time final_time = some T ∧
      (T.length : Int) = Nouts fsub fdiv out_of_range start_time final_time out_freq ∧
      (∀ k : Int, 0 ≤ k → k < Nouts fsub fdiv out_of_range start_time final_time out_freq →
        vec_at T k = some (start_time + (k : α) * (final_time - start_time)
          / ((Nouts fsub fdiv out_of_range start_time final_time out_freq : Int) : α))) ∧
      vec_at T 0 = some start_time ∧
      (∀ (k : Int) (x : α), vec_at T k = some x → x < final_time) ∧
      (∀ (k : Int) (x y : α), vec_at T k = some x → vec_at T (k + 1) = some y →
        x < y ∧
        (out_freq ≤ y - x ↔
          ((Nouts fsub fdiv out_of_range start_time final_time out_freq : Int) : α) * out_freq
            ≤ final_time - start_time))) ∧
    (-(2 : α) ^ 31 ≤ fdiv (fsub final_time start_time) out_freq →
      fdiv (fsub final_time start_time) out_freq < 2 ^ 31 →
      fdiv (fsub final_time start_time) out_freq ≤ (final_time - start_time) / out_freq →
      2 * out_freq ≤ final_time - start_time →
      ((Nouts fsub fdiv out_of_range start_time final_time out_freq : Int) : α) * out_freq
        ≤ final_time - start_time) := by
  have hD : 0 < final_time - start_time := sub_pos.mpr ht
  have hN : 2 ≤ Nouts fsub fdiv out_of_range start_time final_time out_freq :=
    le_max_right _ _
  have hNpos : (0 : α)
      < ((Nouts fsub fdiv out_of_range start_time final_time out_freq : Int) : α) := by
    exact_mod_cast (by omega : 0 < Nouts fsub fdiv out_of_range start_time final_time out_freq)
  have hcast : ∀ q : α, -(2 : α) ^ 31 ≤ q → q < 2 ^ 31 →
      trunc_int out_of_range q = if 0 ≤ q then ⌊q⌋ else ⌈q⌉ := by
    intro q h0 h1
    unfold trunc_int
    by_cases hq : 0 ≤ q
    · have a1 : (0 : Int) ≤ ⌊q⌋ := Int.floor_nonneg.mpr hq
      have a2 : ⌊q⌋ < (2 : Int) ^ 31 := by
        rw [Int.floor_lt]
        exact_mod_cast h1
      simp only [if_pos hq]
      rw [if_pos ⟨by omega, a2⟩]
    · have hq2 : q < 0 := lt_of_not_le hq
      have a1 : ⌈q⌉ ≤ (0 : Int) := by
        rw [Int.ceil_le]
        exact_mod_cast le_of_lt hq2
      have a2 : -(2 : Int) ^ 31 ≤ ⌈q⌉ := by
        have h := le_trans h0 (Int.le_ceil q)
        exact_mod_cast h
      simp only [if_neg hq]
      rw [if_pos ⟨a2, by omega⟩]
  obtain ⟨T, hT, hl, hv, hfirst, hlt, hinc⟩ := target_times_props
    (Nouts fsub fdiv out_of_range start_time final_time out_freq) hN start_time final_time ht
  refine ⟨hN, ?_, ⟨T, hT, hl, hv, hfirst, hlt, ?_⟩, ?_⟩
  · intro h0 h1
    unfold Nouts
    rw [hcast _ h0 h1]
  · intro k x y hx hy
    obtain ⟨h1, h2⟩ := hinc k x y hx hy
    refine ⟨h1, ?_⟩
    rw [h2, le_div_iff₀ hNpos, mul_comm]
  · intro h0 h1 hle h2
    have e : Nouts fsub fdiv out_of_range start_time final_time out_freq
        = max (if 0 ≤ fdiv (fsub final_time start_time) out_freq
            then ⌊fdiv (fsub final_time start_time) out_freq⌋
            else ⌈fdiv (fsub final_time start_time) out_freq⌉) 2 := by
      unfold Nouts
      rw [hcast _ h0 h1]
    rw [e]
    generalize fdiv (fsub final_time start_time) out_freq = q at hle ⊢
    have hq2 : (2 : α) ≤ (final_time - start_time) / out_freq := by
      rw [le_div_iff₀ hf]; exact h2
    have hb : (((if 0 ≤ q then ⌊q⌋ else ⌈q⌉ : Int)) : α)
        ≤ (final_time - start_time) / out_freq := by
      by_cases hq : 0 ≤ q
      · rw [if_pos hq]
        exact le_trans (Int.floor_le q) hle
      · rw [if_neg hq]
        have hq3 : q < 0 := lt_of_not_le hq
        have a1 : ⌈q⌉ ≤ (0 : Int) := by
          rw [Int.ceil_le]
          exact_mod_cast le_of_lt hq3
        have : ((⌈q⌉ : Int) : α) ≤ 0 := by exact_mod_cast a1
        linarith
    have hm : ((max (if 0 ≤ q then ⌊q⌋ else ⌈q⌉) 2 : Int) : α)
        ≤ (final_time - start_time) / out_freq := by
      rcases max_cases (if 0 ≤ q then ⌊q⌋ else ⌈q⌉) (2 : Int) with ⟨e1, _⟩ | ⟨e1, _⟩
      · rw [e1]; exact hb
      · rw [e1]; exact_mod_cast hq2
    calc ((max (if 0 ≤ q then ⌊q⌋ else ⌈q⌉) 2 : Int) : α) * out_freq
        ≤ (final_time - start_time) / out_freq * out_freq :=
          mul_le_mul_of_nonneg_right hm (le_of_lt hf)
      _ = final_time - start_time := by field_simp

end ParticleClaims

/-- C30 (amended) for times from 0 to 10 hours (36000 s) and an output every 3600 s, with the
operations exact at these operands. -/
theorem C30_output_times_witness :
    2 ≤ Nouts ex_fsub ex_fdiv (-2 ^ 31) 0 36000 3600 ∧
    (-(2 : ℚ) ^ 31 ≤ ex_fdiv (ex_fsub 36000 0) 3600 →
      ex_fdiv (ex_fsub 36000 0) 3600 < 2 ^ 31 →
      Nouts ex_fsub ex_fdiv (-2 ^ 31) 0 36000 3600
        = max (if 0 ≤ ex_fdiv (ex_fsub 36000 0) 3600
            then ⌊ex_fdiv (ex_fsub 36000 0) 3600⌋
            else ⌈ex_fdiv (ex_fsub 36000 0) 3600⌉) 2) ∧
    (∃ T, target_times (Nouts ex_fsub ex_fdiv (-2 ^ 31) 0 36000 3600)
        0 36000 = some T ∧
      (T.length : Int) = Nouts ex_fsub ex_fdiv (-2 ^ 31) 0 36000 3600 ∧
      (∀ k : Int, 0 ≤ k → k < Nouts ex_fsub ex_fdiv (-2 ^ 31) 0 36000 3600 →
        vec_at T k = some (0 + (k : ℚ) * (36000 - 0)
          / ((Nouts ex_fsub ex_fdiv (-2 ^ 31) 0 36000 3600 : Int) : ℚ))) ∧
      vec_at T 0 = some 0 ∧
      (∀ (k : Int) (x : ℚ), vec_at T k = some x → x < 36000) ∧
      (∀ (k : Int) (x y : ℚ), vec_at T k = some x → vec_at T (k + 1) = some y →
        x < y ∧
        (3600 ≤ y - x ↔
          ((Nouts ex_fsub ex_fdiv (-2 ^ 31) 0 36000 3600 : Int) : ℚ) * 3600
            ≤ 36000 - 0))) ∧
    (-(2 : ℚ) ^ 31 ≤ ex_fdiv (ex_fsub 36000 0) 3600 →
      ex_fdiv (ex_fsub 36000 0) 3600 < 2 ^ 31 →
      ex_fdiv (ex_fsub 36000 0) 3600 ≤ (36000 - 0) / 3600 →
      (2 : ℚ) * 3600 ≤ 36000 - 0 →
      ((Nouts ex_fsub ex_fdiv (-2 ^ 31) 0 36000 3600 : Int) : ℚ) * 3600
        ≤ 36000 - 0) :=
  C30_output_times ex_fsub ex_fdiv (-2 ^ 31) 0 36000 3600 (by norm_num) (by norm_num)

/-- C30 as stated fails when the quotient is outside the range of `int`.  For times from 0 to
`3 * 10^9` s and an output every second the quotient is `3 * 10^9` (the operations are exact
at these operands) and the claimed number of outputs is `max(trunc(3 * 10^9), 2) = 3 * 10^9`;
the cast is out of range, and the code has `Nouts = max(c, 2)` for the `int` value `c` that
the cast leaves, which is never `3 * 10^9`, and is 2 for `c = -2^31`. -/
theorem C30_counterexample :
    (0 : ℚ) < 1 ∧ (0 : ℚ) < 3000000000 ∧
    ex_fdiv (ex_fsub 3000000000 0) 1 = 3000000000 ∧
    max ⌊((3000000000 : ℚ) - 0) / 1⌋ 2 = 3000000000 ∧
    Nouts ex_fsub ex_fdiv (-2 ^ 31) 0 3000000000 1 = 2 ∧
    (∀ c : Int, -2 ^ 31 ≤ c → c < 2 ^ 31 →
      Nouts ex_fsub ex_fdiv c 0 3000000000 1 = max c 2 ∧
      Nouts ex_fsub ex_fdiv c 0 3000000000 1 ≠ max ⌊((3000000000 : ℚ) - 0) / 1⌋ 2) := by
  have hq : ex_fdiv (ex_fsub 3000000000 0) 1 = 3000000000 := by norm_num [ex_fdiv, ex_fsub]
  have hfl : ⌊((3000000000 : ℚ) - 0) / 1⌋ = 3000000000 := by
    rw [sub_zero, div_one]
    exact Int.floor_natCast 3000000000
  have hN : ∀ c : Int, Nouts ex_fsub ex_fdiv c 0 3000000000 1 = max c 2 := by
    intro c
    unfold Nouts trunc_int
    rw [hq]
    have h0 : (0 : ℚ) ≤ 3000000000 := by norm_num
    have hf : ⌊(3000000000 : ℚ)⌋ = 3000000000 := Int.floor_natCast 3000000000
    simp only [if_pos h0, hf]
    rw [if_neg (by decide)]
  refine ⟨by norm_num, by norm_num, hq, ?_, ?_, ?_⟩
  · rw [hfl]; decide
  · rw [hN]; decide
  · intro c h0 h1
    refine ⟨hN c, ?_⟩
    rw [hN c, hfl]
    have : max c 2 < 2 ^ 31 := max_lt h1 (by decide)
    intro h
    rw [h] at this
    exact absurd this (by decide)

/-! ## The column blocks of the zonal rows -/

/-- C24, the code at a failing input.  On the test grid (`N = 12`) at the point `(0, 1)` of
the first latitude row (`p = 1`), without weighting.  With `Tikhov_Laplace = 0` the zonal
branch places the first-derivative stencil on row `2N + p = 25` in the columns 12, 13, 14 of
the Phi block `[N, 2N)`, none in the Psi block `[0, N)`, and on row `3N + p = 37` in the
columns 0, 1, 2 of the Psi block, none in the Phi block.  With `Tikhov_Laplace = 1` the
Laplacian branch places its stencil at the same point the other way round: all columns of
row 25 are in the Psi block and all columns of row 37 in the Phi block. -/
theorem C24_zonal_columns_swapped :
    (row_entries (added ex_K ex_cos ex_gdv (ex_A ex_data false 0 0) ex_S)
        (2 * (3 * 4) + Index 0 0 0 1 1 1 3 4)).map Entry.col = [12, 13, 14] ∧
    (row_entries (added ex_K ex_cos ex_gdv (ex_A ex_data false 0 0) ex_S)
        (3 * (3 * 4) + Index 0 0 0 1 1 1 3 4)).map Entry.col = [0, 1, 2] ∧
    ¬ (∀ e ∈ row_entries (added ex_K ex_cos ex_gdv (ex_A ex_data false 0 0) ex_S)
        (2 * (3 * 4) + Index 0 0 0 1 1 1 3 4), 0 ≤ e.col ∧ e.col < 3 * 4) ∧
    ¬ (∀ e ∈ row_entries (added ex_K ex_cos ex_gdv (ex_A ex_data false 0 0) ex_S)
        (3 * (3 * 4) + Index 0 0 0 1 1 1 3 4), 3 * 4 ≤ e.col ∧ e.col < 2 * (3 * 4)) ∧
    (row_entries (added ex_K ex_cos ex_gdv (ex_A ex_data false 1 0) ex_S)
        (2 * (3 * 4) + Index 0 0 0 1 1 1 3 4)).length = 9 ∧
    (∀ e ∈ row_entries (added ex_K ex_cos ex_gdv (ex_A ex_data false 1 0) ex_S)
        (2 * (3 * 4) + Index 0 0 0 1 1 1 3 4), 0 ≤ e.col ∧ e.col < 3 * 4) ∧
    (row_entries (added ex_K ex_cos ex_gdv (ex_A ex_data false 1 0) ex_S)
        (3 * (3 * 4) + Index 0 0 0 1 1 1 3 4)).length = 9 ∧
    (∀ e ∈ row_entries (added ex_K ex_cos ex_gdv (ex_A ex_data false 1 0) ex_S)
        (3 * (3 * 4) + Index 0 0 0 1 1 1 3 4), 3 * 4 ≤ e.col ∧ e.col < 2 * (3 * 4)) := by
  have hr : point_reads (ex_A ex_data false 0 0) ex_S 0 1 = some (-11 / 14, 1) := by rfl
  have hr1 : point_reads (ex_A ex_data false 1 0) ex_S 0 1 = some (-11 / 14, 1) := by rfl
  have e2 : (2 * (3 * 4) + Index 0 0 0 1 1 1 3 4 : Int) = point_row ex_S 2 0 1 := by decide
  have e3 : (3 * (3 * 4) + Index 0 0 0 1 1 1 3 4 : Int) = point_row ex_S 3 0 1 := by decide
  have hz := zonal_rows_code ex_K ex_cos ex_gdv (ex_A ex_data false 0 0) ex_S 0 1 (-11 / 14) 1
    rfl (by decide) (by decide) (by decide) (by decide) hr
  have hpole : is_pole ex_K (-11 / 14) = false := by norm_num [is_pole, ex_K]
  have hl := laplace_rows_code ex_K ex_cos ex_gdv (ex_A ex_data false 1 0) ex_S 0 1 (-11 / 14)
    (by decide) (by decide) (by decide) (by decide) hr1 hpole (by norm_num [ex_A])
    (by simp [lon_stencil, ex_gdv, ex_S]) (by simp [lat_stencil, ex_gdv, ex_S])
    (by simp [lat_stencil, ex_gdv, ex_S])
  rw [e2, e3, hz.1, hz.2, hl.1, hl.2]
  refine ⟨?_, ?_, ?_, ?_, ?_, ?_, ?_, ?_⟩
  · simp [built, lon_stencil, ex_gdv, placed, stencil_for, lon_col, wrap_index, Index,
      point_row, ex_S, ex_K, ex_A]
    decide
  · simp [built, lon_stencil, ex_gdv, placed, stencil_for, lon_col, wrap_index, Index,
      point_row, ex_S, ex_K, ex_A]
    decide
  · simp [built, lon_stencil, ex_gdv, placed, stencil_for, lon_col, wrap_index, Index,
      point_row, ex_S, ex_K, ex_A]
  · simp [built, lon_stencil, ex_gdv, placed, stencil_for, lon_col, wrap_index, Index,
      point_row, ex_S, ex_K, ex_A]
  · simp [spec_Laplace_row, placed, stencil_for, lat_stencil, lon_stencil, ex_gdv, ex_S]
  · simp [spec_Laplace_row, placed, stencil_for, lat_stencil, lon_stencil, ex_gdv, ex_A, ex_S,
      ex_K, lon_col, lat_col, wrap_index, Index, point_row]
    decide
  · simp [spec_Laplace_row, placed, stencil_for, lat_stencil, lon_stencil, ex_gdv, ex_S]
  · simp [spec_Laplace_row, placed, stencil_for, lat_stencil, lon_stencil, ex_gdv, ex_A, ex_S,
      ex_K, lon_col, lat_col, wrap_index, Index, point_row]
    decide

/-! ## The seed of each slice in the run of the driver -/

/-- The states of a loop nest as a sequence.  If the body returns, and keeps `P`, from every
state that satisfies `P`, then there is a sequence `tr` of states, `tr n` being the state
before iteration number `n` (first index outermost), that starts at `s`, in which every
iteration takes `tr n` to `tr (n + 1)`, and whose entry `A * B` is what the loop nest
returns. -/
theorem nest_loop_trace {σ : Type} (A B : Int) (P : σ → Prop)
    (body : Int → Int → σ → Option σ) (s : σ) (hA : 0 ≤ A) (hB : 0 ≤ B) (h0 : P s)
    (hstep : ∀ (i j : Int) (t : σ), 0 ≤ i → i < A → 0 ≤ j → j < B → P t →
      ∃ t2, body i j t = some t2 ∧ P t2) :
    ∃ tr : Nat → σ, tr 0 = s ∧
      forLoop A.toNat (fun i t => forLoop B.toNat (fun j t => body i j t) t) s
        = some (tr (A * B).toNat) ∧
      (∀ n : Nat, n ≤ (A * B).toNat → P (tr n)) ∧
      (∀ n : Nat, (n : Int) < A * B →
        (0 ≤ (n : Int) / B ∧ (n : Int) / B < A ∧ 0 ≤ (n : Int) % B ∧ (n : Int) % B < B) ∧
        body ((n : Int) / B) ((n : Int) % B) (tr n) = some (tr (n + 1))) ∧
      ∀ i j : Int, 0 ≤ i → i < A → 0 ≤ j → j < B →
        body i j (tr (i * B + j).toNat) = some (tr ((i * B + j).toNat + 1)) := by
  let tr : Nat → σ := fun n =>
    Nat.rec s (fun k prev => (body ((k : Int) / B) ((k : Int) % B) prev).getD prev) n
  have tr_succ : ∀ k : Nat,
      tr (k + 1) = (body ((k : Int) / B) ((k : Int) % B) (tr k)).getD (tr k) := fun _ => rfl
  have hdiv : ∀ i j : Int, 0 ≤ j → j < B → (i * B + j) / B = i ∧ (i * B + j) % B = j := by
    intro i j hj0 hj1
    have hBne : B ≠ 0 := by omega
    constructor
    · rw [add_comm, Int.add_mul_ediv_right _ _ hBne, Int.ediv_eq_zero_of_lt hj0 hj1, zero_add]
    · rw [add_comm, Int.add_mul_emod_self, Int.emod_eq_of_lt hj0 hj1]
  have key := nest_loop_inv A B
    (fun (n : Int) (t : σ) => t = tr n.toNat ∧ ∀ m : Nat, m ≤ n.toNat → P (tr m))
    body s hA hB
    ⟨rfl, fun m hm => by
      have : m = 0 := Nat.le_zero.mp hm
      rw [this]; exact h0⟩
    (by
      intro i j t hi0 hi1 hj0 hj1 ⟨ht, hP⟩
      have hq0 : 0 ≤ i * B + j := add_nonneg (mul_nonneg hi0 hB) hj0
      have hPt : P t := by rw [ht]; exact hP _ (le_refl _)
      obtain ⟨t2, hb, hP2⟩ := hstep i j t hi0 hi1 hj0 hj1 hPt
      have hn : (i * B + j + 1).toNat = (i * B + j).toNat + 1 := by omega
      have hc : (((i * B + j).toNat : Nat) : Int) = i * B + j := Int.toNat_of_nonneg hq0
      have ht2 : t2 = tr ((i * B + j).toNat + 1) := by
        rw [tr_succ, hc, (hdiv i j hj0 hj1).1, (hdiv i j hj0 hj1).2, ← ht, hb]
        rfl
      refine ⟨t2, hb, ?_, ?_⟩
      · rw [hn]; exact ht2
      · intro m hm
        rw [hn] at hm
        by_cases hmq : m ≤ (i * B + j).toNat
        · exact hP m hmq
        · have : m = (i * B + j).toNat + 1 := by omega
          rw [this, ← ht2]; exact hP2)
  obtain ⟨t, hloop, ht, hP⟩ := key
  have hflat : ∀ n : Nat, (n : Int) < A * B →
      (0 ≤ (n : Int) / B ∧ (n : Int) / B < A ∧ 0 ≤ (n : Int) % B ∧ (n : Int) % B < B) ∧
      body ((n : Int) / B) ((n : Int) % B) (tr n) = some (tr (n + 1)) := by
    intro n hn
    have hn0 : (0 : Int) ≤ n := Int.natCast_nonneg n
    have hBpos : 0 < B := by
      rcases lt_or_eq_of_le hB with h | h
      · exact h
      · rw [← h, mul_zero] at hn; omega
    have r1 : 0 ≤ (n : Int) / B := Int.ediv_nonneg hn0 hB
    have r2 : (n : Int) / B < A := Int.ediv_lt_of_lt_mul hBpos hn
    have r3 : 0 ≤ (n : Int) % B := Int.emod_nonneg _ (ne_of_gt hBpos)
    have r4 : (n : Int) % B < B := Int.emod_lt_of_pos _ hBpos
    refine ⟨⟨r1, r2, r3, r4⟩, ?_⟩
    have hle : n ≤ (A * B).toNat := by omega
    obtain ⟨t2, hb, _⟩ := hstep _ _ (tr n) r1 r2 r3 r4 (hP n hle)
    rw [tr_succ, hb]
    rfl
  refine ⟨tr, rfl, ?_, hP, hflat, ?_⟩
  · rw [hloop, ht]
  · intro i j hi0 hi1 hj0 hj1
    have hq0 : 0 ≤ i * B + j := add_nonneg (mul_nonneg hi0 hB) hj0
    have hc : (((i * B + j).toNat : Nat) : Int) = i * B + j := Int.toNat_of_nonneg hq0
    have hlt : (((i * B + j).toNat : Nat) : Int) < A * B := by
      rw [hc]; exact (radix_range i j A B hi0 hi1 hj0 hj1).2
    have h := (hflat (i * B + j).toNat hlt).2
    rw [hc, (hdiv i j hj0 hj1).1, (hdiv i j hj0 hj1).2] at h
    exact h

section DriverClaims2
variable {α : Type} [LinearOrderedField α]

/-- The run of the driver as a sequence of states: `tr 0` is the state after the copy of the
starting seed, the slice number `n` (time-major, depth-minor) takes `tr n` to `tr (n + 1)`,
every state has the sizes of the allocation, and `tr (Ntime * Ndepth)` is what the part of
the driver up to the end of the loop over the slices returns. -/
theorem projection_loop_trace (X : Collaborators α) (K : Constants α) (I : SliceInputs α)
    (S : Sizes)
    (hT : 0 ≤ S.Ntime) (hD : 0 ≤ S.Ndepth) (hN0 : 0 ≤ S.Nlat) (hN : 0 ≤ S.Nlon)
    (hu1 : S.Ntime * S.Ndepth * (S.Nlat * S.Nlon) ≤ I.u_lon.length)
    (hu2 : S.Ntime * S.Ndepth * (S.Nlat * S.Nlon) ≤ I.u_lat.length)
    (hc1 : I.single_seed = true → S.Nlat * S.Nlon ≤ I.seed_tor.length)
    (hc2 : I.single_seed = true → S.Nlat * S.Nlon ≤ I.seed_pot.length)
    (hs1 : I.single_seed = false →
      S.Ntime * S.Ndepth * (S.Nlat * S.Nlon) ≤ I.seed_tor.length)
    (hs2 : I.single_seed = false →
      S.Ntime * S.Ndepth * (S.Nlat * S.Nlon) ≤ I.seed_pot.length)
    (hlat : S.Nlat ≤ I.source_data.latitude.length)
    (hA : I.weight_err = true → S.Nlat * S.Nlon ≤ I.source_data.areas.length)
    (hX : keeps_sizes X S) :
    ∃ tr : Nat → SliceState α,
      copy_seed I S (initial_state I.u_lon S) = some (tr 0) ∧
      (I.single_seed = true → ∀ p : Int, 0 ≤ p → p < S.Nlat * S.Nlon →
        vec_at (tr 0).out.Psi_seed p = vec_at I.seed_tor p ∧
        vec_at (tr 0).out.Phi_seed p = vec_at I.seed_pot p) ∧
      projection_loop X K I S = some (tr (S.Ntime * S.Ndepth).toNat) ∧
      (∀ n : Nat, n ≤ (S.Ntime * S.Ndepth).toNat → allocated I S (tr n)) ∧
      (∀ n : Nat, (n : Int) < S.Ntime * S.Ndepth →
        (0 ≤ (n : Int) / S.Ndepth ∧ (n : Int) / S.Ndepth < S.Ntime ∧
          0 ≤ (n : Int) % S.Ndepth ∧ (n : Int) % S.Ndepth < S.Ndepth) ∧
        Apply_slice X K I S ((n : Int) / S.Ndepth) ((n : Int) % S.Ndepth) (tr n)
          = some (tr (n + 1))) ∧
      ∀ Itime Idepth : Int, 0 ≤ Itime → Itime < S.Ntime → 0 ≤ Idepth → Idepth < S.Ndepth →
        Apply_slice X K I S Itime Idepth (tr (Itime * S.Ndepth + Idepth).toNat)
          = some (tr ((Itime * S.Ndepth + Idepth).toNat + 1)) := by
  have hst0 : ∃ st0, copy_seed I S (initial_state I.u_lon S) = some st0 ∧ allocated I S st0 ∧
      (I.single_seed = true → ∀ p : Int, 0 ≤ p → p < S.Nlat * S.Nlon →
        vec_at st0.out.Psi_seed p = vec_at I.seed_tor p ∧
        vec_at st0.out.Phi_seed p = vec_at I.seed_pot p) := by
    cases hss : I.single_seed with
    | true =>
      obtain ⟨st0, h1, h2, _, h4⟩ := copy_seed_spec I S (initial_state I.u_lon S) hN0 hN hss
        (hc1 hss) (hc2 hss) (initial_state_allocated I S hN0 hN)
      exact ⟨st0, h1, h2, fun _ => h4⟩
    | false =>
      refine ⟨initial_state I.u_lon S, ?_, initial_state_allocated I S hN0 hN, ?_⟩
      · simp [copy_seed, hss]
      · intro h; cases h
  obtain ⟨st0, hcopy, hal0, hseed0⟩ := hst0
  obtain ⟨tr, h0, hloop, hP, hflat, hchain⟩ := nest_loop_trace S.Ntime S.Ndepth
    (allocated I S) (fun Itime Idepth t => Apply_slice X K I S Itime Idepth t) st0 hT hD hal0
    (by
      intro i j t hi0 hi1 hj0 hj1 hal
      have hr := slice_base_range S i j hN0 hN hi0 hi1 hj0 hj1
      obtain ⟨t2, _, h2, _, _, _, _, h3, _⟩ := Apply_slice_step X K I S i j t hN0 hN hr.1
        (le_trans hr.2 hu1) (le_trans hr.2 hu2) (fun h => le_trans hr.2 (hs1 h))
        (fun h => le_trans hr.2 (hs2 h)) hlat hA hal hX
      exact ⟨t2, h2, h3⟩)
  refine ⟨tr, by rw [h0]; exact hcopy, by rw [h0]; exact hseed0, ?_, hP, hflat, hchain⟩
  unfold projection_loop
  rw [hcopy]
  exact hloop

end DriverClaims2

section DriverClaims3
variable {α : Type} [LinearOrderedField α]

/-- What a slice has stored in `full_Psi` and `full_Phi` is not touched by the later slices:
the positions below the start of the slice number `q` hold in every later state of the run
what they hold in the state before the slice number `q`. -/
theorem stored_solution_kept (X : Collaborators α) (K : Constants α) (I : SliceInputs α)
    (S : Sizes) (tr : Nat → SliceState α)
    (hT : 0 ≤ S.Ntime) (hD : 0 ≤ S.Ndepth) (hN0 : 0 ≤ S.Nlat) (hN : 0 ≤ S.Nlon)
    (hu1 : S.Ntime * S.Ndepth * (S.Nlat * S.Nlon) ≤ I.u_lon.length)
    (hu2 : S.Ntime * S.Ndepth * (S.Nlat * S.Nlon) ≤ I.u_lat.length)
    (hs1 : I.single_seed = false →
      S.Ntime * S.Ndepth * (S.Nlat * S.Nlon) ≤ I.seed_tor.length)
    (hs2 : I.single_seed = false →
      S.Ntime * S.Ndepth * (S.Nlat * S.Nlon) ≤ I.seed_pot.length)
    (hlat : S.Nlat ≤ I.source_data.latitude.length)
    (hA : I.weight_err = true → S.Nlat * S.Nlon ≤ I.source_data.areas.length)
    (hX : keeps_sizes X S)
    (hP : ∀ n : Nat, n ≤ (S.Ntime * S.Ndepth).toNat → allocated I S (tr n))
    (hflat : ∀ n : Nat, (n : Int) < S.Ntime * S.Ndepth →
      (0 ≤ (n : Int) / S.Ndepth ∧ (n : Int) / S.Ndepth < S.Ntime ∧
        0 ≤ (n : Int) % S.Ndepth ∧ (n : Int) % S.Ndepth < S.Ndepth) ∧
      Apply_slice X K I S ((n : Int) / S.Ndepth) ((n : Int) % S.Ndepth) (tr n)
        = some (tr (n + 1)))
    (q n : Nat) (hqn : q ≤ n) (hn : n ≤ (S.Ntime * S.Ndepth).toNat) (pos : Int)
    (hpos : pos < (q : Int) * (S.Nlat * S.Nlon)) :
    vec_at (tr n).out.full_Psi pos = vec_at (tr q).out.full_Psi pos ∧
    vec_at (tr n).out.full_Phi pos = vec_at (tr q).out.full_Phi pos := by
  have hNN : (((S.Ntime * S.Ndepth).toNat : Nat) : Int) = S.Ntime * S.Ndepth :=
    Int.toNat_of_nonneg (mul_nonneg hT hD)
  induction n, hqn using Nat.le_induction with
  | base => exact ⟨rfl, rfl⟩
  | succ n hqn ih =>
    have hn1 : n ≤ (S.Ntime * S.Ndepth).toNat := Nat.le_of_succ_le hn
    have hlt : (n : Int) < S.Ntime * S.Ndepth := by
      rw [← hNN]
      exact_mod_cast Nat.lt_of_succ_le hn
    obtain ⟨⟨r1, r2, r3, r4⟩, hstep⟩ := hflat n hlt
    have hr := slice_base_range S _ _ hN0 hN r1 r2 r3 r4
    obtain ⟨st2, seed, h1, _, _, _, _, _, _, _, h9, _⟩ := Apply_slice_step X K I S
      ((n : Int) / S.Ndepth) ((n : Int) % S.Ndepth) (tr n) hN0 hN hr.1
      (le_trans hr.2 hu1) (le_trans hr.2 hu2) (fun h => le_trans hr.2 (hs1 h))
      (fun h => le_trans hr.2 (hs2 h)) hlat hA (hP n hn1) hX
    have e : st2 = tr (n + 1) := by
      rw [h1] at hstep
      exact Option.some.inj hstep
    have hb : slice_base S ((n : Int) / S.Ndepth) ((n : Int) % S.Ndepth)
        = (n : Int) * (S.Nlat * S.Nlon) := by
      rw [slice_base_eq, Int.ediv_add_emod']
    have hle : (q : Int) * (S.Nlat * S.Nlon) ≤ (n : Int) * (S.Nlat * S.Nlon) :=
      mul_le_mul_of_nonneg_right (by exact_mod_cast hqn) (mul_nonneg hN0 hN)
    have hk := h9 pos (Or.inl (by rw [hb]; exact lt_of_lt_of_le hpos hle))
    rw [e] at hk
    exact ⟨hk.1.trans (ih hn1).1, hk.2.trans (ih hn1).2⟩

/-- C20. The seed of each slice.  In `main`, `single_seed` holds exactly when
`seed_count = 1`, and the seed file name `zero` gives `seed_count = 1` and all-zero seeds of
size `Nlat * Nlon`.  The part of `Apply_Helmholtz_Projection` up to the end of the loop over
the slices returns, and its run is a sequence of states `tr`: `tr 0` is the state after the
copy of the starting seed, the slice `(Itime, Idepth)` is processed in the state number
`Itime * Ndepth + Idepth` (time-major, depth-minor) and leaves the next state, and the state
number `Ntime * Ndepth` is the result.  In this run every slice gets a seed of `Nlat * Nlon`
entries.  Under `single_seed` the slice `(0, 0)` is seeded with the supplied seed, and every
later slice with the `(Psi, Phi)` that the result holds in `full_Psi`, `full_Phi` for the
slice processed immediately before it.  Without `single_seed` the slice `(t, z)` is seeded
with `seed_tor`, `seed_pot` at `Index(t, z, Ilat, Ilon, ...)`, and it gets the same seed from
every state of the allocated sizes, whatever the other slices have left. -/
theorem C20_seed_per_slice (X : Collaborators α) (K : Constants α) (I : SliceInputs α)
    (S : Sizes) (seed_fname tor_seed_name pot_seed_name : String)
    (Nprocs_in_time Nprocs_in_depth : Int) (read_attr_from_file : String → String → α)
    (read_var_from_file : String → String → Int → Int → Bool → List α)
    (single_seed_unassigned : Bool)
    (hT : 0 ≤ S.Ntime) (hD : 0 ≤ S.Ndepth) (hN0 : 0 ≤ S.Nlat) (hN : 0 ≤ S.Nlon)
    (hu1 : S.Ntime * S.Ndepth * (S.Nlat * S.Nlon) ≤ I.u_lon.length)
    (hu2 : S.Ntime * S.Ndepth * (S.Nlat * S.Nlon) ≤ I.u_lat.length)
    (hc1 : I.single_seed = true → S.Nlat * S.Nlon ≤ I.seed_tor.length)
    (hc2 : I.single_seed = true → S.Nlat * S.Nlon ≤ I.seed_pot.length)
    (hs1 : I.single_seed = false →
      S.Ntime * S.Ndepth * (S.Nlat * S.Nlon) ≤ I.seed_tor.length)
    (hs2 : I.single_seed = false →
      S.Ntime * S.Ndepth * (S.Nlat * S.Nlon) ≤ I.seed_pot.length)
    (hlat : S.Nlat ≤ I.source_data.latitude.length)
    (hA : I.weight_err = true → S.Nlat * S.Nlon ≤ I.source_data.areas.length)
    (hX : keeps_sizes X S) :
    (((seed_setup seed_fname tor_seed_name pot_seed_name S.Nlat S.Nlon Nprocs_in_time
          Nprocs_in_depth read_attr_from_file read_var_from_file
          single_seed_unassigned).single_seed = true ↔
        (seed_setup seed_fname tor_seed_name pot_seed_name S.Nlat S.Nlon Nprocs_in_time
          Nprocs_in_depth read_attr_from_file read_var_from_file
          single_seed_unassigned).seed_count = 1) ∧
      (seed_fname = "zero" →
        seed_setup seed_fname tor_seed_name pot_seed_name S.Nlat S.Nlon Nprocs_in_time
          Nprocs_in_depth read_attr_from_file read_var_from_file single_seed_unassigned
        = { seed_count := 1
            single_seed := true
            Psi_seed := List.replicate (S.Nlat * S.Nlon).toNat 0
            Phi_seed := List.replicate (S.Nlat * S.Nlon).toNat 0 })) ∧
    ∃ tr : Nat → SliceState α,
      copy_seed I S (initial_state I.u_lon S) = some (tr 0) ∧
      projection_loop X K I S = some (tr (S.Ntime * S.Ndepth).toNat) ∧
      ∀ Itime Idepth : Int, 0 ≤ Itime → Itime < S.Ntime → 0 ≤ Idepth → Idepth < S.Ndepth →
        ∃ seed : List α × List α,
          slice_seed I S Itime Idepth (tr (Itime * S.Ndepth + Idepth).toNat) = some seed ∧
          Apply_slice X K I S Itime Idepth (tr (Itime * S.Ndepth + Idepth).toNat)
            = some (tr ((Itime * S.Ndepth + Idepth).toNat + 1)) ∧
          ((seed.1.length : Int) = S.Nlat * S.Nlon ∧
            (seed.2.length : Int) = S.Nlat * S.Nlon) ∧
          (I.single_seed = true →
            (Itime = 0 → Idepth = 0 →
              ∀ Ilat Ilon : Int, 0 ≤ Ilat → Ilat < S.Nlat → 0 ≤ Ilon → Ilon < S.Nlon →
                vec_at seed.1 (Index 0 0 Ilat Ilon 1 1 S.Nlat S.Nlon)
                  = vec_at I.seed_tor (Index 0 0 Ilat Ilon 1 1 S.Nlat S.Nlon) ∧
                vec_at seed.2 (Index 0 0 Ilat Ilon 1 1 S.Nlat S.Nlon)
                  = vec_at I.seed_pot (Index 0 0 Ilat Ilon 1 1 S.Nlat S.Nlon)) ∧
            (∀ Itime0 Idepth0 : Int, 0 ≤ Itime0 → Itime0 < S.Ntime → 0 ≤ Idepth0 →
              Idepth0 < S.Ndepth →
              Itime0 * S.Ndepth + Idepth0 + 1 = Itime * S.Ndepth + Idepth →
              ∀ Ilat Ilon : Int, 0 ≤ Ilat → Ilat < S.Nlat → 0 ≤ Ilon → Ilon < S.Nlon →
                vec_at seed.1 (Index 0 0 Ilat Ilon 1 1 S.Nlat S.Nlon)
                  = vec_at (tr (S.Ntime * S.Ndepth).toNat).out.full_Psi
                      (Index Itime0 Idepth0 Ilat Ilon S.Ntime S.Ndepth S.Nlat S.Nlon) ∧
                vec_at seed.2 (Index 0 0 Ilat Ilon 1 1 S.Nlat S.Nlon)
                  = vec_at (tr (S.Ntime * S.Ndepth).toNat).out.full_Phi
                      (Index Itime0 Idepth0 Ilat Ilon S.Ntime S.Ndepth S.Nlat S.Nlon))) ∧
          (I.single_seed = false →
            (∀ Ilat Ilon : Int, 0 ≤ Ilat → Ilat < S.Nlat → 0 ≤ Ilon → Ilon < S.Nlon →
              vec_at seed.1 (Index 0 0 Ilat Ilon 1 1 S.Nlat S.Nlon)
                = vec_at I.seed_tor
                    (Index Itime Idepth Ilat Ilon S.Ntime S.Ndepth S.Nlat S.Nlon) ∧
              vec_at seed.2 (Index 0 0 Ilat Ilon 1 1 S.Nlat S.Nlon)
                = vec_at I.seed_pot
                    (Index Itime Idepth Ilat Ilon S.Ntime S.Ndepth S.Nlat S.Nlon)) ∧
            ∀ st3 : SliceState α, allocated I S st3 →
              slice_seed I S Itime Idepth st3 = some seed) := by
  refine ⟨⟨?_, ?_⟩, ?_⟩
  · simp [seed_setup]
  · intro hz
    simp [seed_setup, hz]
  obtain ⟨tr, hcopy, hseed0, hloop, hP, hflat, hchain⟩ := projection_loop_trace X K I S hT hD
    hN0 hN hu1 hu2 hc1 hc2 hs1 hs2 hlat hA hX
  have hNN : (((S.Ntime * S.Ndepth).toNat : Nat) : Int) = S.Ntime * S.Ndepth :=
    Int.toNat_of_nonneg (mul_nonneg hT hD)
  refine ⟨tr, hcopy, hloop, ?_⟩
  intro Itime Idepth ht0 ht1 hz0 hz1
  have hq := radix_range Itime Idepth S.Ntime S.Ndepth ht0 ht1 hz0 hz1
  have hqc : (((Itime * S.Ndepth + Idepth).toNat : Nat) : Int) = Itime * S.Ndepth + Idepth :=
    Int.toNat_of_nonneg hq.1
  have hqle : (Itime * S.Ndepth + Idepth).toNat ≤ (S.Ntime * S.Ndepth).toNat := by
    have := hq.2
    omega
  have hr := slice_base_range S Itime Idepth hN0 hN ht0 ht1 hz0 hz1
  obtain ⟨st2, seed, h1, h2, h3, h4, h5, _⟩ := Apply_slice_step X K I S Itime Idepth
    (tr (Itime * S.Ndepth + Idepth).toNat) hN0 hN hr.1 (le_trans hr.2 hu1) (le_trans hr.2 hu2)
    (fun h => le_trans hr.2 (hs1 h)) (fun h => le_trans hr.2 (hs2 h)) hlat hA (hP _ hqle) hX
  refine ⟨seed, h2, hchain Itime Idepth ht0 ht1 hz0 hz1, h3, ?_, ?_⟩
  · intro hss
    have hseed := h4 hss
    refine ⟨?_, ?_⟩
    · intro e1 e2 Ilat Ilon hi0 hi1 hj0 hj1
      have hp := Index_sub_range Ilat Ilon S.Nlat S.Nlon hi0 hi1 hj0 hj1
      have e0 : (Itime * S.Ndepth + Idepth).toNat = 0 := by
        rw [e1, e2]; simp
      rw [hseed, e0]
      exact hseed0 hss _ hp.1 hp.2
    · intro Itime0 Idepth0 ht00 ht01 hz00 hz01 hprev Ilat Ilon hi0 hi1 hj0 hj1
      have hp := Index_sub_range Ilat Ilon S.Nlat S.Nlon hi0 hi1 hj0 hj1
      have hq0 := radix_range Itime0 Idepth0 S.Ntime S.Ndepth ht00 ht01 hz00 hz01
      have hsucc : (Itime * S.Ndepth + Idepth).toNat
          = (Itime0 * S.Ndepth + Idepth0).toNat + 1 := by
        have := hq0.1
        omega
      have hq0le : (Itime0 * S.Ndepth + Idepth0).toNat ≤ (S.Ntime * S.Ndepth).toNat := by
        have := hq0.2
        omega
      have hr0 := slice_base_range S Itime0 Idepth0 hN0 hN ht00 ht01 hz00 hz01
      obtain ⟨st1, _, k1, _, _, _, _, _, _, _, _, k10, _⟩ := Apply_slice_step X K I S Itime0
        Idepth0 (tr (Itime0 * S.Ndepth + Idepth0).toNat) hN0 hN hr0.1 (le_trans hr0.2 hu1)
        (le_trans hr0.2 hu2) (fun h => le_trans hr0.2 (hs1 h))
        (fun h => le_trans hr0.2 (hs2 h)) hlat hA (hP _ hq0le) hX
      have est : st1 = tr (Itime * S.Ndepth + Idepth).toNat := by
        have hc := hchain Itime0 Idepth0 ht00 ht01 hz00 hz01
        rw [k1, ← hsucc] at hc
        exact Option.some.inj hc
      have hsv := k10 hss _ hp.1 hp.2
      rw [est] at hsv
      have hkept := stored_solution_kept X K I S tr hT hD hN0 hN hu1 hu2 hs1 hs2 hlat hA hX
        hP hflat (Itime * S.Ndepth + Idepth).toNat (S.Ntime * S.Ndepth).toNat hqle (le_refl _)
        (slice_base S Itime0 Idepth0 + Index 0 0 Ilat Ilon 1 1 S.Nlat S.Nlon) (by
          have hb : (Itime * S.Ndepth + Idepth) * (S.Nlat * S.Nlon)
              = slice_base S Itime0 Idepth0 + S.Nlat * S.Nlon := by
            rw [slice_base_eq, ← hprev]; ring
          rw [hqc, hb]
          exact add_lt_add_left hp.2 _)
      rw [hseed, Index_split S Itime0 Idepth0 Ilat Ilon, ← Index_sub_eq Ilat Ilon S.Nlat S.Nlon]
      exact ⟨hsv.1.trans hkept.1.symm, hsv.2.trans hkept.2.symm⟩
  · intro hss
    refine ⟨?_, ?_⟩
    · intro Ilat Ilon hi0 hi1 hj0 hj1
      have hp := Index_sub_range Ilat Ilon S.Nlat S.Nlon hi0 hi1 hj0 hj1
      have e := h5 hss _ hp.1 hp.2
      rw [Index_split S Itime Idepth Ilat Ilon, ← Index_sub_eq Ilat Ilon S.Nlat S.Nlon]
      have g1 : vec_at I.seed_tor
            (slice_base S Itime Idepth + Index 0 0 Ilat Ilon 1 1 S.Nlat S.Nlon)
          = some (slice_value I.seed_tor (slice_base S Itime Idepth)
              (Index 0 0 Ilat Ilon 1 1 S.Nlat S.Nlon)) :=
        vec_at_getD _ _ 0 (add_nonneg hr.1 hp.1)
          (lt_of_lt_of_le (add_lt_add_left hp.2 _) (le_trans hr.2 (hs1 hss)))
      have g2 : vec_at I.seed_pot
            (slice_base S Itime Idepth + Index 0 0 Ilat Ilon 1 1 S.Nlat S.Nlon)
          = some (slice_value I.seed_pot (slice_base S Itime Idepth)
              (Index 0 0 Ilat Ilon 1 1 S.Nlat S.Nlon)) :=
        vec_at_getD _ _ 0 (add_nonneg hr.1 hp.1)
          (lt_of_lt_of_le (add_lt_add_left hp.2 _) (le_trans hr.2 (hs2 hss)))
      exact ⟨e.1.trans g1.symm, e.2.trans g2.symm⟩
    · intro st3 hal3
      obtain ⟨st4, seed3, _, k2, k3, _, k5, _⟩ := Apply_slice_step X K I S
        Itime Idepth st3 hN0 hN hr.1 (le_trans hr.2 hu1) (le_trans hr.2 hu2)
        (fun h => le_trans hr.2 (hs1 h)) (fun h => le_trans hr.2 (hs2 h)) hlat hA hal3 hX
      rw [k2]
      have q1 : seed3.1 = seed.1 := list_eq_of_vec_at _ _ _ k3.1 h3.1 (fun p hp0 hp1 => by
        rw [(k5 hss p hp0 hp1).1, (h5 hss p hp0 hp1).1])
      have q2 : seed3.2 = seed.2 := list_eq_of_vec_at _ _ _ k3.2 h3.2 (fun p hp0 hp1 => by
        rw [(k5 hss p hp0 hp1).2, (h5 hss p hp0 hp1).2])
      exact congrArg some (Prod.ext q1 q2)

end DriverClaims3
/-- C20 on the small grid with one time and two depths, so that the slice `(0, 1)` comes after
the slice `(0, 0)`: once with a single seed and the seed file name `zero`, and once with one
seed per slice read from a seed file whose `seed_count` is 2. -/
theorem C20_seed_per_slice_witness :
    ((((seed_setup "zero" "Psi" "Phi" ex_S2.Nlat ex_S2.Nlon 1
            1 (fun _ _ => (2 : ℚ)) (fun _ _ _ _ _ => [])
            false).single_seed = true ↔
          (seed_setup "zero" "Psi" "Phi" ex_S2.Nlat ex_S2.Nlon 1
            1 (fun _ _ => (2 : ℚ)) (fun _ _ _ _ _ => [])
            false).seed_count = 1) ∧
        (("zero" : String) = "zero" →
          seed_setup "zero" "Psi" "Phi" ex_S2.Nlat ex_S2.Nlon 1
            1 (fun _ _ => (2 : ℚ)) (fun _ _ _ _ _ => []) false
          = { seed_count := 1
              single_seed := true
              Psi_seed := List.replicate (ex_S2.Nlat * ex_S2.Nlon).toNat 0
              Phi_seed := List.replicate (ex_S2.Nlat * ex_S2.Nlon).toNat 0 })) ∧
      ∃ tr : Nat → SliceState ℚ,
        copy_seed ex_I2 ex_S2 (initial_state ex_I2.u_lon ex_S2) = some (tr 0) ∧
        projection_loop ex_X ex_K ex_I2 ex_S2 = some (tr (ex_S2.Ntime * ex_S2.Ndepth).toNat) ∧
        ∀ Itime Idepth : Int, 0 ≤ Itime → Itime < ex_S2.Ntime → 0 ≤ Idepth → Idepth < ex_S2.Ndepth →
          ∃ seed : List ℚ × List ℚ,
            slice_seed ex_I2 ex_S2 Itime Idepth
                (tr (Itime * ex_S2.Ndepth + Idepth).toNat) = some seed ∧
            Apply_slice ex_X ex_K ex_I2 ex_S2 Itime Idepth
                (tr (Itime * ex_S2.Ndepth + Idepth).toNat)
              = some (tr ((Itime * ex_S2.Ndepth + Idepth).toNat + 1)) ∧
            ((seed.1.length : Int) = ex_S2.Nlat * ex_S2.Nlon ∧
              (seed.2.length : Int) = ex_S2.Nlat * ex_S2.Nlon) ∧
            (ex_I2.single_seed = true →
              (Itime = 0 → Idepth = 0 →
                ∀ Ilat Ilon : Int, 0 ≤ Ilat → Ilat < ex_S2.Nlat → 0 ≤ Ilon → Ilon < ex_S2.Nlon →
                  vec_at seed.1 (Index 0 0 Ilat Ilon 1 1 ex_S2.Nlat ex_S2.Nlon)
                    = vec_at ex_I2.seed_tor (Index 0 0 Ilat Ilon 1 1 ex_S2.Nlat ex_S2.Nlon) ∧
                  vec_at seed.2 (Index 0 0 Ilat Ilon 1 1 ex_S2.Nlat ex_S2.Nlon)
                    = vec_at ex_I2.seed_pot (Index 0 0 Ilat Ilon 1 1 ex_S2.Nlat ex_S2.Nlon)) ∧
              (∀ Itime0 Idepth0 : Int, 0 ≤ Itime0 → Itime0 < ex_S2.Ntime → 0 ≤ Idepth0 →
                Idepth0 < ex_S2.Ndepth →
                Itime0 * ex_S2.Ndepth + Idepth0 + 1 = Itime * ex_S2.Ndepth + Idepth →
                ∀ Ilat Ilon : Int, 0 ≤ Ilat → Ilat < ex_S2.Nlat → 0 ≤ Ilon → Ilon < ex_S2.Nlon →
                  vec_at seed.1 (Index 0 0 Ilat Ilon 1 1 ex_S2.Nlat ex_S2.Nlon)
                    = vec_at (tr (ex_S2.Ntime * ex_S2.Ndepth).toNat).out.full_Psi
                        (Index Itime0 Idepth0 Ilat Ilon ex_S2.Ntime ex_S2.Ndepth
                            ex_S2.Nlat ex_S2.Nlon) ∧
                  vec_at seed.2 (Index 0 0 Ilat Ilon 1 1 ex_S2.Nlat ex_S2.Nlon)
                    = vec_at (tr (ex_S2.Ntime * ex_S2.Ndepth).toNat).out.full_Phi
                        (Index Itime0 Idepth0 Ilat Ilon ex_S2.Ntime ex_S2.Ndepth
                            ex_S2.Nlat ex_S2.Nlon))) ∧
            (ex_I2.single_seed = false →
              (∀ Ilat Ilon : Int, 0 ≤ Ilat → Ilat < ex_S2.Nlat → 0 ≤ Ilon → Ilon < ex_S2.Nlon →
                vec_at seed.1 (Index 0 0 Ilat Ilon 1 1 ex_S2.Nlat ex_S2.Nlon)
                  = vec_at ex_I2.seed_tor
                      (Index Itime Idepth Ilat Ilon ex_S2.Ntime ex_S2.Ndepth
                          ex_S2.Nlat ex_S2.Nlon) ∧
                vec_at seed.2 (Index 0 0 Ilat Ilon 1 1 ex_S2.Nlat ex_S2.Nlon)
                  = vec_at ex_I2.seed_pot
                      (Index Itime Idepth Ilat Ilon ex_S2.Ntime ex_S2.Ndepth
                          ex_S2.Nlat ex_S2.Nlon)) ∧
              ∀ st3 : SliceState ℚ, allocated ex_I2 ex_S2 st3 →
                slice_seed ex_I2 ex_S2 Itime Idepth st3 = some seed)) ∧
    ((((seed_setup "seed.nc" "Psi" "Phi" ex_S2.Nlat ex_S2.Nlon 1
            1 (fun _ _ => (2 : ℚ)) (fun _ _ _ _ _ => [])
            false).single_seed = true ↔
          (seed_setup "seed.nc" "Psi" "Phi" ex_S2.Nlat ex_S2.Nlon 1
            1 (fun _ _ => (2 : ℚ)) (fun _ _ _ _ _ => [])
            false).seed_count = 1) ∧
        (("seed.nc" : String) = "zero" →
          seed_setup "seed.nc" "Psi" "Phi" ex_S2.Nlat ex_S2.Nlon 1
            1 (fun _ _ => (2 : ℚ)) (fun _ _ _ _ _ => []) false
          = { seed_count := 1
              single_seed := true
              Psi_seed := List.replicate (ex_S2.Nlat * ex_S2.Nlon).toNat 0
              Phi_seed := List.replicate (ex_S2.Nlat * ex_S2.Nlon).toNat 0 })) ∧
      ∃ tr : Nat → SliceState ℚ,
        copy_seed ex_I3 ex_S2 (initial_state ex_I3.u_lon ex_S2) = some (tr 0) ∧
        projection_loop ex_X ex_K ex_I3 ex_S2 = some (tr (ex_S2.Ntime * ex_S2.Ndepth).toNat) ∧
        ∀ Itime Idepth : Int, 0 ≤ Itime → Itime < ex_S2.Ntime → 0 ≤ Idepth → Idepth < ex_S2.Ndepth →
          ∃ seed : List ℚ × List ℚ,
            slice_seed ex_I3 ex_S2 Itime Idepth
                (tr (Itime * ex_S2.Ndepth + Idepth).toNat) = some seed ∧
            Apply_slice ex_X ex_K ex_I3 ex_S2 Itime Idepth
                (tr (Itime * ex_S2.Ndepth + Idepth).toNat)
              = some (tr ((Itime * ex_S2.Ndepth + Idepth).toNat + 1)) ∧
            ((seed.1.length : Int) = ex_S2.Nlat * ex_S2.Nlon ∧
              (seed.2.length : Int) = ex_S2.Nlat * ex_S2.Nlon) ∧
            (ex_I3.single_seed = true →
              (Itime = 0 → Idepth = 0 →
                ∀ Ilat Ilon : Int, 0 ≤ Ilat → Ilat < ex_S2.Nlat → 0 ≤ Ilon → Ilon < ex_S2.Nlon →
                  vec_at seed.1 (Index 0 0 Ilat Ilon 1 1 ex_S2.Nlat ex_S2.Nlon)
                    = vec_at ex_I3.seed_tor (Index 0 0 Ilat Ilon 1 1 ex_S2.Nlat ex_S2.Nlon) ∧
                  vec_at seed.2 (Index 0 0 Ilat Ilon 1 1 ex_S2.Nlat ex_S2.Nlon)
                    = vec_at ex_I3.seed_pot (Index 0 0 Ilat Ilon 1 1 ex_S2.Nlat ex_S2.Nlon)) ∧
              (∀ Itime0 Idepth0 : Int, 0 ≤ Itime0 → Itime0 < ex_S2.Ntime → 0 ≤ Idepth0 →
                Idepth0 < ex_S2.Ndepth →
                Itime0 * ex_S2.Ndepth + Idepth0 + 1 = Itime * ex_S2.Ndepth + Idepth →
                ∀ Ilat Ilon : Int, 0 ≤ Ilat → Ilat < ex_S2.Nlat → 0 ≤ Ilon → Ilon < ex_S2.Nlon →
                  vec_at seed.1 (Index 0 0 Ilat Ilon 1 1 ex_S2.Nlat ex_S2.Nlon)
                    = vec_at (tr (ex_S2.Ntime * ex_S2.Ndepth).toNat).out.full_Psi
                        (Index Itime0 Idepth0 Ilat Ilon ex_S2.Ntime ex_S2.Ndepth
                            ex_S2.Nlat ex_S2.Nlon) ∧
                  vec_at seed.2 (Index 0 0 Ilat Ilon 1 1 ex_S2.Nlat ex_S2.Nlon)
                    = vec_at (tr (ex_S2.Ntime * ex_S2.Ndepth).toNat).out.full_Phi
                        (Index Itime0 Idepth0 Ilat Ilon ex_S2.Ntime ex_S2.Ndepth
                            ex_S2.Nlat ex_S2.Nlon))) ∧
            (ex_I3.single_seed = false →
              (∀ Ilat Ilon : Int, 0 ≤ Ilat → Ilat < ex_S2.Nlat → 0 ≤ Ilon → Ilon < ex_S2.Nlon →
                vec_at seed.1 (Index 0 0 Ilat Ilon 1 1 ex_S2.Nlat ex_S2.Nlon)
                  = vec_at ex_I3.seed_tor
                      (Index Itime Idepth Ilat Ilon ex_S2.Ntime ex_S2.Ndepth
                          ex_S2.Nlat ex_S2.Nlon) ∧
                vec_at seed.2 (Index 0 0 Ilat Ilon 1 1 ex_S2.Nlat ex_S2.Nlon)
                  = vec_at ex_I3.seed_pot
                      (Index Itime Idepth Ilat Ilon ex_S2.Ntime ex_S2.Ndepth
                          ex_S2.Nlat ex_S2.Nlon)) ∧
              ∀ st3 : SliceState ℚ, allocated ex_I3 ex_S2 st3 →
                slice_seed ex_I3 ex_S2 Itime Idepth st3 = some seed)) :=
  ⟨C20_seed_per_slice ex_X ex_K ex_I2 ex_S2 "zero" "Psi" "Phi" 1 1 (fun _ _ => (2 : ℚ))
      (fun _ _ _ _ _ => []) false
      (by decide) (by decide) (by decide) (by decide) (by decide) (by decide)
      (fun _ => by decide) (fun _ => by decide)
      (fun h => absurd h (by decide)) (fun h => absurd h (by decide))
      (by decide) (fun h => absurd h (by decide))
      (by
        refine ⟨?_, ?_, ?_, ?_, ?_⟩
        · intros; simp [ex_X]
        · intros; simp [ex_X]
        · intros; simp [ex_X]
        · intros; simp [ex_X]
        · intros; simp [ex_X, ex_S2]),
    C20_seed_per_slice ex_X ex_K ex_I3 ex_S2 "seed.nc" "Psi" "Phi" 1 1 (fun _ _ => (2 : ℚ))
      (fun _ _ _ _ _ => []) false
      (by decide) (by decide) (by decide) (by decide) (by decide) (by decide)
      (fun h => absurd h (by decide)) (fun h => absurd h (by decide))
      (fun _ => by decide) (fun _ => by decide)
      (by decide) (fun h => absurd h (by decide))
      (by
        refine ⟨?_, ?_, ?_, ?_, ?_⟩
        · intros; simp [ex_X]
        · intros; simp [ex_X]
        · intros; simp [ex_X]
        · intros; simp [ex_X]
        · intros; simp [ex_X, ex_S2])⟩

end FlowSieve
